import Mathlib

/-!
# GripGroundMonitorClient: the GRIP / EPM telemetry packet codec

A shallow embedding of the packet codec of `Grip/GripPackets.c`, together with
theorems about it.

Modelling conventions.

* A packet buffer is a map from byte offsets to bytes (`unsigned char`), read
  with `getByte` and written with `setByte`.
* The host is the little-endian Intel/Windows machine the source is written
  for: `short` is 16 bits, `long` is 32 bits, and byte `i` of an integer held in
  a `union` is `value / 256 ^ i % 256`.
* Unsigned C integers are natural numbers, signed C integers are integers; the
  implicit conversions of C are the explicit functions `toInt16`, `toUInt16`, ...
* `double` and `long double` are both the 64-bit binary format of IEEE 754, as
  with the Microsoft compiler the sources are written for.  Their finite values
  are held as rational numbers, and every arithmetic operation rounds its exact
  result to the nearest number of the format, a tie to the one with the even
  significand (`roundDouble`, `doubleAdd`, `doubleSub`, `doubleMul`,
  `doubleDiv`); a decimal constant of the source such as `9.8` is the rounding
  of its decimal value.  The conversion of a 16-bit or 32-bit integer to
  `double` is exact.  Infinities and NaN are not values of the embedding: the
  theorems bound the operands of the operations they speak of.  The
  floating-point members of the records are taken to be `double`.  A `float`
  that is only copied to or from the wire is held as its 32-bit pattern.
* The declarations of `GripPackets.h` are not part of the sources.  The record
  types below list the fields that the code reads and writes; every integer
  field is taken to be the unsigned C type of the width it has on the wire.
-/

namespace GripPackets

/-! ## Packet buffers -/

/-- The byte buffer of an `EPMTelemetryPacket`, addressed by byte offset. -/
abbrev EPMTelemetryPacket := Nat → Fin 256

/-- The byte stored at offset `i`, as a number below 256. -/
def getByte (p : EPMTelemetryPacket) (i : Nat) : Nat := (p i).val

/-- Store the low eight bits of `v` at offset `i` (a store through `unsigned char *`
or `char *`). -/
def setByte (p : EPMTelemetryPacket) (i : Nat) (v : Nat) : EPMTelemetryPacket :=
  fun j => if j = i then ⟨v % 256, Nat.mod_lt v (by decide)⟩ else p j

/-! ## Integer conversions of C -/

/-- Reinterpret the low 8 bits of `u` as a `signed char`. -/
def toInt8 (u : Nat) : Int :=
  if u % 256 < 128 then ((u % 256 : Nat) : Int) else ((u % 256 : Nat) : Int) - 256

/-- Reinterpret the low 16 bits of `u` as a `short`. -/
def toInt16 (u : Nat) : Int :=
  if u % 65536 < 32768 then ((u % 65536 : Nat) : Int) else ((u % 65536 : Nat) : Int) - 65536

/-- Reinterpret the low 32 bits of `u` as a `long`. -/
def toInt32 (u : Nat) : Int :=
  if u % 4294967296 < 2147483648 then ((u % 4294967296 : Nat) : Int)
  else ((u % 4294967296 : Nat) : Int) - 4294967296

/-- Conversion of an integer to `unsigned char`. -/
def toUInt8 (i : Int) : Nat := (i % 256).toNat

/-- Conversion of an integer to `unsigned short`. -/
def toUInt16 (i : Int) : Nat := (i % 65536).toNat

/-- Conversion of an integer to `unsigned long`. -/
def toUInt32 (i : Int) : Nat := (i % 4294967296).toNat

/-! ## Floating-point arithmetic of C

The type `double` is binary64: 53 significant bits, exponents from -1022 to
1023, gradual underflow. -/

/-- The exponent of the binade of `x`, not below that of the smallest normal
number of binary64. -/
def doubleExponent (x : ℚ) : Int := if x = 0 then -1022 else max (Int.log 2 |x|) (-1022)

/-- The spacing of the binary64 numbers in the binade of `x`. -/
def doubleQuantum (x : ℚ) : ℚ := (2 : ℚ) ^ (doubleExponent x - 52)

/-- Rounding to the nearest integer, a tie to the even one. -/
def roundHalfEven (x : ℚ) : Int :=
  if Int.fract x < 1 / 2 then ⌊x⌋
  else if 1 / 2 < Int.fract x then ⌊x⌋ + 1
  else if ⌊x⌋ % 2 = 0 then ⌊x⌋ else ⌊x⌋ + 1

/-- The binary64 number that an exact result `x` is rounded to: the nearest
multiple of the spacing, a tie to the even multiple. -/
@[irreducible]
def roundDouble (x : ℚ) : ℚ := (roundHalfEven (x / doubleQuantum x) : ℚ) * doubleQuantum x

/-- The sum `x + y` of two `double` values. -/
def doubleAdd (x y : ℚ) : ℚ := roundDouble (x + y)

/-- The difference `x - y` of two `double` values. -/
def doubleSub (x y : ℚ) : ℚ := roundDouble (x - y)

/-- The product `x * y` of two `double` values. -/
def doubleMul (x y : ℚ) : ℚ := roundDouble (x * y)

/-- The quotient `x / y` of two `double` values, `y` not zero. -/
def doubleDiv (x y : ℚ) : ℚ := roundDouble (x / y)

/-! ## Byte order helpers (`GripPackets.c`, lines 33-160) -/

/-- The function `swapbytes_short`: exchange the two bytes of an `unsigned short`. -/
def swapbytes_short (input : Nat) : Nat :=
  let in0 := input % 256
  let in1 := input / 256 % 256
  let out0 := in1
  let out1 := in0
  out0 + 256 * out1

/-- The function `swapbytes_long`: reverse the four bytes of an `unsigned long`. -/
def swapbytes_long (input : Nat) : Nat :=
  let in0 := input % 256
  let in1 := input / 256 % 256
  let in2 := input / 65536 % 256
  let in3 := input / 16777216 % 256
  let out0 := in3
  let out1 := in2
  let out2 := in1
  let out3 := in0
  out0 + 256 * out1 + 65536 * out2 + 16777216 * out3

/-- The store `*((unsigned short *) ptr) = value` on the little-endian host. -/
def storeShort (p : EPMTelemetryPacket) (ptr : Nat) (value : Nat) : EPMTelemetryPacket :=
  setByte (setByte p ptr (value % 256)) (ptr + 1) (value / 256 % 256)

/-- The store `*((long *) ptr) = value` (or through `unsigned long *`) on the
little-endian host. -/
def storeLong (p : EPMTelemetryPacket) (ptr : Nat) (value : Nat) : EPMTelemetryPacket :=
  setByte (setByte (setByte (setByte p ptr (value % 256)) (ptr + 1) (value / 256 % 256))
    (ptr + 2) (value / 65536 % 256)) (ptr + 3) (value / 16777216 % 256)

/-- The function `extract_reversed_short`: the `short` whose host bytes are
`bytes[1], bytes[0]`. -/
def extract_reversed_short (p : EPMTelemetryPacket) (ptr : Nat) : Int :=
  let out0 := getByte p (ptr + 1)
  let out1 := getByte p ptr
  toInt16 (out0 + 256 * out1)

/-- The function `extract_reversed_long`: the `long` whose host bytes are
`bytes[3], bytes[2], bytes[1], bytes[0]`. -/
def extract_reversed_long (p : EPMTelemetryPacket) (ptr : Nat) : Int :=
  let out0 := getByte p (ptr + 3)
  let out1 := getByte p (ptr + 2)
  let out2 := getByte p (ptr + 1)
  let out3 := getByte p ptr
  toInt32 (out0 + 256 * out1 + 65536 * out2 + 16777216 * out3)

/-- The function `extract_reversed_float`, on bit patterns: the IEEE-754 single
whose host bytes are `bytes[3], bytes[2], bytes[1], bytes[0]`, as its 32-bit pattern. -/
def extract_reversed_float (p : EPMTelemetryPacket) (ptr : Nat) : Nat :=
  let out0 := getByte p (ptr + 3)
  let out1 := getByte p (ptr + 2)
  let out2 := getByte p (ptr + 1)
  let out3 := getByte p ptr
  out0 + 256 * out1 + 65536 * out2 + 16777216 * out3

/-- The macro `ExtractChar` on an `unsigned char *` cursor. -/
def ExtractChar (p : EPMTelemetryPacket) (ptr : Nat) : Nat := getByte p ptr

/-- The macro `ExtractChar` on a `const char *` cursor (`char` is signed). -/
def ExtractSignedChar (p : EPMTelemetryPacket) (ptr : Nat) : Int := toInt8 (getByte p ptr)

/-- The functions `insert_long` and `insert_ulong`: the four host bytes of the
value, written from `bytes[3]` down to `bytes[0]`.  The value is given by its
32-bit pattern. -/
def insert_ulong (p : EPMTelemetryPacket) (ptr : Nat) (value : Nat) : EPMTelemetryPacket :=
  setByte (setByte (setByte (setByte p ptr (value / 16777216 % 256))
    (ptr + 1) (value / 65536 % 256)) (ptr + 2) (value / 256 % 256)) (ptr + 3) (value % 256)

/-- The function `insert_long` applied to a signed value. -/
def insert_long (p : EPMTelemetryPacket) (ptr : Nat) (value : Int) : EPMTelemetryPacket :=
  insert_ulong p ptr (toUInt32 value)

/-- The function `insert_float`, on the 32-bit pattern of the value. -/
def insert_float (p : EPMTelemetryPacket) (ptr : Nat) (bits : Nat) : EPMTelemetryPacket :=
  insert_ulong p ptr bits

/-- The function `insert_short`: the two host bytes of the value, `bytes[1]` first. -/
def insert_short (p : EPMTelemetryPacket) (ptr : Nat) (value : Int) : EPMTelemetryPacket :=
  setByte (setByte p ptr (toUInt16 value / 256 % 256)) (ptr + 1) (toUInt16 value % 256)

/-! ## Transfer frame header (lines 170-196) -/

/-- The record `EPMTransferFrameHeaderInfo`. -/
structure EPMTransferFrameHeaderInfo where
  epmLanSyncMarker : Nat
  spare1 : Nat
  softwareUnitID : Nat
  packetType : Nat
  spare2 : Nat
  numberOfWords : Nat
  deriving DecidableEq, Repr

/-- Every field lies in the range of its wire width. -/
def EPMTransferFrameHeaderInfo.inRange (h : EPMTransferFrameHeaderInfo) : Prop :=
  h.epmLanSyncMarker < 4294967296 ∧ h.spare1 < 256 ∧ h.softwareUnitID < 256 ∧
  h.packetType < 65536 ∧ h.spare2 < 65536 ∧ h.numberOfWords < 65536

instance (h : EPMTransferFrameHeaderInfo) : Decidable h.inRange := by
  unfold EPMTransferFrameHeaderInfo.inRange; infer_instance

/-- The function `ExtractEPMTransferFrameHeaderInfo`. -/
def ExtractEPMTransferFrameHeaderInfo (epm_packet : EPMTelemetryPacket) :
    EPMTransferFrameHeaderInfo :=
  let ptr := 0
  let epmLanSyncMarker := toUInt32 (extract_reversed_long epm_packet ptr)
  let ptr := ptr + 4
  let spare1 := ExtractChar epm_packet ptr
  let ptr := ptr + 1
  let softwareUnitID := ExtractChar epm_packet ptr
  let ptr := ptr + 1
  let packetType := toUInt16 (extract_reversed_short epm_packet ptr)
  let ptr := ptr + 2
  let spare2 := toUInt16 (extract_reversed_short epm_packet ptr)
  let ptr := ptr + 2
  let numberOfWords := toUInt16 (extract_reversed_short epm_packet ptr)
  { epmLanSyncMarker := epmLanSyncMarker, spare1 := spare1, softwareUnitID := softwareUnitID,
    packetType := packetType, spare2 := spare2, numberOfWords := numberOfWords }

/-- The function `InsertEPMTransferFrameHeaderInfo`: the packet after the
insertion and the number of bytes inserted. -/
def InsertEPMTransferFrameHeaderInfo (epm_packet : EPMTelemetryPacket)
    (header : EPMTransferFrameHeaderInfo) : EPMTelemetryPacket × Nat :=
  let ptr := 0
  let bytes_inserted := 0
  let p := storeLong epm_packet ptr (swapbytes_long header.epmLanSyncMarker)
  let ptr := ptr + 4
  let bytes_inserted := bytes_inserted + 4
  let p := setByte p ptr header.spare1
  let ptr := ptr + 1
  let bytes_inserted := bytes_inserted + 1
  let p := setByte p ptr header.softwareUnitID
  let ptr := ptr + 1
  let bytes_inserted := bytes_inserted + 1
  let p := storeShort p ptr (swapbytes_short header.packetType)
  let ptr := ptr + 2
  let bytes_inserted := bytes_inserted + 2
  let p := storeShort p ptr (swapbytes_short header.spare2)
  let ptr := ptr + 2
  let bytes_inserted := bytes_inserted + 2
  let p := storeShort p ptr (swapbytes_short header.numberOfWords)
  let bytes_inserted := bytes_inserted + 2
  (p, bytes_inserted)

/-! ## Telemetry header (lines 162-262) -/

/-- The record `EPMTelemetryHeaderInfo`. -/
structure EPMTelemetryHeaderInfo where
  transferFrameInfo : EPMTransferFrameHeaderInfo
  epmSyncMarker : Nat
  subsystemMode : Nat
  subsystemID : Nat
  destination : Nat
  subsystemUnitID : Nat
  TMIdentifier : Nat
  TMCounter : Nat
  model : Nat
  taskID : Nat
  subsystemUnitVersion : Nat
  coarseTime : Nat
  fineTime : Nat
  timerStatus : Nat
  experimentMode : Nat
  checksumIndicator : Nat
  receiverSubsystemID : Nat
  receiverSubsystemUnitID : Nat
  numberOfWords : Nat
  deriving DecidableEq, Repr

/-- Every field lies in the range of its wire width. -/
def EPMTelemetryHeaderInfo.inRange (h : EPMTelemetryHeaderInfo) : Prop :=
  h.transferFrameInfo.inRange ∧ h.epmSyncMarker < 4294967296 ∧ h.subsystemMode < 256 ∧
  h.subsystemID < 256 ∧ h.destination < 256 ∧ h.subsystemUnitID < 256 ∧
  h.TMIdentifier < 65536 ∧ h.TMCounter < 65536 ∧ h.model < 256 ∧ h.taskID < 256 ∧
  h.subsystemUnitVersion < 65536 ∧ h.coarseTime < 4294967296 ∧ h.fineTime < 65536 ∧
  h.timerStatus < 256 ∧ h.experimentMode < 256 ∧ h.checksumIndicator < 65536 ∧
  h.receiverSubsystemID < 256 ∧ h.receiverSubsystemUnitID < 256 ∧ h.numberOfWords < 65536

instance (h : EPMTelemetryHeaderInfo) : Decidable h.inRange := by
  unfold EPMTelemetryHeaderInfo.inRange; infer_instance

/-- The function `EPMtoSeconds` (line 167): the two integer fields converted to
`long double`, the quotient by `10000.0` and the sum. -/
def EPMtoSeconds (header : EPMTelemetryHeaderInfo) : ℚ :=
  doubleAdd (header.coarseTime : ℚ) (doubleDiv (header.fineTime : ℚ) 10000)

/-- The function `InsertEPMTelemetryHeaderInfo`: the packet after the insertion
and the number of bytes inserted. -/
def InsertEPMTelemetryHeaderInfo (epm_packet : EPMTelemetryPacket)
    (header : EPMTelemetryHeaderInfo) : EPMTelemetryPacket × Nat :=
  let ptr := 0
  let r := InsertEPMTransferFrameHeaderInfo epm_packet header.transferFrameInfo
  let p := r.1
  let bytes_inserted := r.2
  let ptr := ptr + bytes_inserted
  let p := storeLong p ptr (swapbytes_long header.epmSyncMarker)
  let ptr := ptr + 4
  let bytes_inserted := bytes_inserted + 4
  let p := setByte p ptr header.subsystemMode
  let ptr := ptr + 1
  let bytes_inserted := bytes_inserted + 1
  let p := setByte p ptr header.subsystemID
  let ptr := ptr + 1
  let bytes_inserted := bytes_inserted + 1
  let p := setByte p ptr header.destination
  let ptr := ptr + 1
  let bytes_inserted := bytes_inserted + 1
  let p := setByte p ptr header.subsystemUnitID
  let ptr := ptr + 1
  let bytes_inserted := bytes_inserted + 1
  let p := storeShort p ptr (swapbytes_short header.TMIdentifier)
  let ptr := ptr + 2
  let bytes_inserted := bytes_inserted + 2
  let p := storeShort p ptr (swapbytes_short header.TMCounter)
  let ptr := ptr + 2
  let bytes_inserted := bytes_inserted + 2
  let p := setByte p ptr header.model
  let ptr := ptr + 1
  let bytes_inserted := bytes_inserted + 1
  let p := setByte p ptr header.taskID
  let ptr := ptr + 1
  let bytes_inserted := bytes_inserted + 1
  let p := storeShort p ptr (swapbytes_short header.subsystemUnitVersion)
  let ptr := ptr + 2
  let bytes_inserted := bytes_inserted + 2
  let p := storeLong p ptr (swapbytes_long header.coarseTime)
  let ptr := ptr + 4
  let bytes_inserted := bytes_inserted + 4
  let p := storeShort p ptr (swapbytes_short header.fineTime)
  let ptr := ptr + 2
  let bytes_inserted := bytes_inserted + 2
  let p := setByte p ptr header.timerStatus
  let ptr := ptr + 1
  let bytes_inserted := bytes_inserted + 1
  let p := setByte p ptr header.experimentMode
  let ptr := ptr + 1
  let bytes_inserted := bytes_inserted + 1
  let p := storeShort p ptr (swapbytes_short header.checksumIndicator)
  let ptr := ptr + 2
  let bytes_inserted := bytes_inserted + 2
  let p := setByte p ptr header.receiverSubsystemID
  let ptr := ptr + 1
  let bytes_inserted := bytes_inserted + 1
  let p := setByte p ptr header.receiverSubsystemUnitID
  let ptr := ptr + 1
  let bytes_inserted := bytes_inserted + 1
  let p := storeShort p ptr (swapbytes_short header.numberOfWords)
  let bytes_inserted := bytes_inserted + 2
  (p, bytes_inserted)

/-- The function `ExtractEPMTelemetryHeaderInfo`. -/
def ExtractEPMTelemetryHeaderInfo (epm_packet : EPMTelemetryPacket) : EPMTelemetryHeaderInfo :=
  let ptr := 0
  let epmLanSyncMarker := toUInt32 (extract_reversed_long epm_packet ptr)
  let ptr := ptr + 4
  let spare1 := ExtractChar epm_packet ptr
  let ptr := ptr + 1
  let softwareUnitID := ExtractChar epm_packet ptr
  let ptr := ptr + 1
  let packetType := toUInt16 (extract_reversed_short epm_packet ptr)
  let ptr := ptr + 2
  let spare2 := toUInt16 (extract_reversed_short epm_packet ptr)
  let ptr := ptr + 2
  let tfNumberOfWords := toUInt16 (extract_reversed_short epm_packet ptr)
  let ptr := ptr + 2
  let epmSyncMarker := toUInt32 (extract_reversed_long epm_packet ptr)
  let ptr := ptr + 4
  let subsystemMode := ExtractChar epm_packet ptr
  let ptr := ptr + 1
  let subsystemID := ExtractChar epm_packet ptr
  let ptr := ptr + 1
  let destination := ExtractChar epm_packet ptr
  let ptr := ptr + 1
  let subsystemUnitID := ExtractChar epm_packet ptr
  let ptr := ptr + 1
  let TMIdentifier := toUInt16 (extract_reversed_short epm_packet ptr)
  let ptr := ptr + 2
  let TMCounter := toUInt16 (extract_reversed_short epm_packet ptr)
  let ptr := ptr + 2
  let model := ExtractChar epm_packet ptr
  let ptr := ptr + 1
  let taskID := ExtractChar epm_packet ptr
  let ptr := ptr + 1
  let subsystemUnitVersion := toUInt16 (extract_reversed_short epm_packet ptr)
  let ptr := ptr + 2
  let coarseTime := toUInt32 (extract_reversed_long epm_packet ptr)
  let ptr := ptr + 4
  let fineTime := toUInt16 (extract_reversed_short epm_packet ptr)
  let ptr := ptr + 2
  let timerStatus := ExtractChar epm_packet ptr
  let ptr := ptr + 1
  let experimentMode := getByte epm_packet ptr
  let ptr := ptr + 1
  let checksumIndicator := toUInt16 (extract_reversed_short epm_packet ptr)
  let ptr := ptr + 2
  let receiverSubsystemID := ExtractChar epm_packet ptr
  let ptr := ptr + 1
  let receiverSubsystemUnitID := ExtractChar epm_packet ptr
  let ptr := ptr + 1
  let numberOfWords := toUInt16 (extract_reversed_short epm_packet ptr)
  { transferFrameInfo :=
      { epmLanSyncMarker := epmLanSyncMarker, spare1 := spare1, softwareUnitID := softwareUnitID,
        packetType := packetType, spare2 := spare2, numberOfWords := tfNumberOfWords },
    epmSyncMarker := epmSyncMarker, subsystemMode := subsystemMode, subsystemID := subsystemID,
    destination := destination, subsystemUnitID := subsystemUnitID,
    TMIdentifier := TMIdentifier, TMCounter := TMCounter, model := model, taskID := taskID,
    subsystemUnitVersion := subsystemUnitVersion, coarseTime := coarseTime,
    fineTime := fineTime, timerStatus := timerStatus, experimentMode := experimentMode,
    checksumIndicator := checksumIndicator, receiverSubsystemID := receiverSubsystemID,
    receiverSubsystemUnitID := receiverSubsystemUnitID, numberOfWords := numberOfWords }

/-! ## Realtime science data (lines 264-390)

The constants `RT_SLICES_PER_PACKET` and `RT_DEFAULT_SECONDS_PER_SLICE` and the
offset of the member `sections.rawData` inside an `EPMTelemetryPacket` come from
`GripPackets.h`; they are parameters of the functions below.  The axis indices
`X`, `Y`, `Z`, `M` of the source are the fields of `Vec3` and `Vec4`. -/

/-- A three-element array indexed by `X`, `Y`, `Z`. -/
structure Vec3 (α : Type) where
  X : α
  Y : α
  Z : α
  deriving DecidableEq, Repr

/-- A four-element array indexed by `X`, `Y`, `Z`, `M`. -/
structure Vec4 (α : Type) where
  X : α
  Y : α
  Z : α
  M : α
  deriving DecidableEq, Repr

/-- One element of the array `ft` of a slice: force and torque of one sensor. -/
structure ForceTorque where
  force : Vec3 ℚ
  torque : Vec3 ℚ
  deriving DecidableEq

/-- One element of `dataSlice`.  The components of `quaternion` are held as the
32-bit patterns of their `float` values; `markerVisibility0` and
`markerVisibility1` are `markerVisibility[0]` and `markerVisibility[1]`, `ft0`
and `ft1` are `ft[0]` and `ft[1]`. -/
structure GripRealtimeDataSlice where
  poseTick : Nat
  position : Vec3 ℚ
  quaternion : Vec4 Nat
  markerVisibility0 : Nat
  markerVisibility1 : Nat
  manipulandumVisibility : Nat
  analogTick : Nat
  ft0 : ForceTorque
  ft1 : ForceTorque
  acceleration : Vec3 ℚ
  bestGuessPoseTimestamp : ℚ
  bestGuessAnalogTimestamp : ℚ
  deriving DecidableEq

/-- The record `GripRealtimeDataInfo`; `dataSlice` is indexed by the slice number. -/
structure GripRealtimeDataInfo where
  acquisitionID : Nat
  rtPacketCount : Nat
  dataSlice : Nat → GripRealtimeDataSlice
  packetTimestamp : ℚ

/-- Conversion of a `double` to an integer type: truncation toward zero. -/
def truncToInt (x : ℚ) : Int := if 0 ≤ x then ⌊x⌋ else ⌈x⌉

/-- The cast `(short) x` of a `double`.  A value outside the range of `short`
is undefined in C; here it wraps. -/
def castShort (x : ℚ) : Int := toInt16 (toUInt16 (truncToInt x))

/-- The cast `(long) x` of a `double`.  A value outside the range of `long`
is undefined in C; here it wraps. -/
def castLong (x : ℚ) : Int := toInt32 (toUInt32 (truncToInt x))

/-- The body of the slice loop of `ExtractGripRealtimeDataInfo` (lines 281-302),
run with the cursor at `ptr` on the slice `old` of the output record: the slice
after the assignments and the cursor after them. -/
def extractDataSlice (p : EPMTelemetryPacket) (ptr : Nat) (old : GripRealtimeDataSlice) :
    GripRealtimeDataSlice × Nat :=
  let poseTick := toUInt32 (extract_reversed_long p ptr)
  let ptr := ptr + 4
  let positionX : ℚ := ((extract_reversed_short p ptr : Int) : ℚ)
  let ptr := ptr + 2
  let positionY : ℚ := ((extract_reversed_short p ptr : Int) : ℚ)
  let ptr := ptr + 2
  let positionZ : ℚ := ((extract_reversed_short p ptr : Int) : ℚ)
  let ptr := ptr + 2
  let quaternionX := extract_reversed_float p ptr
  let ptr := ptr + 4
  let quaternionY := extract_reversed_float p ptr
  let ptr := ptr + 4
  let quaternionZ := extract_reversed_float p ptr
  let ptr := ptr + 4
  let quaternionM := extract_reversed_float p ptr
  let ptr := ptr + 4
  let markerVisibility0 := toUInt32 (extract_reversed_long p ptr)
  let ptr := ptr + 4
  let markerVisibility1 := toUInt32 (extract_reversed_long p ptr)
  let ptr := ptr + 4
  let manipulandumVisibility := toUInt8 (ExtractSignedChar p ptr)
  let ptr := ptr + 1
  let analogTick := toUInt32 (extract_reversed_long p ptr)
  let ptr := ptr + 4
  let force0X : ℚ := doubleDiv ((extract_reversed_short p ptr : Int) : ℚ) 100
  let ptr := ptr + 2
  let force0Y : ℚ := doubleDiv ((extract_reversed_short p ptr : Int) : ℚ) 100
  let ptr := ptr + 2
  let force0Z : ℚ := doubleDiv ((extract_reversed_short p ptr : Int) : ℚ) 100
  let ptr := ptr + 2
  let torque0X : ℚ := doubleDiv ((extract_reversed_short p ptr : Int) : ℚ) 1000
  let ptr := ptr + 2
  let torque0Y : ℚ := doubleDiv ((extract_reversed_short p ptr : Int) : ℚ) 1000
  let ptr := ptr + 2
  let torque0Z : ℚ := doubleDiv ((extract_reversed_short p ptr : Int) : ℚ) 1000
  let ptr := ptr + 2
  let force1X : ℚ := doubleDiv ((extract_reversed_short p ptr : Int) : ℚ) 100
  let ptr := ptr + 2
  let force1Y : ℚ := doubleDiv ((extract_reversed_short p ptr : Int) : ℚ) 100
  let ptr := ptr + 2
  let force1Z : ℚ := doubleDiv ((extract_reversed_short p ptr : Int) : ℚ) 100
  let ptr := ptr + 2
  let torque1X : ℚ := doubleDiv ((extract_reversed_short p ptr : Int) : ℚ) 1000
  let ptr := ptr + 2
  let torque1Y : ℚ := doubleDiv ((extract_reversed_short p ptr : Int) : ℚ) 1000
  let ptr := ptr + 2
  let torque1Z : ℚ := doubleDiv ((extract_reversed_short p ptr : Int) : ℚ) 1000
  let ptr := ptr + 2
  let accelerationX : ℚ :=
    doubleDiv (doubleDiv ((extract_reversed_long p ptr : Int) : ℚ) 1000)
      (roundDouble (98 / 10))
  let ptr := ptr + 4
  let accelerationY : ℚ :=
    doubleDiv (doubleDiv ((extract_reversed_long p ptr : Int) : ℚ) 1000)
      (roundDouble (98 / 10))
  let ptr := ptr + 4
  let accelerationZ : ℚ :=
    doubleDiv (doubleDiv ((extract_reversed_long p ptr : Int) : ℚ) 1000)
      (roundDouble (98 / 10))
  let ptr := ptr + 4
  ({ poseTick := poseTick,
     position := { X := positionX, Y := positionY, Z := positionZ },
     quaternion := { X := quaternionX, Y := quaternionY, Z := quaternionZ, M := quaternionM },
     markerVisibility0 := markerVisibility0,
     markerVisibility1 := markerVisibility1,
     manipulandumVisibility := manipulandumVisibility,
     analogTick := analogTick,
     ft0 := { force := { X := force0X, Y := force0Y, Z := force0Z },
              torque := { X := torque0X, Y := torque0Y, Z := torque0Z } },
     ft1 := { force := { X := force1X, Y := force1Y, Z := force1Z },
              torque := { X := torque1X, Y := torque1Y, Z := torque1Z } },
     acceleration := { X := accelerationX, Y := accelerationY, Z := accelerationZ },
     bestGuessPoseTimestamp := old.bestGuessPoseTimestamp,
     bestGuessAnalogTimestamp := old.bestGuessAnalogTimestamp }, ptr)

/-- The slice loop of `ExtractGripRealtimeDataInfo` (line 280): `count` more
iterations, the next one for slice number `slice` with the cursor at `ptr`. -/
def extractSliceLoop (p : EPMTelemetryPacket) :
    Nat → Nat → Nat → (Nat → GripRealtimeDataSlice) → (Nat → GripRealtimeDataSlice)
  | 0, _, _, dataSlice => dataSlice
  | count + 1, slice, ptr, dataSlice =>
      let r := extractDataSlice p ptr (dataSlice slice)
      extractSliceLoop p count (slice + 1) r.2 (Function.update dataSlice slice r.1)

/-- The time stamping loop of `ExtractGripRealtimeDataInfo` (lines 318-357, the
branch compiled under `#else`): the iterations for slices `n - 1` down to `0`. -/
def backfillTimestamps (RT_DEFAULT_SECONDS_PER_SLICE : ℚ) :
    Nat → (Nat → GripRealtimeDataSlice) → (Nat → GripRealtimeDataSlice)
  | 0, dataSlice => dataSlice
  | slice + 1, dataSlice =>
      backfillTimestamps RT_DEFAULT_SECONDS_PER_SLICE slice
        (Function.update dataSlice slice
          { dataSlice slice with
            bestGuessPoseTimestamp :=
              doubleSub (dataSlice (slice + 1)).bestGuessPoseTimestamp
                RT_DEFAULT_SECONDS_PER_SLICE,
            bestGuessAnalogTimestamp :=
              doubleSub (dataSlice (slice + 1)).bestGuessAnalogTimestamp
                RT_DEFAULT_SECONDS_PER_SLICE })

/-- The function `ExtractGripRealtimeDataInfo`.  The argument `realtime_packet`
is the record the caller passes in, the result is that record after the call. -/
def ExtractGripRealtimeDataInfo (rawData RT_SLICES_PER_PACKET : Nat)
    (RT_DEFAULT_SECONDS_PER_SLICE : ℚ) (realtime_packet : GripRealtimeDataInfo)
    (epm_packet : EPMTelemetryPacket) : GripRealtimeDataInfo :=
  let ptr := rawData
  let acquisitionID := toUInt32 (extract_reversed_long epm_packet ptr)
  let ptr := ptr + 4
  let rtPacketCount := toUInt32 (extract_reversed_long epm_packet ptr)
  let ptr := ptr + 4
  let dataSlice :=
    extractSliceLoop epm_packet RT_SLICES_PER_PACKET 0 ptr realtime_packet.dataSlice
  let telemetry_header := ExtractEPMTelemetryHeaderInfo epm_packet
  let timestamp := EPMtoSeconds telemetry_header
  let dataSlice := Function.update dataSlice (RT_SLICES_PER_PACKET - 1)
    { dataSlice (RT_SLICES_PER_PACKET - 1) with bestGuessPoseTimestamp := timestamp }
  let dataSlice := Function.update dataSlice (RT_SLICES_PER_PACKET - 1)
    { dataSlice (RT_SLICES_PER_PACKET - 1) with bestGuessAnalogTimestamp := timestamp }
  let dataSlice :=
    backfillTimestamps RT_DEFAULT_SECONDS_PER_SLICE (RT_SLICES_PER_PACKET - 1) dataSlice
  { acquisitionID := acquisitionID, rtPacketCount := rtPacketCount, dataSlice := dataSlice,
    packetTimestamp := timestamp }

/-- The body of the slice loop of `InsertGripRealtimeDataInfo` (lines 376-388):
the packet and the cursor after the slice has been written at `ptr`. -/
def insertDataSlice (p : EPMTelemetryPacket) (ptr : Nat) (s : GripRealtimeDataSlice) :
    EPMTelemetryPacket × Nat :=
  let p := insert_ulong p ptr s.poseTick
  let ptr := ptr + 4
  let p := insert_short p ptr (castShort (doubleMul s.position.X 10))
  let ptr := ptr + 2
  let p := insert_short p ptr (castShort (doubleMul s.position.Y 10))
  let ptr := ptr + 2
  let p := insert_short p ptr (castShort (doubleMul s.position.Z 10))
  let ptr := ptr + 2
  let p := insert_float p ptr s.quaternion.X
  let ptr := ptr + 4
  let p := insert_float p ptr s.quaternion.Y
  let ptr := ptr + 4
  let p := insert_float p ptr s.quaternion.Z
  let ptr := ptr + 4
  let p := insert_float p ptr s.quaternion.M
  let ptr := ptr + 4
  let p := insert_ulong p ptr s.markerVisibility0
  let ptr := ptr + 4
  let p := insert_ulong p ptr s.markerVisibility1
  let ptr := ptr + 4
  let p := setByte p ptr s.manipulandumVisibility
  let ptr := ptr + 1
  let p := insert_ulong p ptr s.analogTick
  let ptr := ptr + 4
  let p := insert_short p ptr (castShort (doubleMul s.ft0.force.X 100))
  let ptr := ptr + 2
  let p := insert_short p ptr (castShort (doubleMul s.ft0.force.Y 100))
  let ptr := ptr + 2
  let p := insert_short p ptr (castShort (doubleMul s.ft0.force.Z 100))
  let ptr := ptr + 2
  let p := insert_short p ptr (castShort (doubleMul s.ft0.torque.X 1000))
  let ptr := ptr + 2
  let p := insert_short p ptr (castShort (doubleMul s.ft0.torque.Y 1000))
  let ptr := ptr + 2
  let p := insert_short p ptr (castShort (doubleMul s.ft0.torque.Z 1000))
  let ptr := ptr + 2
  let p := insert_short p ptr (castShort (doubleMul s.ft1.force.X 100))
  let ptr := ptr + 2
  let p := insert_short p ptr (castShort (doubleMul s.ft1.force.Y 100))
  let ptr := ptr + 2
  let p := insert_short p ptr (castShort (doubleMul s.ft1.force.Z 100))
  let ptr := ptr + 2
  let p := insert_short p ptr (castShort (doubleMul s.ft1.torque.X 1000))
  let ptr := ptr + 2
  let p := insert_short p ptr (castShort (doubleMul s.ft1.torque.Y 1000))
  let ptr := ptr + 2
  let p := insert_short p ptr (castShort (doubleMul s.ft1.torque.Z 1000))
  let ptr := ptr + 2
  let p := insert_long p ptr (castLong
    (doubleMul (doubleMul s.acceleration.X 1000) (roundDouble (98 / 10))))
  let ptr := ptr + 4
  let p := insert_long p ptr (castLong
    (doubleMul (doubleMul s.acceleration.Y 1000) (roundDouble (98 / 10))))
  let ptr := ptr + 4
  let p := insert_long p ptr (castLong
    (doubleMul (doubleMul s.acceleration.Z 1000) (roundDouble (98 / 10))))
  let ptr := ptr + 4
  (p, ptr)

/-- The slice loop of `InsertGripRealtimeDataInfo` (line 375): `count` more
iterations, the next one for slice number `slice` with the cursor at `ptr`. -/
def insertSliceLoop (dataSlice : Nat → GripRealtimeDataSlice) :
    Nat → Nat → EPMTelemetryPacket → Nat → EPMTelemetryPacket × Nat
  | 0, _, p, ptr => (p, ptr)
  | count + 1, slice, p, ptr =>
      let r := insertDataSlice p ptr (dataSlice slice)
      insertSliceLoop dataSlice count (slice + 1) r.1 r.2

/-- The function `InsertGripRealtimeDataInfo`: the packet after the call. -/
def InsertGripRealtimeDataInfo (rawData RT_SLICES_PER_PACKET : Nat)
    (epm_packet : EPMTelemetryPacket) (realtime_packet : GripRealtimeDataInfo) :
    EPMTelemetryPacket :=
  let ptr := rawData
  let p := insert_ulong epm_packet ptr realtime_packet.acquisitionID
  let ptr := ptr + 4
  let p := insert_ulong p ptr realtime_packet.rtPacketCount
  let ptr := ptr + 4
  (insertSliceLoop realtime_packet.dataSlice RT_SLICES_PER_PACKET 0 p ptr).1

/-! ## Housekeeping data (lines 392-482) -/

/-- The fields of `GripHealthAndStatusInfo` that the codec fills (the source
notes that the record is not filled completely). -/
structure GripHealthAndStatusInfo where
  horizontalTargetFeedback : Nat
  verticalTargetFeedback : Nat
  toneFeedback : Nat
  cradleDetectors : Nat
  user : Nat
  protocol : Nat
  task : Nat
  step : Nat
  scriptEngineStatusEnum : Nat
  iochannelStatusEnum : Nat
  motionTrackerStatusEnum : Nat
  crewCameraStatusEnum : Nat
  crewCameraRate : Nat
  runningBits : Nat
  cpuUsage : Nat
  memoryUsage : Nat
  freeDiskSpaceC : Nat
  freeDiskSpaceD : Nat
  freeDiskSpaceE : Nat
  crc : Nat
  deriving DecidableEq, Repr

/-- Every field lies in the range of its wire width. -/
def GripHealthAndStatusInfo.inRange (hk : GripHealthAndStatusInfo) : Prop :=
  hk.horizontalTargetFeedback < 65536 ∧ hk.verticalTargetFeedback < 65536 ∧
  hk.toneFeedback < 256 ∧ hk.cradleDetectors < 256 ∧
  hk.user < 65536 ∧ hk.protocol < 65536 ∧ hk.task < 65536 ∧ hk.step < 65536 ∧
  hk.scriptEngineStatusEnum < 65536 ∧ hk.iochannelStatusEnum < 65536 ∧
  hk.motionTrackerStatusEnum < 65536 ∧ hk.crewCameraStatusEnum < 65536 ∧
  hk.crewCameraRate < 65536 ∧ hk.runningBits < 65536 ∧ hk.cpuUsage < 65536 ∧
  hk.memoryUsage < 65536 ∧ hk.freeDiskSpaceC < 4294967296 ∧
  hk.freeDiskSpaceD < 4294967296 ∧ hk.freeDiskSpaceE < 4294967296 ∧ hk.crc < 65536

instance (hk : GripHealthAndStatusInfo) : Decidable hk.inRange := by
  unfold GripHealthAndStatusInfo.inRange; infer_instance

/-- The function `ExtractGripHealthAndStatusInfo`. -/
def ExtractGripHealthAndStatusInfo (rawData : Nat) (epm_packet : EPMTelemetryPacket) :
    GripHealthAndStatusInfo :=
  let ptr := rawData
  let ptr := ptr + 76
  let horizontalTargetFeedback := toUInt16 (extract_reversed_short epm_packet ptr)
  let ptr := ptr + 2
  let verticalTargetFeedback := toUInt16 (extract_reversed_short epm_packet ptr)
  let ptr := ptr + 2
  let toneFeedback := toUInt8 (ExtractSignedChar epm_packet ptr)
  let ptr := ptr + 1
  let cradleDetectors := toUInt8 (ExtractSignedChar epm_packet ptr)
  let ptr := ptr + 1
  let user := toUInt16 (extract_reversed_short epm_packet ptr)
  let ptr := ptr + 2
  let protocol := toUInt16 (extract_reversed_short epm_packet ptr)
  let ptr := ptr + 2
  let task := toUInt16 (extract_reversed_short epm_packet ptr)
  let ptr := ptr + 2
  let step := toUInt16 (extract_reversed_short epm_packet ptr)
  let ptr := ptr + 2
  let scriptEngineStatusEnum := toUInt16 (extract_reversed_short epm_packet ptr)
  let ptr := ptr + 2
  let iochannelStatusEnum := toUInt16 (extract_reversed_short epm_packet ptr)
  let ptr := ptr + 2
  let motionTrackerStatusEnum := toUInt16 (extract_reversed_short epm_packet ptr)
  let ptr := ptr + 2
  let crewCameraStatusEnum := toUInt16 (extract_reversed_short epm_packet ptr)
  let ptr := ptr + 2
  let crewCameraRate := toUInt16 (extract_reversed_short epm_packet ptr)
  let ptr := ptr + 2
  let runningBits := toUInt16 (extract_reversed_short epm_packet ptr)
  let ptr := ptr + 2
  let cpuUsage := toUInt16 (extract_reversed_short epm_packet ptr)
  let ptr := ptr + 2
  let memoryUsage := toUInt16 (extract_reversed_short epm_packet ptr)
  let ptr := ptr + 2
  let freeDiskSpaceC := toUInt32 (extract_reversed_long epm_packet ptr)
  let ptr := ptr + 4
  let freeDiskSpaceD := toUInt32 (extract_reversed_long epm_packet ptr)
  let ptr := ptr + 4
  let freeDiskSpaceE := toUInt32 (extract_reversed_long epm_packet ptr)
  let ptr := ptr + 4
  let crc := toUInt16 (extract_reversed_short epm_packet ptr)
  { horizontalTargetFeedback := horizontalTargetFeedback,
    verticalTargetFeedback := verticalTargetFeedback,
    toneFeedback := toneFeedback, cradleDetectors := cradleDetectors,
    user := user, protocol := protocol, task := task, step := step,
    scriptEngineStatusEnum := scriptEngineStatusEnum,
    iochannelStatusEnum := iochannelStatusEnum,
    motionTrackerStatusEnum := motionTrackerStatusEnum,
    crewCameraStatusEnum := crewCameraStatusEnum,
    crewCameraRate := crewCameraRate, runningBits := runningBits, cpuUsage := cpuUsage,
    memoryUsage := memoryUsage, freeDiskSpaceC := freeDiskSpaceC,
    freeDiskSpaceD := freeDiskSpaceD, freeDiskSpaceE := freeDiskSpaceE, crc := crc }

/-- The function `InsertGripHealthAndStatusInfo`: the packet after the call. -/
def InsertGripHealthAndStatusInfo (rawData : Nat) (epm_packet : EPMTelemetryPacket)
    (health_packet : GripHealthAndStatusInfo) : EPMTelemetryPacket :=
  let ptr := rawData
  let ptr := ptr + 76
  let p := storeShort epm_packet ptr (swapbytes_short health_packet.horizontalTargetFeedback)
  let ptr := ptr + 2
  let p := storeShort p ptr (swapbytes_short health_packet.verticalTargetFeedback)
  let ptr := ptr + 2
  let p := setByte p ptr health_packet.toneFeedback
  let ptr := ptr + 1
  let p := setByte p ptr health_packet.cradleDetectors
  let ptr := ptr + 1
  let p := storeShort p ptr (swapbytes_short health_packet.user)
  let ptr := ptr + 2
  let p := storeShort p ptr (swapbytes_short health_packet.protocol)
  let ptr := ptr + 2
  let p := storeShort p ptr (swapbytes_short health_packet.task)
  let ptr := ptr + 2
  let p := storeShort p ptr (swapbytes_short health_packet.step)
  let ptr := ptr + 2
  let p := storeShort p ptr (swapbytes_short health_packet.scriptEngineStatusEnum)
  let ptr := ptr + 2
  let p := storeShort p ptr (swapbytes_short health_packet.iochannelStatusEnum)
  let ptr := ptr + 2
  let p := storeShort p ptr (swapbytes_short health_packet.motionTrackerStatusEnum)
  let ptr := ptr + 2
  let p := storeShort p ptr (swapbytes_short health_packet.crewCameraStatusEnum)
  let ptr := ptr + 2
  let p := storeShort p ptr (swapbytes_short health_packet.crewCameraRate)
  let ptr := ptr + 2
  let p := storeShort p ptr (swapbytes_short health_packet.runningBits)
  let ptr := ptr + 2
  let p := storeShort p ptr (swapbytes_short health_packet.cpuUsage)
  let ptr := ptr + 2
  let p := storeShort p ptr (swapbytes_short health_packet.memoryUsage)
  let ptr := ptr + 2
  let p := storeLong p ptr (swapbytes_long health_packet.freeDiskSpaceC)
  let ptr := ptr + 4
  let p := storeLong p ptr (swapbytes_long health_packet.freeDiskSpaceD)
  let ptr := ptr + 4
  let p := storeLong p ptr (swapbytes_long health_packet.freeDiskSpaceE)
  let ptr := ptr + 4
  let p := storeShort p ptr (swapbytes_short health_packet.crc)
  p

/-! ## Statement helpers -/

/-- The slice that decoding returns for an encoded slice `s`, when the output
record held `old` before the call: integer fields reduced to their wire width,
scaled fields after the casts of the encoder and the divisions of the decoder,
time stamps untouched. -/
def roundTripSlice (s old : GripRealtimeDataSlice) : GripRealtimeDataSlice :=
  { poseTick := s.poseTick % 4294967296,
    position := { X := ((castShort (doubleMul s.position.X 10) : Int) : ℚ),
                  Y := ((castShort (doubleMul s.position.Y 10) : Int) : ℚ),
                  Z := ((castShort (doubleMul s.position.Z 10) : Int) : ℚ) },
    quaternion := { X := s.quaternion.X % 4294967296, Y := s.quaternion.Y % 4294967296,
                    Z := s.quaternion.Z % 4294967296, M := s.quaternion.M % 4294967296 },
    markerVisibility0 := s.markerVisibility0 % 4294967296,
    markerVisibility1 := s.markerVisibility1 % 4294967296,
    manipulandumVisibility := s.manipulandumVisibility % 256,
    analogTick := s.analogTick % 4294967296,
    ft0 := { force := { X := doubleDiv ((castShort (doubleMul s.ft0.force.X 100) : Int) : ℚ) 100,
                        Y := doubleDiv ((castShort (doubleMul s.ft0.force.Y 100) : Int) : ℚ) 100,
                        Z := doubleDiv ((castShort (doubleMul s.ft0.force.Z 100) : Int) : ℚ) 100 },
             torque := { X := doubleDiv ((castShort
                 (doubleMul s.ft0.torque.X 1000) : Int) : ℚ) 1000,
                         Y := doubleDiv ((castShort
                             (doubleMul s.ft0.torque.Y 1000) : Int) : ℚ) 1000,
                         Z := doubleDiv ((castShort
                             (doubleMul s.ft0.torque.Z 1000) : Int) : ℚ) 1000 } },
    ft1 := { force := { X := doubleDiv ((castShort (doubleMul s.ft1.force.X 100) : Int) : ℚ) 100,
                        Y := doubleDiv ((castShort (doubleMul s.ft1.force.Y 100) : Int) : ℚ) 100,
                        Z := doubleDiv ((castShort (doubleMul s.ft1.force.Z 100) : Int) : ℚ) 100 },
             torque := { X := doubleDiv ((castShort
                 (doubleMul s.ft1.torque.X 1000) : Int) : ℚ) 1000,
                         Y := doubleDiv ((castShort
                             (doubleMul s.ft1.torque.Y 1000) : Int) : ℚ) 1000,
                         Z := doubleDiv ((castShort
                             (doubleMul s.ft1.torque.Z 1000) : Int) : ℚ) 1000 } },
    acceleration :=
      { X := doubleDiv (doubleDiv ((castLong (doubleMul (doubleMul s.acceleration.X 1000)
            (roundDouble (98 / 10))) : Int) : ℚ) 1000) (roundDouble (98 / 10)),
        Y := doubleDiv (doubleDiv ((castLong (doubleMul (doubleMul s.acceleration.Y 1000)
            (roundDouble (98 / 10))) : Int) : ℚ) 1000) (roundDouble (98 / 10)),
        Z := doubleDiv (doubleDiv ((castLong (doubleMul (doubleMul s.acceleration.Z 1000)
            (roundDouble (98 / 10))) : Int) : ℚ) 1000) (roundDouble (98 / 10)) },
    bestGuessPoseTimestamp := old.bestGuessPoseTimestamp,
    bestGuessAnalogTimestamp := old.bestGuessAnalogTimestamp }

/-- The payload fields of a slice: the slice with its time stamps cleared. -/
def clearTimestamps (s : GripRealtimeDataSlice) : GripRealtimeDataSlice :=
  { s with bestGuessPoseTimestamp := 0, bestGuessAnalogTimestamp := 0 }

/-- A property of each of the three components. -/
def Vec3.all (P : ℚ → Prop) (v : Vec3 ℚ) : Prop := P v.X ∧ P v.Y ∧ P v.Z

/-- A relation between corresponding components. -/
def Vec3.all2 (R : ℚ → ℚ → Prop) (v w : Vec3 ℚ) : Prop := R v.X w.X ∧ R v.Y w.Y ∧ R v.Z w.Z

/-- The scaled analog values of a slice fit the wire, on the exact products:
`|100 * force| < 2 ^ 15`, `|1000 * torque| < 2 ^ 15` and
`|9800 * acceleration| < 2 ^ 31`. -/
def GripRealtimeDataSlice.fitsWire (s : GripRealtimeDataSlice) : Prop :=
  Vec3.all (fun x => |100 * x| < 2 ^ 15) s.ft0.force ∧
  Vec3.all (fun x => |1000 * x| < 2 ^ 15) s.ft0.torque ∧
  Vec3.all (fun x => |100 * x| < 2 ^ 15) s.ft1.force ∧
  Vec3.all (fun x => |1000 * x| < 2 ^ 15) s.ft1.torque ∧
  Vec3.all (fun x => |9800 * x| < 2 ^ 31) s.acceleration

/-- The scaled analog values of a slice fit the wire as the encoder computes
them: the `double` products `force * 100.0` and `torque * 1000.0` are below
`2 ^ 15` in magnitude, and `acceleration * 1000.0 * 9.8` is below `2 ^ 31`. -/
def GripRealtimeDataSlice.encodedFitsWire (s : GripRealtimeDataSlice) : Prop :=
  Vec3.all (fun x => |doubleMul x 100| < 2 ^ 15) s.ft0.force ∧
  Vec3.all (fun x => |doubleMul x 1000| < 2 ^ 15) s.ft0.torque ∧
  Vec3.all (fun x => |doubleMul x 100| < 2 ^ 15) s.ft1.force ∧
  Vec3.all (fun x => |doubleMul x 1000| < 2 ^ 15) s.ft1.torque ∧
  Vec3.all (fun x => |doubleMul (doubleMul x 1000) (roundDouble (98 / 10))| < 2 ^ 31)
    s.acceleration

/-- The value `y` is what a field of scale `scale` gives back for `x`: the
`double` product `x * scale` truncated toward zero, divided by `scale` in
`double`; and it lies within one step `1 / scale` of `x`, up to `slack`. -/
def reproducesScaled (scale slack : ℚ) (x y : ℚ) : Prop :=
  y = doubleDiv ((truncToInt (doubleMul x scale) : Int) : ℚ) scale ∧
  |y - x| < 1 / scale + slack

/-- The value `y` is what the acceleration field gives back for `x`: the
`double` product `x * 1000.0 * 9.8` truncated toward zero, divided by `1000.0`
and by `9.8` in `double`; and it lies within `1 / 9800` of `x`, up to `slack`. -/
def reproducesAcceleration (slack : ℚ) (x y : ℚ) : Prop :=
  y = doubleDiv (doubleDiv
        ((truncToInt (doubleMul (doubleMul x 1000) (roundDouble (98 / 10))) : Int) : ℚ) 1000)
      (roundDouble (98 / 10)) ∧
  |y - x| < 1 / 9800 + slack

/-! ## Concrete inputs -/

/-- A slice with position `(1, 0, 0)`, force 1.25 on the first sensor and
acceleration 0.5; every value is a binary64 number. -/
def sampleSlice : GripRealtimeDataSlice :=
  { poseTick := 7,
    position := { X := 1, Y := 0, Z := 0 },
    quaternion := { X := 0, Y := 0, Z := 0, M := 1065353216 },
    markerVisibility0 := 255,
    markerVisibility1 := 987135,
    manipulandumVisibility := 1,
    analogTick := 7,
    ft0 := { force := { X := 5 / 4, Y := 0, Z := 0 },
             torque := { X := 0, Y := -3 / 2048, Z := 0 } },
    ft1 := { force := { X := -5 / 4, Y := 0, Z := 0 },
             torque := { X := 0, Y := 0, Z := 0 } },
    acceleration := { X := 1 / 2, Y := 0, Z := 0 },
    bestGuessPoseTimestamp := 0,
    bestGuessAnalogTimestamp := 0 }

/-- A slice of binary64 values at which the rounding of the `double`
arithmetic shows: the force `X` is the `double` of `0.03`
(`0x1.eb851eb851eb8p-6`), the force `Y` is `0x1.28f5c28f5c28fp-1`, just below
`0.58`, and the acceleration `X` is `0x1.abfd7e03c2fa5p+17`, just below
`2 ^ 31 / 9800`. -/
def roundingSlice : GripRealtimeDataSlice :=
  { poseTick := 0,
    position := { X := 0, Y := 0, Z := 0 },
    quaternion := { X := 0, Y := 0, Z := 0, M := 0 },
    markerVisibility0 := 0,
    markerVisibility1 := 0,
    manipulandumVisibility := 0,
    analogTick := 0,
    ft0 := { force := { X := 1080863910568919 / 36028797018963968,
                        Y := 5224175567749775 / 9007199254740992, Z := 0 },
             torque := { X := 0, Y := 0, Z := 0 } },
    ft1 := { force := { X := 0, Y := 0, Z := 0 },
             torque := { X := 0, Y := 0, Z := 0 } },
    acceleration := { X := 7529283295391653 / 34359738368, Y := 0, Z := 0 },
    bestGuessPoseTimestamp := 0,
    bestGuessAnalogTimestamp := 0 }

/-- A realtime record all of whose slices are `roundingSlice`. -/
def roundingInfo : GripRealtimeDataInfo :=
  { acquisitionID := 0, rtPacketCount := 0, dataSlice := fun _ => roundingSlice,
    packetTimestamp := 0 }

/-- A realtime record all of whose slices are `sampleSlice`. -/
def sampleInfo : GripRealtimeDataInfo :=
  { acquisitionID := 0, rtPacketCount := 3, dataSlice := fun _ => sampleSlice,
    packetTimestamp := 0 }

/-- The packet whose bytes are all zero. -/
def zeroPacket : EPMTelemetryPacket := fun _ => 0

/-- A packet, with the payload at offset 42, whose only non-zero byte is the low
byte (offset 42 + 8 + 4 + 1) of the X position of slice 0: the wire integer 10. -/
def wireTenPacket : EPMTelemetryPacket := fun j => if j = 55 then 10 else 0

/-- A packet whose header carries the coarse time 1 (byte 31) and the fine
time 0; every other byte is zero. -/
def coarseOnePacket : EPMTelemetryPacket := fun j => if j = 31 then 1 else 0

/-! ## Constants of `GripPackets.h`

The header `GripPackets.h` is not among the sources.  The constants that the
cache reader and the emulator take from it are the fields of `GripConstants`,
and every function that uses one of them takes the record as a parameter. -/

/-- The constants of `GripPackets.h`, under their names in the source;
`rawData` is the byte offset of the member `sections.rawData` in an
`EPMTelemetryPacket`, `hkHeader` and `rtHeader` are the two constant headers. -/
structure GripConstants where
  rawData : Nat
  RT_SLICES_PER_PACKET : Nat
  RT_DEFAULT_SECONDS_PER_SLICE : ℚ
  EPM_BUFFER_LENGTH : Nat
  EPM_TELEMETRY_SYNC_VALUE : Nat
  GRIP_SUBSYSTEM_ID : Nat
  GRIP_HK_ID : Nat
  GRIP_RT_ID : Nat
  hkPacketLengthInBytes : Nat
  rtPacketLengthInBytes : Nat
  MAX_PATHLENGTH : Nat
  MAX_OPEN_CACHE_RETRIES : Nat
  RETRY_PAUSE : Nat
  N_VERTICAL_TARGETS : Nat
  N_HORIZONTAL_TARGETS : Nat
  hkHeader : EPMTelemetryHeaderInfo
  rtHeader : EPMTelemetryHeaderInfo

/-! ## Cache file names (lines 484-514) -/

/-- The enumeration `GripPacketType`: the two values that the source names, and
`other v` for any other value of the type. -/
inductive GripPacketType where
  | GRIP_RT_SCIENCE_PACKET
  | GRIP_HK_BULK_PACKET
  | other (value : Nat)
  deriving DecidableEq, Repr

/-- How a call ends that can terminate the process. -/
inductive Outcome (α : Type) where
  /-- The function returns the value to its caller. -/
  | returned (value : α)
  /-- The function shows a message and calls `exit` with the code. -/
  | exited (code : Int)
  /-- The loop has not ended within the iterations allotted to the model. -/
  | outOfFuel
  deriving DecidableEq, Repr

/-- The function `CreateGripPacketCacheFilename`: the file name that `sprintf`
produces, or the error exit when the count that `sprintf` returns (the length of
the name, without the terminating NUL) is negative or exceeds `max_characters`. -/
def CreateGripPacketCacheFilename (max_characters : Int) (type : GripPacketType)
    (root : String) : Outcome String :=
  let filename :=
    match type with
    | GripPacketType.GRIP_RT_SCIENCE_PACKET => root ++ ".rt.gpk"
    | GripPacketType.GRIP_HK_BULK_PACKET => root ++ ".hk.gpk"
    | GripPacketType.other _ => root ++ ".any.gpk"
  let bytes_written : Int := (filename.length : Int)
  if bytes_written < 0 ∨ bytes_written > max_characters then Outcome.exited (-1)
  else Outcome.returned filename

/-! ## Reading the housekeeping cache (lines 517-593)

The file system is an oracle: the value that the `k`-th call of `_open`
returns, what the `k`-th call of `_read` delivers, and the value that `_close`
returns. -/

/-- What a call of `_read` delivers: an error (a negative return value), or the
bytes read, whose number is the return value. -/
inductive ReadResult where
  | error
  | data (bytes : List (Fin 256))
  deriving DecidableEq, Repr

/-- The file system as seen by one call of `GetLastPacketHK`. -/
structure CacheEnv where
  openResult : Nat → Int
  readResult : Nat → ReadResult
  closeResult : Int

/-- The reads of a file with the given contents, `length` bytes at a time and
without errors: the `k`-th read delivers the bytes from offset `k * length` on,
at most `length` of them. -/
def fileReads (file : List (Fin 256)) (length : Nat) (k : Nat) : ReadResult :=
  ReadResult.data ((file.drop (k * length)).take length)

/-- The buffer after `_read` has stored `bytes` at its start. -/
def loadBytes (packet : EPMTelemetryPacket) (bytes : List (Fin 256)) : EPMTelemetryPacket :=
  fun j => if h : j < bytes.length then bytes.get ⟨j, h⟩ else packet j

/-- The state of the retry loop that opens the cache: the last value returned by
`_open`, the number of calls of `_open`, and the milliseconds slept. -/
structure OpenState where
  fid : Int
  attempts : Nat
  slept : Nat
  deriving DecidableEq, Repr

/-- The retry loop of `GetLastPacketHK` (lines 540-547): `remaining` more
iterations, the next one with loop counter `retry_count`. -/
def openRetryLoop (K : GripConstants) (env : CacheEnv) : Nat → Nat → OpenState → OpenState
  | 0, _, s => s
  | remaining + 1, retry_count, s =>
      let fid := env.openResult retry_count
      if fid ≥ 0 then { s with fid := fid, attempts := s.attempts + 1 }
      else openRetryLoop K env remaining (retry_count + 1)
        { fid := fid, attempts := s.attempts + 1, slept := s.slept + K.RETRY_PAUSE }

/-- What `GetLastPacketHK` leaves behind: the two output records, the static
variable `previousTMCounter`, the local counter `packets_read` and the state of
the retry loop. -/
structure CacheReaderState where
  epmHeader : EPMTelemetryHeaderInfo
  hk : GripHealthAndStatusInfo
  previousTMCounter : Nat
  packets_read : Nat
  opening : OpenState

/-- The validity test of `GetLastPacketHK` (line 571) on a decoded header. -/
def isHousekeepingHeader (K : GripConstants) (h : EPMTelemetryHeaderInfo) : Bool :=
  !(h.epmSyncMarker != K.EPM_TELEMETRY_SYNC_VALUE || h.TMIdentifier != K.GRIP_HK_ID)

/-- How the read loop of `GetLastPacketHK` ends. -/
inductive ReadLoopEnd where
  /-- A short read ended the loop. -/
  | finished
  /-- A read error: message and `exit( -1 )`. -/
  | readError
  /-- An unrecognized packet: message and `exit( -1 )`. -/
  | unrecognized
  /-- The loop has not ended within the iterations allotted to the model. -/
  | outOfFuel
  deriving DecidableEq, Repr

/-- The read loop of `GetLastPacketHK` (lines 558-577): at most `fuel`
iterations, the next read being read number `k` of the file. -/
def readLoop (K : GripConstants) (env : CacheEnv) :
    Nat → Nat → EPMTelemetryPacket → CacheReaderState → ReadLoopEnd × CacheReaderState
  | 0, _, _, s => (ReadLoopEnd.outOfFuel, s)
  | fuel + 1, k, packet, s =>
      match env.readResult k with
      | ReadResult.error => (ReadLoopEnd.readError, s)
      | ReadResult.data bytes =>
          let packet := loadBytes packet bytes
          if bytes.length < K.hkPacketLengthInBytes then (ReadLoopEnd.finished, s)
          else
            let s := { s with packets_read := s.packets_read + 1 }
            let s := { s with epmHeader := ExtractEPMTelemetryHeaderInfo packet }
            if isHousekeepingHeader K s.epmHeader then
              let s := { s with hk := ExtractGripHealthAndStatusInfo K.rawData packet }
              readLoop K env fuel (k + 1) packet s
            else (ReadLoopEnd.unrecognized, s)

/-- The end of `GetLastPacketHK` (lines 578-592) after the read loop: the exits
of the loop, then `_close` and the comparison with `previousTMCounter`. -/
def closeAndCompare (env : CacheEnv) :
    ReadLoopEnd × CacheReaderState → Outcome Bool × CacheReaderState
  | (ReadLoopEnd.outOfFuel, s) => (Outcome.outOfFuel, s)
  | (ReadLoopEnd.readError, s) => (Outcome.exited (-1), s)
  | (ReadLoopEnd.unrecognized, s) => (Outcome.exited (-1), s)
  | (ReadLoopEnd.finished, s) =>
      let return_code := env.closeResult
      if return_code ≠ 0 then (Outcome.exited return_code, s)
      else if s.previousTMCounter ≠ s.epmHeader.TMCounter then
        (Outcome.returned true, { s with previousTMCounter := s.epmHeader.TMCounter })
      else (Outcome.returned false, s)

/-- The function `GetLastPacketHK`.  The arguments after the environment are
the iterations allotted to the read loop, the value of the static variable
`previousTMCounter` on entry, the two output records as the caller passes them,
the root of the file name, and the initial contents of the locals `fid` and
`packet`.  The result is how the call ends (`returned true` for `TRUE`) and the
state it leaves. -/
def GetLastPacketHK (K : GripConstants) (env : CacheEnv) (fuel : Nat)
    (previousTMCounter : Nat) (epmHeader : EPMTelemetryHeaderInfo)
    (hk : GripHealthAndStatusInfo) (filename_root : String) (fid : Int)
    (packet : EPMTelemetryPacket) : Outcome Bool × CacheReaderState :=
  let s : CacheReaderState :=
    { epmHeader := epmHeader, hk := hk, previousTMCounter := previousTMCounter,
      packets_read := 0, opening := { fid := fid, attempts := 0, slept := 0 } }
  match CreateGripPacketCacheFilename (K.MAX_PATHLENGTH : Int)
      GripPacketType.GRIP_HK_BULK_PACKET filename_root with
  | Outcome.exited code => (Outcome.exited code, s)
  | Outcome.outOfFuel => (Outcome.outOfFuel, s)
  | Outcome.returned _ =>
      let s := { s with opening := openRetryLoop K env K.MAX_OPEN_CACHE_RETRIES 0 s.opening }
      if s.opening.fid < 0 then (Outcome.exited (-1), s)
      else closeAndCompare env (readLoop K env fuel 0 packet s)

/-- Record number `k` (from 0) of a file made of records of `length` bytes. -/
def recordAt (file : List (Fin 256)) (length k : Nat) : List (Fin 256) :=
  (file.drop (k * length)).take length

/-- The test that `GetLastPacketHK` applies to record `k` of the file `body`,
read into a buffer whose bytes beyond the record are those of `packet`. -/
def recordRecognized (K : GripConstants) (packet : EPMTelemetryPacket) (body : List (Fin 256))
    (k : Nat) : Prop :=
  isHousekeepingHeader K (ExtractEPMTelemetryHeaderInfo
    (loadBytes packet (recordAt body K.hkPacketLengthInBytes k))) = true

instance (K : GripConstants) (packet : EPMTelemetryPacket) (body : List (Fin 256)) (k : Nat) :
    Decidable (recordRecognized K packet body k) := by
  unfold recordRecognized; infer_instance

/-- A call of `GetLastPacketHK` that gets to read and close a cache file: the
file name fits, one of the allowed attempts opens the file, the reads deliver
without error a file made of `n` full records (`body`) followed by `trailing`,
fewer bytes than a record, and `_close` returns 0. -/
structure ReadsCache (K : GripConstants) (env : CacheEnv) (filename_root : String)
    (body trailing : List (Fin 256)) (n : Nat) : Prop where
  name_fits : (filename_root.length : Int) + 7 ≤ (K.MAX_PATHLENGTH : Int)
  opens : ∃ j, j < K.MAX_OPEN_CACHE_RETRIES ∧ 0 ≤ env.openResult j
  reads : env.readResult = fileReads (body ++ trailing) K.hkPacketLengthInBytes
  body_length : body.length = n * K.hkPacketLengthInBytes
  trailing_short : trailing.length < K.hkPacketLengthInBytes
  closes : env.closeResult = 0

/-! ## Concrete inputs for the cache reader -/

/-- Sample values of the constants: payload at offset 42, ten slices of 50 ms
(the binary64 number nearest to `0.05`),
housekeeping records of 162 bytes, at most 5 attempts to open the cache, 2 s apart. -/
def sampleConstants : GripConstants :=
  { rawData := 42,
    RT_SLICES_PER_PACKET := 10,
    RT_DEFAULT_SECONDS_PER_SLICE := 3602879701896397 / 72057594037927936,
    EPM_BUFFER_LENGTH := 1412,
    EPM_TELEMETRY_SYNC_VALUE := 4292564045,
    GRIP_SUBSYSTEM_ID := 33,
    GRIP_HK_ID := 769,
    GRIP_RT_ID := 4097,
    hkPacketLengthInBytes := 162,
    rtPacketLengthInBytes := 800,
    MAX_PATHLENGTH := 1024,
    MAX_OPEN_CACHE_RETRIES := 5,
    RETRY_PAUSE := 2000,
    N_VERTICAL_TARGETS := 13,
    N_HORIZONTAL_TARGETS := 10,
    hkHeader :=
      { transferFrameInfo :=
          { epmLanSyncMarker := 2856710747, spare1 := 0, softwareUnitID := 17,
            packetType := 4353, spare2 := 0, numberOfWords := 379 },
        epmSyncMarker := 4292564045, subsystemMode := 0, subsystemID := 33, destination := 0,
        subsystemUnitID := 0, TMIdentifier := 769, TMCounter := 0, model := 0, taskID := 0,
        subsystemUnitVersion := 0, coarseTime := 0, fineTime := 0, timerStatus := 0,
        experimentMode := 0, checksumIndicator := 0, receiverSubsystemID := 0,
        receiverSubsystemUnitID := 0, numberOfWords := 375 },
    rtHeader :=
      { transferFrameInfo :=
          { epmLanSyncMarker := 2856710747, spare1 := 0, softwareUnitID := 17,
            packetType := 4353, spare2 := 0, numberOfWords := 379 },
        epmSyncMarker := 4292564045, subsystemMode := 0, subsystemID := 33, destination := 0,
        subsystemUnitID := 0, TMIdentifier := 4097, TMCounter := 0, model := 0, taskID := 0,
        subsystemUnitVersion := 0, coarseTime := 0, fineTime := 0, timerStatus := 0,
        experimentMode := 0, checksumIndicator := 0, receiverSubsystemID := 0,
        receiverSubsystemUnitID := 0, numberOfWords := 375 } }

/-- A housekeeping record of 162 bytes for `sampleConstants`: sync marker
`FF DB 54 4D` at offset 12, telemetry identifier `03 01` at offset 20, the given
counter in the low byte of `TMCounter` (offset 23), zero elsewhere. -/
def sampleRecord (counter : Fin 256) : List (Fin 256) :=
  (List.range 162).map fun j =>
    if j = 12 then 255 else if j = 13 then 219 else if j = 14 then 84 else if j = 15 then 77
    else if j = 20 then 3 else if j = 21 then 1 else if j = 23 then counter else 0

/-- A file system in which the first attempt to open the file fails and the
second succeeds, the file has the given contents and is read in records of 162
bytes, and closing succeeds. -/
def sampleCacheEnv (file : List (Fin 256)) : CacheEnv :=
  { openResult := fun k => if k = 0 then -1 else 3,
    readResult := fileReads file 162,
    closeResult := 0 }

/-- A housekeeping record with recognizable values. -/
def sampleHK : GripHealthAndStatusInfo :=
  { horizontalTargetFeedback := 1, verticalTargetFeedback := 2048, toneFeedback := 3,
    cradleDetectors := 27, user := 11, protocol := 201, task := 210, step := 10,
    scriptEngineStatusEnum := 0, iochannelStatusEnum := 0, motionTrackerStatusEnum := 2,
    crewCameraStatusEnum := 2, crewCameraRate := 0, runningBits := 0, cpuUsage := 0,
    memoryUsage := 0, freeDiskSpaceC := 4000000000, freeDiskSpaceD := 7, freeDiskSpaceE := 0,
    crc := 65535 }

/-! ## The emulator: `CLWSemulator.cpp`

What the emulator gets from outside is an oracle: the file system (by call
number), the clock read by `_ftime32_s`, the success of each `send`, the values
of `rand`, and the functions `sin`, `cos`, the constant `Pi` and the conversion
of a `double` to the bit pattern of a `float`.  Counters of type `int` that only
ever count up from zero are natural numbers. -/

/-- The outside world of the emulator. -/
structure EmulatorEnv where
  openResult : Nat → Int
  readResult : Nat → ReadResult
  closeResult : Nat → Int
  clock : Nat → Int × Nat
  sendFails : Nat → Bool
  rand : Nat → Nat
  sin : ℚ → ℚ
  cos : ℚ → ℚ
  Pi : ℚ
  floatBits : ℚ → Nat

/-- The call site of a `send`. -/
inductive PacketKind where
  | recorded
  | realtime
  | housekeeping
  deriving DecidableEq, Repr

/-- One call of `send`: the call site, the buffer handed over and the length
argument. -/
structure SentPacket where
  kind : PacketKind
  buffer : EPMTelemetryPacket
  length : Int

/-- The function `setPacketTime` (lines 48-68), for the clock reading
`(time, millitm)`. -/
def setPacketTime (epmtime : Int × Nat) (header : EPMTelemetryHeaderInfo) :
    EPMTelemetryHeaderInfo :=
  let header := { header with coarseTime := toUInt32 (epmtime.1 - 315964800 + 16) }
  { header with fineTime := toUInt16 ((epmtime.2 : Int) * 10) }

/-! ### Recorded playback (lines 70-158) -/

/-- The variables of `sendRecordedPackets` and what the model observes: the
static `packetCount`, the local buffer and `bytes_read`, the numbers of calls
made so far of `_sopen_s`, `_read`, `_close`, `_ftime32_s` and `send`, the
calls of `send` in order, and the arguments of `Sleep` in order. -/
structure PlaybackState where
  packetCount : Nat
  recordedPacket : EPMTelemetryPacket
  bytes_read : Int
  opens : Nat
  reads : Nat
  closes : Nat
  clocks : Nat
  sends : Nat
  sent : List SentPacket
  sleeps : List Nat

/-- The value that `_read` returns. -/
def ReadResult.count : ReadResult → Int
  | ReadResult.error => -1
  | ReadResult.data bytes => (bytes.length : Int)

/-- The buffer after a `_read` into it. -/
def ReadResult.store (packet : EPMTelemetryPacket) : ReadResult → EPMTelemetryPacket
  | ReadResult.error => packet
  | ReadResult.data bytes => loadBytes packet bytes

/-- The statement `bytes_read = _read( fid, recordedPacket.buffer, ... )`. -/
def readRecordedPacket (env : EmulatorEnv) (s : PlaybackState) : PlaybackState :=
  { s with
    bytes_read := (env.readResult s.reads).count,
    recordedPacket := (env.readResult s.reads).store s.recordedPacket,
    reads := s.reads + 1 }

/-- The body of the `do` loop of `sendRecordedPackets` (lines 104-141) on the
buffer just read: `some count` when a failed `send` makes the function return
`count`, `none` when the loop goes on. -/
def playRecordedPacket (K : GripConstants) (env : EmulatorEnv) (s : PlaybackState) :
    Option Nat × PlaybackState :=
  let epmPacketHeaderInfo := ExtractEPMTelemetryHeaderInfo s.recordedPacket
  if epmPacketHeaderInfo.epmSyncMarker ≠ K.EPM_TELEMETRY_SYNC_VALUE then (none, s)
  else if epmPacketHeaderInfo.subsystemID ≠ K.GRIP_SUBSYSTEM_ID then (none, s)
  else
    let epmPacketHeaderInfo := setPacketTime (env.clock s.clocks) epmPacketHeaderInfo
    let s := { s with clocks := s.clocks + 1 }
    let epmPacketHeaderInfo :=
      { epmPacketHeaderInfo with TMCounter := toUInt16 (s.packetCount : Int) }
    let s := { s with packetCount := s.packetCount + 1 }
    let s := { s with
      recordedPacket := (InsertEPMTelemetryHeaderInfo s.recordedPacket epmPacketHeaderInfo).1 }
    let iSendFails := env.sendFails s.sends
    let s := { s with
      sent := s.sent ++ [{ kind := PacketKind.recorded, buffer := s.recordedPacket,
                           length := (K.EPM_BUFFER_LENGTH : Int) - 1 }],
      sends := s.sends + 1 }
    if iSendFails then (some s.packetCount, s)
    else if epmPacketHeaderInfo.TMIdentifier = K.GRIP_RT_ID then
      (none, { s with sleeps := s.sleeps ++ [500] })
    else (none, { s with sleeps := s.sleeps ++ [20] })

/-- How the `do` loop of `sendRecordedPackets` ends. -/
inductive PlaybackEnd where
  /-- A `_read` returned 0: the file has been played. -/
  | fileEnd
  /-- A `send` failed: the function returns the count. -/
  | sendFailed (count : Nat)
  /-- The loop has not ended within the iterations allotted to the model. -/
  | outOfFuel
  deriving DecidableEq, Repr

/-- The `do` loop of `sendRecordedPackets` (lines 103-143), at most `fuel`
iterations. -/
def playFile (K : GripConstants) (env : EmulatorEnv) :
    Nat → PlaybackState → PlaybackEnd × PlaybackState
  | 0, s => (PlaybackEnd.outOfFuel, s)
  | fuel + 1, s =>
      match playRecordedPacket K env s with
      | (some count, s) => (PlaybackEnd.sendFailed count, s)
      | (none, s) =>
          let s := readRecordedPacket env s
          if s.bytes_read ≠ 0 then playFile K env fuel s
          else (PlaybackEnd.fileEnd, s)

/-- The function `sendRecordedPackets`: at most `fuel` passes over the file,
each of at most `fuel` packets.  The state on entry holds the static
`packetCount` as earlier calls left it; the local buffer is uninitialized. -/
def sendRecordedPackets (K : GripConstants) (env : EmulatorEnv) :
    Nat → PlaybackState → Outcome Nat × PlaybackState
  | 0, s => (Outcome.outOfFuel, s)
  | fuel + 1, s =>
      let return_code := env.openResult s.opens
      let s := { s with opens := s.opens + 1 }
      if return_code ≠ 0 then (Outcome.exited (-1), s)
      else
        let s := readRecordedPacket env s
        if s.bytes_read < 0 then (Outcome.exited (-1), s)
        else
          match playFile K env fuel s with
          | (PlaybackEnd.sendFailed count, s) => (Outcome.returned count, s)
          | (PlaybackEnd.outOfFuel, s) => (Outcome.outOfFuel, s)
          | (PlaybackEnd.fileEnd, s) =>
              let return_code := env.closeResult s.closes
              let s := { s with closes := s.closes + 1 }
              if return_code ≠ 0 then (Outcome.exited return_code, s)
              else sendRecordedPackets K env fuel { s with sleeps := s.sleeps ++ [10000] }

/-- The state in which a call of `sendRecordedPackets` starts when the previous
call has left the state `s`: the static counter and the call numbers of the
oracle go on, the local buffer holds `packet`, the observations start afresh. -/
def nextPlayback (s : PlaybackState) (packet : EPMTelemetryPacket) : PlaybackState :=
  { s with recordedPacket := packet, bytes_read := 0, sent := [], sleeps := [] }

/-- The state in which the first call of `sendRecordedPackets` in a process
starts, the local buffer holding `packet`. -/
def firstPlayback (packet : EPMTelemetryPacket) : PlaybackState :=
  { packetCount := 0, recordedPacket := packet, bytes_read := 0, opens := 0, reads := 0,
    closes := 0, clocks := 0, sends := 0, sent := [], sleeps := [] }

/-! ### Constructed packets (lines 160-404) -/

/-- The variables of `sendConstructedPackets` and what the model observes: the
locals of the function (`iSendFails` stands for `iSendResult == SOCKET_ERROR`),
the numbers of calls made so far of `_ftime32_s`, `rand` and `send`, the calls
of `send` in order, and the arguments of `Sleep` in order. -/
structure SynthState where
  hkPacket : EPMTelemetryPacket
  rtPacket : EPMTelemetryPacket
  hkHeaderInfo : EPMTelemetryHeaderInfo
  rtHeaderInfo : EPMTelemetryHeaderInfo
  hkInfo : GripHealthAndStatusInfo
  rtInfo : GripRealtimeDataInfo
  reverseInfo : GripRealtimeDataInfo
  vertical_targets : Nat
  horizontal_targets : Nat
  sound_bits : Nat
  cradle_bits : Nat
  camera_status : Nat
  acquire_status : Nat
  packet_count : Nat
  rt_packet_count : Nat
  send_hk : Bool
  dropout_count : Nat
  epoch : Nat
  iSendFails : Bool
  clocks : Nat
  rands : Nat
  sends : Nat
  sent : List SentPacket
  sleeps : List Int

/-- The initializations at the start of `sendConstructedPackets` (lines 170-194),
applied to a state `s` that stands for the uninitialized locals and for the
call numbers of the oracle reached so far. -/
def startConstructed (K : GripConstants) (s : SynthState) : SynthState :=
  { s with
    vertical_targets := 0, horizontal_targets := 0, sound_bits := 0, cradle_bits := 0,
    camera_status := 2, acquire_status := 2, packet_count := 0, rt_packet_count := 0,
    send_hk := true, dropout_count := 0,
    hkHeaderInfo := K.hkHeader, rtHeaderInfo := K.rtHeader, epoch := 0,
    sent := [], sleeps := [] }

/-- The body of the slice loop of `sendConstructedPackets` (lines 222-331) for
slice number `slice`: the new contents of the slice, of `dropout_count` and of
the number of calls of `rand`. -/
def constructSlice (K : GripConstants) (env : EmulatorEnv) (packetTimestamp : ℚ)
    (epoch rt_packet_count slice : Nat) (old : GripRealtimeDataSlice)
    (dropout_count rands : Nat) : GripRealtimeDataSlice × Nat × Nat :=
  let b : GripRealtimeDataSlice :=
    { old with
      poseTick := toUInt32 ((rt_packet_count : Int) * (K.RT_SLICES_PER_PACKET : Int)),
      analogTick := toUInt32 ((rt_packet_count : Int) * (K.RT_SLICES_PER_PACKET : Int)),
      position := { X := 0, Y := 0, Z := 0 },
      acceleration := { X := 0, Y := 0, Z := 0 },
      ft0 := { force := { X := 0, Y := 0, Z := 0 }, torque := { X := 0, Y := 0, Z := 0 } },
      ft1 := { force := { X := 0, Y := 0, Z := 0 }, torque := { X := 0, Y := 0, Z := 0 } },
      quaternion := { X := env.floatBits 0, Y := env.floatBits 0, Z := env.floatBits 0,
                      M := env.floatBits 1 } }
  let t : ℚ :=
    doubleAdd packetTimestamp (doubleMul (slice : ℚ) K.RT_DEFAULT_SECONDS_PER_SLICE)
  let s : ℚ := env.sin (doubleMul (doubleMul t env.Pi) 2)
  let c : ℚ := env.cos (doubleMul (doubleMul t env.Pi) 2)
  let dt : ℚ := K.RT_DEFAULT_SECONDS_PER_SLICE
  let f : ℚ := doubleAdd (-14) (doubleMul (85 / 10) s)
  let b : GripRealtimeDataSlice :=
    match epoch % 6 with
    | 0 =>
      { b with
        position := { b.position with X := doubleAdd 300 (doubleMul 300 c) },
        acceleration :=
          { b.acceleration with X := doubleMul (doubleMul (doubleMul (-300) c) dt) dt },
        ft0 := { b.ft0 with force := { b.ft0.force with X := f } },
        ft1 := { b.ft1 with force := { b.ft1.force with X := -f } },
        markerVisibility0 := 0x000ff,
        markerVisibility1 := 0xf0fff }
    | 1 =>
      { b with
        position := { b.position with Y := doubleAdd 300 (doubleMul 300 c) },
        acceleration :=
          { b.acceleration with Y := doubleMul (doubleMul (doubleMul (-300) c) dt) dt },
        ft0 := { b.ft0 with force := { b.ft0.force with Y := doubleMul 2 s } },
        ft1 :=
          { b.ft1 with force := { b.ft1.force with Y := doubleMul (roundDouble (18 / 10)) s } },
        markerVisibility0 := 0x000ff,
        markerVisibility1 := 0x0f0ff }
    | 2 =>
      { b with
        position := { b.position with Z := doubleAdd (-300) (doubleMul 200 c) },
        acceleration :=
          { b.acceleration with Z := doubleMul (doubleMul (doubleMul (-200) c) dt) dt },
        ft0 := { b.ft0 with force := { b.ft0.force with Z := doubleMul 3 s } },
        ft1 :=
          { b.ft1 with force := { b.ft1.force with Z := doubleMul (roundDouble (32 / 10)) s } },
        markerVisibility1 := 0x000ff,
        markerVisibility0 := 0x00fff }
    | 3 =>
      { b with
        quaternion := { b.quaternion with X := env.floatBits (doubleDiv s 2),
                                          M := env.floatBits (doubleDiv c 2) },
        ft0 := { force := { b.ft0.force with X := f },
                 torque := { b.ft0.torque with
                   Y := doubleMul (doubleMul f (roundDouble (1 / 100))) s } },
        ft1 := { force := { b.ft1.force with X := -f },
                 torque := { b.ft1.torque with
                   Y := doubleMul (doubleMul (-f) (roundDouble (11 / 1000))) s } },
        markerVisibility1 := 0xfffff,
        markerVisibility0 := 0xf0f0f }
    | 4 =>
      { b with
        quaternion := { b.quaternion with Y := env.floatBits (doubleDiv s 2),
                                          M := env.floatBits (doubleDiv c 2) },
        ft0 := { force := { b.ft0.force with X := f },
                 torque := { b.ft0.torque with
                   Z := doubleMul (doubleMul f (roundDouble (1 / 100))) s } },
        ft1 := { force := { b.ft1.force with X := -f },
                 torque := { b.ft1.torque with
                   Z := doubleMul (doubleMul (-f) (roundDouble (11 / 1000))) s } },
        markerVisibility1 := 0xfffff,
        markerVisibility0 := 0x0f0f0 }
    | _ =>
      { b with
        quaternion := { b.quaternion with Z := env.floatBits (doubleDiv s 2),
                                          M := env.floatBits (doubleDiv c 2) },
        ft0 := { force := { b.ft0.force with X := f },
                 torque := { b.ft0.torque with
                   Y := doubleMul (doubleMul f (roundDouble (1 / 100))) s,
                   Z := doubleMul (doubleMul f (roundDouble (1 / 100))) s } },
        ft1 := { force := { b.ft1.force with X := -f },
                 torque := { b.ft1.torque with
                   Y := doubleMul (doubleMul (-f) (roundDouble (11 / 1000))) s,
                   Z := doubleMul (doubleMul (-f) (roundDouble (11 / 1000))) s } },
        markerVisibility0 := 0xfffff,
        markerVisibility1 := 0xfffff }
  if dropout_count = 0 then
    let b := { b with manipulandumVisibility := 1 }
    if env.rand rands < 1000 then (b, 10, rands + 1) else (b, dropout_count, rands + 1)
  else
    let b := { b with manipulandumVisibility := 0 }
    let b := { b with markerVisibility0 := b.markerVisibility0 &&& 0xfff00 }
    let b := { b with markerVisibility1 := b.markerVisibility1 &&& 0xfff00 }
    (b, dropout_count - 1, rands)

/-- The slice loop of `sendConstructedPackets` (line 220): `count` more
iterations, the next one for slice number `slice`. -/
def constructSlices (K : GripConstants) (env : EmulatorEnv) (packetTimestamp : ℚ)
    (epoch rt_packet_count : Nat) :
    Nat → Nat → (Nat → GripRealtimeDataSlice) → Nat → Nat →
      (Nat → GripRealtimeDataSlice) × Nat × Nat
  | 0, _, dataSlice, dropout_count, rands => (dataSlice, dropout_count, rands)
  | count + 1, slice, dataSlice, dropout_count, rands =>
      let r := constructSlice K env packetTimestamp epoch rt_packet_count slice
        (dataSlice slice) dropout_count rands
      constructSlices K env packetTimestamp epoch rt_packet_count count (slice + 1)
        (Function.update dataSlice slice r.1) r.2.1 r.2.2

/-- The remainder `a % b` of C on `int` operands. -/
def cRem (a b : Int) : Int := Int.tmod a b

/-- The first part of a cycle of `sendConstructedPackets` (lines 199-335): the
pacing sleeps, the header and the synthesized data of the realtime packet. -/
def prepareRealtimePacket (K : GripConstants) (env : EmulatorEnv) (s : SynthState) :
    SynthState :=
  let s := { s with sleeps := s.sleeps ++ [50] }
  let utctime := env.clock s.clocks
  let s := { s with clocks := s.clocks + 1 }
  let s := { s with sleeps := s.sleeps ++ [cRem (1000 - (utctime.2 : Int)) 500] }
  let s := { s with
    rtHeaderInfo := { s.rtHeaderInfo with TMCounter := toUInt16 (s.packet_count : Int) },
    packet_count := s.packet_count + 1 }
  let s := { s with
    rtHeaderInfo := setPacketTime (env.clock s.clocks) s.rtHeaderInfo,
    clocks := s.clocks + 1 }
  let s := { s with rtPacket := (InsertEPMTelemetryHeaderInfo s.rtPacket s.rtHeaderInfo).1 }
  let s := { s with rtInfo := { s.rtInfo with packetTimestamp := EPMtoSeconds s.rtHeaderInfo } }
  let s := { s with rtInfo := { s.rtInfo with acquisitionID := 0 } }
  let s := { s with
    rtInfo := { s.rtInfo with rtPacketCount := toUInt32 (s.rt_packet_count : Int) },
    rt_packet_count := s.rt_packet_count + 1 }
  let r := constructSlices K env s.rtInfo.packetTimestamp s.epoch s.rt_packet_count
    K.RT_SLICES_PER_PACKET 0 s.rtInfo.dataSlice s.dropout_count s.rands
  let s := { s with
    rtInfo := { s.rtInfo with dataSlice := r.1 }, dropout_count := r.2.1, rands := r.2.2 }
  let s := { s with
    rtPacket := InsertGripRealtimeDataInfo K.rawData K.RT_SLICES_PER_PACKET s.rtPacket s.rtInfo }
  { s with
    reverseInfo := ExtractGripRealtimeDataInfo K.rawData K.RT_SLICES_PER_PACKET
      K.RT_DEFAULT_SECONDS_PER_SLICE s.reverseInfo s.rtPacket }

/-- The housekeeping part of a cycle up to the `send` (lines 351-375): header,
values and packet. -/
def prepareHousekeepingPacket (K : GripConstants) (env : EmulatorEnv) (s : SynthState) :
    SynthState :=
  let s := { s with
    hkHeaderInfo := { s.hkHeaderInfo with TMCounter := toUInt16 (s.packet_count : Int) },
    packet_count := s.packet_count + 1 }
  let s := { s with
    hkHeaderInfo := setPacketTime (env.clock s.clocks) s.hkHeaderInfo,
    clocks := s.clocks + 1 }
  let s := { s with
    hkInfo := { s.hkInfo with
      user := 11, protocol := 201, task := 210, step := 10,
      horizontalTargetFeedback := s.horizontal_targets,
      verticalTargetFeedback := s.vertical_targets,
      toneFeedback := s.sound_bits,
      cradleDetectors := s.cradle_bits,
      motionTrackerStatusEnum := s.acquire_status,
      crewCameraStatusEnum := s.camera_status } }
  let s := { s with hkPacket := (InsertEPMTelemetryHeaderInfo s.hkPacket s.hkHeaderInfo).1 }
  { s with hkPacket := InsertGripHealthAndStatusInfo K.rawData s.hkPacket s.hkInfo }

/-- The end of a cycle (lines 385-402): the toggle of `send_hk` and, when
`packet_count` is a multiple of 20, the pause and the new epoch. -/
def endOfCycle (K : GripConstants) (s : SynthState) : SynthState :=
  let s := { s with send_hk := !s.send_hk }
  if s.packet_count % 20 = 0 then
    let s := { s with sleeps := s.sleeps ++ [5000] }
    let s := { s with
      vertical_targets := (1 <<< (s.epoch % K.N_VERTICAL_TARGETS)) % 65536 }
    let s := { s with
      horizontal_targets := (1 <<< (s.epoch % K.N_HORIZONTAL_TARGETS)) % 65536 }
    let s := { s with sound_bits := (s.epoch % 8) % 256 }
    let s := { s with
      cradle_bits :=
        ((s.epoch % 4) + (((s.epoch + 1) % 4) <<< 2) + (((s.epoch + 2) % 4) <<< 4)) % 256 }
    let s := { s with acquire_status := if s.epoch % 3 ≠ 0 then 2 else 0 }
    let s := { s with camera_status := if s.epoch % 2 ≠ 0 then 2 else 0 }
    { s with epoch := s.epoch + 1 }
  else s

/-- A call `iSendResult = send( socket, buffer, length, 0 )`: its result, and
the call noted in the trace. -/
def noteSend (env : EmulatorEnv) (kind : PacketKind) (buffer : EPMTelemetryPacket)
    (length : Int) (s : SynthState) : SynthState :=
  { s with
    iSendFails := env.sendFails s.sends,
    sent := s.sent ++ [{ kind := kind, buffer := buffer, length := length }],
    sends := s.sends + 1 }

/-- The realtime part of a cycle (lines 199-338): the packet is prepared and
handed to `send`. -/
def sendRealtimePacket (K : GripConstants) (env : EmulatorEnv) (s : SynthState) : SynthState :=
  let s := prepareRealtimePacket K env s
  noteSend env PacketKind.realtime s.rtPacket (K.rtPacketLengthInBytes : Int) s

/-- The housekeeping part of a cycle (lines 351-376): the packet is prepared
and handed to `send`. -/
def sendHousekeepingPacket (K : GripConstants) (env : EmulatorEnv) (s : SynthState) :
    SynthState :=
  let s := prepareHousekeepingPacket K env s
  noteSend env PacketKind.housekeeping s.hkPacket (K.hkPacketLengthInBytes : Int) s

/-- One pass through the loop of `sendConstructedPackets` (lines 197-403):
`some count` when a failed `send` makes the function return `count`, `none`
when the loop goes on. -/
def constructedCycle (K : GripConstants) (env : EmulatorEnv) (s : SynthState) :
    Option Nat × SynthState :=
  let s := sendRealtimePacket K env s
  if s.iSendFails then (some s.packet_count, s)
  else if s.send_hk then
    let s := sendHousekeepingPacket K env s
    if s.iSendFails then (some s.packet_count, s)
    else (none, endOfCycle K s)
  else (none, endOfCycle K s)

/-- The loop of `sendConstructedPackets` after the initializations: at most
`fuel` cycles. -/
def constructedLoop (K : GripConstants) (env : EmulatorEnv) :
    Nat → SynthState → Outcome Nat × SynthState
  | 0, s => (Outcome.outOfFuel, s)
  | fuel + 1, s =>
      match constructedCycle K env s with
      | (some count, s) => (Outcome.returned count, s)
      | (none, s) => constructedLoop K env fuel s

/-- The function `sendConstructedPackets`, run for at most `fuel` cycles from
the state `s` standing for the uninitialized locals. -/
def sendConstructedPackets (K : GripConstants) (env : EmulatorEnv) (fuel : Nat)
    (s : SynthState) : Outcome Nat × SynthState :=
  constructedLoop K env fuel (startConstructed K s)

/-- The `TMCounter` values carried by the packets of a trace, in order. -/
def tmCounters (sent : List SentPacket) : List Nat :=
  sent.map fun p => (ExtractEPMTelemetryHeaderInfo p.buffer).TMCounter

/-- The counters `c, c + 1, ..., c + n - 1` modulo `2 ^ 16`. -/
def countersFrom (c n : Nat) : List Nat := (List.range n).map fun i => (c + i) % 65536

/-- The test of `sendRecordedPackets` (lines 107 and 114) that lets a packet
through to `send`. -/
def isGripPacket (K : GripConstants) (packet : EPMTelemetryPacket) : Prop :=
  (ExtractEPMTelemetryHeaderInfo packet).epmSyncMarker = K.EPM_TELEMETRY_SYNC_VALUE ∧
  (ExtractEPMTelemetryHeaderInfo packet).subsystemID = K.GRIP_SUBSYSTEM_ID

instance (K : GripConstants) (packet : EPMTelemetryPacket) : Decidable (isGripPacket K packet) := by
  unfold isGripPacket; infer_instance

/-! ## Concrete inputs for the emulator -/

/-- A chunk of 1412 bytes that `sendRecordedPackets` recognizes as a GRIP packet
under `sampleConstants`: sync marker `FF DB 54 4D` at offset 12, subsystem
identifier `21` (hexadecimal) at offset 17, zero elsewhere. -/
def gripChunk : List (Fin 256) :=
  (List.range 1412).map fun j =>
    if j = 12 then 255 else if j = 13 then 219 else if j = 14 then 84 else if j = 15 then 77
    else if j = 17 then 33 else 0

/-- An outside world in which every `_sopen_s` and `_close` succeeds, every
`_read` delivers `gripChunk`, the clock stands at 1500000000 s and 250 ms, the
`k`-th `send` fails when `sendFails k`, `rand` returns 5000, and the
mathematical functions are replaced by constants. -/
def sampleEmulatorEnv (sendFails : Nat → Bool) : EmulatorEnv :=
  { openResult := fun _ => 0,
    readResult := fun _ => ReadResult.data gripChunk,
    closeResult := fun _ => 0,
    clock := fun _ => (1500000000, 250),
    sendFails := sendFails,
    rand := fun _ => 5000,
    sin := fun _ => 0,
    cos := fun _ => 1,
    Pi := 22 / 7,
    floatBits := fun _ => 0 }

/-- The call sites of the `send`s of `k` consecutive complete cycles of
`sendConstructedPackets`, the first of them being cycle number `i` (from 0):
each cycle sends a realtime packet and, when its number is even, a housekeeping
packet after it. -/
def cycleKindsFrom : Nat → Nat → List PacketKind
  | _, 0 => []
  | i, k + 1 =>
      (if i % 2 = 0 then [PacketKind.realtime, PacketKind.housekeeping]
        else [PacketKind.realtime]) ++ cycleKindsFrom (i + 1) k

/-- A state of the outside world and of the uninitialized locals in which
`sendConstructedPackets` can be started: everything zero. -/
def sampleSynthState : SynthState :=
  { hkPacket := zeroPacket, rtPacket := zeroPacket,
    hkHeaderInfo := sampleConstants.hkHeader, rtHeaderInfo := sampleConstants.rtHeader,
    hkInfo := sampleHK, rtInfo := sampleInfo, reverseInfo := sampleInfo,
    vertical_targets := 0, horizontal_targets := 0, sound_bits := 0, cradle_bits := 0,
    camera_status := 0, acquire_status := 0, packet_count := 0, rt_packet_count := 0,
    send_hk := false, dropout_count := 0, epoch := 0, iSendFails := false, clocks := 0,
    rands := 0, sends := 0, sent := [], sleeps := [] }

/-! ## Statement helpers for the constructed housekeeping values -/

/-- The simulated feedback values that `sendConstructedPackets` keeps between
the epochs and copies into every housekeeping packet. -/
structure SimulatedFeedback where
  vertical_targets : Nat
  horizontal_targets : Nat
  sound_bits : Nat
  cradle_bits : Nat
  acquire_status : Nat
  camera_status : Nat
  deriving DecidableEq, Repr

/-- The feedback values held by the variables of `sendConstructedPackets`. -/
def SynthState.feedback (s : SynthState) : SimulatedFeedback :=
  { vertical_targets := s.vertical_targets, horizontal_targets := s.horizontal_targets,
    sound_bits := s.sound_bits, cradle_bits := s.cradle_bits,
    acquire_status := s.acquire_status, camera_status := s.camera_status }

/-- The feedback values that a decoded housekeeping record shows. -/
def GripHealthAndStatusInfo.feedback (hk : GripHealthAndStatusInfo) : SimulatedFeedback :=
  { vertical_targets := hk.verticalTargetFeedback,
    horizontal_targets := hk.horizontalTargetFeedback,
    sound_bits := hk.toneFeedback, cradle_bits := hk.cradleDetectors,
    acquire_status := hk.motionTrackerStatusEnum, camera_status := hk.crewCameraStatusEnum }

/-- The feedback values as the specification gives them for an advance from
epoch `e`. -/
def specEpochFeedback (K : GripConstants) (e : Nat) : SimulatedFeedback :=
  { vertical_targets := 1 <<< (e % K.N_VERTICAL_TARGETS),
    horizontal_targets := 1 <<< (e % K.N_HORIZONTAL_TARGETS),
    sound_bits := e % 8,
    cradle_bits := (e % 4) + (((e + 1) % 4) <<< 2) + (((e + 2) % 4) <<< 4),
    acquire_status := if e % 3 ≠ 0 then 2 else 0,
    camera_status := if e % 2 = 1 then 2 else 0 }

/-- The feedback values as the specification gives them before the first
advance of the epoch. -/
def specInitialFeedback : SimulatedFeedback :=
  { vertical_targets := 0, horizontal_targets := 0, sound_bits := 0, cradle_bits := 0,
    acquire_status := 2, camera_status := 2 }

/-- The feedback values that the specification gives for the time when the
epoch counter stands at `epoch`: the initial ones, or those of the most recent
advance, which was from `epoch - 1`. -/
def specFeedbackAt (K : GripConstants) (epoch : Nat) : SimulatedFeedback :=
  if epoch = 0 then specInitialFeedback else specEpochFeedback K (epoch - 1)

/-- The housekeeping packet `packet` decodes to the script state that
`sendConstructedPackets` writes (user 11, protocol 201, task 210, step 10) and
to the feedback values `f`. -/
def decodesAsConstructed (K : GripConstants) (packet : EPMTelemetryPacket)
    (f : SimulatedFeedback) : Prop :=
  (ExtractGripHealthAndStatusInfo K.rawData packet).user = 11 ∧
  (ExtractGripHealthAndStatusInfo K.rawData packet).protocol = 201 ∧
  (ExtractGripHealthAndStatusInfo K.rawData packet).task = 210 ∧
  (ExtractGripHealthAndStatusInfo K.rawData packet).step = 10 ∧
  (ExtractGripHealthAndStatusInfo K.rawData packet).feedback = f

instance (K : GripConstants) (packet : EPMTelemetryPacket) (f : SimulatedFeedback) :
    Decidable (decodesAsConstructed K packet f) := by
  unfold decodesAsConstructed; infer_instance

/-! ## The server loop of `_tmain` (`CLWSemulator.cpp`, lines 492-577)

The network is an oracle: whether the `k`-th call of `listen`, `accept` and
`shutdown` fails and what the `k`-th call of `recv` delivers.  The packet source
that the command line selected is a parameter `engine`, a function on the state
of that source, to be taken as `sendRecordedPackets` or
`sendConstructedPackets`. -/

/-- Constants of the absent headers that the handshake of `_tmain` uses. -/
structure HandshakeConstants where
  connectPacketLengthInBytes : Int
  TRANSFER_FRAME_CONNECT : Nat
  GRIP_MMI_SOFTWARE_UNIT_ID : Nat
  GRIP_MMI_SOFTWARE_ALT_UNIT_ID : Nat

/-- The network as seen by `_tmain`.  A `recv` that fails returns
`SOCKET_ERROR`, which is -1, like the count of `ReadResult.error`. -/
structure NetEnv where
  listenFails : Nat → Bool
  acceptFails : Nat → Bool
  recvResult : Nat → ReadResult
  shutdownFails : Nat → Bool

/-- What `_tmain` prints about the software unit of a connect frame. -/
inductive SoftwareUnit where
  | PRIMARY
  | ALTERNATE
  | UNRECOGNIZED
  deriving DecidableEq, Repr

/-- The variables of `_tmain` inside its loop and what the model observes:
`iResult` as `recv` sets it, the numbers of calls made so far of `listen`,
`accept`, `recv` and `shutdown`, the software units announced, the number of
calls of the packet source and the state of the packet source. -/
structure ServerState (σ : Type) where
  inputPacket : EPMTelemetryPacket
  transferFrameInfo : EPMTransferFrameHeaderInfo
  iResult : Int
  packetCount : Nat
  listens : Nat
  accepts : Nat
  recvs : Nat
  shutdowns : Nat
  announced : List SoftwareUnit
  engineCalls : Nat
  engine : σ

/-- The statement `iResult = recv( ClientSocket, inputPacket.buffer, ... )`
(line 526). -/
def receiveFrame {σ : Type} (net : NetEnv) (s : ServerState σ) : ServerState σ :=
  { s with
    iResult := (net.recvResult s.recvs).count,
    inputPacket := (net.recvResult s.recvs).store s.inputPacket,
    recvs := s.recvs + 1 }

/-- The body of the wait loop of `_tmain` after the `recv` (lines 528-548):
`true` when the loop is left through `break`. -/
def examineFrame {σ : Type} (H : HandshakeConstants) (K : GripConstants) (s : ServerState σ) :
    Bool × ServerState σ :=
  if s.iResult = (K.EPM_BUFFER_LENGTH : Int) then (false, s)
  else if s.iResult = H.connectPacketLengthInBytes then
    let s := { s with transferFrameInfo := ExtractEPMTransferFrameHeaderInfo s.inputPacket }
    if s.transferFrameInfo.packetType = H.TRANSFER_FRAME_CONNECT then
      let unit :=
        if s.transferFrameInfo.softwareUnitID = H.GRIP_MMI_SOFTWARE_UNIT_ID then
          SoftwareUnit.PRIMARY
        else if s.transferFrameInfo.softwareUnitID = H.GRIP_MMI_SOFTWARE_ALT_UNIT_ID then
          SoftwareUnit.ALTERNATE
        else SoftwareUnit.UNRECOGNIZED
      (true, { s with announced := s.announced ++ [unit] })
    else (false, s)
  else (false, s)

/-- How the wait loop of `_tmain` ends. -/
inductive WaitEnd where
  /-- A connect frame has arrived: the loop is left through `break`. -/
  | connectReceived
  /-- A `recv` returned zero or an error: the condition `iResult > 0` fails. -/
  | receiveEnded
  /-- The loop has not ended within the iterations allotted to the model. -/
  | outOfFuel
  deriving DecidableEq, Repr

/-- The wait loop of `_tmain` (lines 524-550), at most `fuel` iterations. -/
def awaitConnect {σ : Type} (H : HandshakeConstants) (K : GripConstants) (net : NetEnv) :
    Nat → ServerState σ → WaitEnd × ServerState σ
  | 0, s => (WaitEnd.outOfFuel, s)
  | fuel + 1, s =>
      let s := receiveFrame net s
      match examineFrame H K s with
      | (true, s) => (WaitEnd.connectReceived, s)
      | (false, s) =>
          if s.iResult > 0 then awaitConnect H K net fuel s
          else (WaitEnd.receiveEnded, s)

/-- One pass through the loop of `_tmain` (lines 498-575), its wait loop run
for at most `fuel` iterations: `some outcome` when the pass ends the process
(or the model runs out of fuel), `none` when the loop goes on to the next
`listen`. -/
def serveClient {σ : Type} (H : HandshakeConstants) (K : GripConstants) (net : NetEnv)
    (engine : σ → Outcome Nat × σ) (fuel : Nat) (s : ServerState σ) :
    Option (Outcome Int) × ServerState σ :=
  let listenFailed := net.listenFails s.listens
  let s := { s with listens := s.listens + 1 }
  if listenFailed then (some (Outcome.returned 5), s)
  else
    let acceptFailed := net.acceptFails s.accepts
    let s := { s with accepts := s.accepts + 1 }
    if acceptFailed then (some (Outcome.returned 6), s)
    else
      match awaitConnect H K net fuel s with
      | (WaitEnd.outOfFuel, s) => (some Outcome.outOfFuel, s)
      | (_, s) =>
          let r := engine s.engine
          let s := { s with engineCalls := s.engineCalls + 1, engine := r.2 }
          match r.1 with
          | Outcome.exited code => (some (Outcome.exited code), s)
          | Outcome.outOfFuel => (some Outcome.outOfFuel, s)
          | Outcome.returned count =>
              let s := { s with packetCount := count }
              let shutdownFailed := net.shutdownFails s.shutdowns
              let s := { s with shutdowns := s.shutdowns + 1 }
              if shutdownFailed then (some (Outcome.returned 7), s)
              else (none, s)

/-- The loop of `_tmain` (lines 496-577), at most `fuel` passes. -/
def serverLoop {σ : Type} (H : HandshakeConstants) (K : GripConstants) (net : NetEnv)
    (engine : σ → Outcome Nat × σ) : Nat → ServerState σ → Outcome Int × ServerState σ
  | 0, s => (Outcome.outOfFuel, s)
  | fuel + 1, s =>
      match serveClient H K net engine fuel s with
      | (some outcome, s) => (outcome, s)
      | (none, s) => serverLoop H K net engine fuel s

/-! ## Statement helpers for the packet sources -/

/-- Every `send` with a call number from `a` up to `b`, `b` excluded, succeeds. -/
def sendsSucceed (env : EmulatorEnv) (a b : Nat) : Prop :=
  ∀ j, a ≤ j → j < b → env.sendFails j = false

/-- Of the calls of `send` numbered from `a` up to `b`, `b` excluded, the last
one fails and the others succeed. -/
def lastSendFails (env : EmulatorEnv) (a b : Nat) : Prop :=
  a < b ∧ env.sendFails (b - 1) = true ∧ sendsSucceed env a (b - 1)

/-! ## Concrete inputs for the server and for the failing reads -/

/-- Handshake constants for the concrete inputs. -/
def sampleHandshake : HandshakeConstants :=
  { connectPacketLengthInBytes := 12,
    TRANSFER_FRAME_CONNECT := 1,
    GRIP_MMI_SOFTWARE_UNIT_ID := 43,
    GRIP_MMI_SOFTWARE_ALT_UNIT_ID := 44 }

/-- A network in which `listen`, `accept` and `shutdown` succeed and every
`recv` returns zero: the client closes the connection without a frame. -/
def sampleClosingNet : NetEnv :=
  { listenFails := fun _ => false,
    acceptFails := fun _ => false,
    recvResult := fun _ => ReadResult.data [],
    shutdownFails := fun _ => false }

/-- The state of `_tmain` before its first `listen`, with the state `engine`
of the packet source. -/
def sampleServerState {σ : Type} (engine : σ) : ServerState σ :=
  { inputPacket := zeroPacket,
    transferFrameInfo := ExtractEPMTransferFrameHeaderInfo zeroPacket,
    iResult := 0, packetCount := 0, listens := 0, accepts := 0, recvs := 0, shutdowns := 0,
    announced := [], engineCalls := 0, engine := engine }

/-- An outside world like `sampleEmulatorEnv` with succeeding `send`s, in which
the first `_read` delivers `gripChunk` and every later `_read` fails. -/
def sampleReadErrorEnv : EmulatorEnv :=
  { sampleEmulatorEnv (fun _ => false) with
    readResult := fun k => if k = 0 then ReadResult.data gripChunk else ReadResult.error }

/-- An outside world like `sampleEmulatorEnv` with succeeding `send`s, in which
the capture file is empty: every `_read` returns zero bytes. -/
def sampleEmptyFileEnv : EmulatorEnv :=
  { sampleEmulatorEnv (fun _ => false) with readResult := fun _ => ReadResult.data [] }

/-! ## Statement helpers for the simulated occlusions -/

/-- The dropout counter and the number of calls of `rand` after one slice, as
the specification describes the occlusion model: with the counter at zero the
slice is visible and a value of `rand` below 1000 starts a dropout of 10
slices; otherwise the slice is hidden and the counter goes down by one. -/
def specDropoutStep (env : EmulatorEnv) (dropout_count rands : Nat) : Nat × Nat :=
  if dropout_count = 0 then
    (if env.rand rands < 1000 then 10 else 0, rands + 1)
  else (dropout_count - 1, rands)

/-- The dropout counter and the number of calls of `rand` after `k` slices. -/
def specDropoutAfter (env : EmulatorEnv) : Nat → Nat → Nat → Nat × Nat
  | 0, dropout_count, rands => (dropout_count, rands)
  | k + 1, dropout_count, rands =>
      specDropoutAfter env k (specDropoutStep env dropout_count rands).1
        (specDropoutStep env dropout_count rands).2

/-! ## Statement helpers for the layout of the realtime payload -/

/-- The big-endian value of the four bytes at offset `o`. -/
def be32At (p : EPMTelemetryPacket) (o : Nat) : Nat :=
  16777216 * getByte p o + 65536 * getByte p (o + 1) + 256 * getByte p (o + 2) + getByte p (o + 3)

/-- The big-endian value of the two bytes at offset `o`. -/
def be16At (p : EPMTelemetryPacket) (o : Nat) : Nat :=
  256 * getByte p o + getByte p (o + 1)

/-! ## The test reader: `TestSimultaneousReadFromCache.cpp` (lines 44-84)

The program includes the `GripPackets.h` of another project, which is not among
the sources: the members of `packet->header` that it reads are parameters. -/

/-- The members `epmSyncMarker`, `TMIdentifier` and `TMCounter` of
`packet->header`, as functions of the bytes of the packet. -/
structure RawHeaderView where
  epmSyncMarker : EPMTelemetryPacket → Nat
  TMIdentifier : EPMTelemetryPacket → Nat
  TMCounter : EPMTelemetryPacket → Nat

/-- The file system as seen by the test reader, by call number. -/
structure FileEnv where
  openResult : Nat → Int
  readResult : Nat → ReadResult
  closeResult : Nat → Int

/-- The variables of `_tmain` of the test reader and what the model observes:
the global buffer `epmPacket`, `count`, the locals of the loop body, the
numbers of calls made so far of `_sopen_s`, `_read` and `_close`, and the
arguments of `Sleep` in order. -/
structure TestReaderState where
  epmPacket : EPMTelemetryPacket
  count : Nat
  packets_read : Nat
  bytes_read : Int
  previousTMCounter : Nat
  opens : Nat
  reads : Nat
  closes : Nat
  sleeps : List Nat

/-- How the test reader ends: the message box it shows before `exit`. -/
inductive TestReaderEnd where
  /-- "Error opening ... for binary read." -/
  | openError
  /-- "Error reading from ..." -/
  | readError
  /-- "Unrecognized packet from ..." -/
  | unrecognized
  /-- "Packets out of order from ..." -/
  | outOfOrder
  /-- "Error closing ... after binary read." and `exit( return_code )`. -/
  | closeError (code : Int)
  /-- The loops have not ended within the iterations allotted to the model. -/
  | outOfFuel
  deriving DecidableEq, Repr

/-- The read loop of the test reader (lines 62-65), at most `fuel` calls of
`_read`: `none` when the iterations allotted are used up. -/
def testReadLoop (K : GripConstants) (env : FileEnv) :
    Nat → TestReaderState → Option TestReaderState
  | 0, _ => none
  | fuel + 1, s =>
      let s := { s with
        bytes_read := (env.readResult s.reads).count,
        epmPacket := (env.readResult s.reads).store s.epmPacket,
        reads := s.reads + 1 }
      if (K.rtPacketLengthInBytes : Int) = s.bytes_read then
        testReadLoop K env fuel { s with packets_read := s.packets_read + 1 }
      else some s

/-- One pass through the loop of the test reader (lines 44-83): `some end` when
the pass ends the program, `none` when the loop goes on. -/
def testReaderPass (V : RawHeaderView) (K : GripConstants) (env : FileEnv) (fuel : Nat)
    (s : TestReaderState) : Option TestReaderEnd × TestReaderState :=
  let s := { s with packets_read := 0, previousTMCounter := 0 }
  let return_code := env.openResult s.opens
  let s := { s with opens := s.opens + 1 }
  if return_code ≠ 0 then (some TestReaderEnd.openError, s)
  else
    match testReadLoop K env fuel s with
    | none => (some TestReaderEnd.outOfFuel, s)
    | some s =>
        if s.bytes_read < 0 then (some TestReaderEnd.readError, s)
        else if V.epmSyncMarker s.epmPacket ≠ K.EPM_TELEMETRY_SYNC_VALUE
            ∨ V.TMIdentifier s.epmPacket ≠ K.GRIP_RT_ID then
          (some TestReaderEnd.unrecognized, s)
        else if V.TMCounter s.epmPacket ≤ s.previousTMCounter then
          (some TestReaderEnd.outOfOrder, s)
        else
          let return_code := env.closeResult s.closes
          let s := { s with closes := s.closes + 1 }
          if return_code ≠ 0 then (some (TestReaderEnd.closeError return_code), s)
          else (none, { s with count := s.count + 1, sleeps := s.sleeps ++ [1000] })

/-- The loop of the test reader, at most `passes` passes of at most `fuel`
reads each. -/
def testReaderLoop (V : RawHeaderView) (K : GripConstants) (env : FileEnv) (fuel : Nat) :
    Nat → TestReaderState → TestReaderEnd × TestReaderState
  | 0, s => (TestReaderEnd.outOfFuel, s)
  | passes + 1, s =>
      match testReaderPass V K env fuel s with
      | (some e, s) => (e, s)
      | (none, s) => testReaderLoop V K env fuel passes s

/-! ## Concrete inputs for the test reader -/

/-- The header members read as a packed overlay of the buffer on the
little-endian host: `epmSyncMarker` at offset 12, `TMIdentifier` at offset 20,
`TMCounter` at offset 22. -/
def sampleHeaderView : RawHeaderView :=
  { epmSyncMarker := fun p =>
      getByte p 12 + 256 * getByte p 13 + 65536 * getByte p 14 + 16777216 * getByte p 15,
    TMIdentifier := fun p => getByte p 20 + 256 * getByte p 21,
    TMCounter := fun p => getByte p 22 + 256 * getByte p 23 }

/-- A realtime record of 800 bytes that `sampleHeaderView` recognizes under
`sampleConstants`, with the given counter in the low byte of `TMCounter`. -/
def sampleRawRtRecord (counter : Fin 256) : List (Fin 256) :=
  (List.range 800).map fun j =>
    if j = 12 then 77 else if j = 13 then 84 else if j = 14 then 219 else if j = 15 then 255
    else if j = 20 then 1 else if j = 21 then 16 else if j = 22 then counter else 0

/-- A file system in which every `_sopen_s` and `_close` succeeds and the cache
holds one record, `sampleRawRtRecord counter`, on every pass: the reads with an
even call number deliver the record, those with an odd one the end of file. -/
def sampleRepeatingFileEnv (counter : Fin 256) : FileEnv :=
  { openResult := fun _ => 0,
    readResult := fun k =>
      if k % 2 = 0 then ReadResult.data (sampleRawRtRecord counter) else ReadResult.data [],
    closeResult := fun _ => 0 }

/-- The state of the test reader before its first pass. -/
def sampleTestReaderState : TestReaderState :=
  { epmPacket := zeroPacket, count := 0, packets_read := 0, bytes_read := 0,
    previousTMCounter := 0, opens := 0, reads := 0, closes := 0, sleeps := [] }

/-- The layout of one slice as the specification gives it, on the side of the
decoder: the slice `d` holds what the 75 bytes from offset `o` of `q` say,
`poseTick` in 4 bytes, `position` in 6, `quaternion` in 16, the two marker
masks in 8, the visibility flag in 1, `analogTick` in 4, the two force and
torque blocks in 24 and `acceleration` in 12. -/
def sliceReadsFrom (q : EPMTelemetryPacket) (o : Nat) (d : GripRealtimeDataSlice) : Prop :=
  d.poseTick = be32At q o ∧
  d.position = { X := ((toInt16 (be16At q (o + 4)) : Int) : ℚ),
                 Y := ((toInt16 (be16At q (o + 6)) : Int) : ℚ),
                 Z := ((toInt16 (be16At q (o + 8)) : Int) : ℚ) } ∧
  d.quaternion = { X := be32At q (o + 10), Y := be32At q (o + 14), Z := be32At q (o + 18),
                   M := be32At q (o + 22) } ∧
  d.markerVisibility0 = be32At q (o + 26) ∧
  d.markerVisibility1 = be32At q (o + 30) ∧
  d.manipulandumVisibility = getByte q (o + 34) ∧
  d.analogTick = be32At q (o + 35) ∧
  d.ft0 = { force := { X := doubleDiv ((toInt16 (be16At q (o + 39)) : Int) : ℚ) 100,
                       Y := doubleDiv ((toInt16 (be16At q (o + 41)) : Int) : ℚ) 100,
                       Z := doubleDiv ((toInt16 (be16At q (o + 43)) : Int) : ℚ) 100 },
            torque := { X := doubleDiv ((toInt16 (be16At q (o + 45)) : Int) : ℚ) 1000,
                        Y := doubleDiv ((toInt16 (be16At q (o + 47)) : Int) : ℚ) 1000,
                        Z := doubleDiv ((toInt16 (be16At q (o + 49)) : Int) : ℚ) 1000 } } ∧
  d.ft1 = { force := { X := doubleDiv ((toInt16 (be16At q (o + 51)) : Int) : ℚ) 100,
                       Y := doubleDiv ((toInt16 (be16At q (o + 53)) : Int) : ℚ) 100,
                       Z := doubleDiv ((toInt16 (be16At q (o + 55)) : Int) : ℚ) 100 },
            torque := { X := doubleDiv ((toInt16 (be16At q (o + 57)) : Int) : ℚ) 1000,
                        Y := doubleDiv ((toInt16 (be16At q (o + 59)) : Int) : ℚ) 1000,
                        Z := doubleDiv ((toInt16 (be16At q (o + 61)) : Int) : ℚ) 1000 } } ∧
  d.acceleration = { X := doubleDiv (doubleDiv ((toInt32 (be32At q (o + 63)) : Int) : ℚ) 1000)
                       (roundDouble (98 / 10)),
                     Y := doubleDiv (doubleDiv ((toInt32 (be32At q (o + 67)) : Int) : ℚ) 1000)
                       (roundDouble (98 / 10)),
                     Z := doubleDiv (doubleDiv ((toInt32 (be32At q (o + 71)) : Int) : ℚ) 1000)
                       (roundDouble (98 / 10)) }

instance (q : EPMTelemetryPacket) (o : Nat) (d : GripRealtimeDataSlice) :
    Decidable (sliceReadsFrom q o d) := by
  unfold sliceReadsFrom; infer_instance

/-- The layout of one slice as the specification gives it, on the side of the
encoder: the 75 bytes from offset `o` of `e` hold the wire values of the slice
`s`, at the same offsets and in the same widths as `sliceReadsFrom`. -/
def sliceWrittenAt (e : EPMTelemetryPacket) (o : Nat) (s : GripRealtimeDataSlice) : Prop :=
  be32At e o = s.poseTick % 4294967296 ∧
  be16At e (o + 4) = toUInt16 (castShort (doubleMul s.position.X 10)) ∧
  be16At e (o + 6) = toUInt16 (castShort (doubleMul s.position.Y 10)) ∧
  be16At e (o + 8) = toUInt16 (castShort (doubleMul s.position.Z 10)) ∧
  be32At e (o + 10) = s.quaternion.X % 4294967296 ∧
  be32At e (o + 14) = s.quaternion.Y % 4294967296 ∧
  be32At e (o + 18) = s.quaternion.Z % 4294967296 ∧
  be32At e (o + 22) = s.quaternion.M % 4294967296 ∧
  be32At e (o + 26) = s.markerVisibility0 % 4294967296 ∧
  be32At e (o + 30) = s.markerVisibility1 % 4294967296 ∧
  getByte e (o + 34) = s.manipulandumVisibility % 256 ∧
  be32At e (o + 35) = s.analogTick % 4294967296 ∧
  be16At e (o + 39) = toUInt16 (castShort (doubleMul s.ft0.force.X 100)) ∧
  be16At e (o + 41) = toUInt16 (castShort (doubleMul s.ft0.force.Y 100)) ∧
  be16At e (o + 43) = toUInt16 (castShort (doubleMul s.ft0.force.Z 100)) ∧
  be16At e (o + 45) = toUInt16 (castShort (doubleMul s.ft0.torque.X 1000)) ∧
  be16At e (o + 47) = toUInt16 (castShort (doubleMul s.ft0.torque.Y 1000)) ∧
  be16At e (o + 49) = toUInt16 (castShort (doubleMul s.ft0.torque.Z 1000)) ∧
  be16At e (o + 51) = toUInt16 (castShort (doubleMul s.ft1.force.X 100)) ∧
  be16At e (o + 53) = toUInt16 (castShort (doubleMul s.ft1.force.Y 100)) ∧
  be16At e (o + 55) = toUInt16 (castShort (doubleMul s.ft1.force.Z 100)) ∧
  be16At e (o + 57) = toUInt16 (castShort (doubleMul s.ft1.torque.X 1000)) ∧
  be16At e (o + 59) = toUInt16 (castShort (doubleMul s.ft1.torque.Y 1000)) ∧
  be16At e (o + 61) = toUInt16 (castShort (doubleMul s.ft1.torque.Z 1000)) ∧
  be32At e (o + 63) = toUInt32 (castLong
    (doubleMul (doubleMul s.acceleration.X 1000) (roundDouble (98 / 10)))) ∧
  be32At e (o + 67) = toUInt32 (castLong
    (doubleMul (doubleMul s.acceleration.Y 1000) (roundDouble (98 / 10)))) ∧
  be32At e (o + 71) = toUInt32 (castLong
    (doubleMul (doubleMul s.acceleration.Z 1000) (roundDouble (98 / 10))))

instance (e : EPMTelemetryPacket) (o : Nat) (s : GripRealtimeDataSlice) :
    Decidable (sliceWrittenAt e o s) := by
  unfold sliceWrittenAt; infer_instance

/-! ## Basic facts about buffers and conversions -/

theorem getByte_lt (p : EPMTelemetryPacket) (i : Nat) : getByte p i < 256 := (p i).isLt

theorem getByte_setByte (p : EPMTelemetryPacket) (i v j : Nat) :
    getByte (setByte p i v) j = if j = i then v % 256 else getByte p j := by
  unfold getByte setByte
  split <;> rfl

theorem toUInt16_toInt16 (u : Nat) : toUInt16 (toInt16 u) = u % 65536 := by
  unfold toUInt16 toInt16
  split <;> omega

theorem toUInt32_toInt32 (u : Nat) : toUInt32 (toInt32 u) = u % 4294967296 := by
  unfold toUInt32 toInt32
  split <;> omega

theorem toUInt8_toInt8 (u : Nat) : toUInt8 (toInt8 u) = u % 256 := by
  unfold toUInt8 toInt8
  split <;> omega


theorem swap_bytes2 (a b : Nat) (ha : a < 256) (hb : b < 256) :
    (a + 256 * b) % 256 = a ∧ (a + 256 * b) / 256 % 256 = b := by omega

theorem swap_bytes4 (a b c d : Nat) (ha : a < 256) (hb : b < 256) (hc : c < 256) (hd : d < 256) :
    (a + 256 * b + 65536 * c + 16777216 * d) % 256 = a ∧
    (a + 256 * b + 65536 * c + 16777216 * d) / 256 % 256 = b ∧
    (a + 256 * b + 65536 * c + 16777216 * d) / 65536 % 256 = c ∧
    (a + 256 * b + 65536 * c + 16777216 * d) / 16777216 % 256 = d := by omega

/-- Storing a byte-swapped `unsigned short` on the host writes it big-endian. -/
theorem storeShort_swapbytes_short (p : EPMTelemetryPacket) (ptr v : Nat) :
    storeShort p ptr (swapbytes_short v) =
      setByte (setByte p ptr (v / 256 % 256)) (ptr + 1) (v % 256) := by
  have h := swap_bytes2 (v / 256 % 256) (v % 256) (Nat.mod_lt _ (by decide))
    (Nat.mod_lt _ (by decide))
  simp only [storeShort, swapbytes_short, h.1, h.2]

/-- Storing a byte-swapped `unsigned long` on the host writes it big-endian. -/
theorem storeLong_swapbytes_long (p : EPMTelemetryPacket) (ptr v : Nat) :
    storeLong p ptr (swapbytes_long v) = insert_ulong p ptr v := by
  have h := swap_bytes4 (v / 16777216 % 256) (v / 65536 % 256) (v / 256 % 256) (v % 256)
    (Nat.mod_lt _ (by decide)) (Nat.mod_lt _ (by decide)) (Nat.mod_lt _ (by decide))
    (Nat.mod_lt _ (by decide))
  simp only [storeLong, swapbytes_long, insert_ulong, h.1, h.2.1, h.2.2.1, h.2.2.2]

/-- An `unsigned short` field read with `extract_reversed_short` is the
big-endian value of the two bytes. -/
theorem toUInt16_extract_reversed_short (p : EPMTelemetryPacket) (ptr : Nat) :
    toUInt16 (extract_reversed_short p ptr) = 256 * getByte p ptr + getByte p (ptr + 1) := by
  have h0 := getByte_lt p ptr
  have h1 := getByte_lt p (ptr + 1)
  simp only [extract_reversed_short, toUInt16_toInt16]
  omega

/-- An `unsigned long` field read with `extract_reversed_long` is the
big-endian value of the four bytes. -/
theorem toUInt32_extract_reversed_long (p : EPMTelemetryPacket) (ptr : Nat) :
    toUInt32 (extract_reversed_long p ptr) =
      16777216 * getByte p ptr + 65536 * getByte p (ptr + 1) + 256 * getByte p (ptr + 2)
        + getByte p (ptr + 3) := by
  have h0 := getByte_lt p ptr
  have h1 := getByte_lt p (ptr + 1)
  have h2 := getByte_lt p (ptr + 2)
  have h3 := getByte_lt p (ptr + 3)
  simp only [extract_reversed_long, toUInt32_toInt32]
  omega

/-! ## Header round trips and layout -/

/-- C2: a transfer-frame header whose fields lie within their wire widths is
returned unchanged, in all six fields, by `ExtractEPMTransferFrameHeaderInfo`
applied to the buffer written by `InsertEPMTransferFrameHeaderInfo`. -/
theorem transferFrameHeader_roundtrip (p : EPMTelemetryPacket)
    (h : EPMTransferFrameHeaderInfo) (hr : h.inRange) :
    ExtractEPMTransferFrameHeaderInfo (InsertEPMTransferFrameHeaderInfo p h).1 = h := by
  obtain ⟨a, b, c, d, e, f⟩ := h
  obtain ⟨h1, h2, h3, h4, h5, h6⟩ := hr
  simp only at h1 h2 h3 h4 h5 h6
  simp only [ExtractEPMTransferFrameHeaderInfo, InsertEPMTransferFrameHeaderInfo,
    toUInt16_extract_reversed_short, toUInt32_extract_reversed_long, ExtractChar,
    storeLong_swapbytes_long, storeShort_swapbytes_short, insert_ulong, getByte_setByte,
    Nat.zero_add, Nat.reduceAdd, Nat.reduceEqDiff, reduceIte,
    EPMTransferFrameHeaderInfo.mk.injEq]
  refine ⟨?_, ?_, ?_, ?_, ?_, ?_⟩ <;> omega

/-- Witness for C2: the round trip of a connect frame header through the zero buffer. -/
theorem transferFrameHeader_roundtrip_witness :
    (EPMTransferFrameHeaderInfo.mk 2856710747 0 17 1 0 6).inRange ∧
    ExtractEPMTransferFrameHeaderInfo
      (InsertEPMTransferFrameHeaderInfo (fun _ => 0)
        (EPMTransferFrameHeaderInfo.mk 2856710747 0 17 1 0 6)).1
      = EPMTransferFrameHeaderInfo.mk 2856710747 0 17 1 0 6 :=
  ⟨by decide, transferFrameHeader_roundtrip _ _ (by decide)⟩

/-- C1: a telemetry header whose fields lie within their wire widths is returned
unchanged, in every field including the embedded transfer-frame fields, by
`ExtractEPMTelemetryHeaderInfo` applied to the buffer written by
`InsertEPMTelemetryHeaderInfo`. -/
theorem telemetryHeader_roundtrip (p : EPMTelemetryPacket)
    (h : EPMTelemetryHeaderInfo) (hr : h.inRange) :
    ExtractEPMTelemetryHeaderInfo (InsertEPMTelemetryHeaderInfo p h).1 = h := by
  obtain ⟨⟨a, b, c, d, e, f⟩, g1, g2, g3, g4, g5, g6, g7, g8, g9, g10, g11, g12, g13, g14,
    g15, g16, g17, g18⟩ := h
  obtain ⟨⟨h1, h2, h3, h4, h5, h6⟩, k1, k2, k3, k4, k5, k6, k7, k8, k9, k10, k11, k12, k13,
    k14, k15, k16, k17, k18⟩ := hr
  simp only at h1 h2 h3 h4 h5 h6 k1 k2 k3 k4 k5 k6 k7 k8 k9 k10 k11 k12 k13 k14 k15 k16 k17 k18
  simp only [ExtractEPMTelemetryHeaderInfo, InsertEPMTelemetryHeaderInfo,
    InsertEPMTransferFrameHeaderInfo,
    toUInt16_extract_reversed_short, toUInt32_extract_reversed_long, ExtractChar,
    storeLong_swapbytes_long, storeShort_swapbytes_short, insert_ulong, getByte_setByte,
    Nat.zero_add, Nat.reduceAdd, Nat.reduceEqDiff, reduceIte,
    EPMTelemetryHeaderInfo.mk.injEq, EPMTransferFrameHeaderInfo.mk.injEq]
  refine ⟨⟨?_, ?_, ?_, ?_, ?_, ?_⟩, ?_, ?_, ?_, ?_, ?_, ?_, ?_, ?_, ?_, ?_, ?_, ?_, ?_, ?_,
    ?_, ?_, ?_, ?_⟩ <;> omega


/-- Witness for C1: the round trip of a housekeeping packet header through the
zero buffer. -/
theorem telemetryHeader_roundtrip_witness :
    (EPMTelemetryHeaderInfo.mk (EPMTransferFrameHeaderInfo.mk 2856710747 0 17 4353 0 379)
      4292564045 0 33 0 0 769 65535 0 0 0 1130000000 9990 0 0 1 0 0 375).inRange ∧
    ExtractEPMTelemetryHeaderInfo
      (InsertEPMTelemetryHeaderInfo (fun _ => 0)
        (EPMTelemetryHeaderInfo.mk (EPMTransferFrameHeaderInfo.mk 2856710747 0 17 4353 0 379)
          4292564045 0 33 0 0 769 65535 0 0 0 1130000000 9990 0 0 1 0 0 375)).1
      = EPMTelemetryHeaderInfo.mk (EPMTransferFrameHeaderInfo.mk 2856710747 0 17 4353 0 379)
          4292564045 0 33 0 0 769 65535 0 0 0 1130000000 9990 0 0 1 0 0 375 :=
  ⟨by decide, telemetryHeader_roundtrip _ _ (by decide)⟩

/-- C3: for every packet buffer, `ExtractEPMTelemetryHeaderInfo` reads each
multi-byte field at a fixed offset, most significant byte first:
`epmLanSyncMarker` from bytes 0-3, `packetType` from bytes 6-7, `epmSyncMarker`
from bytes 12-15, `subsystemID` from byte 17, `TMIdentifier` from bytes 20-21,
`TMCounter` from bytes 22-23, `coarseTime` from bytes 28-31 and `fineTime` from
bytes 32-33. -/
theorem telemetryHeader_bigEndian_layout (b : EPMTelemetryPacket) :
    (ExtractEPMTelemetryHeaderInfo b).transferFrameInfo.epmLanSyncMarker =
      getByte b 0 * 2 ^ 24 + getByte b 1 * 2 ^ 16 + getByte b 2 * 2 ^ 8 + getByte b 3 ∧
    (ExtractEPMTelemetryHeaderInfo b).transferFrameInfo.packetType =
      256 * getByte b 6 + getByte b 7 ∧
    (ExtractEPMTelemetryHeaderInfo b).epmSyncMarker =
      getByte b 12 * 2 ^ 24 + getByte b 13 * 2 ^ 16 + getByte b 14 * 2 ^ 8 + getByte b 15 ∧
    (ExtractEPMTelemetryHeaderInfo b).subsystemID = getByte b 17 ∧
    (ExtractEPMTelemetryHeaderInfo b).TMIdentifier = 256 * getByte b 20 + getByte b 21 ∧
    (ExtractEPMTelemetryHeaderInfo b).TMCounter = 256 * getByte b 22 + getByte b 23 ∧
    (ExtractEPMTelemetryHeaderInfo b).coarseTime =
      getByte b 28 * 2 ^ 24 + getByte b 29 * 2 ^ 16 + getByte b 30 * 2 ^ 8 + getByte b 31 ∧
    (ExtractEPMTelemetryHeaderInfo b).fineTime = 256 * getByte b 32 + getByte b 33 := by
  simp only [ExtractEPMTelemetryHeaderInfo, toUInt16_extract_reversed_short,
    toUInt32_extract_reversed_long, ExtractChar, Nat.zero_add, Nat.reduceAdd, Nat.reducePow]
  refine ⟨?_, ?_, ?_, ?_, ?_, ?_, ?_, ?_⟩ <;> first | trivial | omega


theorem setByte_ne (p : EPMTelemetryPacket) (i v j : Nat) (h : j ≠ i) :
    setByte p i v j = p j := by
  simp only [setByte, if_neg h]

theorem toUInt8_ExtractSignedChar (p : EPMTelemetryPacket) (ptr : Nat) :
    toUInt8 (ExtractSignedChar p ptr) = getByte p ptr := by
  have h := getByte_lt p ptr
  simp only [ExtractSignedChar, toUInt8_toInt8]
  omega

/-! ## Housekeeping round trip -/

/-- C8: a housekeeping record whose fields lie within their wire widths is
returned unchanged, in all 20 encoded fields, by `ExtractGripHealthAndStatusInfo`
applied to the packet written by `InsertGripHealthAndStatusInfo`; and both
functions use the same 44-byte region that starts 76 bytes into the payload:
the encoder changes no byte outside it and the decoder depends on no byte
outside it. -/
theorem healthAndStatus_roundtrip (rawData : Nat) (p : EPMTelemetryPacket)
    (hk : GripHealthAndStatusInfo) (hr : hk.inRange) :
    ExtractGripHealthAndStatusInfo rawData (InsertGripHealthAndStatusInfo rawData p hk) = hk ∧
    (∀ j, j < rawData + 76 ∨ rawData + 76 + 44 ≤ j →
      InsertGripHealthAndStatusInfo rawData p hk j = p j) ∧
    (∀ q q2 : EPMTelemetryPacket,
      (∀ j, rawData + 76 ≤ j → j < rawData + 76 + 44 → q j = q2 j) →
      ExtractGripHealthAndStatusInfo rawData q = ExtractGripHealthAndStatusInfo rawData q2) := by
  refine ⟨?_, ?_, ?_⟩
  · obtain ⟨a1, a2, a3, a4, a5, a6, a7, a8, a9, a10, a11, a12, a13, a14, a15, a16, a17, a18,
      a19, a20⟩ := hk
    obtain ⟨h1, h2, h3, h4, h5, h6, h7, h8, h9, h10, h11, h12, h13, h14, h15, h16, h17, h18,
      h19, h20⟩ := hr
    simp only at h1 h2 h3 h4 h5 h6 h7 h8 h9 h10 h11 h12 h13 h14 h15 h16 h17 h18 h19 h20
    simp only [ExtractGripHealthAndStatusInfo, InsertGripHealthAndStatusInfo,
      toUInt16_extract_reversed_short, toUInt32_extract_reversed_long,
      toUInt8_ExtractSignedChar,
      storeLong_swapbytes_long, storeShort_swapbytes_short, insert_ulong, getByte_setByte,
      Nat.add_assoc, Nat.reduceAdd, Nat.add_left_cancel_iff, Nat.reduceEqDiff, reduceIte,
      GripHealthAndStatusInfo.mk.injEq]
    refine ⟨?_, ?_, ?_, ?_, ?_, ?_, ?_, ?_, ?_, ?_, ?_, ?_, ?_, ?_, ?_, ?_, ?_, ?_, ?_, ?_⟩ <;>
      omega
  · intro j hj
    simp only [InsertGripHealthAndStatusInfo, storeLong_swapbytes_long,
      storeShort_swapbytes_short, insert_ulong]
    simp (disch := omega) only [setByte_ne]
  · intro q q2 h
    simp only [ExtractGripHealthAndStatusInfo, extract_reversed_short, extract_reversed_long,
      ExtractSignedChar, getByte]
    simp (disch := omega) only [h]


/-- Witness for C8: the round trip of a housekeeping record through the zero
buffer with the payload at offset 42. -/
theorem healthAndStatus_roundtrip_witness :
    (GripHealthAndStatusInfo.mk 1 2048 3 27 11 201 210 10 0 0 2 2 0 0 0 0 4000000000 7 0
      65535).inRange ∧
    (ExtractGripHealthAndStatusInfo 42 (InsertGripHealthAndStatusInfo 42 (fun _ => 0)
        (GripHealthAndStatusInfo.mk 1 2048 3 27 11 201 210 10 0 0 2 2 0 0 0 0 4000000000 7 0
          65535))
      = GripHealthAndStatusInfo.mk 1 2048 3 27 11 201 210 10 0 0 2 2 0 0 0 0 4000000000 7 0
          65535 ∧
    (∀ j, j < 42 + 76 ∨ 42 + 76 + 44 ≤ j →
      InsertGripHealthAndStatusInfo 42 (fun _ => 0)
        (GripHealthAndStatusInfo.mk 1 2048 3 27 11 201 210 10 0 0 2 2 0 0 0 0 4000000000 7 0
          65535) j = (fun _ => 0) j) ∧
    (∀ q q2 : EPMTelemetryPacket,
      (∀ j, 42 + 76 ≤ j → j < 42 + 76 + 44 → q j = q2 j) →
      ExtractGripHealthAndStatusInfo 42 q = ExtractGripHealthAndStatusInfo 42 q2)) :=
  ⟨by decide, healthAndStatus_roundtrip 42 _ _ (by decide)⟩

/-! ## Rounding to binary64 -/

theorem roundHalfEven_bounds (z : ℚ) : ⌊z⌋ ≤ roundHalfEven z ∧ roundHalfEven z ≤ ⌈z⌉ := by
  unfold roundHalfEven
  have hc : ⌊z⌋ + 1 ≤ ⌈z⌉ ∨ Int.fract z = 0 := by
    by_cases h : Int.fract z = 0
    · exact Or.inr h
    · left
      have h1 : z ≠ ⌊z⌋ := fun e => h (by rw [Int.fract]; linarith)
      have h2 : (⌊z⌋ : ℚ) < z := lt_of_le_of_ne (Int.floor_le z) (Ne.symm h1)
      have h3 : ⌊z⌋ < ⌈z⌉ := by
        have := Int.le_ceil z
        exact_mod_cast lt_of_lt_of_le h2 this
      omega
  have hfc : ⌊z⌋ ≤ ⌈z⌉ := Int.floor_le_ceil z
  split_ifs with h1 h2 h3
  · exact ⟨le_refl _, hfc⟩
  · rcases hc with hc | hc
    · exact ⟨by omega, hc⟩
    · rw [hc] at h2; norm_num at h2
  · exact ⟨le_refl _, hfc⟩
  · rcases hc with hc | hc
    · exact ⟨by omega, hc⟩
    · rw [hc] at h1; norm_num at h1

theorem roundHalfEven_abs_sub_le (z : ℚ) : |((roundHalfEven z : Int) : ℚ) - z| ≤ 1 / 2 := by
  have hf : z = ⌊z⌋ + Int.fract z := (Int.floor_add_fract z).symm
  have h0 := Int.fract_nonneg z
  have h1 := Int.fract_lt_one z
  unfold roundHalfEven
  rw [abs_le]
  split_ifs with a b c
  · constructor <;> linarith
  · push_cast; constructor <;> linarith
  · have : Int.fract z = 1 / 2 := le_antisymm (not_lt.mp b) (not_lt.mp a)
    constructor <;> linarith
  · have : Int.fract z = 1 / 2 := le_antisymm (not_lt.mp b) (not_lt.mp a)
    push_cast; constructor <;> linarith

theorem roundHalfEven_eq_of_near (z : ℚ) (n : Int) (h : |z - (n : ℚ)| < 1 / 2) :
    roundHalfEven z = n := by
  have h1 := roundHalfEven_abs_sub_le z
  rw [abs_le] at h1
  rw [abs_lt] at h
  have h2 : ((roundHalfEven z : Int) : ℚ) - n < 1 := by linarith
  have h3 : (-1 : ℚ) < ((roundHalfEven z : Int) : ℚ) - n := by linarith
  have h4 : roundHalfEven z - n < 1 := by exact_mod_cast h2
  have h5 : -1 < roundHalfEven z - n := by exact_mod_cast h3
  omega

theorem doubleQuantum_pos (x : ℚ) : 0 < doubleQuantum x := by
  unfold doubleQuantum
  positivity

theorem roundDouble_abs_sub_le (x : ℚ) : |roundDouble x - x| ≤ doubleQuantum x / 2 := by
  have hq := doubleQuantum_pos x
  have h := roundHalfEven_abs_sub_le (x / doubleQuantum x)
  have e : roundDouble x - x
      = (((roundHalfEven (x / doubleQuantum x) : Int) : ℚ) - x / doubleQuantum x)
          * doubleQuantum x := by
    unfold roundDouble
    field_simp
  rw [e, abs_mul, abs_of_pos hq]
  calc _ ≤ 1 / 2 * doubleQuantum x := mul_le_mul_of_nonneg_right h hq.le
    _ = doubleQuantum x / 2 := by ring

theorem doubleExponent_ge (x : ℚ) : -1022 ≤ doubleExponent x := by
  unfold doubleExponent
  split_ifs
  · exact le_refl _
  · exact le_max_right _ _

theorem doubleExponent_le (x : ℚ) (e : Int) (he : -1022 ≤ e) (hx : |x| < (2 : ℚ) ^ (e + 1)) :
    doubleExponent x ≤ e := by
  unfold doubleExponent
  split_ifs with h0
  · exact he
  · have hpos : 0 < |x| := abs_pos.mpr h0
    have h := (Int.lt_zpow_iff_log_lt (b := 2) (by norm_num) hpos).mp (by exact_mod_cast hx)
    exact max_le (by omega) he

theorem doubleExponent_eq (x : ℚ) (e : Int) (he : -1022 ≤ e) (h1 : (2 : ℚ) ^ e ≤ |x|)
    (h2 : |x| < (2 : ℚ) ^ (e + 1)) : doubleExponent x = e := by
  have hpos : 0 < |x| := lt_of_lt_of_le (by positivity) h1
  have h0 : x ≠ 0 := abs_pos.mp hpos
  have ha := (Int.zpow_le_iff_le_log (b := 2) (by norm_num) hpos).mp (by exact_mod_cast h1)
  have hb := (Int.lt_zpow_iff_log_lt (b := 2) (by norm_num) hpos).mp (by exact_mod_cast h2)
  unfold doubleExponent
  rw [if_neg h0]
  have : Int.log 2 |x| = e := by omega
  rw [this]
  exact max_eq_left he

theorem doubleQuantum_le (x : ℚ) (e : Int) (he : -1022 ≤ e) (hx : |x| < (2 : ℚ) ^ (e + 1)) :
    doubleQuantum x ≤ (2 : ℚ) ^ (e - 52) := by
  unfold doubleQuantum
  exact zpow_le_zpow_right₀ (by norm_num) (by have := doubleExponent_le x e he hx; omega)

/-- The rounding error of binary64 below `2 ^ (e + 1)`: half a unit in the last
place. -/
theorem roundDouble_error (x : ℚ) (e : Int) (he : -1022 ≤ e) (hx : |x| < (2 : ℚ) ^ (e + 1)) :
    |roundDouble x - x| ≤ (2 : ℚ) ^ (e - 53) := by
  have h1 := roundDouble_abs_sub_le x
  have h2 := doubleQuantum_le x e he hx
  have h3 : (2 : ℚ) ^ (e - 52) / 2 = (2 : ℚ) ^ (e - 53) := by
    rw [show e - 52 = (e - 53) + 1 by ring, zpow_add_one₀ (by norm_num)]
    ring
  linarith

/-- Evaluation of a rounding: a value of binade `e` goes to the multiple of
`2 ^ (e - 52)` that is nearer than half a multiple. -/
theorem roundDouble_eq_of_near (x : ℚ) (e : Int) (n : Int) (he : -1022 ≤ e)
    (h1 : (2 : ℚ) ^ e ≤ |x|) (h2 : |x| < (2 : ℚ) ^ (e + 1))
    (hn : |x / (2 : ℚ) ^ (e - 52) - (n : ℚ)| < 1 / 2) :
    roundDouble x = (n : ℚ) * (2 : ℚ) ^ (e - 52) := by
  have hq : doubleQuantum x = (2 : ℚ) ^ (e - 52) := by
    unfold doubleQuantum
    rw [doubleExponent_eq x e he h1 h2]
  unfold roundDouble
  rw [hq, roundHalfEven_eq_of_near _ n hn]

/-- A multiple of the spacing around `x` that is not above `x` is not above the
rounded `x`. -/
theorem roundDouble_ge_of_grid (x : ℚ) (j : Int) (h : (j : ℚ) * doubleQuantum x ≤ x) :
    (j : ℚ) * doubleQuantum x ≤ roundDouble x := by
  have hq := doubleQuantum_pos x
  have h1 : (j : ℚ) ≤ x / doubleQuantum x := by rwa [le_div_iff₀ hq]
  have h2 : j ≤ ⌊x / doubleQuantum x⌋ := Int.le_floor.mpr h1
  have h3 := (roundHalfEven_bounds (x / doubleQuantum x)).1
  unfold roundDouble
  exact mul_le_mul_of_nonneg_right (by exact_mod_cast le_trans h2 h3) hq.le

theorem roundDouble_le_of_grid (x : ℚ) (j : Int) (h : x ≤ (j : ℚ) * doubleQuantum x) :
    roundDouble x ≤ (j : ℚ) * doubleQuantum x := by
  have hq := doubleQuantum_pos x
  have h1 : x / doubleQuantum x ≤ (j : ℚ) := by rwa [div_le_iff₀ hq]
  have h2 : ⌈x / doubleQuantum x⌉ ≤ j := Int.ceil_le.mpr h1
  have h3 := (roundHalfEven_bounds (x / doubleQuantum x)).2
  unfold roundDouble
  exact mul_le_mul_of_nonneg_right (by exact_mod_cast le_trans h3 h2) hq.le

/-- An integer is a multiple of the spacing around a value below `2 ^ 53`. -/
theorem int_on_grid (x : ℚ) (hx : |x| < (2 : ℚ) ^ (53 : ℤ)) (m : Int) :
    ∃ j : Int, (m : ℚ) = (j : ℚ) * doubleQuantum x := by
  have h1 := doubleExponent_le x 52 (by norm_num) (by norm_num at hx ⊢; exact hx)
  have h2 := doubleExponent_ge x
  obtain ⟨n, hn⟩ : ∃ n : Nat, doubleExponent x - 52 = -(n : Int) :=
    ⟨(52 - doubleExponent x).toNat, by omega⟩
  refine ⟨m * 2 ^ n, ?_⟩
  unfold doubleQuantum
  rw [hn, zpow_neg, zpow_natCast]
  push_cast
  field_simp

theorem roundDouble_ge_int (x : ℚ) (hx : |x| < (2 : ℚ) ^ (53 : ℤ)) (m : Int) (h : (m : ℚ) ≤ x) :
    (m : ℚ) ≤ roundDouble x := by
  obtain ⟨j, hj⟩ := int_on_grid x hx m
  rw [hj] at h ⊢
  exact roundDouble_ge_of_grid x j h

theorem roundDouble_le_int (x : ℚ) (hx : |x| < (2 : ℚ) ^ (53 : ℤ)) (m : Int) (h : x ≤ (m : ℚ)) :
    roundDouble x ≤ (m : ℚ) := by
  obtain ⟨j, hj⟩ := int_on_grid x hx m
  rw [hj] at h ⊢
  exact roundDouble_le_of_grid x j h

/-- Integers below `2 ^ 53` are binary64 numbers. -/
theorem roundDouble_intCast (m : Int) (hm : |(m : ℚ)| < (2 : ℚ) ^ (53 : ℤ)) :
    roundDouble (m : ℚ) = (m : ℚ) :=
  le_antisymm (roundDouble_le_int _ hm m (le_refl _)) (roundDouble_ge_int _ hm m (le_refl _))

theorem roundDouble_zero : roundDouble 0 = 0 := by
  have := roundDouble_intCast 0 (by norm_num)
  simpa using this

/-- The relative rounding error of binary64 in the normal range. -/
theorem roundDouble_rel_error (x : ℚ) (hx : (2 : ℚ) ^ (-1022 : ℤ) ≤ |x|) :
    |roundDouble x - x| ≤ |x| * (2 : ℚ) ^ (-53 : ℤ) := by
  have hpos : 0 < |x| := lt_of_lt_of_le (by positivity) hx
  have h0 : x ≠ 0 := abs_pos.mp hpos
  have ha : (-1022 : Int) ≤ Int.log 2 |x| :=
    (Int.zpow_le_iff_le_log (b := 2) (by norm_num) hpos).mp (by rw [Nat.cast_ofNat]; exact hx)
  have hq : doubleQuantum x = (2 : ℚ) ^ (Int.log 2 |x|) * (2 : ℚ) ^ (-52 : ℤ) := by
    unfold doubleQuantum doubleExponent
    rw [if_neg h0, max_eq_left ha, ← zpow_add₀ (by norm_num)]
    rfl
  have hl : (2 : ℚ) ^ (Int.log 2 |x|) ≤ |x| := by
    have := Int.zpow_log_le_self (b := 2) (by norm_num) hpos
    exact_mod_cast this
  have h1 := roundDouble_abs_sub_le x
  rw [hq] at h1
  have h53 : (2 : ℚ) ^ (-53 : ℤ) = (2 : ℚ) ^ (-52 : ℤ) / 2 := by norm_num
  rw [h53]
  have h52 : (0 : ℚ) < (2 : ℚ) ^ (-52 : ℤ) := by positivity
  nlinarith

/-- A value whose rounding is below `B` is below `2 * B`. -/
theorem abs_lt_of_roundDouble_lt (x B : ℚ) (hB : (2 : ℚ) ^ (-1022 : ℤ) ≤ B)
    (h : |roundDouble x| < B) : |x| < 2 * B := by
  by_contra hc
  rw [not_lt] at hc
  have hB0 : 0 < B := lt_of_lt_of_le (by positivity) hB
  have hx : (2 : ℚ) ^ (-1022 : ℤ) ≤ |x| := by linarith
  have h1 := roundDouble_rel_error x hx
  have h2 : |x| - |roundDouble x| ≤ |roundDouble x - x| := by
    have := abs_sub_abs_le_abs_sub x (roundDouble x)
    rwa [abs_sub_comm] at this
  have h53 : (2 : ℚ) ^ (-53 : ℤ) ≤ 1 / 2 := by norm_num
  have hx0 : 0 ≤ |x| := abs_nonneg x
  have h3 := mul_le_mul_of_nonneg_left h53 hx0
  generalize |x| * (2 : ℚ) ^ (-53 : ℤ) = t at h1 h3
  generalize |roundDouble x - x| = u at h1 h2
  generalize |roundDouble x| = r at h h2
  generalize |x| = a at hc h2 h3
  linarith

/-! ## Time stamps -/

/-- The quotient `fineTime / 10000.0` of `EPMtoSeconds`: between 0 and 7, and
within `2 ^ -51` of the exact quotient. -/
theorem doubleDiv_fineTime (F : Nat) (hF : F < 2 ^ 16) :
    0 ≤ doubleDiv (F : ℚ) 10000 ∧ doubleDiv (F : ℚ) 10000 ≤ 7 ∧
    |doubleDiv (F : ℚ) 10000 - (F : ℚ) / 10000| ≤ 1 / 2 ^ 51 := by
  have hF' : (F : ℚ) < 65536 := by exact_mod_cast hF
  have hF0 : (0 : ℚ) ≤ (F : ℚ) := Nat.cast_nonneg F
  have h0 : (0 : ℚ) ≤ (F : ℚ) / 10000 := by positivity
  have h7 : (F : ℚ) / 10000 ≤ 7 := by
    rw [div_le_iff₀ (by norm_num)]
    linarith
  have habs : |(F : ℚ) / 10000| < (2 : ℚ) ^ (53 : ℤ) := by
    rw [abs_of_nonneg h0]
    norm_num
    linarith
  have habs3 : |(F : ℚ) / 10000| < (2 : ℚ) ^ ((2 : ℤ) + 1) := by
    rw [abs_of_nonneg h0]
    norm_num
    linarith
  have e := roundDouble_error _ 2 (by norm_num) habs3
  have g0 := roundDouble_ge_int _ habs 0 (by push_cast; exact h0)
  have g7 := roundDouble_le_int _ habs 7 (by push_cast; exact h7)
  push_cast at g0 g7
  unfold doubleDiv
  refine ⟨g0, g7, ?_⟩
  have e2 : (2 : ℚ) ^ ((2 : ℤ) - 53) = 1 / 2 ^ 51 := by norm_num
  rw [e2] at e
  exact e

/-- The value of `EPMtoSeconds` for a 32-bit coarse time and a 16-bit fine
time: not below the coarse time, and within `2 ^ -21 + 2 ^ -51` of
`coarseTime + fineTime / 10000`. -/
theorem EPMtoSeconds_error (h : EPMTelemetryHeaderInfo) (hC : h.coarseTime < 2 ^ 32)
    (hF : h.fineTime < 2 ^ 16) :
    (h.coarseTime : ℚ) ≤ EPMtoSeconds h ∧ EPMtoSeconds h ≤ (h.coarseTime : ℚ) + 7 ∧
    |EPMtoSeconds h - ((h.coarseTime : ℚ) + (h.fineTime : ℚ) / 10000)|
      ≤ 1 / 2 ^ 21 + 1 / 2 ^ 51 := by
  obtain ⟨r0, r7, re⟩ := doubleDiv_fineTime h.fineTime hF
  have hC' : (h.coarseTime : ℚ) < 4294967296 := by exact_mod_cast hC
  have hC0 : (0 : ℚ) ≤ (h.coarseTime : ℚ) := Nat.cast_nonneg _
  unfold EPMtoSeconds doubleAdd
  generalize doubleDiv (h.fineTime : ℚ) 10000 = r at r0 r7 re ⊢
  have hy0 : 0 ≤ (h.coarseTime : ℚ) + r := by linarith
  have habs : |(h.coarseTime : ℚ) + r| < (2 : ℚ) ^ (53 : ℤ) := by
    rw [abs_of_nonneg hy0]
    norm_num
    linarith
  have habs2 : |(h.coarseTime : ℚ) + r| < (2 : ℚ) ^ ((32 : ℤ) + 1) := by
    rw [abs_of_nonneg hy0]
    norm_num
    linarith
  have e := roundDouble_error _ 32 (by norm_num) habs2
  have e2 : (2 : ℚ) ^ ((32 : ℤ) - 53) = 1 / 2 ^ 21 := by norm_num
  rw [e2] at e
  have g1 := roundDouble_ge_int _ habs (h.coarseTime : Int) (by push_cast; linarith)
  have g2 := roundDouble_le_int _ habs ((h.coarseTime : Int) + 7) (by push_cast; linarith)
  push_cast at g1 g2
  refine ⟨g1, g2, ?_⟩
  generalize roundDouble ((h.coarseTime : ℚ) + r) = T at e ⊢
  rw [abs_le] at e re ⊢
  constructor <;> linarith

theorem roundDouble_natCast (n : Nat) (hn : n < 2 ^ 53) : roundDouble (n : ℚ) = (n : ℚ) := by
  have h := roundDouble_intCast (n : Int) (by
    push_cast
    rw [abs_of_nonneg (Nat.cast_nonneg n)]
    have : (n : ℚ) < 2 ^ 53 := by exact_mod_cast hn
    norm_num at this ⊢
    exact this)
  push_cast at h
  exact h

/-- With a fine time of zero `EPMtoSeconds` is the coarse time. -/
theorem EPMtoSeconds_of_fineTime_zero (h : EPMTelemetryHeaderInfo) (hC : h.coarseTime < 2 ^ 32)
    (hF : h.fineTime = 0) : EPMtoSeconds h = (h.coarseTime : ℚ) := by
  unfold EPMtoSeconds doubleAdd doubleDiv
  rw [hF, Nat.cast_zero, zero_div, roundDouble_zero, add_zero]
  exact roundDouble_natCast _ (by omega)

theorem roundDouble_one_tenthousandth :
    roundDouble (1 / 10000) = 7378697629483821 / 73786976294838206464 := by
  have h := roundDouble_eq_of_near (1 / 10000) (-14) 7378697629483821 (by norm_num)
    (by norm_num [abs_of_pos]) (by norm_num [abs_of_pos]) (by norm_num [abs_lt])
  rw [h]
  norm_num

theorem roundDouble_of_one_tenthousandth :
    roundDouble (7378697629483821 / 73786976294838206464)
      = 7378697629483821 / 73786976294838206464 := by
  have h := roundDouble_eq_of_near (7378697629483821 / 73786976294838206464) (-14)
    7378697629483821 (by norm_num)
    (by norm_num [abs_of_pos]) (by norm_num [abs_of_pos]) (by norm_num [abs_lt])
  rw [h]
  norm_num

/-- C9 (counterexample): for `coarseTime = 0` and `fineTime = 1` the value of
`EPMtoSeconds` is the binary64 number nearest to `1 / 10000`,
`7378697629483821 / 2 ^ 66`, and not `0 + 1 / 10000`. -/
theorem EPMtoSeconds_not_exact :
    EPMtoSeconds { sampleConstants.hkHeader with coarseTime := 0, fineTime := 1 }
      = 7378697629483821 / 73786976294838206464 ∧
    EPMtoSeconds { sampleConstants.hkHeader with coarseTime := 0, fineTime := 1 }
      ≠ ((0 : Nat) : ℚ) + ((1 : Nat) : ℚ) / 10000 := by
  have hv : EPMtoSeconds { sampleConstants.hkHeader with coarseTime := 0, fineTime := 1 }
      = 7378697629483821 / 73786976294838206464 := by
    show roundDouble (((0 : Nat) : ℚ) + roundDouble (((1 : Nat) : ℚ) / 10000)) = _
    rw [Nat.cast_zero, Nat.cast_one, zero_add, roundDouble_one_tenthousandth,
      roundDouble_of_one_tenthousandth]
  refine ⟨hv, ?_⟩
  rw [hv]
  norm_num

/-- C9 (amended): for a coarse time `C` below `2 ^ 32` and a fine time `F`
below `2 ^ 16`, `EPMtoSeconds` returns the `double` sum of `C` and the `double`
quotient `F / 10000.0`; the result is within `2 ^ -20` of `C + F / 10000`, it is
`C` when `F = 0`, and `0` for `C = 0`, `F = 0`. -/
theorem EPMtoSeconds_rounded (h : EPMTelemetryHeaderInfo) (C F : Nat) (hC : C < 2 ^ 32)
    (hF : F < 2 ^ 16) :
    EPMtoSeconds { h with coarseTime := C, fineTime := F }
      = roundDouble ((C : ℚ) + roundDouble ((F : ℚ) / 10000)) ∧
    |EPMtoSeconds { h with coarseTime := C, fineTime := F } - ((C : ℚ) + (F : ℚ) / 10000)|
      < 1 / 2 ^ 20 ∧
    EPMtoSeconds { h with coarseTime := C, fineTime := 0 } = (C : ℚ) ∧
    EPMtoSeconds { h with coarseTime := 0, fineTime := 0 } = 0 := by
  refine ⟨rfl, ?_, ?_, ?_⟩
  · have h2 : |EPMtoSeconds { h with coarseTime := C, fineTime := F }
        - ((C : ℚ) + (F : ℚ) / 10000)| ≤ 1 / 2 ^ 21 + 1 / 2 ^ 51 :=
      (EPMtoSeconds_error { h with coarseTime := C, fineTime := F } hC hF).2.2
    exact lt_of_le_of_lt h2 (by norm_num)
  · exact EPMtoSeconds_of_fineTime_zero { h with coarseTime := C, fineTime := 0 } hC rfl
  · have h0 := EPMtoSeconds_of_fineTime_zero { h with coarseTime := 0, fineTime := 0 }
      (by norm_num) rfl
    rw [h0]
    exact Nat.cast_zero

/-- C9 (witness): the coarse time 1130000000 with the fine time 9990. -/
theorem EPMtoSeconds_rounded_witness :
    |EPMtoSeconds { sampleConstants.hkHeader with coarseTime := 1130000000, fineTime := 9990 }
        - (((1130000000 : Nat) : ℚ) + ((9990 : Nat) : ℚ) / 10000)| < 1 / 2 ^ 20 :=
  (EPMtoSeconds_rounded sampleConstants.hkHeader 1130000000 9990 (by norm_num)
    (by norm_num)).2.1

/-- The slices at or above the starting index are not touched by the time
stamping loop, and each slice below it gets the time stamps of the next slice
minus one interval, in `double`. -/
theorem backfillTimestamps_spec (dt : ℚ) (n : Nat) :
    ∀ ds : Nat → GripRealtimeDataSlice,
      (∀ k, n ≤ k → backfillTimestamps dt n ds k = ds k) ∧
      (∀ k, k < n →
        (backfillTimestamps dt n ds k).bestGuessPoseTimestamp =
          doubleSub (backfillTimestamps dt n ds (k + 1)).bestGuessPoseTimestamp dt ∧
        (backfillTimestamps dt n ds k).bestGuessAnalogTimestamp =
          doubleSub (backfillTimestamps dt n ds (k + 1)).bestGuessAnalogTimestamp dt) := by
  induction n with
  | zero =>
    intro ds
    exact ⟨fun k _ => rfl, fun k hk => absurd hk (Nat.not_lt_zero k)⟩
  | succ n ih =>
    intro ds
    obtain ⟨ih1, ih2⟩ := ih (Function.update ds n
      { ds n with
        bestGuessPoseTimestamp := doubleSub (ds (n + 1)).bestGuessPoseTimestamp dt,
        bestGuessAnalogTimestamp := doubleSub (ds (n + 1)).bestGuessAnalogTimestamp dt })
    refine ⟨fun k hk => ?_, fun k hk => ?_⟩
    · have h := ih1 k (by omega)
      have hne : k ≠ n := by omega
      simp only [backfillTimestamps]
      rw [h, Function.update_noteq hne]
    · simp only [backfillTimestamps]
      by_cases hkn : k < n
      · exact ih2 k hkn
      · have hk1 : k = n := by omega
        subst hk1
        have hne : k + 1 ≠ k := by omega
        rw [ih1 k (le_refl _), ih1 (k + 1) (by omega), Function.update_same,
          Function.update_noteq hne]
        exact ⟨rfl, rfl⟩

/-- The time stamps that `ExtractGripRealtimeDataInfo` leaves: those of the
header in the last slice, and in every earlier slice those of the next slice
minus one interval, in `double`. -/
theorem ExtractGripRealtimeDataInfo_timestamps (rawData N : Nat) (dt : ℚ)
    (r0 : GripRealtimeDataInfo) (p : EPMTelemetryPacket) :
    ((ExtractGripRealtimeDataInfo rawData N dt r0 p).dataSlice (N - 1)).bestGuessPoseTimestamp =
      EPMtoSeconds (ExtractEPMTelemetryHeaderInfo p) ∧
    ((ExtractGripRealtimeDataInfo rawData N dt r0 p).dataSlice (N - 1)).bestGuessAnalogTimestamp =
      EPMtoSeconds (ExtractEPMTelemetryHeaderInfo p) ∧
    (∀ k, k + 1 < N →
      ((ExtractGripRealtimeDataInfo rawData N dt r0 p).dataSlice k).bestGuessPoseTimestamp =
        doubleSub
          ((ExtractGripRealtimeDataInfo rawData N dt r0 p).dataSlice (k + 1)).bestGuessPoseTimestamp
          dt ∧
      ((ExtractGripRealtimeDataInfo rawData N dt r0 p).dataSlice k).bestGuessAnalogTimestamp =
        doubleSub
          ((ExtractGripRealtimeDataInfo rawData N dt r0 p).dataSlice
            (k + 1)).bestGuessAnalogTimestamp dt) := by
  simp only [ExtractGripRealtimeDataInfo]
  refine ⟨?_, ?_, ?_⟩
  · rw [(backfillTimestamps_spec dt (N - 1) _).1 (N - 1) (le_refl _)]
    simp only [Function.update_same]
  · rw [(backfillTimestamps_spec dt (N - 1) _).1 (N - 1) (le_refl _)]
    simp only [Function.update_same]
  · intro k hk
    exact (backfillTimestamps_spec dt (N - 1) _).2 k (by omega)

/-- The accumulated rounding error of a time stamp that is stepped back `j`
times from `T` by `dt`: at most `j` times half a unit in the last place of a
value below `2 ^ 33`. -/
theorem backfill_error (T dt : ℚ) (v : Nat → ℚ) (n : Nat) (hv : v n = T)
    (hrec : ∀ k, k < n → v k = doubleSub (v (k + 1)) dt)
    (hT0 : 0 ≤ T) (hT1 : T ≤ 2 ^ 32 + 7) (hdt0 : 0 ≤ dt) (hdt1 : dt ≤ 1) (hn : n ≤ 2 ^ 20) :
    ∀ j, j ≤ n → |v (n - j) - (T - (j : ℚ) * dt)| ≤ (j : ℚ) / 2 ^ 21 := by
  intro j
  induction j with
  | zero =>
    intro _
    simp [hv]
  | succ j ih =>
    intro hj
    have ih' := ih (by omega)
    have hk : n - (j + 1) < n := by omega
    have e : n - (j + 1) + 1 = n - j := by omega
    rw [hrec _ hk, e]
    unfold doubleSub
    have hjn : ((j : ℚ) + 1) ≤ 1048576 := by
      have : j + 1 ≤ 2 ^ 20 := by omega
      have h2 : ((j + 1 : Nat) : ℚ) ≤ ((2 ^ 20 : Nat) : ℚ) := by exact_mod_cast this
      push_cast at h2
      exact h2
    have hj0 : (0 : ℚ) ≤ (j : ℚ) := Nat.cast_nonneg j
    have hp0 : 0 ≤ (j : ℚ) * dt := mul_nonneg hj0 hdt0
    have hp1 : (j : ℚ) * dt ≤ (j : ℚ) := mul_le_of_le_one_right hj0 hdt1
    generalize v (n - j) = w at ih' ⊢
    rw [abs_le] at ih'
    have hq : (j : ℚ) / 2 ^ 21 ≤ 1 := by
      rw [div_le_one (by norm_num)]
      norm_num
      linarith
    have hq0 : 0 ≤ (j : ℚ) / 2 ^ 21 := by positivity
    have habs : |w - dt| < (2 : ℚ) ^ ((32 : ℤ) + 1) := by
      rw [abs_lt]
      norm_num at hT1 ⊢
      constructor <;> linarith
    have err := roundDouble_error (w - dt) 32 (by norm_num) habs
    have e2 : (2 : ℚ) ^ ((32 : ℤ) - 53) = 1 / 2 ^ 21 := by norm_num
    rw [e2] at err
    generalize roundDouble (w - dt) = z at err ⊢
    rw [abs_le] at err ⊢
    push_cast
    constructor
    · have : ((j : ℚ) + 1) / 2 ^ 21 = (j : ℚ) / 2 ^ 21 + 1 / 2 ^ 21 := by ring
      rw [this]
      linarith
    · have : ((j : ℚ) + 1) / 2 ^ 21 = (j : ℚ) / 2 ^ 21 + 1 / 2 ^ 21 := by ring
      rw [this]
      linarith

/-- Two sequences of time stamps with the same last value and the same step
are equal. -/
theorem backfill_unique (dt : ℚ) (v w : Nat → ℚ) (n : Nat) (hn : v n = w n)
    (hv : ∀ k, k < n → v k = doubleSub (v (k + 1)) dt)
    (hw : ∀ k, k < n → w k = doubleSub (w (k + 1)) dt) :
    ∀ j, j ≤ n → v (n - j) = w (n - j) := by
  intro j
  induction j with
  | zero => intro _; exact hn
  | succ j ih =>
    intro hj
    have hk : n - (j + 1) < n := by omega
    have e : n - (j + 1) + 1 = n - j := by omega
    rw [hv _ hk, hw _ hk, e, ih (by omega)]

theorem coarseTime_lt (p : EPMTelemetryPacket) :
    (ExtractEPMTelemetryHeaderInfo p).coarseTime < 2 ^ 32 := by
  show toUInt32 _ < 2 ^ 32
  unfold toUInt32
  omega

theorem fineTime_lt (p : EPMTelemetryPacket) :
    (ExtractEPMTelemetryHeaderInfo p).fineTime < 2 ^ 16 := by
  show toUInt16 _ < 2 ^ 16
  unfold toUInt16
  omega

/-- The time stamp of a header depends on the packet through bytes 28-33 only. -/
theorem EPMtoSeconds_congr (p p2 : EPMTelemetryPacket)
    (hp : ∀ j, 28 ≤ j → j < 34 → p2 j = p j) :
    EPMtoSeconds (ExtractEPMTelemetryHeaderInfo p2) =
      EPMtoSeconds (ExtractEPMTelemetryHeaderInfo p) := by
  simp only [EPMtoSeconds, ExtractEPMTelemetryHeaderInfo, extract_reversed_long,
    extract_reversed_short, getByte, Nat.zero_add, Nat.reduceAdd]
  simp (disch := omega) only [hp]

/-- C10 (amended): with `T` the time stamp of the packet header,
`ExtractGripRealtimeDataInfo` sets `packetTimestamp` to `T`, both best-guess time
stamps of the last slice to `T`, and both best-guess time stamps of every
earlier slice `k` to those of slice `k + 1` minus
`RT_DEFAULT_SECONDS_PER_SLICE` in `double` arithmetic, each difference rounded
to the nearest `double`; for an interval between 0 and 1 and at most `2 ^ 20`
slices they are within `(RT_SLICES_PER_PACKET - 1 - k) / 2 ^ 21` of
`T - (RT_SLICES_PER_PACKET - 1 - k) * RT_DEFAULT_SECONDS_PER_SLICE`; the time
stamps depend on the packet only through the coarse and fine time bytes of the
header (bytes 28-33), not through the tick fields. -/
theorem realtime_timestamp_backfill_rounded (rawData N : Nat) (dt : ℚ)
    (r0 : GripRealtimeDataInfo) (p : EPMTelemetryPacket) (hN : 0 < N) :
    (ExtractGripRealtimeDataInfo rawData N dt r0 p).packetTimestamp =
      EPMtoSeconds (ExtractEPMTelemetryHeaderInfo p) ∧
    ((ExtractGripRealtimeDataInfo rawData N dt r0 p).dataSlice (N - 1)).bestGuessPoseTimestamp =
      EPMtoSeconds (ExtractEPMTelemetryHeaderInfo p) ∧
    ((ExtractGripRealtimeDataInfo rawData N dt r0 p).dataSlice (N - 1)).bestGuessAnalogTimestamp =
      EPMtoSeconds (ExtractEPMTelemetryHeaderInfo p) ∧
    (∀ k, k + 1 < N →
      ((ExtractGripRealtimeDataInfo rawData N dt r0 p).dataSlice k).bestGuessPoseTimestamp =
        doubleSub
          ((ExtractGripRealtimeDataInfo rawData N dt r0 p).dataSlice (k + 1)).bestGuessPoseTimestamp
          dt ∧
      ((ExtractGripRealtimeDataInfo rawData N dt r0 p).dataSlice k).bestGuessAnalogTimestamp =
        doubleSub
          ((ExtractGripRealtimeDataInfo rawData N dt r0 p).dataSlice
            (k + 1)).bestGuessAnalogTimestamp dt) ∧
    (0 ≤ dt → dt ≤ 1 → N ≤ 2 ^ 20 → ∀ k, k < N →
      |((ExtractGripRealtimeDataInfo rawData N dt r0 p).dataSlice k).bestGuessPoseTimestamp -
        (EPMtoSeconds (ExtractEPMTelemetryHeaderInfo p) - ((N - 1 - k : Nat) : ℚ) * dt)|
        ≤ ((N - 1 - k : Nat) : ℚ) / 2 ^ 21 ∧
      |((ExtractGripRealtimeDataInfo rawData N dt r0 p).dataSlice k).bestGuessAnalogTimestamp -
        (EPMtoSeconds (ExtractEPMTelemetryHeaderInfo p) - ((N - 1 - k : Nat) : ℚ) * dt)|
        ≤ ((N - 1 - k : Nat) : ℚ) / 2 ^ 21) ∧
    (∀ p2 : EPMTelemetryPacket, (∀ j, 28 ≤ j → j < 34 → p2 j = p j) →
      ∀ k, k < N →
        ((ExtractGripRealtimeDataInfo rawData N dt r0 p2).dataSlice k).bestGuessPoseTimestamp =
          ((ExtractGripRealtimeDataInfo rawData N dt r0 p).dataSlice k).bestGuessPoseTimestamp ∧
        ((ExtractGripRealtimeDataInfo rawData N dt r0 p2).dataSlice k).bestGuessAnalogTimestamp =
          ((ExtractGripRealtimeDataInfo rawData N dt r0 p).dataSlice k).bestGuessAnalogTimestamp) := by
  obtain ⟨hl1, hl2, hrec⟩ := ExtractGripRealtimeDataInfo_timestamps rawData N dt r0 p
  obtain ⟨hT0, hT1, _⟩ := EPMtoSeconds_error (ExtractEPMTelemetryHeaderInfo p)
    (coarseTime_lt p) (fineTime_lt p)
  have hC : ((ExtractEPMTelemetryHeaderInfo p).coarseTime : ℚ) < 4294967296 := by
    exact_mod_cast coarseTime_lt p
  have hC0 : (0 : ℚ) ≤ ((ExtractEPMTelemetryHeaderInfo p).coarseTime : ℚ) := Nat.cast_nonneg _
  have hTa : 0 ≤ EPMtoSeconds (ExtractEPMTelemetryHeaderInfo p) := le_trans hC0 hT0
  have hTb : EPMtoSeconds (ExtractEPMTelemetryHeaderInfo p) ≤ 2 ^ 32 + 7 := by
    norm_num
    linarith
  refine ⟨rfl, hl1, hl2, hrec, ?_, ?_⟩
  · intro hdt0 hdt1 hN2 k hk
    have hkk : N - 1 - (N - 1 - k) = k := by omega
    have a := backfill_error (EPMtoSeconds (ExtractEPMTelemetryHeaderInfo p)) dt
      (fun i => ((ExtractGripRealtimeDataInfo rawData N dt r0 p).dataSlice i).bestGuessPoseTimestamp)
      (N - 1) hl1 (fun i hi => (hrec i (by omega)).1) hTa hTb hdt0 hdt1 (by omega)
      (N - 1 - k) (by omega)
    have b := backfill_error (EPMtoSeconds (ExtractEPMTelemetryHeaderInfo p)) dt
      (fun i =>
        ((ExtractGripRealtimeDataInfo rawData N dt r0 p).dataSlice i).bestGuessAnalogTimestamp)
      (N - 1) hl2 (fun i hi => (hrec i (by omega)).2) hTa hTb hdt0 hdt1 (by omega)
      (N - 1 - k) (by omega)
    simp only [hkk] at a b
    exact ⟨a, b⟩
  · intro p2 hp k hk
    obtain ⟨hm1, hm2, hrec2⟩ := ExtractGripRealtimeDataInfo_timestamps rawData N dt r0 p2
    have hT := EPMtoSeconds_congr p p2 hp
    have hkk : N - 1 - (N - 1 - k) = k := by omega
    have a := backfill_unique dt
      (fun i =>
        ((ExtractGripRealtimeDataInfo rawData N dt r0 p2).dataSlice i).bestGuessPoseTimestamp)
      (fun i => ((ExtractGripRealtimeDataInfo rawData N dt r0 p).dataSlice i).bestGuessPoseTimestamp)
      (N - 1) (hm1.trans (hT.trans hl1.symm)) (fun i hi => (hrec2 i (by omega)).1)
      (fun i hi => (hrec i (by omega)).1) (N - 1 - k) (by omega)
    have b := backfill_unique dt
      (fun i =>
        ((ExtractGripRealtimeDataInfo rawData N dt r0 p2).dataSlice i).bestGuessAnalogTimestamp)
      (fun i =>
        ((ExtractGripRealtimeDataInfo rawData N dt r0 p).dataSlice i).bestGuessAnalogTimestamp)
      (N - 1) (hm2.trans (hT.trans hl2.symm)) (fun i hi => (hrec2 i (by omega)).2)
      (fun i hi => (hrec i (by omega)).2) (N - 1 - k) (by omega)
    simp only [hkk] at a b
    exact ⟨a, b⟩

/-- C10 (witness): a packet of ten slices spaced by the `double` of `0.05`
whose header carries the coarse time 1. -/
theorem realtime_timestamp_backfill_rounded_witness :
    (ExtractGripRealtimeDataInfo 42 10 (3602879701896397 / 72057594037927936) sampleInfo
        coarseOnePacket).packetTimestamp =
      EPMtoSeconds (ExtractEPMTelemetryHeaderInfo coarseOnePacket) :=
  (realtime_timestamp_backfill_rounded 42 10 (3602879701896397 / 72057594037927936) sampleInfo
    coarseOnePacket (by norm_num)).1

theorem coarseOnePacket_times :
    (ExtractEPMTelemetryHeaderInfo coarseOnePacket).coarseTime = 1 ∧
    (ExtractEPMTelemetryHeaderInfo coarseOnePacket).fineTime = 0 := by
  constructor
  · show toUInt32 (extract_reversed_long coarseOnePacket 28) = 1
    simp only [extract_reversed_long, getByte, coarseOnePacket]
    decide
  · show toUInt16 (extract_reversed_short coarseOnePacket 32) = 0
    simp only [extract_reversed_short, getByte, coarseOnePacket]
    decide

theorem EPMtoSeconds_coarseOnePacket :
    EPMtoSeconds (ExtractEPMTelemetryHeaderInfo coarseOnePacket) = 1 := by
  rw [EPMtoSeconds_of_fineTime_zero _ (coarseTime_lt _) coarseOnePacket_times.2,
    coarseOnePacket_times.1]
  norm_num

theorem roundDouble_one_sub_interval :
    roundDouble (1 - 3602879701896397 / 72057594037927936)
      = 4278419646001971 / 4503599627370496 := by
  have h := roundDouble_eq_of_near (1 - 3602879701896397 / 72057594037927936) (-1)
    8556839292003942 (by norm_num)
    (by norm_num [abs_of_pos]) (by norm_num [abs_of_pos]) (by norm_num [abs_lt])
  rw [h]
  norm_num

/-- C10 (counterexample): in a packet of two slices spaced by the `double` of
`0.05` (`3602879701896397 / 2 ^ 56`) whose header gives the time stamp `T = 1`,
the pose time stamp of slice 0 is the `double` nearest to `1 - 0.05`,
`4278419646001971 / 2 ^ 52`, and not `T - 1 * RT_DEFAULT_SECONDS_PER_SLICE`. -/
theorem realtime_timestamp_backfill_not_exact :
    EPMtoSeconds (ExtractEPMTelemetryHeaderInfo coarseOnePacket) = 1 ∧
    ((ExtractGripRealtimeDataInfo 42 2 (3602879701896397 / 72057594037927936) sampleInfo
        coarseOnePacket).dataSlice 0).bestGuessPoseTimestamp
      = 4278419646001971 / 4503599627370496 ∧
    ((ExtractGripRealtimeDataInfo 42 2 (3602879701896397 / 72057594037927936) sampleInfo
        coarseOnePacket).dataSlice 0).bestGuessPoseTimestamp
      ≠ EPMtoSeconds (ExtractEPMTelemetryHeaderInfo coarseOnePacket)
          - ((2 - 1 - 0 : Nat) : ℚ) * (3602879701896397 / 72057594037927936) := by
  obtain ⟨hl1, _, hrec⟩ := ExtractGripRealtimeDataInfo_timestamps 42 2
    (3602879701896397 / 72057594037927936) sampleInfo coarseOnePacket
  have h0 := (hrec 0 (by norm_num)).1
  have hv : ((ExtractGripRealtimeDataInfo 42 2 (3602879701896397 / 72057594037927936) sampleInfo
        coarseOnePacket).dataSlice 0).bestGuessPoseTimestamp
      = 4278419646001971 / 4503599627370496 := by
    rw [h0]
    have hl1' : ((ExtractGripRealtimeDataInfo 42 2 (3602879701896397 / 72057594037927936)
        sampleInfo coarseOnePacket).dataSlice (0 + 1)).bestGuessPoseTimestamp = 1 :=
      hl1.trans EPMtoSeconds_coarseOnePacket
    rw [hl1']
    unfold doubleSub
    exact roundDouble_one_sub_interval
  refine ⟨EPMtoSeconds_coarseOnePacket, hv, ?_⟩
  rw [hv, EPMtoSeconds_coarseOnePacket]
  norm_num

/-! ## Realtime data: one slice -/

theorem insertDataSlice_snd (p : EPMTelemetryPacket) (ptr : Nat) (s : GripRealtimeDataSlice) :
    (insertDataSlice p ptr s).2 = ptr + 75 := by
  simp only [insertDataSlice, Nat.add_assoc, Nat.reduceAdd]

theorem extractDataSlice_snd (p : EPMTelemetryPacket) (ptr : Nat) (old : GripRealtimeDataSlice) :
    (extractDataSlice p ptr old).2 = ptr + 75 := by
  simp only [extractDataSlice, Nat.add_assoc, Nat.reduceAdd]

/-- The encoder of a slice changes no byte outside the 75 bytes at the cursor. -/
theorem insertDataSlice_frame (p : EPMTelemetryPacket) (ptr : Nat) (s : GripRealtimeDataSlice)
    (j : Nat) (hj : j < ptr ∨ ptr + 75 ≤ j) : (insertDataSlice p ptr s).1 j = p j := by
  simp only [insertDataSlice, insert_long, insert_float, insert_ulong, insert_short,
    Nat.add_assoc, Nat.reduceAdd]
  simp (disch := omega) only [setByte_ne]

/-- The decoder of a slice depends on no byte outside the 75 bytes at the cursor. -/
theorem extractDataSlice_congr (q q2 : EPMTelemetryPacket) (ptr : Nat)
    (old : GripRealtimeDataSlice) (h : ∀ j, ptr ≤ j → j < ptr + 75 → q j = q2 j) :
    extractDataSlice q ptr old = extractDataSlice q2 ptr old := by
  simp only [extractDataSlice, extract_reversed_short, extract_reversed_long,
    extract_reversed_float, ExtractSignedChar, getByte, Nat.add_assoc, Nat.reduceAdd]
  simp (disch := omega) only [h]


theorem be16_bytes (u : Nat) : u % 256 + 256 * (u / 256 % 256) = u % 65536 := by
  omega

theorem be32_bytes (u : Nat) :
    u % 256 + (256 * (u / 256 % 256) + (65536 * (u / 65536 % 256)
      + 16777216 * (u / 16777216 % 256))) = u % 4294967296 := by
  omega

theorem be32_words (u : Nat) :
    u % 65536 + (65536 * (u / 65536 % 256) + 16777216 * (u / 16777216 % 256))
      = u % 4294967296 := by
  omega

theorem toInt16_mod (u : Nat) : toInt16 (u % 65536) = toInt16 u := by
  simp only [toInt16, Nat.mod_mod]

theorem toInt32_mod (u : Nat) : toInt32 (u % 4294967296) = toInt32 u := by
  simp only [toInt32, Nat.mod_mod]

theorem toInt16_toUInt16_castShort (x : ℚ) : toInt16 (toUInt16 (castShort x)) = castShort x := by
  simp only [castShort, toUInt16_toInt16, toInt16_mod]

theorem toInt32_toUInt32_castLong (x : ℚ) : toInt32 (toUInt32 (castLong x)) = castLong x := by
  simp only [castLong, toUInt32_toInt32, toInt32_mod]

theorem toUInt8_toInt8_mod (u : Nat) : toUInt8 (toInt8 (u % 256)) = u % 256 := by
  simp only [toUInt8_toInt8, Nat.mod_mod]

set_option maxHeartbeats 2000000 in
/-- The wire integers that the decoder finds in the bytes just written for a
slice. -/
theorem insertDataSlice_wire (q : EPMTelemetryPacket) (ptr : Nat) (s : GripRealtimeDataSlice) :
    toUInt32 (extract_reversed_long (insertDataSlice q ptr s).1 ptr) =
      s.poseTick % 4294967296 ∧
    extract_reversed_short (insertDataSlice q ptr s).1 (ptr + 4) =
      castShort (doubleMul s.position.X 10) ∧
    extract_reversed_short (insertDataSlice q ptr s).1 (ptr + 6) =
      castShort (doubleMul s.position.Y 10) ∧
    extract_reversed_short (insertDataSlice q ptr s).1 (ptr + 8) =
      castShort (doubleMul s.position.Z 10) ∧
    extract_reversed_float (insertDataSlice q ptr s).1 (ptr + 10) =
      s.quaternion.X % 4294967296 ∧
    extract_reversed_float (insertDataSlice q ptr s).1 (ptr + 14) =
      s.quaternion.Y % 4294967296 ∧
    extract_reversed_float (insertDataSlice q ptr s).1 (ptr + 18) =
      s.quaternion.Z % 4294967296 ∧
    extract_reversed_float (insertDataSlice q ptr s).1 (ptr + 22) =
      s.quaternion.M % 4294967296 ∧
    toUInt32 (extract_reversed_long (insertDataSlice q ptr s).1 (ptr + 26)) =
      s.markerVisibility0 % 4294967296 ∧
    toUInt32 (extract_reversed_long (insertDataSlice q ptr s).1 (ptr + 30)) =
      s.markerVisibility1 % 4294967296 ∧
    toUInt8 (ExtractSignedChar (insertDataSlice q ptr s).1 (ptr + 34)) =
      s.manipulandumVisibility % 256 ∧
    toUInt32 (extract_reversed_long (insertDataSlice q ptr s).1 (ptr + 35)) =
      s.analogTick % 4294967296 ∧
    extract_reversed_short (insertDataSlice q ptr s).1 (ptr + 39) =
      castShort (doubleMul s.ft0.force.X 100) ∧
    extract_reversed_short (insertDataSlice q ptr s).1 (ptr + 41) =
      castShort (doubleMul s.ft0.force.Y 100) ∧
    extract_reversed_short (insertDataSlice q ptr s).1 (ptr + 43) =
      castShort (doubleMul s.ft0.force.Z 100) ∧
    extract_reversed_short (insertDataSlice q ptr s).1 (ptr + 45) =
      castShort (doubleMul s.ft0.torque.X 1000) ∧
    extract_reversed_short (insertDataSlice q ptr s).1 (ptr + 47) =
      castShort (doubleMul s.ft0.torque.Y 1000) ∧
    extract_reversed_short (insertDataSlice q ptr s).1 (ptr + 49) =
      castShort (doubleMul s.ft0.torque.Z 1000) ∧
    extract_reversed_short (insertDataSlice q ptr s).1 (ptr + 51) =
      castShort (doubleMul s.ft1.force.X 100) ∧
    extract_reversed_short (insertDataSlice q ptr s).1 (ptr + 53) =
      castShort (doubleMul s.ft1.force.Y 100) ∧
    extract_reversed_short (insertDataSlice q ptr s).1 (ptr + 55) =
      castShort (doubleMul s.ft1.force.Z 100) ∧
    extract_reversed_short (insertDataSlice q ptr s).1 (ptr + 57) =
      castShort (doubleMul s.ft1.torque.X 1000) ∧
    extract_reversed_short (insertDataSlice q ptr s).1 (ptr + 59) =
      castShort (doubleMul s.ft1.torque.Y 1000) ∧
    extract_reversed_short (insertDataSlice q ptr s).1 (ptr + 61) =
      castShort (doubleMul s.ft1.torque.Z 1000) ∧
    extract_reversed_long (insertDataSlice q ptr s).1 (ptr + 63) =
      castLong (doubleMul (doubleMul s.acceleration.X 1000) (roundDouble (98 / 10))) ∧
    extract_reversed_long (insertDataSlice q ptr s).1 (ptr + 67) =
      castLong (doubleMul (doubleMul s.acceleration.Y 1000) (roundDouble (98 / 10))) ∧
    extract_reversed_long (insertDataSlice q ptr s).1 (ptr + 71) =
      castLong (doubleMul (doubleMul s.acceleration.Z 1000) (roundDouble (98 / 10))) := by
  simp only [insertDataSlice, insert_long, insert_float,
    insert_ulong, insert_short, extract_reversed_short, extract_reversed_long,
    extract_reversed_float, ExtractSignedChar, getByte_setByte,
    Nat.add_assoc, Nat.reduceAdd, Nat.add_left_cancel_iff, Nat.reduceEqDiff, reduceIte,
    self_eq_add_right, add_right_eq_self, OfNat.ofNat_ne_zero,
    be16_bytes, be32_bytes, be32_words, toInt16_mod, toInt32_mod, toUInt32_toInt32, Nat.mod_mod,
    toInt16_toUInt16_castShort, toInt32_toUInt32_castLong, toUInt8_toInt8_mod, and_self]

/-- Decoding a slice from the bytes just written for it. -/
theorem extractDataSlice_insertDataSlice (q : EPMTelemetryPacket) (ptr : Nat)
    (s old : GripRealtimeDataSlice) :
    (extractDataSlice (insertDataSlice q ptr s).1 ptr old).1 = roundTripSlice s old := by
  obtain ⟨h1, h2, h3, h4, h5, h6, h7, h8, h9, h10, h11, h12, a1, a2, a3, a4, a5, a6,
    b1, b2, b3, b4, b5, b6, c1, c2, c3⟩ := insertDataSlice_wire q ptr s
  simp only [extractDataSlice, roundTripSlice, Nat.add_assoc, Nat.reduceAdd,
    h1, h2, h3, h4, h5, h6, h7, h8, h9, h10, h11, h12, a1, a2, a3, a4, a5, a6,
    b1, b2, b3, b4, b5, b6, c1, c2, c3]


/-! ## Realtime data: the slice loops -/

theorem insertSliceLoop_snd (ds : Nat → GripRealtimeDataSlice) (count : Nat) :
    ∀ (slice : Nat) (p : EPMTelemetryPacket) (ptr : Nat),
      (insertSliceLoop ds count slice p ptr).2 = ptr + 75 * count := by
  induction count with
  | zero => intro slice p ptr; rfl
  | succ n ih =>
    intro slice p ptr
    simp only [insertSliceLoop, ih, insertDataSlice_snd]
    omega

/-- The slice loop of the encoder writes `75 * count` bytes from the cursor on
and no byte outside that range. -/
theorem insertSliceLoop_frame (ds : Nat → GripRealtimeDataSlice) (count : Nat) :
    ∀ (slice : Nat) (p : EPMTelemetryPacket) (ptr j : Nat),
      j < ptr ∨ ptr + 75 * count ≤ j → (insertSliceLoop ds count slice p ptr).1 j = p j := by
  induction count with
  | zero => intro slice p ptr j _; rfl
  | succ n ih =>
    intro slice p ptr j hj
    simp only [insertSliceLoop, insertDataSlice_snd]
    rw [ih (slice + 1) _ (ptr + 75) j (by omega)]
    exact insertDataSlice_frame p ptr _ j (by omega)

/-- Decoding, at its position, a slice written by the slice loop of the encoder. -/
theorem extractDataSlice_insertSliceLoop (ds : Nat → GripRealtimeDataSlice) (count : Nat) :
    ∀ (slice : Nat) (p : EPMTelemetryPacket) (ptr k : Nat) (old : GripRealtimeDataSlice),
      slice ≤ k → k < slice + count →
      (extractDataSlice (insertSliceLoop ds count slice p ptr).1 (ptr + 75 * (k - slice)) old).1
        = roundTripSlice (ds k) old := by
  induction count with
  | zero => intro slice p ptr k old h1 h2; omega
  | succ n ih =>
    intro slice p ptr k old h1 h2
    simp only [insertSliceLoop, insertDataSlice_snd]
    by_cases hk : k = slice
    · subst hk
      simp only [Nat.sub_self, Nat.mul_zero, Nat.add_zero]
      rw [extractDataSlice_congr _ (insertDataSlice p ptr (ds k)).1 ptr old
        (fun j _ hj => insertSliceLoop_frame ds n (k + 1) _ (ptr + 75) j (Or.inl hj))]
      exact extractDataSlice_insertDataSlice p ptr (ds k) old
    · have h := ih (slice + 1) (insertDataSlice p ptr (ds slice)).1 (ptr + 75) k old
        (by omega) (by omega)
      have he : ptr + 75 + 75 * (k - (slice + 1)) = ptr + 75 * (k - slice) := by omega
      rw [he] at h
      exact h

/-- The slice loop of the decoder fills slice `k` of its range from the 75
bytes at the position of that slice and leaves the other slices alone. -/
theorem extractSliceLoop_apply (p : EPMTelemetryPacket) (count : Nat) :
    ∀ (slice ptr : Nat) (ds : Nat → GripRealtimeDataSlice) (k : Nat),
      extractSliceLoop p count slice ptr ds k =
        if slice ≤ k ∧ k < slice + count then
          (extractDataSlice p (ptr + 75 * (k - slice)) (ds k)).1
        else ds k := by
  induction count with
  | zero =>
    intro slice ptr ds k
    have : ¬ (slice ≤ k ∧ k < slice + 0) := by omega
    simp only [extractSliceLoop, if_neg this]
  | succ n ih =>
    intro slice ptr ds k
    simp only [extractSliceLoop, extractDataSlice_snd]
    rw [ih]
    by_cases hk : k = slice
    · subst hk
      have h1 : ¬ (k + 1 ≤ k ∧ k < k + 1 + n) := by omega
      have h2 : k ≤ k ∧ k < k + (n + 1) := by omega
      simp only [if_neg h1, if_pos h2, Function.update_same, Nat.sub_self, Nat.mul_zero,
        Nat.add_zero]
    · by_cases hr : slice + 1 ≤ k ∧ k < slice + 1 + n
      · have h2 : slice ≤ k ∧ k < slice + (n + 1) := by omega
        have he : ptr + 75 + 75 * (k - (slice + 1)) = ptr + 75 * (k - slice) := by omega
        simp only [if_pos hr, if_pos h2, Function.update_noteq hk, he]
      · have h2 : ¬ (slice ≤ k ∧ k < slice + (n + 1)) := by omega
        simp only [if_neg hr, if_neg h2, Function.update_noteq hk]

/-- The time stamping loop changes time stamps only. -/
theorem backfillTimestamps_clearTimestamps (dt : ℚ) (n : Nat) :
    ∀ (ds : Nat → GripRealtimeDataSlice) (k : Nat),
      clearTimestamps (backfillTimestamps dt n ds k) = clearTimestamps (ds k) := by
  induction n with
  | zero => intro ds k; rfl
  | succ n ih =>
    intro ds k
    simp only [backfillTimestamps]
    rw [ih]
    by_cases hk : k = n
    · subst hk
      simp only [Function.update_same, clearTimestamps]
    · simp only [Function.update_noteq hk]

/-- Slice `k` of the record decoded by `ExtractGripRealtimeDataInfo`, up to its
time stamps, is what the slice decoder reads at payload offset `8 + 75 * k`. -/
theorem ExtractGripRealtimeDataInfo_slice (rawData N : Nat) (dt : ℚ)
    (r0 : GripRealtimeDataInfo) (q : EPMTelemetryPacket) (k : Nat) (hk : k < N) :
    clearTimestamps ((ExtractGripRealtimeDataInfo rawData N dt r0 q).dataSlice k) =
      clearTimestamps (extractDataSlice q (rawData + 8 + 75 * k) (r0.dataSlice k)).1 := by
  simp only [ExtractGripRealtimeDataInfo, backfillTimestamps_clearTimestamps]
  have hL := extractSliceLoop_apply q N 0 (rawData + 4 + 4) r0.dataSlice
  have hr : ∀ k, k < N → (0 ≤ k ∧ k < 0 + N) := fun k h => ⟨Nat.zero_le k, by omega⟩
  by_cases hk1 : k = N - 1
  · subst hk1
    simp only [Function.update_same, clearTimestamps]
    rw [hL, if_pos (hr _ hk)]
    simp only [Nat.sub_zero, Nat.add_assoc, Nat.reduceAdd]
  · simp only [Function.update_noteq hk1]
    rw [hL, if_pos (hr _ hk)]
    simp only [Nat.sub_zero, Nat.add_assoc, Nat.reduceAdd]

/-- Round trip of one slice: decoding the packet written by
`InsertGripRealtimeDataInfo` gives, up to the time stamps, `roundTripSlice` of
the encoded slice. -/
theorem realtime_roundtrip_slice (rawData N : Nat) (dt : ℚ) (r0 r : GripRealtimeDataInfo)
    (p : EPMTelemetryPacket) (k : Nat) (hk : k < N) :
    clearTimestamps ((ExtractGripRealtimeDataInfo rawData N dt r0
        (InsertGripRealtimeDataInfo rawData N p r)).dataSlice k) =
      clearTimestamps (roundTripSlice (r.dataSlice k) (r0.dataSlice k)) := by
  rw [ExtractGripRealtimeDataInfo_slice rawData N dt r0 _ k hk]
  have h := extractDataSlice_insertSliceLoop r.dataSlice N 0
    (insert_ulong (insert_ulong p rawData r.acquisitionID) (rawData + 4) r.rtPacketCount)
    (rawData + 4 + 4) k (r0.dataSlice k) (Nat.zero_le k) (by omega)
  simp only [Nat.sub_zero, Nat.add_assoc, Nat.reduceAdd] at h
  simp only [InsertGripRealtimeDataInfo, Nat.add_assoc, Nat.reduceAdd, h]

/-- Round trip of the two leading integers of the realtime payload. -/
theorem realtime_roundtrip_ids (rawData N : Nat) (dt : ℚ) (r0 r : GripRealtimeDataInfo)
    (p : EPMTelemetryPacket) :
    (ExtractGripRealtimeDataInfo rawData N dt r0
        (InsertGripRealtimeDataInfo rawData N p r)).acquisitionID = r.acquisitionID % 4294967296 ∧
    (ExtractGripRealtimeDataInfo rawData N dt r0
        (InsertGripRealtimeDataInfo rawData N p r)).rtPacketCount
      = r.rtPacketCount % 4294967296 := by
  have hf : ∀ j, j < rawData + 8 →
      InsertGripRealtimeDataInfo rawData N p r j =
        insert_ulong (insert_ulong p rawData r.acquisitionID) (rawData + 4) r.rtPacketCount j := by
    intro j hj
    simp only [InsertGripRealtimeDataInfo]
    exact insertSliceLoop_frame _ N 0 _ (rawData + 4 + 4) j (Or.inl (by omega))
  simp only [ExtractGripRealtimeDataInfo, extract_reversed_long, toUInt32_toInt32, getByte]
  simp (disch := omega) only [hf]
  simp only [← getByte.eq_1, insert_ulong, getByte_setByte,
    Nat.add_assoc, Nat.reduceAdd, Nat.add_left_cancel_iff, Nat.reduceEqDiff, reduceIte,
    self_eq_add_right, add_right_eq_self, OfNat.ofNat_ne_zero,
    be16_bytes, be32_bytes, be32_words, Nat.mod_mod]
  exact ⟨trivial, trivial⟩

theorem truncToInt_abs_sub_lt (y : ℚ) : |((truncToInt y : Int) : ℚ) - y| < 1 := by
  unfold truncToInt
  split
  · have h1 := Int.floor_le y
    have h2 := Int.lt_floor_add_one y
    rw [abs_lt]; constructor <;> linarith
  · have h1 := Int.le_ceil y
    have h2 := Int.ceil_lt_add_one y
    rw [abs_lt]; constructor <;> linarith

theorem truncToInt_bounds (y : ℚ) (B : Int) (h : |y| < (B : ℚ)) :
    -B < truncToInt y ∧ truncToInt y < B := by
  rw [abs_lt] at h
  unfold truncToInt
  split
  · rename_i h0
    have h1 : (0 : Int) ≤ ⌊y⌋ := Int.floor_nonneg.mpr h0
    have h2 : ⌊y⌋ < B := Int.floor_lt.mpr h.2
    have hB : (0 : ℚ) < (B : ℚ) := by linarith
    have hB2 : (0 : Int) < B := by exact_mod_cast hB
    omega
  · rename_i h0
    have h1 : ⌈y⌉ ≤ (0 : Int) := Int.ceil_le.mpr (by push_cast; linarith)
    have h2 : -B < ⌈y⌉ := Int.lt_ceil.mpr (by push_cast; linarith)
    have hB : (0 : ℚ) < (B : ℚ) := by linarith
    have hB2 : (0 : Int) < B := by exact_mod_cast hB
    omega

theorem castShort_of_fits (y : ℚ) (h : |y| < 2 ^ 15) : castShort y = truncToInt y := by
  have hb := truncToInt_bounds y 32768 (by push_cast; norm_num at h ⊢; exact h)
  unfold castShort toInt16 toUInt16
  generalize truncToInt y = t at hb ⊢
  split <;> omega

theorem castLong_of_fits (y : ℚ) (h : |y| < 2 ^ 31) : castLong y = truncToInt y := by
  have hb := truncToInt_bounds y 2147483648 (by push_cast; norm_num at h ⊢; exact h)
  unfold castLong toInt32 toUInt32
  generalize truncToInt y = t at hb ⊢
  split <;> omega

/-- C7: the integer fields of a realtime record round-trip exactly, modulo
their wire width, through `InsertGripRealtimeDataInfo` followed by
`ExtractGripRealtimeDataInfo`: `acquisitionID`, `rtPacketCount` and, in every
slice, `poseTick`, `analogTick`, both `markerVisibility` masks (32 bits each)
and `manipulandumVisibility` (8 bits). -/
theorem realtime_integer_fields_roundtrip (rawData N : Nat) (dt : ℚ)
    (r0 r : GripRealtimeDataInfo) (p : EPMTelemetryPacket) (k : Nat) (hk : k < N) :
    (ExtractGripRealtimeDataInfo rawData N dt r0
        (InsertGripRealtimeDataInfo rawData N p r)).acquisitionID = r.acquisitionID % 2 ^ 32 ∧
    (ExtractGripRealtimeDataInfo rawData N dt r0
        (InsertGripRealtimeDataInfo rawData N p r)).rtPacketCount = r.rtPacketCount % 2 ^ 32 ∧
    ((ExtractGripRealtimeDataInfo rawData N dt r0
        (InsertGripRealtimeDataInfo rawData N p r)).dataSlice k).poseTick
      = (r.dataSlice k).poseTick % 2 ^ 32 ∧
    ((ExtractGripRealtimeDataInfo rawData N dt r0
        (InsertGripRealtimeDataInfo rawData N p r)).dataSlice k).analogTick
      = (r.dataSlice k).analogTick % 2 ^ 32 ∧
    ((ExtractGripRealtimeDataInfo rawData N dt r0
        (InsertGripRealtimeDataInfo rawData N p r)).dataSlice k).markerVisibility0
      = (r.dataSlice k).markerVisibility0 % 2 ^ 32 ∧
    ((ExtractGripRealtimeDataInfo rawData N dt r0
        (InsertGripRealtimeDataInfo rawData N p r)).dataSlice k).markerVisibility1
      = (r.dataSlice k).markerVisibility1 % 2 ^ 32 ∧
    ((ExtractGripRealtimeDataInfo rawData N dt r0
        (InsertGripRealtimeDataInfo rawData N p r)).dataSlice k).manipulandumVisibility
      = (r.dataSlice k).manipulandumVisibility % 2 ^ 8 := by
  have h := realtime_roundtrip_slice rawData N dt r0 r p k hk
  have hid := realtime_roundtrip_ids rawData N dt r0 r p
  exact ⟨hid.1, hid.2, congrArg (fun s => s.poseTick) h, congrArg (fun s => s.analogTick) h,
    congrArg (fun s => s.markerVisibility0) h, congrArg (fun s => s.markerVisibility1) h,
    congrArg (fun s => s.manipulandumVisibility) h⟩

/-! ## Realtime data: position -/

/-- The position that `ExtractGripRealtimeDataInfo` returns for slice `k` is the
signed big-endian wire integer at payload offsets `8 + 75 * k + 4`, `+ 6`, `+ 8`
converted to `double`, with no scaling. -/
theorem ExtractGripRealtimeDataInfo_position (rawData N : Nat) (dt : ℚ)
    (r0 : GripRealtimeDataInfo) (q : EPMTelemetryPacket) (k : Nat) (hk : k < N) :
    ((ExtractGripRealtimeDataInfo rawData N dt r0 q).dataSlice k).position =
      { X := ((extract_reversed_short q (rawData + 8 + 75 * k + 4) : Int) : ℚ),
        Y := ((extract_reversed_short q (rawData + 8 + 75 * k + 6) : Int) : ℚ),
        Z := ((extract_reversed_short q (rawData + 8 + 75 * k + 8) : Int) : ℚ) } := by
  have h := congrArg (fun s => s.position) (ExtractGripRealtimeDataInfo_slice rawData N dt r0 q k hk)
  simp only [clearTimestamps] at h
  rw [h]
  simp only [extractDataSlice, Nat.add_assoc, Nat.reduceAdd]

/-- Two slices that agree up to their time stamps have the same analog fields. -/
theorem clearTimestamps_eq_fields (a b : GripRealtimeDataSlice)
    (h : clearTimestamps a = clearTimestamps b) :
    a.position = b.position ∧ a.ft0 = b.ft0 ∧ a.ft1 = b.ft1 ∧
      a.acceleration = b.acceleration := by
  have h1 := congrArg GripRealtimeDataSlice.position h
  have h2 := congrArg GripRealtimeDataSlice.ft0 h
  have h3 := congrArg GripRealtimeDataSlice.ft1 h
  have h4 := congrArg GripRealtimeDataSlice.acceleration h
  exact ⟨h1, h2, h3, h4⟩

theorem truncToInt_intCast (n : Int) : truncToInt (n : ℚ) = n := by
  unfold truncToInt
  split
  · exact Int.floor_intCast n
  · exact Int.ceil_intCast n

/-- C4 (the code at a failing input): the record `sampleInfo` has position
`(1, 0, 0)` in every slice, so `|10 * p| < 32768` for every component, but the
X position decoded from slice 0 of the packet written for it is `10`, which is
not within `0.1` of `1`. -/
theorem position_roundtrip_not_within_step :
    (∀ k, Vec3.all (fun x => |10 * x| < 32768) (sampleInfo.dataSlice k).position) ∧
    ((ExtractGripRealtimeDataInfo 42 10 sampleConstants.RT_DEFAULT_SECONDS_PER_SLICE
        sampleInfo
        (InsertGripRealtimeDataInfo 42 10 zeroPacket sampleInfo)).dataSlice 0).position.X = 10 ∧
    ¬ |((ExtractGripRealtimeDataInfo 42 10 sampleConstants.RT_DEFAULT_SECONDS_PER_SLICE
        sampleInfo
        (InsertGripRealtimeDataInfo 42 10 zeroPacket sampleInfo)).dataSlice 0).position.X
          - (sampleInfo.dataSlice 0).position.X| < 1 / 10 := by
  have hc : castShort (doubleMul 1 10) = 10 := by
    have e : doubleMul 1 10 = ((10 : Int) : ℚ) := by
      have h10 := roundDouble_intCast 10 (by norm_num)
      unfold doubleMul
      norm_num at h10 ⊢
      exact h10
    rw [e, castShort, truncToInt_intCast]
    decide
  have hp := (clearTimestamps_eq_fields _ _
    (realtime_roundtrip_slice 42 10 sampleConstants.RT_DEFAULT_SECONDS_PER_SLICE
        sampleInfo sampleInfo zeroPacket 0 (by decide))).1
  have hr : (roundTripSlice (sampleInfo.dataSlice 0) (sampleInfo.dataSlice 0)).position.X
      = 10 := by
    show ((castShort (doubleMul 1 10) : Int) : ℚ) = 10
    rw [hc]
    norm_num
  have h : ((ExtractGripRealtimeDataInfo 42 10 sampleConstants.RT_DEFAULT_SECONDS_PER_SLICE
        sampleInfo
        (InsertGripRealtimeDataInfo 42 10 zeroPacket sampleInfo)).dataSlice 0).position.X = 10 :=
    (congrArg Vec3.X hp).trans hr
  have hs : (sampleInfo.dataSlice 0).position.X = 1 := rfl
  have hv : ∀ k, (sampleInfo.dataSlice k).position = { X := 1, Y := 0, Z := 0 } := fun _ => rfl
  refine ⟨?_, h, ?_⟩
  · intro k
    rw [hv k]
    simp only [Vec3.all]
    norm_num
  · intro hlt
    have key := congrArg (fun z : ℚ => |z|) (congrArg₂ (fun a b : ℚ => a - b) h hs)
    have h9 : |(10 : ℚ) - 1| < 1 / 10 := lt_of_eq_of_lt key.symm hlt
    norm_num at h9

/-- C5 (the code at a failing input): in `wireTenPacket` the wire integer
of the X position of slice 0 is 10, which divided by 10 is 1, but the position
that `ExtractGripRealtimeDataInfo` returns is 10. -/
theorem position_decoded_without_scaling :
    ((extract_reversed_short wireTenPacket (42 + 8 + 75 * 0 + 4) : Int) : ℚ) / 10 = 1 ∧
    ((ExtractGripRealtimeDataInfo 42 10 sampleConstants.RT_DEFAULT_SECONDS_PER_SLICE
        sampleInfo wireTenPacket).dataSlice 0).position.X
      = 10 := by
  have hw : extract_reversed_short wireTenPacket (42 + 8 + 75 * 0 + 4) = 10 := by
    simp only [extract_reversed_short, getByte, wireTenPacket]
    decide
  refine ⟨?_, ?_⟩
  · rw [hw]; norm_num
  · rw [ExtractGripRealtimeDataInfo_position 42 10 sampleConstants.RT_DEFAULT_SECONDS_PER_SLICE
        sampleInfo wireTenPacket 0
      (by decide)]
    simp only [hw]
    norm_num

/-! ## Realtime data: the scaled fields in `double` arithmetic -/

theorem roundDouble_nine_point_eight :
    roundDouble (98 / 10) = 2758454771764429 / 281474976710656 := by
  have h := roundDouble_eq_of_near (98 / 10) 3 5516909543528858 (by norm_num)
    (by norm_num [abs_of_pos]) (by norm_num [abs_of_pos]) (by norm_num [abs_lt])
  rw [h]
  norm_num

/-- A force whose `double` product by 100 fits a `short` comes back within
`1 / 100 + 2 ^ -43`. -/
theorem reproducesScaled_force (x : ℚ) (h : |doubleMul x 100| < 2 ^ 15) :
    reproducesScaled 100 (1 / 2 ^ 43) x
      (doubleDiv ((castShort (doubleMul x 100) : Int) : ℚ) 100) := by
  have hc := castShort_of_fits (doubleMul x 100) h
  rw [hc]
  refine ⟨rfl, ?_⟩
  have hx : |x * 100| < 2 * 2 ^ 15 := by
    apply abs_lt_of_roundDouble_lt _ _ (by norm_num)
    exact h
  have e1 := roundDouble_error (x * 100) 15 (by norm_num) (by norm_num at hx ⊢; exact hx)
  have e2 := truncToInt_abs_sub_lt (doubleMul x 100)
  have hb := truncToInt_bounds (doubleMul x 100) 32768 (by push_cast; norm_num at h ⊢; exact h)
  have hw1 : ((truncToInt (doubleMul x 100) : Int) : ℚ) < 32768 := by exact_mod_cast hb.2
  have hw2 : (-32768 : ℚ) < ((truncToInt (doubleMul x 100) : Int) : ℚ) := by exact_mod_cast hb.1
  have e3 := roundDouble_error (((truncToInt (doubleMul x 100) : Int) : ℚ) / 100) 8
    (by norm_num) (by
      rw [abs_lt]
      norm_num
      constructor <;> linarith)
  unfold doubleDiv
  unfold doubleMul at e2 e3 hw1 hw2 ⊢
  generalize roundDouble (((truncToInt (roundDouble (x * 100)) : Int) : ℚ) / 100) = d at e3 ⊢
  generalize ((truncToInt (roundDouble (x * 100)) : Int) : ℚ) = w at e2 e3 hw1 hw2 ⊢
  generalize roundDouble (x * 100) = y at e1 e2 ⊢
  have p1 : (2 : ℚ) ^ ((15 : ℤ) - 53) = 1 / 274877906944 := by norm_num
  have p3 : (2 : ℚ) ^ ((8 : ℤ) - 53) = 1 / 35184372088832 := by norm_num
  rw [p1] at e1
  rw [p3] at e3
  rw [abs_le] at e1 e3
  rw [abs_lt] at e2 ⊢
  norm_num
  constructor <;> linarith

/-- A torque whose `double` product by 1000 fits a `short` comes back within
`1 / 1000 + 2 ^ -46`. -/
theorem reproducesScaled_torque (x : ℚ) (h : |doubleMul x 1000| < 2 ^ 15) :
    reproducesScaled 1000 (1 / 2 ^ 46) x
      (doubleDiv ((castShort (doubleMul x 1000) : Int) : ℚ) 1000) := by
  have hc := castShort_of_fits (doubleMul x 1000) h
  rw [hc]
  refine ⟨rfl, ?_⟩
  have hx : |x * 1000| < 2 * 2 ^ 15 := by
    apply abs_lt_of_roundDouble_lt _ _ (by norm_num)
    exact h
  have e1 := roundDouble_error (x * 1000) 15 (by norm_num) (by norm_num at hx ⊢; exact hx)
  have e2 := truncToInt_abs_sub_lt (doubleMul x 1000)
  have hb := truncToInt_bounds (doubleMul x 1000) 32768 (by push_cast; norm_num at h ⊢; exact h)
  have hw1 : ((truncToInt (doubleMul x 1000) : Int) : ℚ) < 32768 := by exact_mod_cast hb.2
  have hw2 : (-32768 : ℚ) < ((truncToInt (doubleMul x 1000) : Int) : ℚ) := by exact_mod_cast hb.1
  have e3 := roundDouble_error (((truncToInt (doubleMul x 1000) : Int) : ℚ) / 1000) 5
    (by norm_num) (by
      rw [abs_lt]
      norm_num
      constructor <;> linarith)
  unfold doubleDiv
  unfold doubleMul at e2 e3 hw1 hw2 ⊢
  generalize roundDouble (((truncToInt (roundDouble (x * 1000)) : Int) : ℚ) / 1000) = d at e3 ⊢
  generalize ((truncToInt (roundDouble (x * 1000)) : Int) : ℚ) = w at e2 e3 hw1 hw2 ⊢
  generalize roundDouble (x * 1000) = y at e1 e2 ⊢
  have p1 : (2 : ℚ) ^ ((15 : ℤ) - 53) = 1 / 274877906944 := by norm_num
  have p3 : (2 : ℚ) ^ ((5 : ℤ) - 53) = 1 / 281474976710656 := by norm_num
  rw [p1] at e1
  rw [p3] at e3
  rw [abs_le] at e1 e3
  rw [abs_lt] at e2 ⊢
  norm_num
  constructor <;> linarith

/-- An acceleration whose `double` product by 1000 and by 9.8 fits a `long`
comes back within `1 / 9800 + 2 ^ -32`. -/
theorem reproducesAcceleration_of_fits (x : ℚ)
    (h : |doubleMul (doubleMul x 1000) (roundDouble (98 / 10))| < 2 ^ 31) :
    reproducesAcceleration (1 / 2 ^ 32) x
      (doubleDiv (doubleDiv
        ((castLong (doubleMul (doubleMul x 1000) (roundDouble (98 / 10))) : Int) : ℚ) 1000)
        (roundDouble (98 / 10))) := by
  have hc := castLong_of_fits _ h
  rw [hc]
  refine ⟨rfl, ?_⟩
  rw [roundDouble_nine_point_eight] at h ⊢
  -- the second product
  have hy : |doubleMul x 1000 * (2758454771764429 / 281474976710656)| < 2 * 2 ^ 31 := by
    apply abs_lt_of_roundDouble_lt _ _ (by norm_num)
    exact h
  have e2 := roundDouble_error (doubleMul x 1000 * (2758454771764429 / 281474976710656)) 31
    (by norm_num) (by norm_num at hy ⊢; exact hy)
  -- the first product
  have hy1 : |doubleMul x 1000| < 2 ^ 29 := by
    rw [abs_mul, abs_of_pos (show (0 : ℚ) < 2758454771764429 / 281474976710656 by norm_num)] at hy
    have h0 := abs_nonneg (doubleMul x 1000)
    norm_num at hy ⊢
    linarith
  have hx : |x * 1000| < 2 * 2 ^ 29 := by
    apply abs_lt_of_roundDouble_lt _ _ (by norm_num)
    exact hy1
  have e1 := roundDouble_error (x * 1000) 29 (by norm_num) (by norm_num at hx ⊢; exact hx)
  -- the truncation
  have e3 := truncToInt_abs_sub_lt
    (doubleMul (doubleMul x 1000) (2758454771764429 / 281474976710656))
  have hb := truncToInt_bounds
    (doubleMul (doubleMul x 1000) (2758454771764429 / 281474976710656)) 2147483648
    (by push_cast; norm_num at h ⊢; exact h)
  have hw1 : ((truncToInt (doubleMul (doubleMul x 1000)
      (2758454771764429 / 281474976710656)) : Int) : ℚ) < 2147483648 := by exact_mod_cast hb.2
  have hw2 : (-2147483648 : ℚ) < ((truncToInt (doubleMul (doubleMul x 1000)
      (2758454771764429 / 281474976710656)) : Int) : ℚ) := by exact_mod_cast hb.1
  -- the first quotient
  have e4 := roundDouble_error (((truncToInt (doubleMul (doubleMul x 1000)
      (2758454771764429 / 281474976710656)) : Int) : ℚ) / 1000) 21 (by norm_num) (by
      rw [abs_lt]
      norm_num
      constructor <;> linarith)
  unfold doubleDiv
  unfold doubleMul at e3 e4 hw1 hw2 ⊢
  generalize ((truncToInt (roundDouble (roundDouble (x * 1000) *
    (2758454771764429 / 281474976710656))) : Int) : ℚ) = w at e3 e4 hw1 hw2 ⊢
  unfold doubleMul at e2
  generalize roundDouble (roundDouble (x * 1000) * (2758454771764429 / 281474976710656)) = y2
    at e2 e3
  generalize roundDouble (x * 1000) = y1 at e1 e2
  -- the second quotient
  have p4 : (2 : ℚ) ^ ((21 : ℤ) - 53) = 1 / 4294967296 := by norm_num
  rw [p4] at e4
  rw [abs_le] at e4
  have hz : |roundDouble (w / 1000) / (2758454771764429 / 281474976710656)|
      < (2 : ℚ) ^ ((18 : ℤ) + 1) := by
    rw [abs_lt]
    norm_num
    constructor <;> linarith
  have e5 := roundDouble_error
    (roundDouble (w / 1000) / (2758454771764429 / 281474976710656)) 18 (by norm_num) hz
  generalize roundDouble (roundDouble (w / 1000) / (2758454771764429 / 281474976710656)) = d
    at e5 ⊢
  generalize roundDouble (w / 1000) = z1 at e4 e5
  have p1 : (2 : ℚ) ^ ((29 : ℤ) - 53) = 1 / 16777216 := by norm_num
  have p2 : (2 : ℚ) ^ ((31 : ℤ) - 53) = 1 / 4194304 := by norm_num
  have p5 : (2 : ℚ) ^ ((18 : ℤ) - 53) = 1 / 34359738368 := by norm_num
  rw [p1] at e1
  rw [p2] at e2
  rw [p5] at e5
  rw [abs_le] at e1 e2 e5
  rw [abs_lt] at e3 ⊢
  norm_num at e5 e2 ⊢
  constructor <;> linarith

/-- C6 (amended): for a realtime record whose scaled analog values fit the
wire width as the encoder computes them (the `double` products
`force * 100.0` and `torque * 1000.0` below `2 ^ 15` in magnitude,
`acceleration * 1000.0 * 9.8` below `2 ^ 31`), decoding the packet written by
`InsertGripRealtimeDataInfo` gives, in every slice, each force within
`1 / 100 + 2 ^ -43` of the original, each torque within `1 / 1000 + 2 ^ -46` and
each acceleration within `1 / 9800 + 2 ^ -32`, the decoded value being the
`double` product truncated toward zero and divided by the scale in `double`. -/
theorem realtime_analog_roundtrip_rounded (rawData N : Nat) (dt : ℚ)
    (r0 r : GripRealtimeDataInfo) (p : EPMTelemetryPacket)
    (hfit : ∀ k, k < N → (r.dataSlice k).encodedFitsWire) (k : Nat) (hk : k < N) :
    Vec3.all2 (reproducesScaled 100 (1 / 2 ^ 43)) (r.dataSlice k).ft0.force
      ((ExtractGripRealtimeDataInfo rawData N dt r0
        (InsertGripRealtimeDataInfo rawData N p r)).dataSlice k).ft0.force ∧
    Vec3.all2 (reproducesScaled 1000 (1 / 2 ^ 46)) (r.dataSlice k).ft0.torque
      ((ExtractGripRealtimeDataInfo rawData N dt r0
        (InsertGripRealtimeDataInfo rawData N p r)).dataSlice k).ft0.torque ∧
    Vec3.all2 (reproducesScaled 100 (1 / 2 ^ 43)) (r.dataSlice k).ft1.force
      ((ExtractGripRealtimeDataInfo rawData N dt r0
        (InsertGripRealtimeDataInfo rawData N p r)).dataSlice k).ft1.force ∧
    Vec3.all2 (reproducesScaled 1000 (1 / 2 ^ 46)) (r.dataSlice k).ft1.torque
      ((ExtractGripRealtimeDataInfo rawData N dt r0
        (InsertGripRealtimeDataInfo rawData N p r)).dataSlice k).ft1.torque ∧
    Vec3.all2 (reproducesAcceleration (1 / 2 ^ 32)) (r.dataSlice k).acceleration
      ((ExtractGripRealtimeDataInfo rawData N dt r0
        (InsertGripRealtimeDataInfo rawData N p r)).dataSlice k).acceleration := by
  obtain ⟨_, e1, e2, e3⟩ := clearTimestamps_eq_fields _ _
    (realtime_roundtrip_slice rawData N dt r0 r p k hk)
  obtain ⟨⟨f1, f2, f3⟩, ⟨t1, t2, t3⟩, ⟨g1, g2, g3⟩, ⟨u1, u2, u3⟩, ⟨a1, a2, a3⟩⟩ := hfit k hk
  rw [e1, e2, e3]
  simp only [roundTripSlice, Vec3.all2]
  exact ⟨⟨reproducesScaled_force _ f1, reproducesScaled_force _ f2, reproducesScaled_force _ f3⟩,
    ⟨reproducesScaled_torque _ t1, reproducesScaled_torque _ t2, reproducesScaled_torque _ t3⟩,
    ⟨reproducesScaled_force _ g1, reproducesScaled_force _ g2, reproducesScaled_force _ g3⟩,
    ⟨reproducesScaled_torque _ u1, reproducesScaled_torque _ u2, reproducesScaled_torque _ u3⟩,
    ⟨reproducesAcceleration_of_fits _ a1, reproducesAcceleration_of_fits _ a2,
      reproducesAcceleration_of_fits _ a3⟩⟩

/-- A `double` product whose exact value is at most the integer `m` in
magnitude is at most `m` in magnitude. -/
theorem abs_doubleMul_le (x s : ℚ) (m : Nat) (hm : m < 2 ^ 53) (h : |x * s| ≤ (m : ℚ)) :
    |doubleMul x s| ≤ (m : ℚ) := by
  have hm' : (m : ℚ) < 9007199254740992 := by exact_mod_cast hm
  have habs : |x * s| < (2 : ℚ) ^ (53 : ℤ) := by
    norm_num
    linarith
  rw [abs_le] at h
  have g1 := roundDouble_le_int _ habs (m : Int) (by push_cast; exact h.2)
  have g2 := roundDouble_ge_int _ habs (-(m : Int)) (by push_cast; exact h.1)
  push_cast at g1 g2
  unfold doubleMul
  rw [abs_le]
  exact ⟨g2, g1⟩

theorem doubleMul_zero_left (s : ℚ) : doubleMul 0 s = 0 := by
  unfold doubleMul
  rw [zero_mul, roundDouble_zero]

theorem sampleSlice_encodedFitsWire : sampleSlice.encodedFitsWire := by
  have z15 : ∀ s : ℚ, |doubleMul 0 s| < 2 ^ 15 := by
    intro s
    rw [doubleMul_zero_left]
    norm_num
  have z31 : |doubleMul (doubleMul 0 1000) (roundDouble (98 / 10))| < 2 ^ 31 := by
    rw [doubleMul_zero_left, doubleMul_zero_left]
    norm_num
  have f0 : |doubleMul (5 / 4) 100| < 2 ^ 15 :=
    lt_of_le_of_lt (abs_doubleMul_le _ _ 125 (by norm_num) (by norm_num)) (by norm_num)
  have f1 : |doubleMul (-5 / 4) 100| < 2 ^ 15 :=
    lt_of_le_of_lt (abs_doubleMul_le _ _ 125 (by norm_num) (by norm_num [abs_le]))
      (by norm_num)
  have t0 : |doubleMul (-3 / 2048) 1000| < 2 ^ 15 :=
    lt_of_le_of_lt (abs_doubleMul_le _ _ 2 (by norm_num) (by norm_num [abs_le]))
      (by norm_num)
  have a0 : |doubleMul (doubleMul (1 / 2) 1000) (roundDouble (98 / 10))| < 2 ^ 31 := by
    have h1 := abs_doubleMul_le (1 / 2) 1000 500 (by norm_num) (by norm_num)
    rw [roundDouble_nine_point_eight]
    refine lt_of_le_of_lt (abs_doubleMul_le _ _ 5000 (by norm_num) ?_) (by norm_num)
    rw [abs_mul, abs_of_pos (show (0 : ℚ) < 2758454771764429 / 281474976710656 by norm_num)]
    have h0 := abs_nonneg (doubleMul (1 / 2) 1000)
    norm_num at h1 ⊢
    linarith
  exact ⟨⟨f0, z15 _, z15 _⟩, ⟨z15 _, t0, z15 _⟩, ⟨f1, z15 _, z15 _⟩, ⟨z15 _, z15 _, z15 _⟩,
    ⟨a0, z31, z31⟩⟩

/-- C6 (witness): slice 0 of `sampleInfo` in a packet of ten slices. -/
theorem realtime_analog_roundtrip_rounded_witness :
    Vec3.all2 (reproducesScaled 100 (1 / 2 ^ 43)) (sampleInfo.dataSlice 0).ft0.force
      ((ExtractGripRealtimeDataInfo 42 10 (3602879701896397 / 72057594037927936) sampleInfo
        (InsertGripRealtimeDataInfo 42 10 zeroPacket sampleInfo)).dataSlice 0).ft0.force :=
  (realtime_analog_roundtrip_rounded 42 10 (3602879701896397 / 72057594037927936) sampleInfo
    sampleInfo zeroPacket (fun _ _ => sampleSlice_encodedFitsWire) 0 (by decide)).1

/-! ### The rounding at concrete inputs -/

theorem truncToInt_of_mem (y : ℚ) (n : Int) (h0 : 0 ≤ y) (h1 : (n : ℚ) ≤ y)
    (h2 : y < (n : ℚ) + 1) : truncToInt y = n := by
  unfold truncToInt
  rw [if_pos h0]
  exact Int.floor_eq_iff.mpr ⟨h1, h2⟩

theorem roundDouble_force_three :
    roundDouble (1080863910568919 / 36028797018963968 * 100) = 3 := by
  have h := roundDouble_eq_of_near (1080863910568919 / 36028797018963968 * 100) 1
    6755399441055744 (by norm_num)
    (by norm_num [abs_of_pos]) (by norm_num [abs_of_pos]) (by norm_num [abs_lt])
  rw [h]
  norm_num

theorem roundDouble_three_hundredths :
    roundDouble (3 / 100) = 1080863910568919 / 36028797018963968 := by
  have h := roundDouble_eq_of_near (3 / 100) (-6) 8646911284551352 (by norm_num)
    (by norm_num [abs_of_pos]) (by norm_num [abs_of_pos]) (by norm_num [abs_lt])
  rw [h]
  norm_num

theorem roundDouble_force_below_58 :
    roundDouble (5224175567749775 / 9007199254740992 * 100)
      = 8162774324609023 / 140737488355328 := by
  have h := roundDouble_eq_of_near (5224175567749775 / 9007199254740992 * 100) 5
    8162774324609023 (by norm_num)
    (by norm_num [abs_of_pos]) (by norm_num [abs_of_pos]) (by norm_num [abs_lt])
  rw [h]
  norm_num

theorem roundDouble_57_hundredths :
    roundDouble (57 / 100) = 5134103575202365 / 9007199254740992 := by
  have h := roundDouble_eq_of_near (57 / 100) (-1) 5134103575202365 (by norm_num)
    (by norm_num [abs_of_pos]) (by norm_num [abs_of_pos]) (by norm_num [abs_lt])
  rw [h]
  norm_num

theorem roundDouble_acceleration_edge :
    roundDouble (7529283295391653 / 34359738368 * 1000) = 7352815718155911 / 33554432 := by
  have h := roundDouble_eq_of_near (7529283295391653 / 34359738368 * 1000) 27
    7352815718155911 (by norm_num)
    (by norm_num [abs_of_pos]) (by norm_num [abs_of_pos]) (by norm_num [abs_lt])
  rw [h]
  norm_num

theorem roundDouble_acceleration_edge_scaled :
    roundDouble (7352815718155911 / 33554432 * (2758454771764429 / 281474976710656))
      = 2147483648 := by
  have h := roundDouble_eq_of_near
    (7352815718155911 / 33554432 * (2758454771764429 / 281474976710656)) 30
    9007199254740992 (by norm_num)
    (by norm_num [abs_of_pos]) (by norm_num [abs_of_pos]) (by norm_num [abs_lt])
  rw [h]
  norm_num

/-- The force fields `X` and `Y` of `roundingSlice` after encoding and decoding. -/
theorem roundTripSlice_roundingSlice (old : GripRealtimeDataSlice) :
    (roundTripSlice roundingSlice old).ft0.force.X = 1080863910568919 / 36028797018963968 ∧
    (roundTripSlice roundingSlice old).ft0.force.Y = 5134103575202365 / 9007199254740992 := by
  constructor
  · show doubleDiv ((castShort (doubleMul (1080863910568919 / 36028797018963968) 100) : Int) : ℚ)
      100 = _
    unfold doubleMul doubleDiv
    rw [roundDouble_force_three, castShort_of_fits 3 (by norm_num),
      truncToInt_of_mem 3 3 (by norm_num) (by norm_num) (by norm_num)]
    push_cast
    exact roundDouble_three_hundredths
  · show doubleDiv ((castShort (doubleMul (5224175567749775 / 9007199254740992) 100) : Int) : ℚ)
      100 = _
    unfold doubleMul doubleDiv
    rw [roundDouble_force_below_58,
      castShort_of_fits _ (by norm_num [abs_lt]),
      truncToInt_of_mem _ 57 (by norm_num) (by norm_num) (by norm_num)]
    push_cast
    exact roundDouble_57_hundredths

/-- C6 (counterexample): every slice of `roundingInfo` satisfies
`|100 * force| < 2 ^ 15` and `|9800 * acceleration| < 2 ^ 31`.  The force
`0x1.eb851eb851eb8p-6` (the `double` of 0.03) comes back unchanged, whereas its
truncation to the grid of step 1/100 is `2 / 100`; the force
`0x1.28f5c28f5c28fp-1` comes back as the `double` of 0.57, which is not within
1/100 of it; and for the acceleration `0x1.abfd7e03c2fa5p+17` the encoder
computes the product `2 ^ 31`, which is not a value of `long`. -/
theorem realtime_analog_roundtrip_not_exact :
    (∀ k, (roundingInfo.dataSlice k).fitsWire) ∧
    ((ExtractGripRealtimeDataInfo 42 10 (3602879701896397 / 72057594037927936) roundingInfo
        (InsertGripRealtimeDataInfo 42 10 zeroPacket roundingInfo)).dataSlice 0).ft0.force.X
      = 1080863910568919 / 36028797018963968 ∧
    ((truncToInt ((roundingInfo.dataSlice 0).ft0.force.X * 100) : Int) : ℚ) / 100 = 2 / 100 ∧
    ¬ |((ExtractGripRealtimeDataInfo 42 10 (3602879701896397 / 72057594037927936) roundingInfo
        (InsertGripRealtimeDataInfo 42 10 zeroPacket roundingInfo)).dataSlice 0).ft0.force.Y
          - (roundingInfo.dataSlice 0).ft0.force.Y| < 1 / 100 ∧
    doubleMul (doubleMul (roundingInfo.dataSlice 0).acceleration.X 1000) (roundDouble (98 / 10))
      = 2147483648 := by
  have hft := (clearTimestamps_eq_fields _ _
    (realtime_roundtrip_slice 42 10 (3602879701896397 / 72057594037927936) roundingInfo
      roundingInfo zeroPacket 0 (by decide))).2.1
  have hr := roundTripSlice_roundingSlice (roundingInfo.dataSlice 0)
  have hX := (congrArg (fun f : ForceTorque => f.force.X) hft).trans hr.1
  have hY := (congrArg (fun f : ForceTorque => f.force.Y) hft).trans hr.2
  have hs : (roundingInfo.dataSlice 0).ft0.force.Y = 5224175567749775 / 9007199254740992 := rfl
  refine ⟨?_, hX, ?_, ?_, ?_⟩
  · intro k
    show roundingSlice.fitsWire
    simp only [roundingSlice, GripRealtimeDataSlice.fitsWire, Vec3.all]
    norm_num [abs_lt]
  · show ((truncToInt ((1080863910568919 / 36028797018963968 : ℚ) * 100) : Int) : ℚ) / 100
      = 2 / 100
    rw [truncToInt_of_mem _ 2 (by norm_num) (by norm_num) (by norm_num)]
    norm_num
  · intro hlt
    have key := congrArg (fun z : ℚ => |z|) (congrArg₂ (fun a b : ℚ => a - b) hY hs)
    have h9 : |(5134103575202365 / 9007199254740992 : ℚ) - 5224175567749775 / 9007199254740992|
        < 1 / 100 := lt_of_eq_of_lt key.symm hlt
    norm_num [abs_lt] at h9
  · show doubleMul (doubleMul (7529283295391653 / 34359738368) 1000) (roundDouble (98 / 10))
      = 2147483648
    unfold doubleMul
    rw [roundDouble_acceleration_edge, roundDouble_nine_point_eight,
      roundDouble_acceleration_edge_scaled]

/-- Witness for C7: slice 0 of `sampleInfo` in a packet of ten slices. -/
theorem realtime_integer_fields_roundtrip_witness :
    (0 : Nat) < 10 ∧
    ((ExtractGripRealtimeDataInfo 42 10 sampleConstants.RT_DEFAULT_SECONDS_PER_SLICE
        sampleInfo
        (InsertGripRealtimeDataInfo 42 10 zeroPacket sampleInfo)).dataSlice 0).markerVisibility1
      = (sampleInfo.dataSlice 0).markerVisibility1 % 2 ^ 32 :=
  ⟨by decide,
   (realtime_integer_fields_roundtrip 42 10 sampleConstants.RT_DEFAULT_SECONDS_PER_SLICE
        sampleInfo sampleInfo zeroPacket 0
      (by decide)).2.2.2.2.2.1⟩

/-! ## Cache file names -/

theorem append_suffix_ne (r s t : String) (h : s.data ≠ t.data) : r ++ s ≠ r ++ t := by
  intro he
  have hd := congrArg String.data he
  simp only [String.data_append] at hd
  exact h (List.append_cancel_left hd)

/-- C15: for a root `r` that fits the buffer (the longest of the three names
and its terminating NUL take at most `max_characters` bytes),
`CreateGripPacketCacheFilename` produces `r` followed by `.rt.gpk` for
`GRIP_RT_SCIENCE_PACKET`, by `.hk.gpk` for `GRIP_HK_BULK_PACKET` and by
`.any.gpk` for every other type value; the three names start with `r` and are
pairwise distinct. -/
theorem cacheFilename_by_type (max_characters : Int) (r : String)
    (hfit : (r.length : Int) + 8 + 1 ≤ max_characters) :
    CreateGripPacketCacheFilename max_characters GripPacketType.GRIP_RT_SCIENCE_PACKET r
      = Outcome.returned (r ++ ".rt.gpk") ∧
    CreateGripPacketCacheFilename max_characters GripPacketType.GRIP_HK_BULK_PACKET r
      = Outcome.returned (r ++ ".hk.gpk") ∧
    (∀ v, CreateGripPacketCacheFilename max_characters (GripPacketType.other v) r
      = Outcome.returned (r ++ ".any.gpk")) ∧
    r ++ ".rt.gpk" ≠ r ++ ".hk.gpk" ∧ r ++ ".rt.gpk" ≠ r ++ ".any.gpk" ∧
    r ++ ".hk.gpk" ≠ r ++ ".any.gpk" := by
  have h7 : ".rt.gpk".length = 7 := by decide
  have h7b : ".hk.gpk".length = 7 := by decide
  have h8 : ".any.gpk".length = 8 := by decide
  refine ⟨?_, ?_, ?_, ?_, ?_, ?_⟩
  · have hc : ¬ ((((r ++ ".rt.gpk").length : Nat) : Int) < 0 ∨
        (((r ++ ".rt.gpk").length : Nat) : Int) > max_characters) := by
      rw [String.length_append, h7]; push_cast; omega
    simp only [CreateGripPacketCacheFilename, if_neg hc]
  · have hc : ¬ ((((r ++ ".hk.gpk").length : Nat) : Int) < 0 ∨
        (((r ++ ".hk.gpk").length : Nat) : Int) > max_characters) := by
      rw [String.length_append, h7b]; push_cast; omega
    simp only [CreateGripPacketCacheFilename, if_neg hc]
  · intro v
    have hc : ¬ ((((r ++ ".any.gpk").length : Nat) : Int) < 0 ∨
        (((r ++ ".any.gpk").length : Nat) : Int) > max_characters) := by
      rw [String.length_append, h8]; push_cast; omega
    simp only [CreateGripPacketCacheFilename, if_neg hc]
  · exact append_suffix_ne r _ _ (by decide)
  · exact append_suffix_ne r _ _ (by decide)
  · exact append_suffix_ne r _ _ (by decide)

/-- Witness for C15: the root `GripPackets` in a buffer of 1024 bytes. -/
theorem cacheFilename_by_type_witness :
    (("GripPackets".length : Nat) : Int) + 8 + 1 ≤ 1024 ∧
    CreateGripPacketCacheFilename 1024 GripPacketType.GRIP_HK_BULK_PACKET "GripPackets"
      = Outcome.returned ("GripPackets" ++ ".hk.gpk") :=
  ⟨by decide, (cacheFilename_by_type 1024 "GripPackets" (by decide)).2.1⟩

/-- The name of the housekeeping cache is produced whenever it fits. -/
theorem CreateGripPacketCacheFilename_hk (max_characters : Int) (r : String)
    (hfit : (r.length : Int) + 7 ≤ max_characters) :
    CreateGripPacketCacheFilename max_characters GripPacketType.GRIP_HK_BULK_PACKET r
      = Outcome.returned (r ++ ".hk.gpk") := by
  have h7b : ".hk.gpk".length = 7 := by decide
  have hc : ¬ ((((r ++ ".hk.gpk").length : Nat) : Int) < 0 ∨
      (((r ++ ".hk.gpk").length : Nat) : Int) > max_characters) := by
    rw [String.length_append, h7b]; push_cast; omega
  simp only [CreateGripPacketCacheFilename, if_neg hc]

/-! ## Opening the cache -/

/-- The retry loop when the first successful attempt is attempt number `j`. -/
theorem openRetryLoop_success (K : GripConstants) (env : CacheEnv) (remaining : Nat) :
    ∀ (retry_count : Nat) (s : OpenState) (j : Nat),
      retry_count ≤ j → j < retry_count + remaining →
      (∀ i, retry_count ≤ i → i < j → env.openResult i < 0) → 0 ≤ env.openResult j →
      openRetryLoop K env remaining retry_count s =
        { fid := env.openResult j, attempts := s.attempts + (j - retry_count) + 1,
          slept := s.slept + (j - retry_count) * K.RETRY_PAUSE } := by
  induction remaining with
  | zero => intro retry_count s j h1 h2; omega
  | succ n ih =>
    intro retry_count s j h1 h2 hfail hok
    by_cases hj : j = retry_count
    · subst hj
      have : env.openResult j ≥ 0 := hok
      simp only [openRetryLoop, if_pos this, Nat.sub_self, Nat.zero_mul, Nat.add_zero]
    · have hlt : env.openResult retry_count < 0 := hfail retry_count (le_refl _) (by omega)
      have hn : ¬ env.openResult retry_count ≥ 0 := by omega
      simp only [openRetryLoop, if_neg hn]
      rw [ih (retry_count + 1) _ j (by omega) (by omega)
        (fun i hi1 hi2 => hfail i (by omega) hi2) hok]
      have e1 : j - retry_count = (j - (retry_count + 1)) + 1 := by omega
      simp only [OpenState.mk.injEq, true_and]
      constructor
      · omega
      · rw [e1, Nat.add_mul]; omega

/-- The retry loop when every attempt fails. -/
theorem openRetryLoop_failure (K : GripConstants) (env : CacheEnv) (remaining : Nat) :
    ∀ (retry_count : Nat) (s : OpenState),
      (∀ i, retry_count ≤ i → i < retry_count + (remaining + 1) → env.openResult i < 0) →
      openRetryLoop K env (remaining + 1) retry_count s =
        { fid := env.openResult (retry_count + remaining),
          attempts := s.attempts + (remaining + 1),
          slept := s.slept + (remaining + 1) * K.RETRY_PAUSE } := by
  induction remaining with
  | zero =>
    intro retry_count s hfail
    have hlt : env.openResult retry_count < 0 := hfail retry_count (le_refl _) (by omega)
    have hn : ¬ env.openResult retry_count ≥ 0 := by omega
    simp only [openRetryLoop, if_neg hn, Nat.add_zero, Nat.zero_add, Nat.one_mul]
  | succ n ih =>
    intro retry_count s hfail
    have hlt : env.openResult retry_count < 0 := hfail retry_count (le_refl _) (by omega)
    have hn : ¬ env.openResult retry_count ≥ 0 := by omega
    rw [openRetryLoop]
    simp only [if_neg hn]
    rw [ih (retry_count + 1) _ (fun i hi1 hi2 => hfail i (by omega) (by omega))]
    simp only [OpenState.mk.injEq]
    refine ⟨by congr 1; omega, by omega, ?_⟩
    rw [Nat.add_mul (n + 1) 1]; omega
/-! ## Reading the cache -/

theorem loadBytes_congr (p q : EPMTelemetryPacket) (bytes : List (Fin 256))
    (h : ∀ j, bytes.length ≤ j → p j = q j) : loadBytes p bytes = loadBytes q bytes := by
  funext j
  unfold loadBytes
  split
  · rfl
  · exact h j (by omega)

theorem loadBytes_of_le (p : EPMTelemetryPacket) (bytes : List (Fin 256)) (j : Nat)
    (h : bytes.length ≤ j) : loadBytes p bytes j = p j := by
  unfold loadBytes
  rw [dif_neg (by omega)]

/-- A full record of the body of a file is what the corresponding read delivers. -/
theorem fileReads_body (body trailing : List (Fin 256)) (L n k : Nat)
    (hbody : body.length = n * L) (hk : k < n) :
    fileReads (body ++ trailing) L k = ReadResult.data (recordAt body L k) ∧
    (recordAt body L k).length = L := by
  have h1 : (k + 1) * L ≤ n * L := Nat.mul_le_mul_right L hk
  have h2 : (k + 1) * L = k * L + L := Nat.succ_mul k L
  have hle : k * L ≤ body.length := by omega
  have hlen : L ≤ (body.drop (k * L)).length := by
    rw [List.length_drop]; omega
  refine ⟨?_, ?_⟩
  · unfold fileReads recordAt
    rw [List.drop_append_of_le_length hle, List.take_append_of_le_length hlen]
  · unfold recordAt
    rw [List.length_take]
    omega

/-- The read after the last full record delivers the trailing bytes. -/
theorem fileReads_trailing (body trailing : List (Fin 256)) (L n : Nat)
    (hbody : body.length = n * L) (htrail : trailing.length < L) :
    fileReads (body ++ trailing) L n = ReadResult.data trailing := by
  unfold fileReads
  rw [List.drop_left' hbody, List.take_of_length_le (by omega)]

/-- The read loop on a file whose remaining full records are all recognized:
it ends with the short read, having decoded the last full record. -/
theorem readLoop_recognized (K : GripConstants) (env : CacheEnv) (packet0 : EPMTelemetryPacket)
    (body trailing : List (Fin 256)) (n : Nat)
    (hbody : body.length = n * K.hkPacketLengthInBytes)
    (htrail : trailing.length < K.hkPacketLengthInBytes)
    (hread : env.readResult = fileReads (body ++ trailing) K.hkPacketLengthInBytes) (m : Nat) :
    ∀ (k fuel : Nat) (packet : EPMTelemetryPacket) (s : CacheReaderState),
      k + m = n → m < fuel → (∀ j, K.hkPacketLengthInBytes ≤ j → packet j = packet0 j) →
      (∀ i, k ≤ i → i < n → recordRecognized K packet0 body i) →
      (readLoop K env fuel k packet s).1 = ReadLoopEnd.finished ∧
      (readLoop K env fuel k packet s).2.packets_read = s.packets_read + m ∧
      (readLoop K env fuel k packet s).2.previousTMCounter = s.previousTMCounter ∧
      (readLoop K env fuel k packet s).2.opening = s.opening ∧
      (0 < m →
        (readLoop K env fuel k packet s).2.epmHeader =
          ExtractEPMTelemetryHeaderInfo
            (loadBytes packet0 (recordAt body K.hkPacketLengthInBytes (n - 1))) ∧
        (readLoop K env fuel k packet s).2.hk =
          ExtractGripHealthAndStatusInfo K.rawData
            (loadBytes packet0 (recordAt body K.hkPacketLengthInBytes (n - 1)))) ∧
      (m = 0 → (readLoop K env fuel k packet s).2.epmHeader = s.epmHeader ∧
        (readLoop K env fuel k packet s).2.hk = s.hk) := by
  induction m with
  | zero =>
    intro k fuel packet s hk hfuel _ _
    obtain ⟨f, rfl⟩ : ∃ f, fuel = f + 1 := ⟨fuel - 1, by omega⟩
    have hkn : k = n := by omega
    subst hkn
    have hr : env.readResult k = ReadResult.data trailing := by
      rw [hread]; exact fileReads_trailing body trailing _ k hbody htrail
    simp only [readLoop, hr, if_pos htrail]
    exact ⟨trivial, rfl, trivial, trivial, fun h => absurd h (by omega),
      fun _ => ⟨trivial, trivial⟩⟩
  | succ m ih =>
    intro k fuel packet s hk hfuel hbuf hval
    obtain ⟨f, rfl⟩ : ∃ f, fuel = f + 1 := ⟨fuel - 1, by omega⟩
    have hkn : k < n := by omega
    obtain ⟨hr0, hlen⟩ := fileReads_body body trailing K.hkPacketLengthInBytes n k hbody hkn
    have hr : env.readResult k = ReadResult.data (recordAt body K.hkPacketLengthInBytes k) := by
      rw [hread]; exact hr0
    have hnl : ¬ (recordAt body K.hkPacketLengthInBytes k).length < K.hkPacketLengthInBytes := by
      omega
    have hpk : loadBytes packet (recordAt body K.hkPacketLengthInBytes k) =
        loadBytes packet0 (recordAt body K.hkPacketLengthInBytes k) :=
      loadBytes_congr _ _ _ (fun j hj => hbuf j (by omega))
    have hv : isHousekeepingHeader K (ExtractEPMTelemetryHeaderInfo
        (loadBytes packet0 (recordAt body K.hkPacketLengthInBytes k))) = true :=
      hval k (le_refl _) hkn
    have hbuf2 : ∀ j, K.hkPacketLengthInBytes ≤ j →
        loadBytes packet0 (recordAt body K.hkPacketLengthInBytes k) j = packet0 j :=
      fun j hj => loadBytes_of_le _ _ j (by omega)
    have h := ih (k + 1) f (loadBytes packet0 (recordAt body K.hkPacketLengthInBytes k))
      { s with
        packets_read := s.packets_read + 1,
        epmHeader := ExtractEPMTelemetryHeaderInfo
          (loadBytes packet0 (recordAt body K.hkPacketLengthInBytes k)),
        hk := ExtractGripHealthAndStatusInfo K.rawData
          (loadBytes packet0 (recordAt body K.hkPacketLengthInBytes k)) }
      (by omega) (by omega) hbuf2 (fun i hi1 hi2 => hval i (by omega) hi2)
    simp only [readLoop, hr, if_neg hnl, hpk, hv, if_true]
    dsimp only at h
    obtain ⟨h1, h2, h3, h4, h5, h6⟩ := h
    refine ⟨h1, by rw [h2]; omega, h3, h4, fun _ => ?_, fun h0 => absurd h0 (by omega)⟩
    by_cases hm : m = 0
    · have hk1 : k = n - 1 := by omega
      rw [(h6 hm).1, (h6 hm).2, hk1]
      exact ⟨rfl, rfl⟩
    · exact h5 (by omega)

/-- The read loop on a file one of whose remaining full records is not
recognized: it ends in the fatal path. -/
theorem readLoop_unrecognized (K : GripConstants) (env : CacheEnv) (packet0 : EPMTelemetryPacket)
    (body trailing : List (Fin 256)) (n : Nat)
    (hbody : body.length = n * K.hkPacketLengthInBytes)
    (hread : env.readResult = fileReads (body ++ trailing) K.hkPacketLengthInBytes) (m : Nat) :
    ∀ (k fuel : Nat) (packet : EPMTelemetryPacket) (s : CacheReaderState),
      k + m = n → m < fuel → (∀ j, K.hkPacketLengthInBytes ≤ j → packet j = packet0 j) →
      (∃ i, k ≤ i ∧ i < n ∧ ¬ recordRecognized K packet0 body i) →
      (readLoop K env fuel k packet s).1 = ReadLoopEnd.unrecognized := by
  induction m with
  | zero =>
    intro k fuel packet s hk hfuel _ hex
    obtain ⟨i, h1, h2, _⟩ := hex
    omega
  | succ m ih =>
    intro k fuel packet s hk hfuel hbuf hex
    obtain ⟨f, rfl⟩ : ∃ f, fuel = f + 1 := ⟨fuel - 1, by omega⟩
    have hkn : k < n := by omega
    obtain ⟨hr0, hlen⟩ := fileReads_body body trailing K.hkPacketLengthInBytes n k hbody hkn
    have hr : env.readResult k = ReadResult.data (recordAt body K.hkPacketLengthInBytes k) := by
      rw [hread]; exact hr0
    have hnl : ¬ (recordAt body K.hkPacketLengthInBytes k).length < K.hkPacketLengthInBytes := by
      omega
    have hpk : loadBytes packet (recordAt body K.hkPacketLengthInBytes k) =
        loadBytes packet0 (recordAt body K.hkPacketLengthInBytes k) :=
      loadBytes_congr _ _ _ (fun j hj => hbuf j (by omega))
    have hbuf2 : ∀ j, K.hkPacketLengthInBytes ≤ j →
        loadBytes packet0 (recordAt body K.hkPacketLengthInBytes k) j = packet0 j :=
      fun j hj => loadBytes_of_le _ _ j (by omega)
    by_cases hv : recordRecognized K packet0 body k
    · have hv2 : isHousekeepingHeader K (ExtractEPMTelemetryHeaderInfo
          (loadBytes packet0 (recordAt body K.hkPacketLengthInBytes k))) = true := hv
      obtain ⟨i, h1, h2, h3⟩ := hex
      have hik : i ≠ k := fun h => h3 (h ▸ hv)
      simp only [readLoop, hr, if_neg hnl, hpk, hv2, if_true]
      exact ih (k + 1) f _ _ (by omega) (by omega) hbuf2 ⟨i, by omega, h2, h3⟩
    · have hv2 : ¬ isHousekeepingHeader K (ExtractEPMTelemetryHeaderInfo
          (loadBytes packet0 (recordAt body K.hkPacketLengthInBytes k))) = true := hv
      simp only [readLoop, hr, if_neg hnl, hpk, hv2, if_false]
      rfl

theorem readLoop_opening (K : GripConstants) (env : CacheEnv) (fuel : Nat) :
    ∀ (k : Nat) (packet : EPMTelemetryPacket) (s : CacheReaderState),
      (readLoop K env fuel k packet s).2.opening = s.opening := by
  induction fuel with
  | zero => intro k packet s; rfl
  | succ f ih =>
    intro k packet s
    rw [readLoop]
    split
    · rfl
    · dsimp only
      split
      · rfl
      · split
        · rw [ih]
        · rfl

theorem closeAndCompare_opening (env : CacheEnv) (r : ReadLoopEnd × CacheReaderState) :
    (closeAndCompare env r).2.opening = r.2.opening := by
  obtain ⟨e, s⟩ := r
  cases e
  all_goals simp only [closeAndCompare]
  all_goals repeat' split
  all_goals rfl

theorem openRetryLoop_attempts_le (K : GripConstants) (env : CacheEnv) (remaining : Nat) :
    ∀ (retry_count : Nat) (s : OpenState),
      (openRetryLoop K env remaining retry_count s).attempts ≤ s.attempts + remaining := by
  induction remaining with
  | zero => intro retry_count s; exact le_refl _
  | succ n ih =>
    intro retry_count s
    rw [openRetryLoop]
    split
    · dsimp only; omega
    · have h := ih (retry_count + 1)
        { fid := env.openResult retry_count, attempts := s.attempts + 1,
          slept := s.slept + K.RETRY_PAUSE }
      dsimp only at h
      omega

theorem openRetryLoop_fid_nonneg (K : GripConstants) (env : CacheEnv) (remaining : Nat) :
    ∀ (retry_count : Nat) (s : OpenState),
      (∃ j, retry_count ≤ j ∧ j < retry_count + remaining ∧ 0 ≤ env.openResult j) →
      0 ≤ (openRetryLoop K env remaining retry_count s).fid := by
  induction remaining with
  | zero => intro retry_count s h; obtain ⟨j, h1, h2, _⟩ := h; omega
  | succ n ih =>
    intro retry_count s h
    rw [openRetryLoop]
    split
    · rename_i hok; exact hok
    · rename_i hno
      obtain ⟨j, h1, h2, h3⟩ := h
      have hj : j ≠ retry_count := fun e => hno (e ▸ h3)
      exact ih (retry_count + 1) _ ⟨j, by omega, by omega, h3⟩

/-- The call after the file name has been produced. -/
theorem GetLastPacketHK_of_name (K : GripConstants) (env : CacheEnv) (fuel prev : Nat)
    (hdr : EPMTelemetryHeaderInfo) (hk : GripHealthAndStatusInfo) (root : String) (fid : Int)
    (packet : EPMTelemetryPacket)
    (hname : (root.length : Int) + 7 ≤ (K.MAX_PATHLENGTH : Int)) :
    GetLastPacketHK K env fuel prev hdr hk root fid packet =
      if (openRetryLoop K env K.MAX_OPEN_CACHE_RETRIES 0
            { fid := fid, attempts := 0, slept := 0 }).fid < 0 then
        (Outcome.exited (-1),
          { epmHeader := hdr, hk := hk, previousTMCounter := prev, packets_read := 0,
            opening := openRetryLoop K env K.MAX_OPEN_CACHE_RETRIES 0
              { fid := fid, attempts := 0, slept := 0 } })
      else closeAndCompare env (readLoop K env fuel 0 packet
          { epmHeader := hdr, hk := hk, previousTMCounter := prev, packets_read := 0,
            opening := openRetryLoop K env K.MAX_OPEN_CACHE_RETRIES 0
              { fid := fid, attempts := 0, slept := 0 } }) := by
  simp only [GetLastPacketHK, CreateGripPacketCacheFilename_hk _ _ hname]

/-- The state of the retry loop is part of what every call leaves behind. -/
theorem GetLastPacketHK_opening (K : GripConstants) (env : CacheEnv) (fuel prev : Nat)
    (hdr : EPMTelemetryHeaderInfo) (hk : GripHealthAndStatusInfo) (root : String) (fid : Int)
    (packet : EPMTelemetryPacket)
    (hname : (root.length : Int) + 7 ≤ (K.MAX_PATHLENGTH : Int)) :
    (GetLastPacketHK K env fuel prev hdr hk root fid packet).2.opening =
      openRetryLoop K env K.MAX_OPEN_CACHE_RETRIES 0 { fid := fid, attempts := 0, slept := 0 } := by
  rw [GetLastPacketHK_of_name K env fuel prev hdr hk root fid packet hname]
  split
  · rfl
  · rw [closeAndCompare_opening, readLoop_opening]

/-- A call that reads a cache all of whose full records are recognized returns
normally; with at least one record, its outputs are the decoded last record. -/
theorem GetLastPacketHK_recognized (K : GripConstants) (env : CacheEnv) (fuel prev : Nat)
    (hdr : EPMTelemetryHeaderInfo) (hk : GripHealthAndStatusInfo) (root : String) (fid : Int)
    (packet : EPMTelemetryPacket) (body trailing : List (Fin 256)) (n : Nat)
    (hc : ReadsCache K env root body trailing n) (hfuel : n < fuel)
    (hval : ∀ i, i < n → recordRecognized K packet body i) :
    (∃ b, (GetLastPacketHK K env fuel prev hdr hk root fid packet).1 = Outcome.returned b) ∧
    (0 < n →
      (GetLastPacketHK K env fuel prev hdr hk root fid packet).1 =
        Outcome.returned (decide (prev ≠ (ExtractEPMTelemetryHeaderInfo
          (loadBytes packet (recordAt body K.hkPacketLengthInBytes (n - 1)))).TMCounter)) ∧
      (GetLastPacketHK K env fuel prev hdr hk root fid packet).2.epmHeader =
        ExtractEPMTelemetryHeaderInfo
          (loadBytes packet (recordAt body K.hkPacketLengthInBytes (n - 1))) ∧
      (GetLastPacketHK K env fuel prev hdr hk root fid packet).2.hk =
        ExtractGripHealthAndStatusInfo K.rawData
          (loadBytes packet (recordAt body K.hkPacketLengthInBytes (n - 1))) ∧
      (GetLastPacketHK K env fuel prev hdr hk root fid packet).2.previousTMCounter =
        (ExtractEPMTelemetryHeaderInfo
          (loadBytes packet (recordAt body K.hkPacketLengthInBytes (n - 1)))).TMCounter ∧
      (GetLastPacketHK K env fuel prev hdr hk root fid packet).2.packets_read = n) := by
  obtain ⟨j, hj1, hj2⟩ := hc.opens
  have hfid := openRetryLoop_fid_nonneg K env K.MAX_OPEN_CACHE_RETRIES 0
    { fid := fid, attempts := 0, slept := 0 } ⟨j, Nat.zero_le j, by omega, hj2⟩
  rw [GetLastPacketHK_of_name K env fuel prev hdr hk root fid packet hc.name_fits,
    if_neg (by omega)]
  have h := readLoop_recognized K env packet body trailing n hc.body_length hc.trailing_short
    hc.reads n 0 fuel packet
    { epmHeader := hdr, hk := hk, previousTMCounter := prev, packets_read := 0,
      opening := openRetryLoop K env K.MAX_OPEN_CACHE_RETRIES 0
        { fid := fid, attempts := 0, slept := 0 } }
    (by omega) hfuel (fun _ _ => rfl) (fun i _ hi => hval i hi)
  revert h
  generalize readLoop K env fuel 0 packet _ = r
  obtain ⟨e, s⟩ := r
  dsimp only
  rintro ⟨h1, h2, h3, h4, h5, h6⟩
  subst h1
  have hcl : ¬ env.closeResult ≠ 0 := by rw [hc.closes]; simp
  simp only [closeAndCompare, if_neg hcl]
  constructor
  · split
    · exact ⟨true, rfl⟩
    · exact ⟨false, rfl⟩
  · intro hn
    obtain ⟨h5a, h5b⟩ := h5 hn
    rw [h3, h5a]
    split
    · rename_i hne
      simp only [h5a, h5b, h2, decide_eq_true hne, Nat.zero_add, and_self]
    · rename_i hne
      have hne2 : prev = (ExtractEPMTelemetryHeaderInfo
          (loadBytes packet (recordAt body K.hkPacketLengthInBytes (n - 1)))).TMCounter := by
        simpa using hne
      simp only [h5a, h5b, h2, h3, Nat.zero_add, true_and, and_true]
      exact ⟨by simp [← hne2], hne2⟩

/-- A call that reads a cache one of whose full records is not recognized ends
in the fatal path. -/
theorem GetLastPacketHK_unrecognized (K : GripConstants) (env : CacheEnv) (fuel prev : Nat)
    (hdr : EPMTelemetryHeaderInfo) (hk : GripHealthAndStatusInfo) (root : String) (fid : Int)
    (packet : EPMTelemetryPacket) (body trailing : List (Fin 256)) (n : Nat)
    (hc : ReadsCache K env root body trailing n) (hfuel : n < fuel)
    (hbad : ∃ i, i < n ∧ ¬ recordRecognized K packet body i) :
    (GetLastPacketHK K env fuel prev hdr hk root fid packet).1 = Outcome.exited (-1) := by
  obtain ⟨j, hj1, hj2⟩ := hc.opens
  have hfid := openRetryLoop_fid_nonneg K env K.MAX_OPEN_CACHE_RETRIES 0
    { fid := fid, attempts := 0, slept := 0 } ⟨j, Nat.zero_le j, by omega, hj2⟩
  rw [GetLastPacketHK_of_name K env fuel prev hdr hk root fid packet hc.name_fits,
    if_neg (by omega)]
  obtain ⟨i, hi1, hi2⟩ := hbad
  have h := readLoop_unrecognized K env packet body trailing n hc.body_length
    hc.reads n 0 fuel packet
    { epmHeader := hdr, hk := hk, previousTMCounter := prev, packets_read := 0,
      opening := openRetryLoop K env K.MAX_OPEN_CACHE_RETRIES 0
        { fid := fid, attempts := 0, slept := 0 } }
    (by omega) hfuel (fun _ _ => rfl) ⟨i, Nat.zero_le i, hi1, hi2⟩
  revert h
  generalize readLoop K env fuel 0 packet _ = r
  obtain ⟨e, s⟩ := r
  dsimp only
  intro h1
  subst h1
  rfl

/-! ## The housekeeping cache reader -/

/-- C12: for a cache file made of `n >= 1` full recognized housekeeping records
followed by fewer than `hkPacketLengthInBytes` trailing bytes, `GetLastPacketHK`
returns normally with `hk` the decode (`ExtractGripHealthAndStatusInfo`) of the
`n`-th record and `epmHeader` the decoded header of the `n`-th record; the
trailing bytes do not influence the result: a file with the same records and
other trailing bytes gives the same outcome and outputs. -/
theorem GetLastPacketHK_returns_last_record (K : GripConstants) (env env2 : CacheEnv)
    (fuel prev : Nat) (hdr : EPMTelemetryHeaderInfo) (hk : GripHealthAndStatusInfo)
    (root : String) (fid : Int) (packet : EPMTelemetryPacket)
    (body trailing trailing2 : List (Fin 256)) (n : Nat)
    (hc : ReadsCache K env root body trailing n)
    (hc2 : ReadsCache K env2 root body trailing2 n) (hn : 0 < n) (hfuel : n < fuel)
    (hval : ∀ i, i < n → recordRecognized K packet body i) :
    (∃ b, (GetLastPacketHK K env fuel prev hdr hk root fid packet).1 = Outcome.returned b) ∧
    (GetLastPacketHK K env fuel prev hdr hk root fid packet).2.hk =
      ExtractGripHealthAndStatusInfo K.rawData
        (loadBytes packet (recordAt body K.hkPacketLengthInBytes (n - 1))) ∧
    (GetLastPacketHK K env fuel prev hdr hk root fid packet).2.epmHeader =
      ExtractEPMTelemetryHeaderInfo
        (loadBytes packet (recordAt body K.hkPacketLengthInBytes (n - 1))) ∧
    (GetLastPacketHK K env2 fuel prev hdr hk root fid packet).1 =
      (GetLastPacketHK K env fuel prev hdr hk root fid packet).1 ∧
    (GetLastPacketHK K env2 fuel prev hdr hk root fid packet).2.hk =
      (GetLastPacketHK K env fuel prev hdr hk root fid packet).2.hk ∧
    (GetLastPacketHK K env2 fuel prev hdr hk root fid packet).2.epmHeader =
      (GetLastPacketHK K env fuel prev hdr hk root fid packet).2.epmHeader := by
  obtain ⟨h0, h1⟩ := GetLastPacketHK_recognized K env fuel prev hdr hk root fid packet body
    trailing n hc hfuel hval
  obtain ⟨_, h2⟩ := GetLastPacketHK_recognized K env2 fuel prev hdr hk root fid packet body
    trailing2 n hc2 hfuel hval
  obtain ⟨a1, a2, a3, _, _⟩ := h1 hn
  obtain ⟨b1, b2, b3, _, _⟩ := h2 hn
  exact ⟨h0, a3, a2, by rw [a1, b1], by rw [a3, b3], by rw [a2, b2]⟩

/-- C11: for two consecutive calls of `GetLastPacketHK` on cache files with at
least one full record each (all records recognized, so that the calls return),
the second call returns `FALSE` if the `TMCounter` of the last record it read
equals the `TMCounter` of the last record read by the first call and `TRUE` if
it differs; after each call the retained `previousTMCounter` is the `TMCounter`
just observed. -/
theorem GetLastPacketHK_freshness (K : GripConstants) (env1 env2 : CacheEnv)
    (fuel1 fuel2 prev : Nat) (hdr1 hdr2 : EPMTelemetryHeaderInfo)
    (hk1 hk2 : GripHealthAndStatusInfo) (root : String) (fid1 fid2 : Int)
    (packet1 packet2 : EPMTelemetryPacket) (body1 trailing1 body2 trailing2 : List (Fin 256))
    (n1 n2 : Nat)
    (hc1 : ReadsCache K env1 root body1 trailing1 n1)
    (hc2 : ReadsCache K env2 root body2 trailing2 n2)
    (hn1 : 0 < n1) (hn2 : 0 < n2) (hfuel1 : n1 < fuel1) (hfuel2 : n2 < fuel2)
    (hval1 : ∀ i, i < n1 → recordRecognized K packet1 body1 i)
    (hval2 : ∀ i, i < n2 → recordRecognized K packet2 body2 i) :
    (GetLastPacketHK K env1 fuel1 prev hdr1 hk1 root fid1 packet1).2.previousTMCounter =
      (ExtractEPMTelemetryHeaderInfo
        (loadBytes packet1 (recordAt body1 K.hkPacketLengthInBytes (n1 - 1)))).TMCounter ∧
    (GetLastPacketHK K env2 fuel2
        (GetLastPacketHK K env1 fuel1 prev hdr1 hk1 root fid1 packet1).2.previousTMCounter
        hdr2 hk2 root fid2 packet2).2.previousTMCounter =
      (ExtractEPMTelemetryHeaderInfo
        (loadBytes packet2 (recordAt body2 K.hkPacketLengthInBytes (n2 - 1)))).TMCounter ∧
    ((ExtractEPMTelemetryHeaderInfo
        (loadBytes packet2 (recordAt body2 K.hkPacketLengthInBytes (n2 - 1)))).TMCounter =
      (ExtractEPMTelemetryHeaderInfo
        (loadBytes packet1 (recordAt body1 K.hkPacketLengthInBytes (n1 - 1)))).TMCounter →
      (GetLastPacketHK K env2 fuel2
        (GetLastPacketHK K env1 fuel1 prev hdr1 hk1 root fid1 packet1).2.previousTMCounter
        hdr2 hk2 root fid2 packet2).1 = Outcome.returned false) ∧
    ((ExtractEPMTelemetryHeaderInfo
        (loadBytes packet2 (recordAt body2 K.hkPacketLengthInBytes (n2 - 1)))).TMCounter ≠
      (ExtractEPMTelemetryHeaderInfo
        (loadBytes packet1 (recordAt body1 K.hkPacketLengthInBytes (n1 - 1)))).TMCounter →
      (GetLastPacketHK K env2 fuel2
        (GetLastPacketHK K env1 fuel1 prev hdr1 hk1 root fid1 packet1).2.previousTMCounter
        hdr2 hk2 root fid2 packet2).1 = Outcome.returned true) := by
  obtain ⟨_, a⟩ := GetLastPacketHK_recognized K env1 fuel1 prev hdr1 hk1 root fid1 packet1
    body1 trailing1 n1 hc1 hfuel1 hval1
  obtain ⟨_, _, _, a4, _⟩ := a hn1
  obtain ⟨_, b⟩ := GetLastPacketHK_recognized K env2 fuel2
    (GetLastPacketHK K env1 fuel1 prev hdr1 hk1 root fid1 packet1).2.previousTMCounter
    hdr2 hk2 root fid2 packet2 body2 trailing2 n2 hc2 hfuel2 hval2
  obtain ⟨b1, _, _, b4, _⟩ := b hn2
  refine ⟨a4, b4, fun he => ?_, fun hne => ?_⟩
  · rw [b1, a4, he]; simp
  · rw [b1, a4]
    have : decide ((ExtractEPMTelemetryHeaderInfo
        (loadBytes packet1 (recordAt body1 K.hkPacketLengthInBytes (n1 - 1)))).TMCounter ≠
      (ExtractEPMTelemetryHeaderInfo
        (loadBytes packet2 (recordAt body2 K.hkPacketLengthInBytes (n2 - 1)))).TMCounter)
        = true := decide_eq_true (fun h => hne h.symm)
    rw [this]

/-- C13: when open, read and close succeed, `GetLastPacketHK` ends in the
fatal path (message and `exit( -1 )`) if and only if some full record of the
cache file, not only the last one, has `epmSyncMarker` different from
`EPM_TELEMETRY_SYNC_VALUE` or `TMIdentifier` different from `GRIP_HK_ID`;
otherwise it returns normally. -/
theorem GetLastPacketHK_fatal_iff_unrecognized (K : GripConstants) (env : CacheEnv)
    (fuel prev : Nat) (hdr : EPMTelemetryHeaderInfo) (hk : GripHealthAndStatusInfo)
    (root : String) (fid : Int) (packet : EPMTelemetryPacket)
    (body trailing : List (Fin 256)) (n : Nat)
    (hc : ReadsCache K env root body trailing n) (hfuel : n < fuel) :
    ((GetLastPacketHK K env fuel prev hdr hk root fid packet).1 = Outcome.exited (-1) ↔
      ∃ i, i < n ∧
        ((ExtractEPMTelemetryHeaderInfo
            (loadBytes packet (recordAt body K.hkPacketLengthInBytes i))).epmSyncMarker
          ≠ K.EPM_TELEMETRY_SYNC_VALUE ∨
         (ExtractEPMTelemetryHeaderInfo
            (loadBytes packet (recordAt body K.hkPacketLengthInBytes i))).TMIdentifier
          ≠ K.GRIP_HK_ID)) ∧
    ((¬ ∃ i, i < n ∧
        ((ExtractEPMTelemetryHeaderInfo
            (loadBytes packet (recordAt body K.hkPacketLengthInBytes i))).epmSyncMarker
          ≠ K.EPM_TELEMETRY_SYNC_VALUE ∨
         (ExtractEPMTelemetryHeaderInfo
            (loadBytes packet (recordAt body K.hkPacketLengthInBytes i))).TMIdentifier
          ≠ K.GRIP_HK_ID)) →
      ∃ b, (GetLastPacketHK K env fuel prev hdr hk root fid packet).1 = Outcome.returned b) := by
  have hrec : ∀ i, recordRecognized K packet body i ↔
      ¬ ((ExtractEPMTelemetryHeaderInfo
            (loadBytes packet (recordAt body K.hkPacketLengthInBytes i))).epmSyncMarker
          ≠ K.EPM_TELEMETRY_SYNC_VALUE ∨
         (ExtractEPMTelemetryHeaderInfo
            (loadBytes packet (recordAt body K.hkPacketLengthInBytes i))).TMIdentifier
          ≠ K.GRIP_HK_ID) := by
    intro i
    simp only [recordRecognized, isHousekeepingHeader, Bool.not_eq_true', Bool.or_eq_false_iff,
      bne_eq_false_iff_eq, ne_eq, not_or, not_not]
  have hgood : (¬ ∃ i, i < n ∧
        ((ExtractEPMTelemetryHeaderInfo
            (loadBytes packet (recordAt body K.hkPacketLengthInBytes i))).epmSyncMarker
          ≠ K.EPM_TELEMETRY_SYNC_VALUE ∨
         (ExtractEPMTelemetryHeaderInfo
            (loadBytes packet (recordAt body K.hkPacketLengthInBytes i))).TMIdentifier
          ≠ K.GRIP_HK_ID)) →
      ∃ b, (GetLastPacketHK K env fuel prev hdr hk root fid packet).1 = Outcome.returned b := by
    intro hno
    exact (GetLastPacketHK_recognized K env fuel prev hdr hk root fid packet body trailing n hc
      hfuel (fun i hi => (hrec i).mpr (fun hb => hno ⟨i, hi, hb⟩))).1
  refine ⟨⟨fun hex => ?_, fun hbad => ?_⟩, hgood⟩
  · by_contra hno
    obtain ⟨b, hb⟩ := hgood hno
    rw [hb] at hex
    exact Outcome.noConfusion hex
  · obtain ⟨i, hi, hb⟩ := hbad
    exact GetLastPacketHK_unrecognized K env fuel prev hdr hk root fid packet body trailing n hc
      hfuel ⟨i, hi, fun hr => (hrec i).mp hr hb⟩

/-- C14: with the outcomes of the successive attempts to open the cache given
as a sequence, `GetLastPacketHK` makes at most `MAX_OPEN_CACHE_RETRIES`
attempts, stops at the first success (attempt `j`, after `j` failures and `j`
pauses of `RETRY_PAUSE`), pauses `RETRY_PAUSE` after each failed attempt, and
takes the fatal path of the open stage exactly when all
`MAX_OPEN_CACHE_RETRIES` attempts fail. -/
theorem GetLastPacketHK_open_retries (K : GripConstants) (env : CacheEnv) (fuel prev : Nat)
    (hdr : EPMTelemetryHeaderInfo) (hk : GripHealthAndStatusInfo) (root : String) (fid : Int)
    (packet : EPMTelemetryPacket)
    (hname : (root.length : Int) + 7 ≤ (K.MAX_PATHLENGTH : Int))
    (hmax : 0 < K.MAX_OPEN_CACHE_RETRIES) :
    (GetLastPacketHK K env fuel prev hdr hk root fid packet).2.opening.attempts
      ≤ K.MAX_OPEN_CACHE_RETRIES ∧
    (∀ j, j < K.MAX_OPEN_CACHE_RETRIES → (∀ i, i < j → env.openResult i < 0) →
      0 ≤ env.openResult j →
      (GetLastPacketHK K env fuel prev hdr hk root fid packet).2.opening =
        { fid := env.openResult j, attempts := j + 1, slept := j * K.RETRY_PAUSE }) ∧
    ((∀ i, i < K.MAX_OPEN_CACHE_RETRIES → env.openResult i < 0) →
      (GetLastPacketHK K env fuel prev hdr hk root fid packet).2.opening.attempts
        = K.MAX_OPEN_CACHE_RETRIES ∧
      (GetLastPacketHK K env fuel prev hdr hk root fid packet).2.opening.slept
        = K.MAX_OPEN_CACHE_RETRIES * K.RETRY_PAUSE ∧
      (GetLastPacketHK K env fuel prev hdr hk root fid packet).1 = Outcome.exited (-1) ∧
      (GetLastPacketHK K env fuel prev hdr hk root fid packet).2.packets_read = 0) ∧
    ((GetLastPacketHK K env fuel prev hdr hk root fid packet).2.opening.fid < 0 ↔
      ∀ i, i < K.MAX_OPEN_CACHE_RETRIES → env.openResult i < 0) := by
  have hop := GetLastPacketHK_opening K env fuel prev hdr hk root fid packet hname
  obtain ⟨m, hm⟩ : ∃ m, K.MAX_OPEN_CACHE_RETRIES = m + 1 :=
    ⟨K.MAX_OPEN_CACHE_RETRIES - 1, by omega⟩
  have hfail : (∀ i, i < K.MAX_OPEN_CACHE_RETRIES → env.openResult i < 0) →
      openRetryLoop K env K.MAX_OPEN_CACHE_RETRIES 0 { fid := fid, attempts := 0, slept := 0 } =
        { fid := env.openResult m, attempts := K.MAX_OPEN_CACHE_RETRIES,
          slept := K.MAX_OPEN_CACHE_RETRIES * K.RETRY_PAUSE } := by
    intro hall
    rw [hm, openRetryLoop_failure K env m 0 _ (fun i _ hi => hall i (by omega))]
    simp only [Nat.zero_add]
  refine ⟨?_, ?_, ?_, ?_⟩
  · rw [hop]
    have h := openRetryLoop_attempts_le K env K.MAX_OPEN_CACHE_RETRIES 0
      { fid := fid, attempts := 0, slept := 0 }
    simpa using h
  · intro j hj hbefore hok
    rw [hop, openRetryLoop_success K env K.MAX_OPEN_CACHE_RETRIES 0 _ j (Nat.zero_le j)
      (by omega) (fun i _ hi => hbefore i hi) hok]
    simp only [Nat.zero_add, Nat.sub_zero]
  · intro hall
    have hneg : (openRetryLoop K env K.MAX_OPEN_CACHE_RETRIES 0
        { fid := fid, attempts := 0, slept := 0 }).fid < 0 := by
      rw [hfail hall]; exact hall m (by omega)
    refine ⟨by rw [hop, hfail hall], by rw [hop, hfail hall], ?_, ?_⟩
    · rw [GetLastPacketHK_of_name K env fuel prev hdr hk root fid packet hname, if_pos hneg]
    · rw [GetLastPacketHK_of_name K env fuel prev hdr hk root fid packet hname, if_pos hneg]
  · rw [hop]
    constructor
    · intro hneg i hi
      by_contra hge
      have := openRetryLoop_fid_nonneg K env K.MAX_OPEN_CACHE_RETRIES 0
        { fid := fid, attempts := 0, slept := 0 } ⟨i, Nat.zero_le i, by omega, by omega⟩
      omega
    · intro hall
      rw [hfail hall]; exact hall m (by omega)

/-- The sample file system reads a file made of sample records. -/
theorem sampleCacheEnv_reads (a b : Fin 256) (trailing : List (Fin 256))
    (ht : trailing.length < 162) :
    ReadsCache sampleConstants (sampleCacheEnv (sampleRecord a ++ sampleRecord b ++ trailing))
      "GripPackets" (sampleRecord a ++ sampleRecord b) trailing 2 :=
  { name_fits := by decide
    opens := ⟨1, by decide, by simp [sampleCacheEnv]⟩
    reads := rfl
    body_length := by simp [sampleRecord, sampleConstants]
    trailing_short := ht
    closes := rfl }

theorem sampleRecord_recognized (a b : Fin 256) (i : Nat) (hi : i < 2) :
    recordRecognized sampleConstants zeroPacket (sampleRecord a ++ sampleRecord b) i := by
  have h0 : recordAt (sampleRecord a ++ sampleRecord b) 162 0 = sampleRecord a := by
    unfold recordAt
    rw [Nat.zero_mul, List.drop_zero, List.take_left' (by simp [sampleRecord])]
  have h1 : recordAt (sampleRecord a ++ sampleRecord b) 162 1 = sampleRecord b := by
    unfold recordAt
    rw [Nat.one_mul, List.drop_left' (by simp [sampleRecord]),
      List.take_of_length_le (by simp [sampleRecord])]
  have hrec : ∀ c : Fin 256, isHousekeepingHeader sampleConstants
      (ExtractEPMTelemetryHeaderInfo (loadBytes zeroPacket (sampleRecord c))) = true := by
    intro c
    have hb : ∀ j, j < 162 → getByte (loadBytes zeroPacket (sampleRecord c)) j =
        ((if j = 12 then 255 else if j = 13 then 219 else if j = 14 then 84
          else if j = 15 then 77 else if j = 20 then 3 else if j = 21 then 1
          else if j = 23 then c else 0 : Fin 256) : Nat) := by
      intro j hj
      simp [getByte, loadBytes, sampleRecord, hj]
    simp only [isHousekeepingHeader, ExtractEPMTelemetryHeaderInfo,
      toUInt32_extract_reversed_long, toUInt16_extract_reversed_short, Nat.zero_add,
      Nat.reduceAdd]
    rw [hb 12 (by decide), hb 13 (by decide), hb 14 (by decide), hb 15 (by decide),
      hb 20 (by decide), hb 21 (by decide)]
    simp [sampleConstants]
    decide
  unfold recordRecognized
  have : sampleConstants.hkPacketLengthInBytes = 162 := rfl
  rw [this]
  interval_cases i
  · rw [h0]; exact hrec a
  · rw [h1]; exact hrec b

/-- Witness for C12: a cache of two sample records followed by three stray
bytes, and the same cache without them. -/
theorem GetLastPacketHK_returns_last_record_witness :
    ∃ b, (GetLastPacketHK sampleConstants
      (sampleCacheEnv (sampleRecord 5 ++ sampleRecord 6 ++ [1, 2, 3])) 3 0
      sampleConstants.hkHeader sampleHK "GripPackets" 0 zeroPacket).1 = Outcome.returned b :=
  (GetLastPacketHK_returns_last_record sampleConstants
    (sampleCacheEnv (sampleRecord 5 ++ sampleRecord 6 ++ [1, 2, 3]))
    (sampleCacheEnv (sampleRecord 5 ++ sampleRecord 6 ++ [])) 3 0
    sampleConstants.hkHeader sampleHK "GripPackets" 0 zeroPacket
    (sampleRecord 5 ++ sampleRecord 6) [1, 2, 3] [] 2
    (sampleCacheEnv_reads 5 6 [1, 2, 3] (by decide))
    (sampleCacheEnv_reads 5 6 [] (by decide)) (by decide) (by decide)
    (sampleRecord_recognized 5 6)).1

/-- Witness for C11: a first call on a cache whose last record has counter 6,
then a call on a cache whose last record has counter 7. -/
theorem GetLastPacketHK_freshness_witness :
    (GetLastPacketHK sampleConstants (sampleCacheEnv (sampleRecord 5 ++ sampleRecord 6 ++ [])) 3 0
      sampleConstants.hkHeader sampleHK "GripPackets" 0 zeroPacket).2.previousTMCounter =
      (ExtractEPMTelemetryHeaderInfo (loadBytes zeroPacket
        (recordAt (sampleRecord 5 ++ sampleRecord 6) sampleConstants.hkPacketLengthInBytes
          (2 - 1)))).TMCounter :=
  (GetLastPacketHK_freshness sampleConstants
    (sampleCacheEnv (sampleRecord 5 ++ sampleRecord 6 ++ []))
    (sampleCacheEnv (sampleRecord 6 ++ sampleRecord 7 ++ [])) 3 3 0
    sampleConstants.hkHeader sampleConstants.hkHeader sampleHK sampleHK "GripPackets" 0 0
    zeroPacket zeroPacket (sampleRecord 5 ++ sampleRecord 6) [] (sampleRecord 6 ++ sampleRecord 7)
    [] 2 2 (sampleCacheEnv_reads 5 6 [] (by decide)) (sampleCacheEnv_reads 6 7 [] (by decide))
    (by decide) (by decide) (by decide) (by decide)
    (sampleRecord_recognized 5 6) (sampleRecord_recognized 6 7)).1

/-- Witness for C13: a cache of two sample records. -/
theorem GetLastPacketHK_fatal_iff_unrecognized_witness :
    (GetLastPacketHK sampleConstants (sampleCacheEnv (sampleRecord 5 ++ sampleRecord 6 ++ [])) 3 0
      sampleConstants.hkHeader sampleHK "GripPackets" 0 zeroPacket).1 = Outcome.exited (-1) ↔
      ∃ i, i < 2 ∧
        ((ExtractEPMTelemetryHeaderInfo (loadBytes zeroPacket
            (recordAt (sampleRecord 5 ++ sampleRecord 6) sampleConstants.hkPacketLengthInBytes
              i))).epmSyncMarker ≠ sampleConstants.EPM_TELEMETRY_SYNC_VALUE ∨
         (ExtractEPMTelemetryHeaderInfo (loadBytes zeroPacket
            (recordAt (sampleRecord 5 ++ sampleRecord 6) sampleConstants.hkPacketLengthInBytes
              i))).TMIdentifier ≠ sampleConstants.GRIP_HK_ID) :=
  (GetLastPacketHK_fatal_iff_unrecognized sampleConstants
    (sampleCacheEnv (sampleRecord 5 ++ sampleRecord 6 ++ [])) 3 0
    sampleConstants.hkHeader sampleHK "GripPackets" 0 zeroPacket
    (sampleRecord 5 ++ sampleRecord 6) [] 2 (sampleCacheEnv_reads 5 6 [] (by decide))
    (by decide)).1

/-- Witness for C14: the first attempt fails, the second succeeds: two calls of
`_open` and one pause of 2000 ms. -/
theorem GetLastPacketHK_open_retries_witness :
    (GetLastPacketHK sampleConstants (sampleCacheEnv []) 1 0
      sampleConstants.hkHeader sampleHK "GripPackets" 0 zeroPacket).2.opening =
      { fid := (sampleCacheEnv []).openResult 1, attempts := 1 + 1,
        slept := 1 * sampleConstants.RETRY_PAUSE } :=
  (GetLastPacketHK_open_retries sampleConstants (sampleCacheEnv []) 1 0
    sampleConstants.hkHeader sampleHK "GripPackets" 0 zeroPacket (by decide) (by decide)).2.1 1
    (by decide) (fun i hi => by
      have h0 : i = 0 := by omega
      subst h0
      simp [sampleCacheEnv]) (by simp [sampleCacheEnv])

/-! ## Rewriting a header in place -/

theorem ExtractEPMTelemetryHeaderInfo_TMCounter (p : EPMTelemetryPacket) :
    (ExtractEPMTelemetryHeaderInfo p).TMCounter = 256 * getByte p 22 + getByte p 23 := by
  simp only [ExtractEPMTelemetryHeaderInfo, toUInt16_extract_reversed_short, Nat.zero_add,
    Nat.reduceAdd]

theorem ExtractEPMTelemetryHeaderInfo_epmSyncMarker (p : EPMTelemetryPacket) :
    (ExtractEPMTelemetryHeaderInfo p).epmSyncMarker =
      16777216 * getByte p 12 + 65536 * getByte p 13 + 256 * getByte p 14 + getByte p 15 := by
  simp only [ExtractEPMTelemetryHeaderInfo, toUInt32_extract_reversed_long, Nat.zero_add,
    Nat.reduceAdd]

theorem ExtractEPMTelemetryHeaderInfo_subsystemID (p : EPMTelemetryPacket) :
    (ExtractEPMTelemetryHeaderInfo p).subsystemID = getByte p 17 := by
  simp only [ExtractEPMTelemetryHeaderInfo, ExtractChar, Nat.zero_add, Nat.reduceAdd]

/-- The encoder of the telemetry header changes no byte from offset 42 on. -/
theorem InsertEPMTelemetryHeaderInfo_frame (p : EPMTelemetryPacket)
    (h : EPMTelemetryHeaderInfo) (j : Nat) (hj : 42 ≤ j) :
    (InsertEPMTelemetryHeaderInfo p h).1 j = p j := by
  simp only [InsertEPMTelemetryHeaderInfo, InsertEPMTransferFrameHeaderInfo,
    storeLong_swapbytes_long, storeShort_swapbytes_short, insert_ulong, Nat.zero_add,
    Nat.reduceAdd]
  simp (disch := omega) only [setByte_ne]

/-- The two bytes of `TMCounter` in an encoded telemetry header. -/
theorem InsertEPMTelemetryHeaderInfo_TMCounter_bytes (p : EPMTelemetryPacket)
    (h : EPMTelemetryHeaderInfo) :
    getByte (InsertEPMTelemetryHeaderInfo p h).1 22 = h.TMCounter / 256 % 256 ∧
    getByte (InsertEPMTelemetryHeaderInfo p h).1 23 = h.TMCounter % 256 := by
  simp only [InsertEPMTelemetryHeaderInfo, InsertEPMTransferFrameHeaderInfo,
    storeLong_swapbytes_long, storeShort_swapbytes_short, insert_ulong, getByte_setByte,
    Nat.zero_add, Nat.reduceAdd, Nat.reduceEqDiff, reduceIte, Nat.mod_mod, and_self]

/-- The counter that a packet carries after its header has been encoded. -/
theorem TMCounter_InsertEPMTelemetryHeaderInfo (p : EPMTelemetryPacket)
    (h : EPMTelemetryHeaderInfo) :
    (ExtractEPMTelemetryHeaderInfo (InsertEPMTelemetryHeaderInfo p h).1).TMCounter
      = h.TMCounter % 65536 := by
  rw [ExtractEPMTelemetryHeaderInfo_TMCounter, (InsertEPMTelemetryHeaderInfo_TMCounter_bytes p h).1,
    (InsertEPMTelemetryHeaderInfo_TMCounter_bytes p h).2]
  omega

set_option maxHeartbeats 4000000 in
/-- Encoding the header decoded from a packet, with other values of
`TMCounter`, `coarseTime` and `fineTime`, changes only bytes 22-23 and 28-33. -/
theorem InsertEPMTelemetryHeaderInfo_Extract (p : EPMTelemetryPacket) (c t f : Nat) (j : Nat)
    (h22 : j ≠ 22) (h23 : j ≠ 23) (h28 : j < 28 ∨ 34 ≤ j) :
    (InsertEPMTelemetryHeaderInfo p
      { ExtractEPMTelemetryHeaderInfo p with TMCounter := c, coarseTime := t, fineTime := f }).1 j
      = p j := by
  by_cases hj : 42 ≤ j
  · exact InsertEPMTelemetryHeaderInfo_frame p _ j hj
  · apply Fin.ext
    show getByte _ j = getByte p j
    have hb : ∀ i, getByte p i < 256 := getByte_lt p
    have h0 := hb 0; have h1 := hb 1; have h2 := hb 2; have h3 := hb 3
    have h4 := hb 4; have h5 := hb 5; have h6 := hb 6; have h7 := hb 7
    have h8 := hb 8; have h9 := hb 9; have h10 := hb 10; have h11 := hb 11
    have h12 := hb 12; have h13 := hb 13; have h14 := hb 14; have h15 := hb 15
    have h16 := hb 16; have h17 := hb 17; have h18 := hb 18; have h19 := hb 19
    have h20 := hb 20; have h21 := hb 21; have h24 := hb 24; have h25 := hb 25
    have h26 := hb 26; have h27 := hb 27; have h34 := hb 34; have h35 := hb 35
    have h36 := hb 36; have h37 := hb 37; have h38 := hb 38; have h39 := hb 39
    have h40 := hb 40; have h41 := hb 41
    have hlt : j < 42 := by omega
    clear hj hb
    interval_cases j <;>
      first
      | omega
      | (simp only [InsertEPMTelemetryHeaderInfo, InsertEPMTransferFrameHeaderInfo,
          ExtractEPMTelemetryHeaderInfo, toUInt16_extract_reversed_short,
          toUInt32_extract_reversed_long, ExtractChar,
          storeLong_swapbytes_long, storeShort_swapbytes_short, insert_ulong, getByte_setByte,
          Nat.zero_add, Nat.reduceAdd, Nat.reduceEqDiff, reduceIte]
         omega)

/-! ## Recorded playback -/

theorem playRecordedPacket_skip (K : GripConstants) (env : EmulatorEnv) (s : PlaybackState)
    (h : ¬ isGripPacket K s.recordedPacket) : playRecordedPacket K env s = (none, s) := by
  unfold isGripPacket at h
  unfold playRecordedPacket
  by_cases h1 : (ExtractEPMTelemetryHeaderInfo s.recordedPacket).epmSyncMarker
      = K.EPM_TELEMETRY_SYNC_VALUE
  · have h2 : (ExtractEPMTelemetryHeaderInfo s.recordedPacket).subsystemID
        ≠ K.GRIP_SUBSYSTEM_ID := fun e => h ⟨h1, e⟩
    simp only [ne_eq, h1, not_true_eq_false, if_false, h2, not_false_eq_true, if_true]
  · simp only [ne_eq, h1, not_false_eq_true, if_true]

/-- What the loop body does with a GRIP packet: one call of `send`, with the
buffer in which the header has been rewritten, and one more in `packetCount`. -/
theorem playRecordedPacket_send (K : GripConstants) (env : EmulatorEnv) (s : PlaybackState)
    (h : isGripPacket K s.recordedPacket) :
    (playRecordedPacket K env s).2.sent = s.sent ++
      [{ kind := PacketKind.recorded,
         buffer := (InsertEPMTelemetryHeaderInfo s.recordedPacket
           { ExtractEPMTelemetryHeaderInfo s.recordedPacket with
             TMCounter := toUInt16 (s.packetCount : Int),
             coarseTime := toUInt32 ((env.clock s.clocks).1 - 315964800 + 16),
             fineTime := toUInt16 (((env.clock s.clocks).2 : Int) * 10) }).1,
         length := (K.EPM_BUFFER_LENGTH : Int) - 1 }] ∧
    (playRecordedPacket K env s).2.packetCount = s.packetCount + 1 ∧
    (playRecordedPacket K env s).2.sends = s.sends + 1 ∧
    (playRecordedPacket K env s).2.reads = s.reads ∧
    ((playRecordedPacket K env s).1 = none ∨
      (playRecordedPacket K env s).1 = some (s.packetCount + 1)) ∧
    ((playRecordedPacket K env s).1 = none ↔ env.sendFails s.sends = false) := by
  obtain ⟨h1, h2⟩ := h
  unfold playRecordedPacket
  simp only [ne_eq, h1, not_true_eq_false, if_false, h2, setPacketTime]
  cases hs : env.sendFails s.sends
  · simp only [Bool.false_eq_true, if_false]
    split <;> simp
  · simp

theorem readRecordedPacket_sent (env : EmulatorEnv) (s : PlaybackState) :
    (readRecordedPacket env s).sent = s.sent ∧
    (readRecordedPacket env s).packetCount = s.packetCount :=
  ⟨rfl, rfl⟩

/-- The invariant of recorded playback: the packets handed to `send` since the
static counter was `c` carry the counters `c, c + 1, ...` modulo `2 ^ 16`, and
`packetCount` has advanced by their number. -/
theorem playRecordedPacket_counters (K : GripConstants) (env : EmulatorEnv) (c : Nat)
    (s : PlaybackState)
    (hinv : tmCounters s.sent = countersFrom c s.sent.length ∧
      s.packetCount = c + s.sent.length) :
    tmCounters (playRecordedPacket K env s).2.sent =
      countersFrom c (playRecordedPacket K env s).2.sent.length ∧
    (playRecordedPacket K env s).2.packetCount = c + (playRecordedPacket K env s).2.sent.length := by
  by_cases h : isGripPacket K s.recordedPacket
  · obtain ⟨e1, e2, _⟩ := playRecordedPacket_send K env s h
    rw [e1, e2]
    simp only [tmCounters, countersFrom, List.map_append, List.length_append, List.length_singleton,
      List.map_cons, List.map_nil, List.range_succ, TMCounter_InsertEPMTelemetryHeaderInfo]
    simp only [tmCounters, countersFrom] at hinv
    rw [hinv.1, hinv.2]
    refine ⟨?_, by omega⟩
    congr 2
    simp only [toUInt16]
    omega
  · rw [playRecordedPacket_skip K env s h]
    exact hinv

theorem playFile_counters (K : GripConstants) (env : EmulatorEnv) (c : Nat) (fuel : Nat) :
    ∀ s : PlaybackState,
      (tmCounters s.sent = countersFrom c s.sent.length ∧ s.packetCount = c + s.sent.length) →
      tmCounters (playFile K env fuel s).2.sent =
        countersFrom c (playFile K env fuel s).2.sent.length ∧
      (playFile K env fuel s).2.packetCount = c + (playFile K env fuel s).2.sent.length := by
  induction fuel with
  | zero => intro s h; exact h
  | succ n ih =>
    intro s h
    have hp := playRecordedPacket_counters K env c s h
    rw [playFile]
    revert hp
    generalize playRecordedPacket K env s = r
    obtain ⟨o, s1⟩ := r
    intro hp
    cases o with
    | some count => exact hp
    | none =>
      dsimp only
      split
      · exact ih _ hp
      · exact hp

theorem sendRecordedPackets_counters (K : GripConstants) (env : EmulatorEnv) (c : Nat)
    (fuel : Nat) :
    ∀ s : PlaybackState,
      (tmCounters s.sent = countersFrom c s.sent.length ∧ s.packetCount = c + s.sent.length) →
      tmCounters (sendRecordedPackets K env fuel s).2.sent =
        countersFrom c (sendRecordedPackets K env fuel s).2.sent.length ∧
      (sendRecordedPackets K env fuel s).2.packetCount
        = c + (sendRecordedPackets K env fuel s).2.sent.length := by
  induction fuel with
  | zero => intro s h; exact h
  | succ n ih =>
    intro s h
    rw [sendRecordedPackets]
    dsimp only
    split
    · exact h
    · split
      · exact h
      · have hp := playFile_counters K env c n
          (readRecordedPacket env { s with opens := s.opens + 1 }) h
        revert hp
        generalize playFile K env n (readRecordedPacket env { s with opens := s.opens + 1 }) = r
        obtain ⟨e, s1⟩ := r
        intro hp
        cases e with
        | sendFailed count => exact hp
        | outOfFuel => exact hp
        | fileEnd =>
          dsimp only
          split
          · exact hp
          · exact ih _ hp

/-- C17: the loop body of `sendRecordedPackets` calls `send` for the chunk in
the buffer if and only if its decoded `epmSyncMarker` equals
`EPM_TELEMETRY_SYNC_VALUE` and its decoded `subsystemID` equals
`GRIP_SUBSYSTEM_ID`; a chunk failing either test leaves the whole state
unchanged (no `send`, same `packetCount`) and the loop goes on to read the next
chunk. -/
theorem playRecordedPacket_sends_iff_grip (K : GripConstants) (env : EmulatorEnv)
    (s : PlaybackState) (fuel : Nat) :
    (isGripPacket K s.recordedPacket ↔
      ((ExtractEPMTelemetryHeaderInfo s.recordedPacket).epmSyncMarker
          = K.EPM_TELEMETRY_SYNC_VALUE ∧
       (ExtractEPMTelemetryHeaderInfo s.recordedPacket).subsystemID = K.GRIP_SUBSYSTEM_ID)) ∧
    ((playRecordedPacket K env s).2.sends = s.sends + 1 ↔ isGripPacket K s.recordedPacket) ∧
    ((playRecordedPacket K env s).2.sent.length = s.sent.length + 1 ↔
      isGripPacket K s.recordedPacket) ∧
    (¬ isGripPacket K s.recordedPacket →
      playRecordedPacket K env s = (none, s) ∧
      playFile K env (fuel + 1) s =
        if (readRecordedPacket env s).bytes_read ≠ 0 then
          playFile K env fuel (readRecordedPacket env s)
        else (PlaybackEnd.fileEnd, readRecordedPacket env s)) := by
  refine ⟨Iff.rfl, ?_⟩
  by_cases h : isGripPacket K s.recordedPacket
  · obtain ⟨e1, _, e3, _⟩ := playRecordedPacket_send K env s h
    refine ⟨⟨fun _ => h, fun _ => e3⟩, ⟨fun _ => h, fun _ => ?_⟩, fun hn => absurd h hn⟩
    rw [e1, List.length_append, List.length_singleton]
  · have e := playRecordedPacket_skip K env s h
    refine ⟨⟨fun hs => ?_, fun hg => absurd hg h⟩, ⟨fun hs => ?_, fun hg => absurd hg h⟩,
      fun _ => ⟨e, ?_⟩⟩
    · rw [e] at hs; simp at hs
    · rw [e] at hs; simp at hs
    · rw [playFile, e]

/-- C18: for a GRIP chunk, the buffer that `sendRecordedPackets` hands to
`send` equals the chunk in the buffer at every offset except the `TMCounter`
field (bytes 22-23) and the coarse and fine time fields (bytes 28-33): the
other header bytes and the payload are passed through unchanged. -/
theorem playRecordedPacket_passes_bytes (K : GripConstants) (env : EmulatorEnv)
    (s : PlaybackState) (h : isGripPacket K s.recordedPacket) :
    ∃ p : SentPacket, (playRecordedPacket K env s).2.sent = s.sent ++ [p] ∧
      p.kind = PacketKind.recorded ∧
      ∀ j, j ≠ 22 → j ≠ 23 → (j < 28 ∨ 34 ≤ j) → p.buffer j = s.recordedPacket j := by
  obtain ⟨e1, _⟩ := playRecordedPacket_send K env s h
  exact ⟨_, e1, rfl, fun j h22 h23 h28 =>
    InsertEPMTelemetryHeaderInfo_Extract s.recordedPacket _ _ _ j h22 h23 h28⟩

/-- Every buffer into which `gripChunk` has been read is a GRIP packet. -/
theorem isGripPacket_gripChunk (p : EPMTelemetryPacket) :
    isGripPacket sampleConstants (loadBytes p gripChunk) := by
  have hb : ∀ j, j < 1412 → getByte (loadBytes p gripChunk) j =
      ((if j = 12 then 255 else if j = 13 then 219 else if j = 14 then 84
        else if j = 15 then 77 else if j = 17 then 33 else 0 : Fin 256) : Nat) := by
    intro j hj
    simp [getByte, loadBytes, gripChunk, hj]
  unfold isGripPacket
  rw [ExtractEPMTelemetryHeaderInfo_epmSyncMarker, ExtractEPMTelemetryHeaderInfo_subsystemID,
    hb 12 (by decide), hb 13 (by decide), hb 14 (by decide), hb 15 (by decide),
    hb 17 (by decide)]
  simp [sampleConstants]
  decide

/-- The buffer of the first playback once `gripChunk` has been read into it. -/
theorem readRecordedPacket_gripChunk (sendFails : Nat → Bool) (s : PlaybackState) :
    (readRecordedPacket (sampleEmulatorEnv sendFails) s).recordedPacket
      = loadBytes s.recordedPacket gripChunk := by
  simp only [readRecordedPacket, sampleEmulatorEnv, ReadResult.store]

/-- Witness for C18: the chunk `gripChunk` read into the zero buffer. -/
theorem playRecordedPacket_passes_bytes_witness :
    ∃ p : SentPacket,
      (playRecordedPacket sampleConstants (sampleEmulatorEnv fun _ => false)
        (readRecordedPacket (sampleEmulatorEnv fun _ => false) (firstPlayback zeroPacket))).2.sent
        = (readRecordedPacket (sampleEmulatorEnv fun _ => false) (firstPlayback zeroPacket)).sent
          ++ [p] ∧
      p.kind = PacketKind.recorded ∧
      ∀ j, j ≠ 22 → j ≠ 23 → (j < 28 ∨ 34 ≤ j) →
        p.buffer j =
          (readRecordedPacket (sampleEmulatorEnv fun _ => false)
            (firstPlayback zeroPacket)).recordedPacket j :=
  playRecordedPacket_passes_bytes sampleConstants (sampleEmulatorEnv fun _ => false)
    (readRecordedPacket (sampleEmulatorEnv fun _ => false) (firstPlayback zeroPacket))
    (by rw [readRecordedPacket_gripChunk]; exact isGripPacket_gripChunk _)

/-- A call of `sendRecordedPackets` whose file opens, whose first chunk is a
GRIP packet and whose first `send` fails returns at once, having handed one
packet to `send` and advanced `packetCount` by one. -/
theorem sendRecordedPackets_first_send_fails (K : GripConstants) (env : EmulatorEnv)
    (s : PlaybackState) (hopen : env.openResult s.opens = 0)
    (hread : 0 ≤ (env.readResult s.reads).count)
    (hgrip : isGripPacket K ((env.readResult s.reads).store s.recordedPacket))
    (hsend : env.sendFails s.sends = true) :
    (sendRecordedPackets K env 2 s).1 = Outcome.returned (s.packetCount + 1) ∧
    (sendRecordedPackets K env 2 s).2.packetCount = s.packetCount + 1 ∧
    (sendRecordedPackets K env 2 s).2.sent.length = s.sent.length + 1 := by
  have hg : isGripPacket K
      (readRecordedPacket env { s with opens := s.opens + 1 }).recordedPacket := hgrip
  obtain ⟨e1, e2, _, _, _, e6⟩ := playRecordedPacket_send K env
    (readRecordedPacket env { s with opens := s.opens + 1 }) hg
  have hnone : (playRecordedPacket K env
      (readRecordedPacket env { s with opens := s.opens + 1 })).1 ≠ none := by
    intro hn
    have := e6.mp hn
    have hs2 : env.sendFails (readRecordedPacket env { s with opens := s.opens + 1 }).sends
        = true := hsend
    rw [hs2] at this
    exact Bool.noConfusion this
  have hlt : ¬ (readRecordedPacket env { s with opens := s.opens + 1 }).bytes_read < 0 := by
    have : (readRecordedPacket env { s with opens := s.opens + 1 }).bytes_read
        = (env.readResult s.reads).count := rfl
    omega
  obtain ⟨_, _, _, _, e5, _⟩ := playRecordedPacket_send K env
    (readRecordedPacket env { s with opens := s.opens + 1 }) hg
  have hsome : (playRecordedPacket K env
      (readRecordedPacket env { s with opens := s.opens + 1 })).1 = some (s.packetCount + 1) := by
    rcases e5 with e | e
    · exact absurd e hnone
    · exact e
  have hne : ¬ env.openResult s.opens ≠ 0 := by rw [hopen]; simp
  rw [sendRecordedPackets]
  dsimp only
  rw [if_neg hne, if_neg hlt, playFile]
  revert e1 e2 hsome
  generalize playRecordedPacket K env (readRecordedPacket env { s with opens := s.opens + 1 }) = r
  obtain ⟨o, s1⟩ := r
  intro e1 e2 hsome
  dsimp only at e1 e2 hsome
  subst hsome
  dsimp only
  refine ⟨rfl, e2, ?_⟩
  rw [e1, List.length_append, List.length_singleton]
  rfl

/-- C16 (amended): the `TMCounter` values written into the GRIP packets that
one call of `sendRecordedPackets` hands to `send` are, in order of emission,
`c, c + 1, c + 2, ...` modulo `2 ^ 16`, where `c` is the value of the static
`packetCount` on entry: `0` in the first call of the process, and in a later
call the count that the previous calls have reached. -/
theorem sendRecordedPackets_counters_continue (K : GripConstants) (env : EmulatorEnv)
    (fuel : Nat) (s : PlaybackState) (packet : EPMTelemetryPacket) :
    tmCounters (sendRecordedPackets K env fuel (firstPlayback packet)).2.sent =
      countersFrom 0 (sendRecordedPackets K env fuel (firstPlayback packet)).2.sent.length ∧
    tmCounters (sendRecordedPackets K env fuel (nextPlayback s packet)).2.sent =
      countersFrom s.packetCount
        (sendRecordedPackets K env fuel (nextPlayback s packet)).2.sent.length ∧
    (sendRecordedPackets K env fuel (nextPlayback s packet)).2.packetCount =
      s.packetCount + (sendRecordedPackets K env fuel (nextPlayback s packet)).2.sent.length := by
  have h1 := sendRecordedPackets_counters K env 0 fuel (firstPlayback packet) ⟨rfl, rfl⟩
  have h2 := sendRecordedPackets_counters K env s.packetCount fuel (nextPlayback s packet)
    ⟨rfl, rfl⟩
  exact ⟨h1.1, h2.1, h2.2⟩

/-- One call of `sendRecordedPackets`, in the outside world whose every `send`
fails, from a state with an empty trace: one packet is handed to `send`, with
the counter that `packetCount` had on entry. -/
theorem sendRecordedPackets_failing_send (s : PlaybackState) (hs : s.sent = []) :
    tmCounters (sendRecordedPackets sampleConstants (sampleEmulatorEnv fun _ => true) 2 s).2.sent
      = [s.packetCount % 65536] ∧
    (sendRecordedPackets sampleConstants (sampleEmulatorEnv fun _ => true) 2 s).2.packetCount
      = s.packetCount + 1 := by
  have hf := sendRecordedPackets_first_send_fails sampleConstants
    (sampleEmulatorEnv fun _ => true) s rfl
    (by simp [sampleEmulatorEnv, ReadResult.count])
    (by
      simp only [sampleEmulatorEnv, ReadResult.store]
      exact isGripPacket_gripChunk _)
    rfl
  have hc := sendRecordedPackets_counters sampleConstants (sampleEmulatorEnv fun _ => true)
    s.packetCount 2 s (by rw [hs]; exact ⟨rfl, by simp⟩)
  obtain ⟨_, f2, f3⟩ := hf
  rw [hs] at f3
  refine ⟨?_, f2⟩
  rw [hc.1, f3]
  simp [countersFrom, List.range_succ]

/-- C16 (counterexample): in the outside world whose every `send` fails, the
first call of `sendRecordedPackets` in a process hands one GRIP packet to `send`
and returns; the first GRIP packet that the next call sends carries
`TMCounter` 1, not 0. -/
theorem sendRecordedPackets_second_run_starts_at_one :
    tmCounters (sendRecordedPackets sampleConstants (sampleEmulatorEnv fun _ => true) 2
      (firstPlayback zeroPacket)).2.sent = [0] ∧
    tmCounters (sendRecordedPackets sampleConstants (sampleEmulatorEnv fun _ => true) 2
      (nextPlayback
        (sendRecordedPackets sampleConstants (sampleEmulatorEnv fun _ => true) 2
          (firstPlayback zeroPacket)).2 zeroPacket)).2.sent = [1] := by
  have h1 := sendRecordedPackets_failing_send (firstPlayback zeroPacket) rfl
  have h2 := sendRecordedPackets_failing_send
    (nextPlayback
      (sendRecordedPackets sampleConstants (sampleEmulatorEnv fun _ => true) 2
        (firstPlayback zeroPacket)).2 zeroPacket) rfl
  refine ⟨h1.1, ?_⟩
  rw [h2.1]
  have hp : (nextPlayback
      (sendRecordedPackets sampleConstants (sampleEmulatorEnv fun _ => true) 2
        (firstPlayback zeroPacket)).2 zeroPacket).packetCount
      = (sendRecordedPackets sampleConstants (sampleEmulatorEnv fun _ => true) 2
        (firstPlayback zeroPacket)).2.packetCount := by
    simp only [nextPlayback]
  rw [hp, h1.2]
  simp [firstPlayback]

/-! ## Constructed packets -/

/-- The encoder of the realtime data changes no byte before the payload. -/
theorem InsertGripRealtimeDataInfo_frame_below (rawData N : Nat) (p : EPMTelemetryPacket)
    (r : GripRealtimeDataInfo) (j : Nat) (hj : j < rawData) :
    InsertGripRealtimeDataInfo rawData N p r j = p j := by
  simp only [InsertGripRealtimeDataInfo]
  rw [insertSliceLoop_frame _ N 0 _ (rawData + 4 + 4) j (Or.inl (by omega))]
  simp only [insert_ulong]
  simp (disch := omega) only [setByte_ne]

/-- The encoder of the housekeeping data changes no byte before offset 76 of
the payload. -/
theorem InsertGripHealthAndStatusInfo_frame_below (rawData : Nat) (p : EPMTelemetryPacket)
    (hk : GripHealthAndStatusInfo) (j : Nat) (hj : j < rawData + 76) :
    InsertGripHealthAndStatusInfo rawData p hk j = p j := by
  simp only [InsertGripHealthAndStatusInfo, storeLong_swapbytes_long,
    storeShort_swapbytes_short, insert_ulong]
  simp (disch := omega) only [setByte_ne]

theorem toUInt16_natCast (n : Nat) : toUInt16 (n : Int) = n % 65536 := by
  unfold toUInt16
  omega

/-- What the first part of a cycle leaves: one more in `packet_count`, the
trace and the flag untouched, and a realtime packet that carries the old
`packet_count` as its `TMCounter`. -/
theorem prepareRealtimePacket_spec (K : GripConstants) (env : EmulatorEnv) (s : SynthState) :
    (prepareRealtimePacket K env s).packet_count = s.packet_count + 1 ∧
    (prepareRealtimePacket K env s).sent = s.sent ∧
    (prepareRealtimePacket K env s).sends = s.sends ∧
    (prepareRealtimePacket K env s).send_hk = s.send_hk ∧
    (24 ≤ K.rawData →
      (ExtractEPMTelemetryHeaderInfo (prepareRealtimePacket K env s).rtPacket).TMCounter
        = s.packet_count % 65536) := by
  refine ⟨rfl, rfl, rfl, rfl, fun h => ?_⟩
  have hp : ∃ (hdr : EPMTelemetryHeaderInfo) (r : GripRealtimeDataInfo),
      hdr.TMCounter = toUInt16 (s.packet_count : Int) ∧
      (prepareRealtimePacket K env s).rtPacket =
        InsertGripRealtimeDataInfo K.rawData K.RT_SLICES_PER_PACKET
          (InsertEPMTelemetryHeaderInfo s.rtPacket hdr).1 r := ⟨_, _, rfl, rfl⟩
  obtain ⟨hdr, r, h1, h2⟩ := hp
  rw [h2, ExtractEPMTelemetryHeaderInfo_TMCounter]
  unfold getByte
  rw [InsertGripRealtimeDataInfo_frame_below _ _ _ _ 22 (by omega),
    InsertGripRealtimeDataInfo_frame_below _ _ _ _ 23 (by omega)]
  have hb := InsertEPMTelemetryHeaderInfo_TMCounter_bytes s.rtPacket hdr
  unfold getByte at hb
  rw [hb.1, hb.2, h1, toUInt16_natCast]
  omega

/-- What the housekeeping part of a cycle leaves before its `send`. -/
theorem prepareHousekeepingPacket_spec (K : GripConstants) (env : EmulatorEnv) (s : SynthState) :
    (prepareHousekeepingPacket K env s).packet_count = s.packet_count + 1 ∧
    (prepareHousekeepingPacket K env s).sent = s.sent ∧
    (prepareHousekeepingPacket K env s).sends = s.sends ∧
    (prepareHousekeepingPacket K env s).send_hk = s.send_hk ∧
    (ExtractEPMTelemetryHeaderInfo (prepareHousekeepingPacket K env s).hkPacket).TMCounter
        = s.packet_count % 65536 := by
  refine ⟨rfl, rfl, rfl, rfl, ?_⟩
  have hp : ∃ (hdr : EPMTelemetryHeaderInfo) (r : GripHealthAndStatusInfo),
      hdr.TMCounter = toUInt16 (s.packet_count : Int) ∧
      (prepareHousekeepingPacket K env s).hkPacket =
        InsertGripHealthAndStatusInfo K.rawData
          (InsertEPMTelemetryHeaderInfo s.hkPacket hdr).1 r := ⟨_, _, rfl, rfl⟩
  obtain ⟨hdr, r, h1, h2⟩ := hp
  rw [h2, ExtractEPMTelemetryHeaderInfo_TMCounter]
  unfold getByte
  rw [InsertGripHealthAndStatusInfo_frame_below _ _ _ 22 (by omega),
    InsertGripHealthAndStatusInfo_frame_below _ _ _ 23 (by omega)]
  have hb := InsertEPMTelemetryHeaderInfo_TMCounter_bytes s.hkPacket hdr
  unfold getByte at hb
  rw [hb.1, hb.2, h1, toUInt16_natCast]
  omega

theorem endOfCycle_spec (K : GripConstants) (s : SynthState) :
    (endOfCycle K s).packet_count = s.packet_count ∧
    (endOfCycle K s).sent = s.sent ∧
    (endOfCycle K s).sends = s.sends ∧
    (endOfCycle K s).send_hk = !s.send_hk := by
  unfold endOfCycle
  dsimp only
  split <;> exact ⟨rfl, rfl, rfl, rfl⟩

/-- The realtime part of a cycle: one more in `packet_count`, one call of
`send` with a packet that carries the old `packet_count` as its `TMCounter`. -/
theorem sendRealtimePacket_spec (K : GripConstants) (env : EmulatorEnv) (s : SynthState) :
    (sendRealtimePacket K env s).packet_count = s.packet_count + 1 ∧
    (sendRealtimePacket K env s).sends = s.sends + 1 ∧
    (sendRealtimePacket K env s).send_hk = s.send_hk ∧
    (sendRealtimePacket K env s).iSendFails = env.sendFails s.sends ∧
    (sendRealtimePacket K env s).sent.map (fun p => p.kind)
      = s.sent.map (fun p => p.kind) ++ [PacketKind.realtime] ∧
    (sendRealtimePacket K env s).sent.length = s.sent.length + 1 ∧
    (24 ≤ K.rawData →
      tmCounters (sendRealtimePacket K env s).sent
        = tmCounters s.sent ++ [s.packet_count % 65536]) := by
  refine ⟨rfl, rfl, rfl, rfl, ?_, ?_, fun h => ?_⟩
  · simp only [sendRealtimePacket, noteSend, (prepareRealtimePacket_spec K env s).2.1,
      List.map_append, List.map_cons, List.map_nil]
  · simp only [sendRealtimePacket, noteSend, (prepareRealtimePacket_spec K env s).2.1,
      List.length_append, List.length_singleton]
  · simp only [sendRealtimePacket, noteSend, (prepareRealtimePacket_spec K env s).2.1,
      tmCounters, List.map_append, List.map_cons, List.map_nil,
      (prepareRealtimePacket_spec K env s).2.2.2.2 h]

/-- The housekeeping part of a cycle: one more in `packet_count`, one call of
`send` with a packet that carries the old `packet_count` as its `TMCounter`. -/
theorem sendHousekeepingPacket_spec (K : GripConstants) (env : EmulatorEnv) (s : SynthState) :
    (sendHousekeepingPacket K env s).packet_count = s.packet_count + 1 ∧
    (sendHousekeepingPacket K env s).sends = s.sends + 1 ∧
    (sendHousekeepingPacket K env s).send_hk = s.send_hk ∧
    (sendHousekeepingPacket K env s).iSendFails = env.sendFails s.sends ∧
    (sendHousekeepingPacket K env s).sent.map (fun p => p.kind)
      = s.sent.map (fun p => p.kind) ++ [PacketKind.housekeeping] ∧
    (sendHousekeepingPacket K env s).sent.length = s.sent.length + 1 ∧
    tmCounters (sendHousekeepingPacket K env s).sent
      = tmCounters s.sent ++ [s.packet_count % 65536] := by
  refine ⟨rfl, rfl, rfl, rfl, ?_, ?_, ?_⟩
  · simp only [sendHousekeepingPacket, noteSend, (prepareHousekeepingPacket_spec K env s).2.1,
      List.map_append, List.map_cons, List.map_nil]
  · simp only [sendHousekeepingPacket, noteSend, (prepareHousekeepingPacket_spec K env s).2.1,
      List.length_append, List.length_singleton]
  · simp only [sendHousekeepingPacket, noteSend, (prepareHousekeepingPacket_spec K env s).2.1,
      tmCounters, List.map_append, List.map_cons, List.map_nil,
      (prepareHousekeepingPacket_spec K env s).2.2.2.2]

/-- The four ways through a cycle. -/
theorem constructedCycle_cases (K : GripConstants) (env : EmulatorEnv) (s : SynthState) :
    (env.sendFails s.sends = true →
      constructedCycle K env s = (some (s.packet_count + 1), sendRealtimePacket K env s)) ∧
    (env.sendFails s.sends = false → s.send_hk = false →
      constructedCycle K env s = (none, endOfCycle K (sendRealtimePacket K env s))) ∧
    (env.sendFails s.sends = false → s.send_hk = true → env.sendFails (s.sends + 1) = true →
      constructedCycle K env s =
        (some (s.packet_count + 2),
          sendHousekeepingPacket K env (sendRealtimePacket K env s))) ∧
    (env.sendFails s.sends = false → s.send_hk = true → env.sendFails (s.sends + 1) = false →
      constructedCycle K env s =
        (none, endOfCycle K (sendHousekeepingPacket K env (sendRealtimePacket K env s)))) := by
  obtain ⟨a1, a2, a3, a4, _⟩ := sendRealtimePacket_spec K env s
  obtain ⟨b1, b2, b3, b4, _⟩ := sendHousekeepingPacket_spec K env (sendRealtimePacket K env s)
  rw [a2] at b4
  refine ⟨fun h1 => ?_, fun h1 h2 => ?_, fun h1 h2 h3 => ?_, fun h1 h2 h3 => ?_⟩
  · unfold constructedCycle
    dsimp only
    rw [a4, h1, if_pos rfl, a1]
  · unfold constructedCycle
    dsimp only
    rw [a4, h1, a3, h2]
    rfl
  · unfold constructedCycle
    dsimp only
    rw [a4, h1, a3, h2, b4, h3, b1, a1]
    rfl
  · unfold constructedCycle
    dsimp only
    rw [a4, h1, a3, h2, b4, h3]
    rfl

theorem countersFrom_succ (c n : Nat) :
    countersFrom c (n + 1) = countersFrom c n ++ [(c + n) % 65536] := by
  simp [countersFrom, List.range_succ]

/-- One cycle keeps the counters of the trace in step with `packet_count`. -/
theorem constructedCycle_counters (K : GripConstants) (env : EmulatorEnv) (s : SynthState)
    (hraw : 24 ≤ K.rawData)
    (hinv : tmCounters s.sent = countersFrom 0 s.sent.length ∧ s.packet_count = s.sent.length) :
    tmCounters (constructedCycle K env s).2.sent
        = countersFrom 0 (constructedCycle K env s).2.sent.length ∧
      (constructedCycle K env s).2.packet_count = (constructedCycle K env s).2.sent.length := by
  have hR : tmCounters (sendRealtimePacket K env s).sent
        = countersFrom 0 (sendRealtimePacket K env s).sent.length ∧
      (sendRealtimePacket K env s).packet_count = (sendRealtimePacket K env s).sent.length := by
    obtain ⟨a1, _, _, _, _, a6, a7⟩ := sendRealtimePacket_spec K env s
    rw [a7 hraw, a6, a1, countersFrom_succ, hinv.1, hinv.2, Nat.zero_add]
    exact ⟨rfl, rfl⟩
  have hH : ∀ t : SynthState,
      (tmCounters t.sent = countersFrom 0 t.sent.length ∧ t.packet_count = t.sent.length) →
      (tmCounters (sendHousekeepingPacket K env t).sent
        = countersFrom 0 (sendHousekeepingPacket K env t).sent.length ∧
      (sendHousekeepingPacket K env t).packet_count
        = (sendHousekeepingPacket K env t).sent.length) := by
    intro t ht
    obtain ⟨a1, _, _, _, _, a6, a7⟩ := sendHousekeepingPacket_spec K env t
    rw [a7, a6, a1, countersFrom_succ, ht.1, ht.2, Nat.zero_add]
    exact ⟨rfl, rfl⟩
  have hE : ∀ t : SynthState,
      (tmCounters t.sent = countersFrom 0 t.sent.length ∧ t.packet_count = t.sent.length) →
      (tmCounters (endOfCycle K t).sent = countersFrom 0 (endOfCycle K t).sent.length ∧
      (endOfCycle K t).packet_count = (endOfCycle K t).sent.length) := by
    intro t ht
    obtain ⟨a1, a2, _, _⟩ := endOfCycle_spec K t
    rw [a1, a2]
    exact ht
  obtain ⟨c1, c2, c3, c4⟩ := constructedCycle_cases K env s
  cases h1 : env.sendFails s.sends with
  | true => rw [c1 h1]; exact hR
  | false =>
    cases h2 : s.send_hk with
    | false => rw [c2 h1 h2]; exact hE _ hR
    | true =>
      cases h3 : env.sendFails (s.sends + 1) with
      | true => rw [c3 h1 h2 h3]; exact hH _ hR
      | false => rw [c4 h1 h2 h3]; exact hE _ (hH _ hR)

theorem constructedLoop_counters (K : GripConstants) (env : EmulatorEnv) (hraw : 24 ≤ K.rawData)
    (fuel : Nat) :
    ∀ s : SynthState,
      (tmCounters s.sent = countersFrom 0 s.sent.length ∧ s.packet_count = s.sent.length) →
      tmCounters (constructedLoop K env fuel s).2.sent
          = countersFrom 0 (constructedLoop K env fuel s).2.sent.length ∧
        (constructedLoop K env fuel s).2.packet_count
          = (constructedLoop K env fuel s).2.sent.length := by
  induction fuel with
  | zero => intro s h; exact h
  | succ n ih =>
    intro s h
    have hc := constructedCycle_counters K env s hraw h
    rw [constructedLoop]
    revert hc
    generalize constructedCycle K env s = r
    obtain ⟨o, s1⟩ := r
    intro hc
    cases o with
    | some count => exact hc
    | none => exact ih s1 hc

/-- The loop of `sendConstructedPackets` is still running after `k` cycles
exactly when none of the `send`s of these cycles has failed; the call sites of
these `send`s are then those of `cycleKindsFrom`. -/
theorem constructedLoop_kinds (K : GripConstants) (env : EmulatorEnv) (k : Nat) :
    ∀ (i : Nat) (s : SynthState), s.send_hk = decide (i % 2 = 0) →
      ((constructedLoop K env k s).1 = Outcome.outOfFuel ↔
        ∀ j, j < (cycleKindsFrom i k).length → env.sendFails (s.sends + j) = false) ∧
      ((constructedLoop K env k s).1 = Outcome.outOfFuel →
        (constructedLoop K env k s).2.sent.map (fun p => p.kind)
          = s.sent.map (fun p => p.kind) ++ cycleKindsFrom i k) := by
  induction k with
  | zero =>
    intro i s _
    refine ⟨⟨fun _ j hj => ?_, fun _ => rfl⟩, fun _ => ?_⟩
    · simp [cycleKindsFrom] at hj
    · simp [constructedLoop, cycleKindsFrom]
  | succ n ih =>
    intro i s hs
    obtain ⟨c1, c2, c3, c4⟩ := constructedCycle_cases K env s
    obtain ⟨_, r2, r3, _, r5, _⟩ := sendRealtimePacket_spec K env s
    obtain ⟨_, q2, q3, _, q5, _⟩ := sendHousekeepingPacket_spec K env (sendRealtimePacket K env s)
    rw [constructedLoop]
    cases h1 : env.sendFails s.sends with
    | true =>
      rw [c1 h1]
      refine ⟨⟨fun h => (by cases h), fun h => ?_⟩, fun h => (by cases h)⟩
      have := h 0 (by simp only [cycleKindsFrom]; split <;> simp)
      rw [Nat.add_zero, h1] at this
      cases this
    | false =>
      cases h2 : s.send_hk with
      | false =>
        rw [c2 h1 h2]
        dsimp only
        obtain ⟨_, e2, e3, e4⟩ := endOfCycle_spec K (sendRealtimePacket K env s)
        have hi : ¬ i % 2 = 0 := by
          rw [h2] at hs
          intro h
          simp [h] at hs
        have hflag : (endOfCycle K (sendRealtimePacket K env s)).send_hk
            = decide ((i + 1) % 2 = 0) := by
          rw [e4, r3, h2]
          have : (i + 1) % 2 = 0 := by omega
          simp [this]
        obtain ⟨ih1, ih2⟩ := ih (i + 1) (endOfCycle K (sendRealtimePacket K env s)) hflag
        rw [e3, r2] at ih1
        rw [e2, r5] at ih2
        have hk : cycleKindsFrom i (n + 1) = [PacketKind.realtime] ++ cycleKindsFrom (i + 1) n := by
          simp only [cycleKindsFrom, if_neg hi]
        rw [hk]
        refine ⟨?_, ?_⟩
        · rw [ih1]
          constructor
          · intro h j hj
            cases j with
            | zero => exact h1
            | succ j =>
              have := h j (by simpa using hj)
              rw [← this]
              congr 1
              omega
          · intro h j hj
            have := h (j + 1) (by simpa using hj)
            rw [← this]
            congr 1
            omega
        · intro h
          rw [ih2 h, List.append_assoc]
      | true =>
        have hi : i % 2 = 0 := by
          rw [h2] at hs
          by_contra h
          simp [h] at hs
        have hk : cycleKindsFrom i (n + 1)
            = [PacketKind.realtime, PacketKind.housekeeping] ++ cycleKindsFrom (i + 1) n := by
          simp only [cycleKindsFrom, if_pos hi]
        cases h3 : env.sendFails (s.sends + 1) with
        | true =>
          rw [c3 h1 h2 h3]
          refine ⟨⟨fun h => (by cases h), fun h => ?_⟩, fun h => (by cases h)⟩
          have := h 1 (by rw [hk]; simp)
          rw [h3] at this
          cases this
        | false =>
          rw [c4 h1 h2 h3]
          dsimp only
          obtain ⟨_, e2, e3, e4⟩ := endOfCycle_spec K
            (sendHousekeepingPacket K env (sendRealtimePacket K env s))
          have hflag : (endOfCycle K
              (sendHousekeepingPacket K env (sendRealtimePacket K env s))).send_hk
              = decide ((i + 1) % 2 = 0) := by
            rw [e4, q3, r3, h2]
            have : ¬ (i + 1) % 2 = 0 := by omega
            simp [this]
          obtain ⟨ih1, ih2⟩ := ih (i + 1)
            (endOfCycle K (sendHousekeepingPacket K env (sendRealtimePacket K env s))) hflag
          rw [e3, q2, r2] at ih1
          rw [e2, q5, r5] at ih2
          rw [hk]
          refine ⟨?_, ?_⟩
          · rw [ih1]
            constructor
            · intro h j hj
              cases j with
              | zero => exact h1
              | succ j =>
                cases j with
                | zero => exact h3
                | succ j =>
                  have := h j (by simpa using hj)
                  rw [← this]
                  congr 1
                  omega
            · intro h j hj
              have := h (j + 2) (by simpa using hj)
              rw [← this]
              congr 1
              omega
          · intro h
            rw [ih2 h, List.append_assoc, List.append_assoc]
            rfl

/-- The numbers of realtime and of housekeeping `send`s in `k` consecutive
complete cycles. -/
theorem cycleKindsFrom_count (k : Nat) :
    ∀ i : Nat,
      (cycleKindsFrom i k).count PacketKind.realtime = k ∧
      (cycleKindsFrom i k).count PacketKind.housekeeping
        = (k + (if i % 2 = 0 then 1 else 0)) / 2 ∧
      (cycleKindsFrom i k).count PacketKind.recorded = 0 := by
  induction k with
  | zero => intro i; refine ⟨rfl, ?_, rfl⟩; split <;> rfl
  | succ n ih =>
    intro i
    obtain ⟨h1, h2, h3⟩ := ih (i + 1)
    by_cases hi : i % 2 = 0
    · have hi1 : ¬ (i + 1) % 2 = 0 := by omega
      rw [if_neg hi1] at h2
      rw [if_pos hi]
      simp only [cycleKindsFrom, if_pos hi, List.count_append, h1, h2, h3]
      refine ⟨?_, ?_, ?_⟩
      · simp
        omega
      · simp
        omega
      · simp
    · have hi1 : (i + 1) % 2 = 0 := by omega
      rw [if_pos hi1] at h2
      rw [if_neg hi]
      simp only [cycleKindsFrom, if_neg hi, List.count_append, h1, h2, h3]
      refine ⟨?_, ?_, ?_⟩
      · simp
        omega
      · simp
      · simp

/-- The call sites of `cycleKindsFrom`, cycle by cycle. -/
theorem cycleKindsFrom_eq_flatten (k : Nat) :
    ∀ i : Nat,
      cycleKindsFrom i k =
        ((List.range k).map fun j =>
          if (i + j) % 2 = 0 then [PacketKind.realtime, PacketKind.housekeeping]
          else [PacketKind.realtime]).flatten := by
  induction k with
  | zero => intro i; rfl
  | succ n ih =>
    intro i
    rw [cycleKindsFrom, ih (i + 1), List.range_succ_eq_map, List.map_cons, List.flatten_cons,
      List.map_map, Nat.add_zero]
    congr 2
    apply List.map_congr_left
    intro j _
    simp only [Function.comp, Nat.succ_eq_add_one]
    rw [show i + 1 + j = i + (j + 1) by omega]

/-! ## Claims on the constructed packets -/

/-- C19: when the loop of `sendConstructedPackets` has made `k` cycles without
returning, that is when no `send` of these cycles has failed, the calls of
`send` made so far are, cycle by cycle, one for a realtime packet followed on
the cycles 0, 2, 4, ... by one for a housekeeping packet and on the odd cycles
by nothing: `k` realtime packets and `(k + 1) / 2` housekeeping packets in all. -/
theorem sendConstructedPackets_cadence (K : GripConstants) (env : EmulatorEnv) (k : Nat)
    (s : SynthState)
    (hrun : (sendConstructedPackets K env k s).1 = Outcome.outOfFuel) :
    (sendConstructedPackets K env k s).2.sent.map (fun p => p.kind)
      = ((List.range k).map fun i =>
          if i % 2 = 0 then [PacketKind.realtime, PacketKind.housekeeping]
          else [PacketKind.realtime]).flatten ∧
    ((sendConstructedPackets K env k s).2.sent.map (fun p => p.kind)).count PacketKind.realtime
      = k ∧
    ((sendConstructedPackets K env k s).2.sent.map (fun p => p.kind)).count
      PacketKind.housekeeping = (k + 1) / 2 ∧
    (sendConstructedPackets K env k s).2.sent.length = k + (k + 1) / 2 := by
  have hk := (constructedLoop_kinds K env k 0 (startConstructed K s) rfl).2 hrun
  have hkinds : (sendConstructedPackets K env k s).2.sent.map (fun p => p.kind)
      = cycleKindsFrom 0 k := by
    rw [sendConstructedPackets, hk]
    rfl
  obtain ⟨n1, n2, n3⟩ := cycleKindsFrom_count k 0
  rw [if_pos rfl] at n2
  have hflat := cycleKindsFrom_eq_flatten k 0
  simp only [Nat.zero_add] at hflat
  refine ⟨by rw [hkinds, hflat], by rw [hkinds, n1], by rw [hkinds, n2], ?_⟩
  have hl : (sendConstructedPackets K env k s).2.sent.length = (cycleKindsFrom 0 k).length := by
    rw [← hkinds, List.length_map]
  have hsum : ∀ l : List PacketKind,
      l.length = l.count PacketKind.recorded + l.count PacketKind.realtime
        + l.count PacketKind.housekeeping := by
    intro l
    induction l with
    | nil => rfl
    | cons a t ih =>
      cases a <;> simp [List.count_cons] <;> omega
  rw [hl, hsum, n1, n2, n3]
  omega

/-- C19 (witness): three cycles in an outside world where no `send` fails. -/
theorem sendConstructedPackets_cadence_witness :
    (sendConstructedPackets sampleConstants (sampleEmulatorEnv fun _ => false) 3
        sampleSynthState).2.sent.map (fun p => p.kind)
      = [PacketKind.realtime, PacketKind.housekeeping, PacketKind.realtime,
         PacketKind.realtime, PacketKind.housekeeping] :=
  (sendConstructedPackets_cadence sampleConstants (sampleEmulatorEnv fun _ => false) 3
    sampleSynthState
    ((constructedLoop_kinds sampleConstants (sampleEmulatorEnv fun _ => false) 3 0
      (startConstructed sampleConstants sampleSynthState) rfl).1.2 (fun _ _ => rfl))).1

/-- C20: when the payload of a packet begins beyond the `TMCounter` field, the
`n`-th packet that one run of `sendConstructedPackets` hands to `send`
(`n = 0, 1, 2, ...`, realtime and housekeeping counted together) carries the
`TMCounter` `n % 2 ^ 16`, so that below `2 ^ 16` packets each counter is greater
than the one before; and when two cycles have been made without a failing
`send`, the packets sent are realtime, housekeeping, realtime with the counters
0, 1, 2. -/
theorem sendConstructedPackets_counters (K : GripConstants) (env : EmulatorEnv) (fuel : Nat)
    (s : SynthState) (hraw : 24 ≤ K.rawData) :
    (∀ (n : Nat) (p : SentPacket),
      (sendConstructedPackets K env fuel s).2.sent[n]? = some p →
        (ExtractEPMTelemetryHeaderInfo p.buffer).TMCounter = n % 65536) ∧
    (∀ (n : Nat) (p q : SentPacket), n + 1 < 65536 →
      (sendConstructedPackets K env fuel s).2.sent[n]? = some p →
      (sendConstructedPackets K env fuel s).2.sent[n + 1]? = some q →
        (ExtractEPMTelemetryHeaderInfo p.buffer).TMCounter
          < (ExtractEPMTelemetryHeaderInfo q.buffer).TMCounter) ∧
    ((sendConstructedPackets K env 2 s).1 = Outcome.outOfFuel →
      (sendConstructedPackets K env 2 s).2.sent.map (fun p => p.kind)
        = [PacketKind.realtime, PacketKind.housekeeping, PacketKind.realtime] ∧
      tmCounters (sendConstructedPackets K env 2 s).2.sent = [0, 1, 2]) := by
  have hall : ∀ f : Nat, tmCounters (sendConstructedPackets K env f s).2.sent
      = countersFrom 0 (sendConstructedPackets K env f s).2.sent.length := fun f =>
    (constructedLoop_counters K env hraw f (startConstructed K s) ⟨rfl, rfl⟩).1
  have hn : ∀ (n : Nat) (p : SentPacket),
      (sendConstructedPackets K env fuel s).2.sent[n]? = some p →
        (ExtractEPMTelemetryHeaderInfo p.buffer).TMCounter = n % 65536 := by
    intro n p hp
    have h1 : (tmCounters (sendConstructedPackets K env fuel s).2.sent)[n]?
        = some (ExtractEPMTelemetryHeaderInfo p.buffer).TMCounter := by
      simp only [tmCounters, List.getElem?_map, hp, Option.map_some']
    have hlt : n < (sendConstructedPackets K env fuel s).2.sent.length := by
      by_contra hge
      rw [List.getElem?_eq_none (by omega)] at hp
      cases hp
    rw [hall fuel] at h1
    simp only [countersFrom, List.getElem?_map, List.getElem?_range hlt, Option.map_some',
      Nat.zero_add] at h1
    exact (Option.some.inj h1).symm
  refine ⟨hn, fun n p q hlt hp hq => ?_, fun hrun => ?_⟩
  · rw [hn n p hp, hn (n + 1) q hq, Nat.mod_eq_of_lt hlt, Nat.mod_eq_of_lt (by omega)]
    omega
  · have hk := (constructedLoop_kinds K env 2 0 (startConstructed K s) rfl).2 hrun
    have hkinds : (sendConstructedPackets K env 2 s).2.sent.map (fun p => p.kind)
        = [PacketKind.realtime, PacketKind.housekeeping, PacketKind.realtime] := by
      rw [sendConstructedPackets, hk]
      rfl
    refine ⟨hkinds, ?_⟩
    have hl : (sendConstructedPackets K env 2 s).2.sent.length = 3 := by
      rw [← List.length_map _ (fun p => p.kind), hkinds]
      rfl
    rw [hall 2, hl]
    rfl

/-- C20 (witness): two cycles in an outside world where no `send` fails. -/
theorem sendConstructedPackets_counters_witness :
    24 ≤ sampleConstants.rawData ∧
    tmCounters (sendConstructedPackets sampleConstants (sampleEmulatorEnv fun _ => false) 2
      sampleSynthState).2.sent = [0, 1, 2] :=
  ⟨by decide,
    ((sendConstructedPackets_counters sampleConstants (sampleEmulatorEnv fun _ => false) 2
      sampleSynthState (by decide)).2.2
      ((constructedLoop_kinds sampleConstants (sampleEmulatorEnv fun _ => false) 2 0
        (startConstructed sampleConstants sampleSynthState) rfl).1.2 (fun _ _ => rfl))).2⟩

/-! ## Pacing and packet time -/

/-- What the first part of a cycle adds to the arguments of `Sleep`. -/
theorem prepareRealtimePacket_sleeps (K : GripConstants) (env : EmulatorEnv) (s : SynthState) :
    (prepareRealtimePacket K env s).sleeps
      = s.sleeps ++ [50, cRem (1000 - ((env.clock s.clocks).2 : Int)) 500] := by
  simp only [prepareRealtimePacket, List.append_assoc, List.cons_append, List.nil_append]

/-- C22: for a clock reading of `m` milliseconds within the second, `m` in
0..999, the second `Sleep` of a cycle of `sendConstructedPackets` gets the
argument `d = (1000 - m) % 500`, which satisfies `0 ≤ d ≤ 499` and
`(m + d) % 500 = 0` and is the smallest non-negative delay with that property. -/
theorem sendConstructedPackets_alignment_sleep (K : GripConstants) (env : EmulatorEnv)
    (s : SynthState) (hm : (env.clock s.clocks).2 ≤ 999) :
    (prepareRealtimePacket K env s).sleeps
      = s.sleeps ++ [50, cRem (1000 - ((env.clock s.clocks).2 : Int)) 500] ∧
    0 ≤ cRem (1000 - ((env.clock s.clocks).2 : Int)) 500 ∧
    cRem (1000 - ((env.clock s.clocks).2 : Int)) 500 ≤ 499 ∧
    (((env.clock s.clocks).2 : Int) + cRem (1000 - ((env.clock s.clocks).2 : Int)) 500) % 500
      = 0 ∧
    ∀ d : Int, 0 ≤ d → (((env.clock s.clocks).2 : Int) + d) % 500 = 0 →
      cRem (1000 - ((env.clock s.clocks).2 : Int)) 500 ≤ d := by
  refine ⟨prepareRealtimePacket_sleeps K env s, ?_⟩
  generalize (env.clock s.clocks).2 = m at hm
  have hr : cRem (1000 - (m : Int)) 500 = (1000 - (m : Int)) % 500 := by
    unfold cRem
    exact Int.tmod_eq_emod (by omega) (by omega)
  rw [hr]
  refine ⟨by omega, by omega, by omega, fun d hd h => ?_⟩
  omega

/-- C22 (witness): the clock of `sampleEmulatorEnv` stands at 250 ms, the
additional sleep is 250 ms. -/
theorem sendConstructedPackets_alignment_sleep_witness :
    (prepareRealtimePacket sampleConstants (sampleEmulatorEnv fun _ => false)
        sampleSynthState).sleeps = [50, 250] :=
  (sendConstructedPackets_alignment_sleep sampleConstants (sampleEmulatorEnv fun _ => false)
    sampleSynthState (by decide)).1

/-- The fields that `setPacketTime` sets. -/
theorem setPacketTime_fields (t : Int) (m : Nat) (header : EPMTelemetryHeaderInfo) :
    (setPacketTime (t, m) header).coarseTime = toUInt32 (t - 315964800 + 16) ∧
    (setPacketTime (t, m) header).fineTime = toUInt16 ((m : Int) * 10) :=
  ⟨rfl, rfl⟩

theorem roundDouble_one_thousandth :
    roundDouble (10 / 10000) = 1152921504606847 / 1152921504606846976 := by
  have h := roundDouble_eq_of_near (10 / 10000) (-10) 4611686018427388 (by norm_num)
    (by norm_num [abs_of_pos]) (by norm_num [abs_of_pos]) (by norm_num [abs_lt])
  rw [h]
  norm_num

theorem roundDouble_one_and_one_thousandth :
    roundDouble (1 + 1152921504606847 / 1152921504606846976)
      = 2254051613498933 / 2251799813685248 := by
  have h := roundDouble_eq_of_near (1 + 1152921504606847 / 1152921504606846976) 0
    4508103226997866 (by norm_num)
    (by norm_num [abs_of_pos]) (by norm_num [abs_of_pos]) (by norm_num [abs_lt])
  rw [h]
  norm_num

/-- C27 (counterexample): for the clock reading of 315964785 s and 1 ms the
header gets `coarseTime = 1` and `fineTime = 10`, and `EPMtoSeconds` of it is the
`double` `2254051613498933 / 2 ^ 51`, not `coarseTime + 1 / 1000`; for the clock
reading of 0 s, before the GPS epoch, `coarseTime` is `3979002512` and not
`0 - 315964800 + 16`. -/
theorem setPacketTime_not_exact :
    EPMtoSeconds (setPacketTime (315964785, 1) sampleConstants.hkHeader)
      = 2254051613498933 / 2251799813685248 ∧
    EPMtoSeconds (setPacketTime (315964785, 1) sampleConstants.hkHeader)
      ≠ ((setPacketTime (315964785, 1) sampleConstants.hkHeader).coarseTime : ℚ)
          + ((1 : Nat) : ℚ) / 1000 ∧
    ((setPacketTime (0, 0) sampleConstants.hkHeader).coarseTime : Int) = 3979002512 ∧
    ((setPacketTime (0, 0) sampleConstants.hkHeader).coarseTime : Int)
      ≠ 0 - 315964800 + 16 := by
  obtain ⟨hc, hf⟩ := setPacketTime_fields 315964785 1 sampleConstants.hkHeader
  obtain ⟨hc0, _⟩ := setPacketTime_fields 0 0 sampleConstants.hkHeader
  have hc1 : toUInt32 (315964785 - 315964800 + 16) = 1 := by decide
  have hf1 : toUInt16 (((1 : Nat) : Int) * 10) = 10 := by decide
  have hc2 : toUInt32 (0 - 315964800 + 16) = 3979002512 := by decide
  rw [hc1] at hc
  rw [hf1] at hf
  rw [hc2] at hc0
  have hv : EPMtoSeconds (setPacketTime (315964785, 1) sampleConstants.hkHeader)
      = 2254051613498933 / 2251799813685248 := by
    unfold EPMtoSeconds doubleAdd doubleDiv
    rw [hc, hf]
    have e1 : (((10 : Nat) : ℚ) / 10000) = 10 / 10000 := by norm_num
    have e2 : ((1 : Nat) : ℚ) = 1 := by norm_num
    rw [e1, roundDouble_one_thousandth, e2, roundDouble_one_and_one_thousandth]
  refine ⟨hv, ?_, ?_, ?_⟩
  · rw [hv, hc]
    norm_num
  · rw [hc0]
    norm_num
  · rw [hc0]
    norm_num

/-- C27 (amended): for a clock reading of `t` Unix seconds, a `__time32_t`
not before the GPS epoch as the code counts it, and `m` milliseconds,
`0 ≤ m ≤ 999`, `setPacketTime` sets `coarseTime = t - 315964800 + 16` and
`fineTime = 10 * m`, so that `fineTime < 10000` and `EPMtoSeconds` of the header
is within `2 ^ -20` of `coarseTime + m / 1000` and lies in
`[coarseTime, coarseTime + 1)`. -/
theorem setPacketTime_rounded (t : Int) (m : Nat) (header : EPMTelemetryHeaderInfo)
    (ht : 315964800 - 16 ≤ t) (ht32 : t < 2147483648) (hm : m ≤ 999) :
    ((setPacketTime (t, m) header).coarseTime : Int) = t - 315964800 + 16 ∧
    (setPacketTime (t, m) header).fineTime = 10 * m ∧
    (setPacketTime (t, m) header).fineTime < 10000 ∧
    |EPMtoSeconds (setPacketTime (t, m) header)
      - (((setPacketTime (t, m) header).coarseTime : ℚ) + (m : ℚ) / 1000)| < 1 / 2 ^ 20 ∧
    ((setPacketTime (t, m) header).coarseTime : ℚ) ≤ EPMtoSeconds (setPacketTime (t, m) header) ∧
    EPMtoSeconds (setPacketTime (t, m) header)
      < ((setPacketTime (t, m) header).coarseTime : ℚ) + 1 := by
  obtain ⟨hc, hf0⟩ := setPacketTime_fields t m header
  have hf : (setPacketTime (t, m) header).fineTime = 10 * m := by
    rw [hf0]
    unfold toUInt16
    omega
  have hC : (setPacketTime (t, m) header).coarseTime < 2 ^ 32 := by
    rw [hc]
    unfold toUInt32
    omega
  have hF : (setPacketTime (t, m) header).fineTime < 2 ^ 16 := by
    rw [hf]
    omega
  obtain ⟨g1, _, ge⟩ := EPMtoSeconds_error (setPacketTime (t, m) header) hC hF
  rw [hf] at ge
  have hm' : (m : ℚ) ≤ 999 := by exact_mod_cast hm
  have hm0 : (0 : ℚ) ≤ (m : ℚ) := Nat.cast_nonneg m
  have e : ((10 * m : Nat) : ℚ) / 10000 = (m : ℚ) / 1000 := by
    push_cast
    ring
  rw [e] at ge
  generalize EPMtoSeconds (setPacketTime (t, m) header) = T at g1 ge ⊢
  generalize ((setPacketTime (t, m) header).coarseTime : ℚ) = C at g1 ge ⊢
  rw [abs_le] at ge
  refine ⟨?_, hf, by omega, ?_, g1, ?_⟩
  · rw [hc]
    unfold toUInt32
    omega
  · rw [abs_lt]
    norm_num at ge ⊢
    constructor <;> linarith
  · norm_num at ge
    linarith

/-- C27 (witness): the clock at 1500000000 s and 250 ms. -/
theorem setPacketTime_rounded_witness :
    (setPacketTime (1500000000, 250) sampleConstants.hkHeader).fineTime = 10 * 250 :=
  (setPacketTime_rounded 1500000000 250 sampleConstants.hkHeader (by decide) (by decide)
    (by decide)).2.1

/-! ## The length check of the cache file name -/

/-- C30 (failing input): for `max_characters = 18` and the root `GripPackets`
the housekeeping name has 18 characters; `CreateGripPacketCacheFilename`
returns normally although the name and its terminating NUL take 19 bytes. -/
theorem CreateGripPacketCacheFilename_no_room_for_NUL :
    CreateGripPacketCacheFilename 18 GripPacketType.GRIP_HK_BULK_PACKET "GripPackets"
      = Outcome.returned "GripPackets.hk.gpk" ∧
    ¬ (("GripPackets".length : Int) + (".hk.gpk".length : Int) + 1 ≤ 18) := by
  constructor
  · decide
  · decide

/-! ## Epochs of the constructed packets -/

/-- What the end of a cycle does to the epoch and to the feedback values. -/
theorem endOfCycle_epoch (K : GripConstants) (s : SynthState) :
    (s.packet_count % 20 = 0 →
      (endOfCycle K s).epoch = s.epoch + 1 ∧
      (endOfCycle K s).feedback =
        { vertical_targets := (1 <<< (s.epoch % K.N_VERTICAL_TARGETS)) % 65536,
          horizontal_targets := (1 <<< (s.epoch % K.N_HORIZONTAL_TARGETS)) % 65536,
          sound_bits := (s.epoch % 8) % 256,
          cradle_bits :=
            ((s.epoch % 4) + (((s.epoch + 1) % 4) <<< 2) + (((s.epoch + 2) % 4) <<< 4)) % 256,
          acquire_status := if s.epoch % 3 ≠ 0 then 2 else 0,
          camera_status := if s.epoch % 2 ≠ 0 then 2 else 0 }) ∧
    (¬ s.packet_count % 20 = 0 →
      (endOfCycle K s).epoch = s.epoch ∧ (endOfCycle K s).feedback = s.feedback) := by
  constructor
  · intro h
    unfold endOfCycle
    dsimp only
    rw [if_pos h]
    exact ⟨rfl, rfl⟩
  · intro h
    unfold endOfCycle
    dsimp only
    rw [if_neg h]
    exact ⟨rfl, rfl⟩

/-- The two `send` parts of a cycle leave the epoch and the feedback values
alone. -/
theorem sendPackets_epoch (K : GripConstants) (env : EmulatorEnv) (s : SynthState) :
    (sendRealtimePacket K env s).epoch = s.epoch ∧
    (sendRealtimePacket K env s).feedback = s.feedback ∧
    (sendHousekeepingPacket K env s).epoch = s.epoch ∧
    (sendHousekeepingPacket K env s).feedback = s.feedback :=
  ⟨rfl, rfl, rfl, rfl⟩

/-- The epoch and the packet count after a cycle that no failing `send` cuts
short. -/
theorem constructedCycle_epoch (K : GripConstants) (env : EmulatorEnv) (s : SynthState)
    (h : (constructedCycle K env s).1 = none) :
    (constructedCycle K env s).2.packet_count
      = s.packet_count + (if s.send_hk then 2 else 1) ∧
    (constructedCycle K env s).2.send_hk = (!s.send_hk) ∧
    (constructedCycle K env s).2.epoch
      = s.epoch + (if (s.packet_count + (if s.send_hk then 2 else 1)) % 20 = 0 then 1 else 0) := by
  obtain ⟨c1, c2, c3, c4⟩ := constructedCycle_cases K env s
  obtain ⟨r1, _, r3, _⟩ := sendRealtimePacket_spec K env s
  obtain ⟨q1, _, q3, _⟩ := sendHousekeepingPacket_spec K env (sendRealtimePacket K env s)
  obtain ⟨p1, _, p3, _⟩ := sendPackets_epoch K env s
  obtain ⟨_, _, p5, _⟩ := sendPackets_epoch K env (sendRealtimePacket K env s)
  cases h1 : env.sendFails s.sends with
  | true => rw [c1 h1] at h; cases h
  | false =>
    cases h2 : s.send_hk with
    | false =>
      rw [c2 h1 h2]
      obtain ⟨e1, _, _, e4⟩ := endOfCycle_spec K (sendRealtimePacket K env s)
      obtain ⟨a, b⟩ := endOfCycle_epoch K (sendRealtimePacket K env s)
      rw [r1] at a b
      dsimp only
      rw [e1, e4, r1, r3, h2]
      refine ⟨rfl, rfl, ?_⟩
      by_cases hc : (s.packet_count + 1) % 20 = 0
      · rw [(a hc).1, p1]; simp [hc]
      · rw [(b hc).1, p1]; simp [hc]
    | true =>
      cases h3 : env.sendFails (s.sends + 1) with
      | true => rw [c3 h1 h2 h3] at h; cases h
      | false =>
        rw [c4 h1 h2 h3]
        obtain ⟨e1, _, _, e4⟩ := endOfCycle_spec K
          (sendHousekeepingPacket K env (sendRealtimePacket K env s))
        obtain ⟨a, b⟩ := endOfCycle_epoch K
          (sendHousekeepingPacket K env (sendRealtimePacket K env s))
        rw [q1, r1] at a b
        dsimp only
        rw [e1, e4, q1, r1, q3, r3, h2]
        refine ⟨rfl, rfl, ?_⟩
        by_cases hc : (s.packet_count + 1 + 1) % 20 = 0
        · rw [(a hc).1, p5, p1]; simp [hc]
        · rw [(b hc).1, p5, p1]; simp [hc]

/-- The count of the multiples of 20 whose remainder modulo 3 is not 1, over a
step of the packet count from the end of one cycle to the end of the next. -/
theorem epoch_count_step (p d : Nat)
    (hd : (p % 3 = 0 ∧ d = 2) ∨ (p % 3 = 2 ∧ d = 1)) :
    (p / 20 - (p + 20) / 60) + (if (p + d) % 20 = 0 then 1 else 0)
      = (p + d) / 20 - (p + d + 20) / 60 := by
  have hq : p = 60 * (p / 60) + p % 60 := (Nat.div_add_mod p 60).symm
  have hr : p % 60 < 60 := Nat.mod_lt _ (by decide)
  generalize p / 60 = q at hq
  generalize p % 60 = r at hq hr
  subst hq
  rcases hd with ⟨h3, rfl⟩ | ⟨h3, rfl⟩
  · interval_cases r <;> first | omega | (split <;> omega)
  · interval_cases r <;> first | omega | (split <;> omega)

/-- The packet count and the epoch after `k` cycles that no failing `send` cuts
short, the first of them being cycle number `i`: the epoch has advanced at the
multiples of 20 that the packet count takes at the end of a cycle, which are
those whose remainder modulo 3 is not 1. -/
theorem constructedLoop_epoch (K : GripConstants) (env : EmulatorEnv) (k : Nat) :
    ∀ (i : Nat) (s : SynthState), s.send_hk = decide (i % 2 = 0) →
      s.packet_count = i + (i + 1) / 2 →
      s.epoch = s.packet_count / 20 - (s.packet_count + 20) / 60 →
      (constructedLoop K env k s).1 = Outcome.outOfFuel →
      (constructedLoop K env k s).2.packet_count = (i + k) + (i + k + 1) / 2 ∧
      (constructedLoop K env k s).2.epoch
        = (constructedLoop K env k s).2.packet_count / 20
          - ((constructedLoop K env k s).2.packet_count + 20) / 60 := by
  induction k with
  | zero =>
    intro i s _ hp he _
    exact ⟨hp, he⟩
  | succ n ih =>
    intro i s hs hp he hrun
    rw [constructedLoop] at hrun ⊢
    have hc := constructedCycle_epoch K env s
    revert hrun hc
    generalize constructedCycle K env s = r
    obtain ⟨o, t⟩ := r
    intro hrun hc
    cases o with
    | some count => cases hrun
    | none =>
      obtain ⟨c1, c2, c3⟩ := hc rfl
      dsimp only at c1 c2 c3 hrun ⊢
      have hflag : t.send_hk = decide ((i + 1) % 2 = 0) := by
        rw [c2, hs]
        by_cases hi : i % 2 = 0
        · have : ¬ (i + 1) % 2 = 0 := by omega
          simp [hi, this]
        · have : (i + 1) % 2 = 0 := by omega
          simp [hi, this]
      have hcount : t.packet_count = (i + 1) + (i + 1 + 1) / 2 := by
        rw [c1, hp, hs]
        by_cases hi : i % 2 = 0
        · simp only [hi, decide_True, if_true]; omega
        · simp only [hi, decide_False]; simp; omega
      have hepoch : t.epoch = t.packet_count / 20 - (t.packet_count + 20) / 60 := by
        rw [c3, he, c1]
        apply epoch_count_step
        rw [hs]
        by_cases hi : i % 2 = 0
        · left
          simp only [hi, decide_True, if_true]
          exact ⟨by omega, trivial⟩
        · right
          simp only [hi, decide_False, Bool.false_eq_true, if_false]
          exact ⟨by omega, trivial⟩
      have := ih (i + 1) t hflag hcount hepoch hrun
      rw [show i + (n + 1) = i + 1 + n by omega]
      exact this

/-- C21 (failing input): in a run of `sendConstructedPackets` whose `send`s all
succeed, 41 packets have been handed to `send` after 27 cycles and 60 after 40
cycles, and the epoch counter stands at 1 and at 2: the multiple of 20 that
the packet count passes inside a cycle (40) does not advance it. -/
theorem sendConstructedPackets_epoch_skips_forty :
    (sendConstructedPackets sampleConstants (sampleEmulatorEnv fun _ => false) 27
        sampleSynthState).1 = Outcome.outOfFuel ∧
    (sendConstructedPackets sampleConstants (sampleEmulatorEnv fun _ => false) 27
        sampleSynthState).2.sent.length = 41 ∧
    (sendConstructedPackets sampleConstants (sampleEmulatorEnv fun _ => false) 27
        sampleSynthState).2.epoch = 1 ∧
    (sendConstructedPackets sampleConstants (sampleEmulatorEnv fun _ => false) 40
        sampleSynthState).2.sent.length = 60 ∧
    (sendConstructedPackets sampleConstants (sampleEmulatorEnv fun _ => false) 40
        sampleSynthState).2.epoch = 2 := by
  have hrun : ∀ k, (sendConstructedPackets sampleConstants (sampleEmulatorEnv fun _ => false) k
      sampleSynthState).1 = Outcome.outOfFuel := fun k =>
    (constructedLoop_kinds sampleConstants (sampleEmulatorEnv fun _ => false) k 0
      (startConstructed sampleConstants sampleSynthState) rfl).1.2 (fun _ _ => rfl)
  have hlen : ∀ k, (sendConstructedPackets sampleConstants (sampleEmulatorEnv fun _ => false) k
      sampleSynthState).2.sent.length
      = (sendConstructedPackets sampleConstants (sampleEmulatorEnv fun _ => false) k
        sampleSynthState).2.packet_count := fun k =>
    ((constructedLoop_counters sampleConstants (sampleEmulatorEnv fun _ => false) (by decide) k
      (startConstructed sampleConstants sampleSynthState) ⟨rfl, rfl⟩).2).symm
  have hep : ∀ k, (sendConstructedPackets sampleConstants (sampleEmulatorEnv fun _ => false) k
        sampleSynthState).2.packet_count = (0 + k) + (0 + k + 1) / 2 ∧
      (sendConstructedPackets sampleConstants (sampleEmulatorEnv fun _ => false) k
        sampleSynthState).2.epoch
      = (sendConstructedPackets sampleConstants (sampleEmulatorEnv fun _ => false) k
        sampleSynthState).2.packet_count / 20
        - ((sendConstructedPackets sampleConstants (sampleEmulatorEnv fun _ => false) k
        sampleSynthState).2.packet_count + 20) / 60 := fun k =>
    constructedLoop_epoch sampleConstants (sampleEmulatorEnv fun _ => false) k 0
      (startConstructed sampleConstants sampleSynthState) rfl rfl rfl (hrun k)
  refine ⟨hrun 27, ?_, ?_, ?_, ?_⟩
  · rw [hlen 27, (hep 27).1]
  · rw [(hep 27).2, (hep 27).1]
  · rw [hlen 40, (hep 40).1]
  · rw [(hep 40).2, (hep 40).1]

/-! ## Housekeeping values of the constructed packets -/

/-- The decoder returns, of the fields that `sendConstructedPackets` sets, the
encoded values reduced to their wire widths, whatever the other fields hold. -/
theorem ExtractGripHealthAndStatusInfo_Insert_fields (rawData : Nat) (p : EPMTelemetryPacket)
    (hk : GripHealthAndStatusInfo) :
    (ExtractGripHealthAndStatusInfo rawData (InsertGripHealthAndStatusInfo rawData p hk)).user
      = hk.user % 65536 ∧
    (ExtractGripHealthAndStatusInfo rawData (InsertGripHealthAndStatusInfo rawData p hk)).protocol
      = hk.protocol % 65536 ∧
    (ExtractGripHealthAndStatusInfo rawData (InsertGripHealthAndStatusInfo rawData p hk)).task
      = hk.task % 65536 ∧
    (ExtractGripHealthAndStatusInfo rawData (InsertGripHealthAndStatusInfo rawData p hk)).step
      = hk.step % 65536 ∧
    (ExtractGripHealthAndStatusInfo rawData (InsertGripHealthAndStatusInfo rawData p hk)).feedback
      = { vertical_targets := hk.verticalTargetFeedback % 65536,
          horizontal_targets := hk.horizontalTargetFeedback % 65536,
          sound_bits := hk.toneFeedback % 256,
          cradle_bits := hk.cradleDetectors % 256,
          acquire_status := hk.motionTrackerStatusEnum % 65536,
          camera_status := hk.crewCameraStatusEnum % 65536 } := by
  simp only [GripHealthAndStatusInfo.feedback, ExtractGripHealthAndStatusInfo,
    InsertGripHealthAndStatusInfo,
    toUInt16_extract_reversed_short, toUInt32_extract_reversed_long,
    toUInt8_ExtractSignedChar,
    storeLong_swapbytes_long, storeShort_swapbytes_short, insert_ulong, getByte_setByte,
    Nat.add_assoc, Nat.reduceAdd, Nat.add_left_cancel_iff, Nat.reduceEqDiff, reduceIte,
    SimulatedFeedback.mk.injEq]
  refine ⟨?_, ?_, ?_, ?_, ?_, ?_, ?_, ?_, ?_, ?_⟩ <;> first | trivial | omega

/-- The record that the housekeeping part of a cycle encodes. -/
theorem prepareHousekeepingPacket_hkPacket (K : GripConstants) (env : EmulatorEnv)
    (s : SynthState) :
    ∃ (q : EPMTelemetryPacket) (hk : GripHealthAndStatusInfo),
      (prepareHousekeepingPacket K env s).hkPacket
        = InsertGripHealthAndStatusInfo K.rawData q hk ∧
      hk.user = 11 ∧ hk.protocol = 201 ∧ hk.task = 210 ∧ hk.step = 10 ∧
      hk.verticalTargetFeedback = s.vertical_targets ∧
      hk.horizontalTargetFeedback = s.horizontal_targets ∧
      hk.toneFeedback = s.sound_bits ∧ hk.cradleDetectors = s.cradle_bits ∧
      hk.motionTrackerStatusEnum = s.acquire_status ∧
      hk.crewCameraStatusEnum = s.camera_status :=
  ⟨_, _, rfl, rfl, rfl, rfl, rfl, rfl, rfl, rfl, rfl, rfl, rfl⟩

/-- A housekeeping packet prepared from feedback values within their wire
widths decodes to them. -/
theorem prepareHousekeepingPacket_decodes (K : GripConstants) (env : EmulatorEnv)
    (s : SynthState)
    (hr : s.vertical_targets < 65536 ∧ s.horizontal_targets < 65536 ∧ s.sound_bits < 256 ∧
      s.cradle_bits < 256 ∧ s.acquire_status < 65536 ∧ s.camera_status < 65536) :
    decodesAsConstructed K (prepareHousekeepingPacket K env s).hkPacket s.feedback := by
  obtain ⟨q, hk, e, h1, h2, h3, h4, h5, h6, h7, h8, h9, h10⟩ :=
    prepareHousekeepingPacket_hkPacket K env s
  obtain ⟨d1, d2, d3, d4, d5⟩ := ExtractGripHealthAndStatusInfo_Insert_fields K.rawData q hk
  obtain ⟨r1, r2, r3, r4, r5, r6⟩ := hr
  unfold decodesAsConstructed
  rw [e, d1, d2, d3, d4, d5, h1, h2, h3, h4, h5, h6, h7, h8, h9, h10]
  refine ⟨rfl, rfl, rfl, rfl, ?_⟩
  simp only [SynthState.feedback, Nat.mod_eq_of_lt r1, Nat.mod_eq_of_lt r2, Nat.mod_eq_of_lt r3,
    Nat.mod_eq_of_lt r4, Nat.mod_eq_of_lt r5, Nat.mod_eq_of_lt r6]

/-- The packets that the two `send` parts of a cycle add to the trace. -/
theorem sendPackets_sent (K : GripConstants) (env : EmulatorEnv) (s : SynthState) :
    (∃ rtp : SentPacket, rtp.kind = PacketKind.realtime ∧
      rtp.buffer = (prepareRealtimePacket K env s).rtPacket ∧
      (sendRealtimePacket K env s).sent = s.sent ++ [rtp]) ∧
    (∃ hkp : SentPacket, hkp.kind = PacketKind.housekeeping ∧
      hkp.buffer = (prepareHousekeepingPacket K env s).hkPacket ∧
      (sendHousekeepingPacket K env s).sent = s.sent ++ [hkp]) := by
  constructor
  · refine ⟨⟨PacketKind.realtime, (prepareRealtimePacket K env s).rtPacket,
      (K.rtPacketLengthInBytes : Int)⟩, rfl, rfl, ?_⟩
    simp only [sendRealtimePacket, noteSend, (prepareRealtimePacket_spec K env s).2.1]
  · refine ⟨⟨PacketKind.housekeeping, (prepareHousekeepingPacket K env s).hkPacket,
      (K.hkPacketLengthInBytes : Int)⟩, rfl, rfl, ?_⟩
    simp only [sendHousekeepingPacket, noteSend, (prepareHousekeepingPacket_spec K env s).2.1]

/-- With at most 16 targets in a row, the values that the end of an epoch
computes are those of the specification: nothing is lost in the variables. -/
theorem specEpochFeedback_fits (K : GripConstants) (e : Nat)
    (hV : 0 < K.N_VERTICAL_TARGETS ∧ K.N_VERTICAL_TARGETS ≤ 16)
    (hH : 0 < K.N_HORIZONTAL_TARGETS ∧ K.N_HORIZONTAL_TARGETS ≤ 16) :
    ({ vertical_targets := (1 <<< (e % K.N_VERTICAL_TARGETS)) % 65536,
       horizontal_targets := (1 <<< (e % K.N_HORIZONTAL_TARGETS)) % 65536,
       sound_bits := (e % 8) % 256,
       cradle_bits := ((e % 4) + (((e + 1) % 4) <<< 2) + (((e + 2) % 4) <<< 4)) % 256,
       acquire_status := if e % 3 ≠ 0 then 2 else 0,
       camera_status := if e % 2 ≠ 0 then 2 else 0 } : SimulatedFeedback)
      = specEpochFeedback K e ∧
    (specEpochFeedback K e).vertical_targets < 65536 ∧
    (specEpochFeedback K e).horizontal_targets < 65536 ∧
    (specEpochFeedback K e).sound_bits < 256 ∧
    (specEpochFeedback K e).cradle_bits < 256 ∧
    (specEpochFeedback K e).acquire_status < 65536 ∧
    (specEpochFeedback K e).camera_status < 65536 := by
  have hshift : ∀ x : Nat, x < 16 → 1 <<< x < 65536 := by
    intro x hx
    interval_cases x <;> decide
  have hv := hshift (e % K.N_VERTICAL_TARGETS)
    (lt_of_lt_of_le (Nat.mod_lt _ hV.1) hV.2)
  have hh := hshift (e % K.N_HORIZONTAL_TARGETS)
    (lt_of_lt_of_le (Nat.mod_lt _ hH.1) hH.2)
  have hc : (e % 4) + (((e + 1) % 4) <<< 2) + (((e + 2) % 4) <<< 4) < 256 := by
    simp only [Nat.shiftLeft_eq]
    omega
  have hcam : (if e % 2 ≠ 0 then 2 else 0 : Nat) = if e % 2 = 1 then 2 else 0 := by
    by_cases h : e % 2 = 1
    · rw [if_pos h, if_pos (by omega)]
    · rw [if_neg h, if_neg (by omega)]
  refine ⟨?_, hv, hh, ?_, hc, ?_, ?_⟩
  · simp only [specEpochFeedback, Nat.mod_eq_of_lt hv, Nat.mod_eq_of_lt hh,
      Nat.mod_eq_of_lt hc, hcam, SimulatedFeedback.mk.injEq, and_true, true_and]
    omega
  · show e % 8 < 256
    omega
  · show (if e % 3 ≠ 0 then 2 else 0 : Nat) < 65536
    split <;> decide
  · show (if e % 2 = 1 then 2 else 0 : Nat) < 65536
    split <;> decide

/-- The feedback values of the specification lie within their wire widths. -/
theorem specFeedbackAt_fits (K : GripConstants) (epoch : Nat)
    (hV : 0 < K.N_VERTICAL_TARGETS ∧ K.N_VERTICAL_TARGETS ≤ 16)
    (hH : 0 < K.N_HORIZONTAL_TARGETS ∧ K.N_HORIZONTAL_TARGETS ≤ 16) :
    (specFeedbackAt K epoch).vertical_targets < 65536 ∧
    (specFeedbackAt K epoch).horizontal_targets < 65536 ∧
    (specFeedbackAt K epoch).sound_bits < 256 ∧
    (specFeedbackAt K epoch).cradle_bits < 256 ∧
    (specFeedbackAt K epoch).acquire_status < 65536 ∧
    (specFeedbackAt K epoch).camera_status < 65536 := by
  unfold specFeedbackAt
  split
  · decide
  · exact (specEpochFeedback_fits K (epoch - 1) hV hH).2

/-- The end of a cycle keeps the feedback values those of the specification:
either nothing changes, or the epoch advances and the values become those of
the advance. -/
theorem endOfCycle_feedback (K : GripConstants) (t : SynthState)
    (hV : 0 < K.N_VERTICAL_TARGETS ∧ K.N_VERTICAL_TARGETS ≤ 16)
    (hH : 0 < K.N_HORIZONTAL_TARGETS ∧ K.N_HORIZONTAL_TARGETS ≤ 16)
    (hinv : t.feedback = specFeedbackAt K t.epoch) :
    (((endOfCycle K t).epoch = t.epoch ∧ (endOfCycle K t).feedback = t.feedback) ∨
      ((endOfCycle K t).epoch = t.epoch + 1 ∧
        (endOfCycle K t).feedback = specEpochFeedback K t.epoch)) ∧
    (endOfCycle K t).feedback = specFeedbackAt K (endOfCycle K t).epoch := by
  obtain ⟨a, b⟩ := endOfCycle_epoch K t
  by_cases hc : t.packet_count % 20 = 0
  · obtain ⟨a1, a2⟩ := a hc
    rw [(specEpochFeedback_fits K t.epoch hV hH).1] at a2
    refine ⟨Or.inr ⟨a1, a2⟩, ?_⟩
    rw [a1, a2]
    simp [specFeedbackAt]
  · obtain ⟨b1, b2⟩ := b hc
    refine ⟨Or.inl ⟨b1, b2⟩, ?_⟩
    rw [b1, b2]
    exact hinv

/-- One cycle of `sendConstructedPackets` from a state whose feedback values
are those of the specification: the housekeeping packet it sends, if any,
decodes to them, and the state it leaves has again the values of the
specification. -/
theorem constructedCycle_feedback (K : GripConstants) (env : EmulatorEnv) (s : SynthState)
    (hV : 0 < K.N_VERTICAL_TARGETS ∧ K.N_VERTICAL_TARGETS ≤ 16)
    (hH : 0 < K.N_HORIZONTAL_TARGETS ∧ K.N_HORIZONTAL_TARGETS ≤ 16)
    (hinv : s.feedback = specFeedbackAt K s.epoch) :
    (∃ new : List SentPacket, (constructedCycle K env s).2.sent = s.sent ++ new ∧
      ∀ p ∈ new, p.kind = PacketKind.housekeeping →
        decodesAsConstructed K p.buffer (specFeedbackAt K s.epoch)) ∧
    (((constructedCycle K env s).2.epoch = s.epoch ∧
        (constructedCycle K env s).2.feedback = s.feedback) ∨
      ((constructedCycle K env s).2.epoch = s.epoch + 1 ∧
        (constructedCycle K env s).2.feedback = specEpochFeedback K s.epoch)) ∧
    (constructedCycle K env s).2.feedback
      = specFeedbackAt K (constructedCycle K env s).2.epoch := by
  obtain ⟨c1, c2, c3, c4⟩ := constructedCycle_cases K env s
  obtain ⟨p1, p2, _, _⟩ := sendPackets_epoch K env s
  obtain ⟨_, _, p3, p4⟩ := sendPackets_epoch K env (sendRealtimePacket K env s)
  obtain ⟨⟨rtp, k1, _, t1⟩, _⟩ := sendPackets_sent K env s
  obtain ⟨_, ⟨hkp, k2, b2, t2⟩⟩ := sendPackets_sent K env (sendRealtimePacket K env s)
  have hfit := specFeedbackAt_fits K s.epoch hV hH
  rw [← hinv] at hfit
  have hdec := prepareHousekeepingPacket_decodes K env (sendRealtimePacket K env s) hfit
  rw [p2, hinv, ← b2] at hdec
  have hinvR : (sendRealtimePacket K env s).feedback
      = specFeedbackAt K (sendRealtimePacket K env s).epoch := by rw [p1, p2]; exact hinv
  have hinvH : (sendHousekeepingPacket K env (sendRealtimePacket K env s)).feedback
      = specFeedbackAt K (sendHousekeepingPacket K env (sendRealtimePacket K env s)).epoch := by
    rw [p3, p4]; exact hinvR
  have hrt : ∀ p ∈ [rtp], p.kind = PacketKind.housekeeping →
      decodesAsConstructed K p.buffer (specFeedbackAt K s.epoch) := by
    intro p hp hk
    rw [List.mem_singleton] at hp
    rw [hp, k1] at hk
    cases hk
  have hboth : ∀ p ∈ [rtp, hkp], p.kind = PacketKind.housekeeping →
      decodesAsConstructed K p.buffer (specFeedbackAt K s.epoch) := by
    intro p hp hk
    simp only [List.mem_cons, List.mem_singleton, List.mem_nil_iff, or_false] at hp
    rcases hp with hp | hp
    · rw [hp, k1] at hk
      cases hk
    · rw [hp]
      exact hdec
  have hsentH : (sendHousekeepingPacket K env (sendRealtimePacket K env s)).sent
      = s.sent ++ [rtp, hkp] := by
    rw [t2, t1, List.append_assoc]
    rfl
  cases h1 : env.sendFails s.sends with
  | true =>
    rw [c1 h1]
    exact ⟨⟨_, t1, hrt⟩, Or.inl ⟨p1, p2⟩, hinvR⟩
  | false =>
    cases h2 : s.send_hk with
    | false =>
      rw [c2 h1 h2]
      obtain ⟨e, f⟩ := endOfCycle_feedback K (sendRealtimePacket K env s) hV hH hinvR
      rw [p1, p2] at e
      refine ⟨⟨_, ?_, hrt⟩, e, f⟩
      show (endOfCycle K (sendRealtimePacket K env s)).sent = _
      rw [(endOfCycle_spec K _).2.1, t1]
    | true =>
      cases h3 : env.sendFails (s.sends + 1) with
      | true =>
        rw [c3 h1 h2 h3]
        refine ⟨⟨_, hsentH, hboth⟩, Or.inl ⟨?_, ?_⟩, hinvH⟩
        · show (sendHousekeepingPacket K env (sendRealtimePacket K env s)).epoch = s.epoch
          rw [p3, p1]
        · show (sendHousekeepingPacket K env (sendRealtimePacket K env s)).feedback = s.feedback
          rw [p4, p2]
      | false =>
        rw [c4 h1 h2 h3]
        obtain ⟨e, f⟩ := endOfCycle_feedback K
          (sendHousekeepingPacket K env (sendRealtimePacket K env s)) hV hH hinvH
        rw [p3, p4, p1, p2] at e
        refine ⟨⟨_, ?_, hboth⟩, e, f⟩
        show (endOfCycle K (sendHousekeepingPacket K env (sendRealtimePacket K env s))).sent = _
        rw [(endOfCycle_spec K _).2.1, hsentH]

/-- In every run of the loop of `sendConstructedPackets` from a state whose
feedback values are those of the specification, the state reached has the
values of the specification for its epoch, and every housekeeping packet of
the trace decodes to the values of the specification for an epoch that the
run has reached. -/
theorem constructedLoop_feedback (K : GripConstants) (env : EmulatorEnv)
    (hV : 0 < K.N_VERTICAL_TARGETS ∧ K.N_VERTICAL_TARGETS ≤ 16)
    (hH : 0 < K.N_HORIZONTAL_TARGETS ∧ K.N_HORIZONTAL_TARGETS ≤ 16) (fuel : Nat) :
    ∀ s : SynthState, s.feedback = specFeedbackAt K s.epoch →
      (∀ p ∈ s.sent, p.kind = PacketKind.housekeeping →
        ∃ e, e ≤ s.epoch ∧ decodesAsConstructed K p.buffer (specFeedbackAt K e)) →
      (constructedLoop K env fuel s).2.feedback
        = specFeedbackAt K (constructedLoop K env fuel s).2.epoch ∧
      (∀ p ∈ (constructedLoop K env fuel s).2.sent, p.kind = PacketKind.housekeeping →
        ∃ e, e ≤ (constructedLoop K env fuel s).2.epoch ∧
          decodesAsConstructed K p.buffer (specFeedbackAt K e)) := by
  induction fuel with
  | zero => intro s h1 h2; exact ⟨h1, h2⟩
  | succ n ih =>
    intro s h1 h2
    obtain ⟨⟨new, hs, hnew⟩, hstep, hinv⟩ := constructedCycle_feedback K env s hV hH h1
    have hle : s.epoch ≤ (constructedCycle K env s).2.epoch := by
      rcases hstep with ⟨e, _⟩ | ⟨e, _⟩ <;> omega
    have htrace : ∀ p ∈ (constructedCycle K env s).2.sent, p.kind = PacketKind.housekeeping →
        ∃ e, e ≤ (constructedCycle K env s).2.epoch ∧
          decodesAsConstructed K p.buffer (specFeedbackAt K e) := by
      intro p hp hk
      rw [hs, List.mem_append] at hp
      rcases hp with hp | hp
      · obtain ⟨e, he, hd⟩ := h2 p hp hk
        exact ⟨e, le_trans he hle, hd⟩
      · exact ⟨s.epoch, hle, hnew p hp hk⟩
    rw [constructedLoop]
    revert hinv htrace
    generalize constructedCycle K env s = r
    obtain ⟨o, t⟩ := r
    intro hinv htrace
    cases o with
    | some count => exact ⟨hinv, htrace⟩
    | none => exact ih t hinv htrace

/-- C23: with at most 16 targets in each row, in every state `t` that a run of
`sendConstructedPackets` reaches at the end of its cycles the feedback values
are those fixed at the most recent advance of the epoch (before the first
advance: targets 0, tone 0, cradle 0, both statuses 2); every housekeeping
packet handed to `send` in the run decodes to user 11, protocol 201, task 210,
step 10 and to the values fixed for an epoch of the run, the one sent in the
next cycle to those of `t`; and the end of that cycle either leaves the epoch
and the values unchanged or advances the epoch from `e` to `e + 1` and sets
vertical `1 << (e mod N_VERTICAL_TARGETS)`, horizontal
`1 << (e mod N_HORIZONTAL_TARGETS)`, tone `e mod 8`, cradle
`(e mod 4) + (((e+1) mod 4) << 2) + (((e+2) mod 4) << 4)`, motion tracker
status 2 if `e mod 3 ≠ 0` else 0, camera status 2 if `e` is odd else 0. -/
theorem sendConstructedPackets_housekeeping_values (K : GripConstants) (env : EmulatorEnv)
    (fuel : Nat) (s0 t : SynthState)
    (hV : 0 < K.N_VERTICAL_TARGETS ∧ K.N_VERTICAL_TARGETS ≤ 16)
    (hH : 0 < K.N_HORIZONTAL_TARGETS ∧ K.N_HORIZONTAL_TARGETS ≤ 16)
    (ht : t = (sendConstructedPackets K env fuel s0).2) :
    (startConstructed K s0).epoch = 0 ∧
    (startConstructed K s0).feedback = specInitialFeedback ∧
    t.feedback = (if t.epoch = 0 then specInitialFeedback else specEpochFeedback K (t.epoch - 1)) ∧
    (∀ p ∈ t.sent, p.kind = PacketKind.housekeeping →
      ∃ e, e ≤ t.epoch ∧
        decodesAsConstructed K p.buffer
          (if e = 0 then specInitialFeedback else specEpochFeedback K (e - 1))) ∧
    (∃ new : List SentPacket, (constructedCycle K env t).2.sent = t.sent ++ new ∧
      ∀ p ∈ new, p.kind = PacketKind.housekeeping →
        decodesAsConstructed K p.buffer t.feedback) ∧
    (((constructedCycle K env t).2.epoch = t.epoch ∧
        (constructedCycle K env t).2.feedback = t.feedback) ∨
      ((constructedCycle K env t).2.epoch = t.epoch + 1 ∧
        (constructedCycle K env t).2.feedback = specEpochFeedback K t.epoch)) := by
  have hrun := constructedLoop_feedback K env hV hH fuel (startConstructed K s0) rfl
    (fun p hp => by cases hp)
  have hrun2 : t.feedback = specFeedbackAt K t.epoch ∧
      (∀ p ∈ t.sent, p.kind = PacketKind.housekeeping →
        ∃ e, e ≤ t.epoch ∧ decodesAsConstructed K p.buffer (specFeedbackAt K e)) := by
    rw [ht]
    exact hrun
  obtain ⟨⟨new, hs, hnew⟩, hstep, _⟩ := constructedCycle_feedback K env t hV hH hrun2.1
  rw [← hrun2.1] at hnew
  exact ⟨rfl, rfl, hrun2.1, hrun2.2, ⟨new, hs, hnew⟩, hstep⟩

/-- C23 (witness): after the first cycle of a run in which no `send` fails the
feedback values are those of the specification for the epoch reached. -/
theorem sendConstructedPackets_housekeeping_values_witness :
    (sendConstructedPackets sampleConstants (sampleEmulatorEnv fun _ => false) 1
        sampleSynthState).2.feedback
      = (if (sendConstructedPackets sampleConstants (sampleEmulatorEnv fun _ => false) 1
            sampleSynthState).2.epoch = 0 then specInitialFeedback
          else specEpochFeedback sampleConstants
            ((sendConstructedPackets sampleConstants (sampleEmulatorEnv fun _ => false) 1
              sampleSynthState).2.epoch - 1)) :=
  (sendConstructedPackets_housekeeping_values sampleConstants (sampleEmulatorEnv fun _ => false)
    1 sampleSynthState _ (by decide) (by decide) rfl).2.2.1

/-! ## The handshake of the server -/

/-- The decoded `packetType` of a transfer frame depends on bytes 6 and 7 only. -/
theorem ExtractEPMTransferFrameHeaderInfo_packetType (p : EPMTelemetryPacket) :
    (ExtractEPMTransferFrameHeaderInfo p).packetType = 256 * getByte p 6 + getByte p 7 := by
  simp only [ExtractEPMTransferFrameHeaderInfo, toUInt16_extract_reversed_short]

/-- The decoded `softwareUnitID` of a transfer frame is byte 5. -/
theorem ExtractEPMTransferFrameHeaderInfo_softwareUnitID (p : EPMTelemetryPacket) :
    (ExtractEPMTransferFrameHeaderInfo p).softwareUnitID = getByte p 5 := by
  simp only [ExtractEPMTransferFrameHeaderInfo, ExtractChar]

/-- When the body of the wait loop leaves the loop. -/
theorem examineFrame_true_iff {σ : Type} (H : HandshakeConstants) (K : GripConstants)
    (s : ServerState σ) :
    (examineFrame H K s).1 = true ↔
      (s.iResult = H.connectPacketLengthInBytes ∧ s.iResult ≠ (K.EPM_BUFFER_LENGTH : Int) ∧
        (ExtractEPMTransferFrameHeaderInfo s.inputPacket).packetType
          = H.TRANSFER_FRAME_CONNECT) := by
  unfold examineFrame
  by_cases h1 : s.iResult = (K.EPM_BUFFER_LENGTH : Int)
  · rw [if_pos h1]
    exact ⟨fun h => (by cases h), fun h => absurd h1 h.2.1⟩
  · rw [if_neg h1]
    by_cases h2 : s.iResult = H.connectPacketLengthInBytes
    · rw [if_pos h2]
      dsimp only
      by_cases h3 : (ExtractEPMTransferFrameHeaderInfo s.inputPacket).packetType
          = H.TRANSFER_FRAME_CONNECT
      · rw [if_pos h3]
        exact ⟨fun _ => ⟨h2, h1, h3⟩, fun _ => rfl⟩
      · rw [if_neg h3]
        exact ⟨fun h => (by cases h), fun h => absurd h.2.2 h3⟩
    · rw [if_neg h2]
      exact ⟨fun h => (by cases h), fun h => absurd h.1 h2⟩

/-- The body of the wait loop leaves `iResult`, the buffer and the packet
source alone. -/
theorem examineFrame_frame {σ : Type} (H : HandshakeConstants) (K : GripConstants)
    (s : ServerState σ) :
    (examineFrame H K s).2.iResult = s.iResult ∧
    (examineFrame H K s).2.inputPacket = s.inputPacket ∧
    (examineFrame H K s).2.recvs = s.recvs ∧
    (examineFrame H K s).2.engineCalls = s.engineCalls ∧
    (examineFrame H K s).2.engine = s.engine := by
  unfold examineFrame
  split
  · exact ⟨rfl, rfl, rfl, rfl, rfl⟩
  · split
    · dsimp only
      split <;> exact ⟨rfl, rfl, rfl, rfl, rfl⟩
    · exact ⟨rfl, rfl, rfl, rfl, rfl⟩

theorem examineFrame_counters {σ : Type} (H : HandshakeConstants) (K : GripConstants)
    (s : ServerState σ) :
    (examineFrame H K s).2.listens = s.listens ∧
    (examineFrame H K s).2.accepts = s.accepts ∧
    (examineFrame H K s).2.shutdowns = s.shutdowns := by
  unfold examineFrame
  split
  · exact ⟨rfl, rfl, rfl⟩
  · split
    · dsimp only
      split <;> exact ⟨rfl, rfl, rfl⟩
    · exact ⟨rfl, rfl, rfl⟩

/-- The wait loop leaves the packet source and the other calls alone. -/
theorem awaitConnect_frame {σ : Type} (H : HandshakeConstants) (K : GripConstants)
    (net : NetEnv) (fuel : Nat) :
    ∀ s : ServerState σ,
      (awaitConnect H K net fuel s).2.engine = s.engine ∧
      (awaitConnect H K net fuel s).2.engineCalls = s.engineCalls ∧
      (awaitConnect H K net fuel s).2.listens = s.listens ∧
      (awaitConnect H K net fuel s).2.accepts = s.accepts ∧
      (awaitConnect H K net fuel s).2.shutdowns = s.shutdowns := by
  induction fuel with
  | zero => intro s; exact ⟨rfl, rfl, rfl, rfl, rfl⟩
  | succ n ih =>
    intro s
    obtain ⟨_, _, _, f4, f5⟩ := examineFrame_frame H K (receiveFrame net s)
    obtain ⟨g1, g2, g3⟩ := examineFrame_counters H K (receiveFrame net s)
    rw [awaitConnect]
    revert f4 f5 g1 g2 g3
    generalize examineFrame H K (receiveFrame net s) = r
    obtain ⟨b, t⟩ := r
    intro f4 f5 g1 g2 g3
    dsimp only at f4 f5 g1 g2 g3
    have hres : t.engine = s.engine ∧ t.engineCalls = s.engineCalls ∧ t.listens = s.listens ∧
        t.accepts = s.accepts ∧ t.shutdowns = s.shutdowns := ⟨f5, f4, g1, g2, g3⟩
    cases b with
    | true => exact hres
    | false =>
      dsimp only
      split
      · obtain ⟨i1, i2, i3, i4, i5⟩ := ih t
        obtain ⟨r1, r2, r3, r4, r5⟩ := hres
        exact ⟨i1.trans r1, i2.trans r2, i3.trans r3, i4.trans r4, i5.trans r5⟩
      · exact hres

/-- One iteration of the wait loop. -/
theorem awaitConnect_step {σ : Type} (H : HandshakeConstants) (K : GripConstants)
    (net : NetEnv) (fuel : Nat) (s : ServerState σ) :
    ((examineFrame H K (receiveFrame net s)).1 = true →
      awaitConnect H K net (fuel + 1) s
        = (WaitEnd.connectReceived, (examineFrame H K (receiveFrame net s)).2)) ∧
    ((examineFrame H K (receiveFrame net s)).1 = false → 0 < (receiveFrame net s).iResult →
      awaitConnect H K net (fuel + 1) s
        = awaitConnect H K net fuel (examineFrame H K (receiveFrame net s)).2) ∧
    ((examineFrame H K (receiveFrame net s)).1 = false → (receiveFrame net s).iResult ≤ 0 →
      awaitConnect H K net (fuel + 1) s
        = (WaitEnd.receiveEnded, (examineFrame H K (receiveFrame net s)).2)) := by
  have hf := (examineFrame_frame H K (receiveFrame net s)).1
  rw [awaitConnect]
  revert hf
  generalize examineFrame H K (receiveFrame net s) = r
  obtain ⟨b, t⟩ := r
  intro hf
  dsimp only at hf ⊢
  refine ⟨fun h => ?_, fun h hpos => ?_, fun h hle => ?_⟩
  · subst h
    rfl
  · subst h
    dsimp only
    rw [if_pos (by rw [hf]; exact hpos)]
  · subst h
    dsimp only
    rw [if_neg (by rw [hf]; omega)]

/-- C24: in the wait loop of `_tmain`, the frame that a `recv` has delivered
ends the wait through `break` exactly when its length is
`connectPacketLengthInBytes`, is not `EPM_BUFFER_LENGTH`, and its decoded
`packetType` is `TRANSFER_FRAME_CONNECT`; a frame (a positive length) that
fails this goes on to the next `recv` with the buffer, `iResult` and the packet
source untouched; and the decision is the same for a frame that differs in
nothing but its `softwareUnitID` byte. -/
theorem awaitConnect_completes_iff {σ : Type} (H : HandshakeConstants) (K : GripConstants)
    (net : NetEnv) (fuel : Nat) (s : ServerState σ) (v : Nat) :
    ((examineFrame H K (receiveFrame net s)).1 = true ↔
      ((receiveFrame net s).iResult = H.connectPacketLengthInBytes ∧
        (receiveFrame net s).iResult ≠ (K.EPM_BUFFER_LENGTH : Int) ∧
        (ExtractEPMTransferFrameHeaderInfo (receiveFrame net s).inputPacket).packetType
          = H.TRANSFER_FRAME_CONNECT)) ∧
    ((examineFrame H K (receiveFrame net s)).1 = true →
      awaitConnect H K net (fuel + 1) s
        = (WaitEnd.connectReceived, (examineFrame H K (receiveFrame net s)).2)) ∧
    ((examineFrame H K (receiveFrame net s)).1 = false → 0 < (receiveFrame net s).iResult →
      awaitConnect H K net (fuel + 1) s
        = awaitConnect H K net fuel (examineFrame H K (receiveFrame net s)).2 ∧
      (examineFrame H K (receiveFrame net s)).2.inputPacket = (receiveFrame net s).inputPacket ∧
      (examineFrame H K (receiveFrame net s)).2.iResult = (receiveFrame net s).iResult ∧
      (examineFrame H K (receiveFrame net s)).2.engineCalls = s.engineCalls ∧
      (examineFrame H K (receiveFrame net s)).2.engine = s.engine) ∧
    ((ExtractEPMTransferFrameHeaderInfo
        (setByte (receiveFrame net s).inputPacket 5 v)).softwareUnitID = v % 256 ∧
      (examineFrame H K
        { receiveFrame net s with
          inputPacket := setByte (receiveFrame net s).inputPacket 5 v }).1
        = (examineFrame H K (receiveFrame net s)).1) := by
  obtain ⟨a1, a2, _⟩ := awaitConnect_step H K net fuel s
  obtain ⟨f1, f2, _, f4, f5⟩ := examineFrame_frame H K (receiveFrame net s)
  refine ⟨examineFrame_true_iff H K _, a1, fun h hpos => ⟨a2 h hpos, f2, f1, f4, f5⟩, ?_, ?_⟩
  · rw [ExtractEPMTransferFrameHeaderInfo_softwareUnitID, getByte_setByte, if_pos rfl]
  · have ht : (ExtractEPMTransferFrameHeaderInfo
        (setByte (receiveFrame net s).inputPacket 5 v)).packetType
        = (ExtractEPMTransferFrameHeaderInfo (receiveFrame net s).inputPacket).packetType := by
      rw [ExtractEPMTransferFrameHeaderInfo_packetType,
        ExtractEPMTransferFrameHeaderInfo_packetType, getByte_setByte, getByte_setByte,
        if_neg (by decide), if_neg (by decide)]
    have hiff := examineFrame_true_iff H K
      ({ receiveFrame net s with
          inputPacket := setByte (receiveFrame net s).inputPacket 5 v } : ServerState σ)
    have hiff2 := examineFrame_true_iff H K (receiveFrame net s)
    dsimp only at hiff
    rw [ht, ← hiff2] at hiff
    cases hb : (examineFrame H K (receiveFrame net s)).1
    · cases hc : (examineFrame H K
        { receiveFrame net s with
          inputPacket := setByte (receiveFrame net s).inputPacket 5 v }).1
      · rfl
      · rw [hiff.mp hc] at hb
        cases hb
    · exact hiff.mpr hb

/-- A pass of the loop of `_tmain` whose `listen` and `accept` succeed calls the
packet source once its wait loop has ended, however it has ended; when the
packet source returns and `shutdown` succeeds the loop goes on to the next
`listen`. -/
theorem serveClient_calls_engine {σ : Type} (H : HandshakeConstants) (K : GripConstants)
    (net : NetEnv) (engine : σ → Outcome Nat × σ) (fuel : Nat) (s : ServerState σ)
    (hl : net.listenFails s.listens = false) (ha : net.acceptFails s.accepts = false)
    (hw : (awaitConnect H K net fuel
      { s with listens := s.listens + 1, accepts := s.accepts + 1 }).1 ≠ WaitEnd.outOfFuel) :
    (serveClient H K net engine fuel s).2.engineCalls = s.engineCalls + 1 ∧
    (serveClient H K net engine fuel s).2.engine = (engine s.engine).2 ∧
    (∀ count, (engine s.engine).1 = Outcome.returned count →
      net.shutdownFails s.shutdowns = false →
      (serveClient H K net engine fuel s).1 = none ∧
      (serveClient H K net engine fuel s).2.packetCount = count ∧
      (serveClient H K net engine fuel s).2.listens = s.listens + 1) := by
  obtain ⟨w1, w2, w3, _, w5⟩ := awaitConnect_frame H K net fuel
    ({ s with listens := s.listens + 1, accepts := s.accepts + 1 } : ServerState σ)
  unfold serveClient
  simp only [hl, ha, Bool.false_eq_true, if_false]
  revert hw w1 w2 w3 w5
  generalize awaitConnect H K net fuel
    { s with listens := s.listens + 1, accepts := s.accepts + 1 } = r
  obtain ⟨w, t⟩ := r
  intro hw w1 w2 w3 w5
  dsimp only at w1 w2 w3 w5
  cases w with
  | outOfFuel => exact absurd rfl hw
  | connectReceived =>
    dsimp only
    rw [w1]
    generalize engine s.engine = e
    obtain ⟨o, u⟩ := e
    cases o with
    | returned count =>
      dsimp only
      refine ⟨by split <;> exact w2 ▸ rfl, by split <;> rfl, fun c hc hs => ?_⟩
      cases hc
      rw [w5, hs]
      exact ⟨rfl, rfl, w3⟩
    | exited code => exact ⟨w2 ▸ rfl, rfl, fun c hc => (by cases hc)⟩
    | outOfFuel => exact ⟨w2 ▸ rfl, rfl, fun c hc => (by cases hc)⟩
  | receiveEnded =>
    dsimp only
    rw [w1]
    generalize engine s.engine = e
    obtain ⟨o, u⟩ := e
    cases o with
    | returned count =>
      dsimp only
      refine ⟨by split <;> exact w2 ▸ rfl, by split <;> rfl, fun c hc hs => ?_⟩
      cases hc
      rw [w5, hs]
      exact ⟨rfl, rfl, w3⟩
    | exited code => exact ⟨w2 ▸ rfl, rfl, fun c hc => (by cases hc)⟩
    | outOfFuel => exact ⟨w2 ▸ rfl, rfl, fun c hc => (by cases hc)⟩

/-! ## Failing sends -/

/-- The loop body of `sendRecordedPackets` and the calls of `send`: while no
`send` has failed it either goes on, no `send` having failed, or returns the
counter right after a failed `send`; the counter advances with the calls. -/
theorem playRecordedPacket_sends (K : GripConstants) (env : EmulatorEnv) (a : Nat)
    (s : PlaybackState) (ha : a ≤ s.sends) (hok : sendsSucceed env a s.sends) :
    s.sends ≤ (playRecordedPacket K env s).2.sends ∧
    (playRecordedPacket K env s).2.sends + s.packetCount
      = (playRecordedPacket K env s).2.packetCount + s.sends ∧
    ((playRecordedPacket K env s).1 = none →
      sendsSucceed env a (playRecordedPacket K env s).2.sends) ∧
    (∀ count, (playRecordedPacket K env s).1 = some count →
      count = (playRecordedPacket K env s).2.packetCount ∧
      lastSendFails env a (playRecordedPacket K env s).2.sends) := by
  by_cases h : isGripPacket K s.recordedPacket
  · obtain ⟨_, e2, e3, _, e5, e6⟩ := playRecordedPacket_send K env s h
    rw [e2, e3]
    refine ⟨by omega, by omega, fun hn j h1 h2 => ?_, fun count hc => ?_⟩
    · by_cases hj : j < s.sends
      · exact hok j h1 hj
      · have : j = s.sends := by omega
        rw [this]
        exact e6.mp hn
    · rcases e5 with e | e
      · rw [e] at hc
        cases hc
      · rw [e] at hc
        refine ⟨(Option.some.inj hc).symm, by omega, ?_, ?_⟩
        · rw [Nat.add_sub_cancel]
          cases hf : env.sendFails s.sends
          · rw [e6.mpr hf] at e
            cases e
          · rfl
        · rw [Nat.add_sub_cancel]
          exact hok
  · rw [playRecordedPacket_skip K env s h]
    exact ⟨le_refl _, Nat.add_comm _ _, fun _ => hok, fun count hc => (by cases hc)⟩

theorem playFile_sends (K : GripConstants) (env : EmulatorEnv) (a c : Nat) (fuel : Nat) :
    ∀ s : PlaybackState, a ≤ s.sends → sendsSucceed env a s.sends →
      s.sends + c = s.packetCount + a →
      a ≤ (playFile K env fuel s).2.sends ∧
      (playFile K env fuel s).2.sends + c = (playFile K env fuel s).2.packetCount + a ∧
      (∀ count, (playFile K env fuel s).1 = PlaybackEnd.sendFailed count →
        count = (playFile K env fuel s).2.packetCount ∧
        lastSendFails env a (playFile K env fuel s).2.sends) ∧
      ((∀ count, (playFile K env fuel s).1 ≠ PlaybackEnd.sendFailed count) →
        sendsSucceed env a (playFile K env fuel s).2.sends) := by
  induction fuel with
  | zero =>
    intro s ha hok hc
    exact ⟨ha, hc, fun count h => (by cases h), fun _ => hok⟩
  | succ n ih =>
    intro s ha hok hc
    obtain ⟨p1, p2, p3, p4⟩ := playRecordedPacket_sends K env a s ha hok
    rw [playFile]
    revert p1 p2 p3 p4
    generalize playRecordedPacket K env s = r
    obtain ⟨o, t⟩ := r
    intro p1 p2 p3 p4
    dsimp only at p1 p2 p3 p4
    cases o with
    | some count =>
      obtain ⟨q1, q2⟩ := p4 count rfl
      dsimp only
      refine ⟨by omega, by omega, fun c2 h => ?_, fun h => absurd rfl (h count)⟩
      cases h
      exact ⟨q1, q2⟩
    | none =>
      dsimp only
      have hr := ih (readRecordedPacket env t) (show a ≤ t.sends by omega) (p3 rfl)
        (show t.sends + c = t.packetCount + a by omega)
      split
      · exact hr
      · exact ⟨show a ≤ t.sends by omega, show t.sends + c = t.packetCount + a by omega,
          fun count h => (by cases h), fun _ => p3 rfl⟩

/-- A call of `sendRecordedPackets` and the calls of `send`: it returns only
right after a failed `send`, with the value of the counter, and as long as it
has not returned no `send` has failed; the counter has advanced by the number
of packets handed to `send`. -/
theorem sendRecordedPackets_sends (K : GripConstants) (env : EmulatorEnv) (a c : Nat)
    (fuel : Nat) :
    ∀ s : PlaybackState, a ≤ s.sends → sendsSucceed env a s.sends →
      s.sends + c = s.packetCount + a →
      a ≤ (sendRecordedPackets K env fuel s).2.sends ∧
      (sendRecordedPackets K env fuel s).2.sends + c
        = (sendRecordedPackets K env fuel s).2.packetCount + a ∧
      (∀ count, (sendRecordedPackets K env fuel s).1 = Outcome.returned count →
        count = (sendRecordedPackets K env fuel s).2.packetCount ∧
        lastSendFails env a (sendRecordedPackets K env fuel s).2.sends) ∧
      ((∀ count, (sendRecordedPackets K env fuel s).1 ≠ Outcome.returned count) →
        sendsSucceed env a (sendRecordedPackets K env fuel s).2.sends) := by
  induction fuel with
  | zero =>
    intro s ha hok hc
    exact ⟨ha, hc, fun count h => (by cases h), fun _ => hok⟩
  | succ n ih =>
    intro s ha hok hc
    rw [sendRecordedPackets]
    dsimp only
    split
    · exact ⟨ha, hc, fun count h => (by cases h), fun _ => hok⟩
    · split
      · exact ⟨ha, hc, fun count h => (by cases h), fun _ => hok⟩
      · have hp := playFile_sends K env a c n
          (readRecordedPacket env { s with opens := s.opens + 1 }) ha hok hc
        revert hp
        generalize playFile K env n (readRecordedPacket env { s with opens := s.opens + 1 }) = r
        obtain ⟨e, t⟩ := r
        intro hp
        obtain ⟨h1, h2, h3, h4⟩ := hp
        dsimp only at h1 h2 h3 h4
        cases e with
        | sendFailed count =>
          obtain ⟨q1, q2⟩ := h3 count rfl
          refine ⟨h1, h2, fun c2 h => ?_, fun h => absurd rfl (h count)⟩
          cases h
          exact ⟨q1, q2⟩
        | outOfFuel =>
          exact ⟨h1, h2, fun count h => (by cases h), fun _ => h4 (fun _ h => by cases h)⟩
        | fileEnd =>
          have hs := h4 (fun _ h => by cases h)
          dsimp only
          split
          · exact ⟨h1, h2, fun count h => (by cases h), fun _ => hs⟩
          · exact ih _ h1 hs h2

/-- One cycle of `sendConstructedPackets` and the calls of `send`. -/
theorem constructedCycle_sends (K : GripConstants) (env : EmulatorEnv) (a : Nat)
    (s : SynthState) (ha : a ≤ s.sends) (hok : sendsSucceed env a s.sends) :
    s.sends ≤ (constructedCycle K env s).2.sends ∧
    (constructedCycle K env s).2.sends + s.packet_count
      = (constructedCycle K env s).2.packet_count + s.sends ∧
    ((constructedCycle K env s).1 = none →
      sendsSucceed env a (constructedCycle K env s).2.sends) ∧
    (∀ count, (constructedCycle K env s).1 = some count →
      count = (constructedCycle K env s).2.packet_count ∧
      lastSendFails env a (constructedCycle K env s).2.sends) := by
  obtain ⟨c1, c2, c3, c4⟩ := constructedCycle_cases K env s
  obtain ⟨r1, r2, _⟩ := sendRealtimePacket_spec K env s
  obtain ⟨q1, q2, _⟩ := sendHousekeepingPacket_spec K env (sendRealtimePacket K env s)
  have hok1 : env.sendFails s.sends = false → sendsSucceed env a (s.sends + 1) := by
    intro h j h1 h2
    by_cases hj : j < s.sends
    · exact hok j h1 hj
    · have : j = s.sends := by omega
      rw [this]
      exact h
  have hok2 : env.sendFails s.sends = false → env.sendFails (s.sends + 1) = false →
      sendsSucceed env a (s.sends + 1 + 1) := by
    intro h h' j h1 h2
    by_cases hj : j < s.sends + 1
    · exact hok1 h j h1 hj
    · have : j = s.sends + 1 := by omega
      rw [this]
      exact h'
  cases h1 : env.sendFails s.sends with
  | true =>
    rw [c1 h1]
    dsimp only
    rw [r1, r2]
    refine ⟨by omega, by omega, fun h => (by cases h), fun count hc => ?_⟩
    refine ⟨(Option.some.inj hc).symm, by omega, ?_, ?_⟩
    · rw [Nat.add_sub_cancel]; exact h1
    · rw [Nat.add_sub_cancel]; exact hok
  | false =>
    cases h2 : s.send_hk with
    | false =>
      rw [c2 h1 h2]
      obtain ⟨e1, _, e3, _⟩ := endOfCycle_spec K (sendRealtimePacket K env s)
      dsimp only
      rw [e1, e3, r1, r2]
      exact ⟨by omega, by omega, fun _ => hok1 h1, fun count hc => (by cases hc)⟩
    | true =>
      cases h3 : env.sendFails (s.sends + 1) with
      | true =>
        rw [c3 h1 h2 h3]
        dsimp only
        rw [q1, q2, r1, r2]
        refine ⟨by omega, by omega, fun h => (by cases h), fun count hc => ?_⟩
        refine ⟨(Option.some.inj hc).symm, by omega, ?_, ?_⟩
        · rw [Nat.add_sub_cancel]; exact h3
        · rw [Nat.add_sub_cancel]; exact hok1 h1
      | false =>
        rw [c4 h1 h2 h3]
        obtain ⟨e1, _, e3, _⟩ := endOfCycle_spec K
          (sendHousekeepingPacket K env (sendRealtimePacket K env s))
        dsimp only
        rw [e1, e3, q1, q2, r1, r2]
        exact ⟨by omega, by omega, fun _ => hok2 h1 h3, fun count hc => (by cases hc)⟩

theorem constructedLoop_sends (K : GripConstants) (env : EmulatorEnv) (a c : Nat) (fuel : Nat) :
    ∀ s : SynthState, a ≤ s.sends → sendsSucceed env a s.sends →
      s.sends + c = s.packet_count + a →
      a ≤ (constructedLoop K env fuel s).2.sends ∧
      (constructedLoop K env fuel s).2.sends + c
        = (constructedLoop K env fuel s).2.packet_count + a ∧
      (∀ count, (constructedLoop K env fuel s).1 = Outcome.returned count →
        count = (constructedLoop K env fuel s).2.packet_count ∧
        lastSendFails env a (constructedLoop K env fuel s).2.sends) ∧
      ((∀ count, (constructedLoop K env fuel s).1 ≠ Outcome.returned count) →
        sendsSucceed env a (constructedLoop K env fuel s).2.sends) := by
  induction fuel with
  | zero =>
    intro s ha hok hc
    exact ⟨ha, hc, fun count h => (by cases h), fun _ => hok⟩
  | succ n ih =>
    intro s ha hok hc
    obtain ⟨p1, p2, p3, p4⟩ := constructedCycle_sends K env a s ha hok
    rw [constructedLoop]
    revert p1 p2 p3 p4
    generalize constructedCycle K env s = r
    obtain ⟨o, t⟩ := r
    intro p1 p2 p3 p4
    dsimp only at p1 p2 p3 p4
    cases o with
    | some count =>
      obtain ⟨q1, q2⟩ := p4 count rfl
      dsimp only
      refine ⟨by omega, by omega, fun c2 h => ?_, fun h => absurd rfl (h count)⟩
      cases h
      exact ⟨q1, q2⟩
    | none =>
      exact ih t (by omega) (p3 rfl) (by omega)

/-- C26 (amended): when a `send` fails, each packet source stops at once,
sending nothing further, and returns the value of its packet counter, which is
the counter on entry (0 in `sendConstructedPackets`, the static total of the
earlier calls in `sendRecordedPackets`) advanced by one for every packet that
the call has handed to `send`.  In the model: a call returns a count only
right after a `send` that failed, all earlier `send`s of the call having
succeeded, and the count is the counter; a call that has not returned has seen
no `send` fail. -/
theorem packet_sources_stop_at_failed_send (K : GripConstants) (env : EmulatorEnv)
    (fuel : Nat) (p : PlaybackState) (s : SynthState) :
    ((∀ count, (sendRecordedPackets K env fuel p).1 = Outcome.returned count →
        lastSendFails env p.sends (sendRecordedPackets K env fuel p).2.sends ∧
        count = (sendRecordedPackets K env fuel p).2.packetCount ∧
        count = p.packetCount + ((sendRecordedPackets K env fuel p).2.sends - p.sends)) ∧
      ((∀ count, (sendRecordedPackets K env fuel p).1 ≠ Outcome.returned count) →
        sendsSucceed env p.sends (sendRecordedPackets K env fuel p).2.sends)) ∧
    ((∀ count, (sendConstructedPackets K env fuel s).1 = Outcome.returned count →
        lastSendFails env s.sends (sendConstructedPackets K env fuel s).2.sends ∧
        count = (sendConstructedPackets K env fuel s).2.packet_count ∧
        count = (sendConstructedPackets K env fuel s).2.sends - s.sends) ∧
      ((∀ count, (sendConstructedPackets K env fuel s).1 ≠ Outcome.returned count) →
        sendsSucceed env s.sends (sendConstructedPackets K env fuel s).2.sends)) := by
  have hempty : ∀ a, sendsSucceed env a a := fun a j h1 h2 => absurd h1 (by omega)
  obtain ⟨a1, a2, a3, a4⟩ := sendRecordedPackets_sends K env p.sends p.packetCount fuel p
    (le_refl _) (hempty _) (Nat.add_comm _ _)
  obtain ⟨b1, b2, b3, b4⟩ := constructedLoop_sends K env s.sends 0 fuel (startConstructed K s)
    (le_refl _) (hempty _) (by show s.sends + 0 = 0 + s.sends; omega)
  refine ⟨⟨fun count h => ?_, a4⟩, ⟨fun count h => ?_, b4⟩⟩
  · obtain ⟨q1, q2⟩ := a3 count h
    exact ⟨q2, q1, by omega⟩
  · obtain ⟨q1, q2⟩ := b3 count h
    refine ⟨q2, q1, ?_⟩
    have hb : (sendConstructedPackets K env fuel s).2.sends + 0
        = (sendConstructedPackets K env fuel s).2.packet_count + s.sends := b2
    have hq : count = (sendConstructedPackets K env fuel s).2.packet_count := q1
    omega

/-- C26 (counterexample): in the outside world whose every `send` fails, the
second call of `sendRecordedPackets` in a process hands one packet to `send`,
which fails, and returns 2, although it has sent no packet successfully. -/
theorem sendRecordedPackets_second_run_returns_two :
    (sendRecordedPackets sampleConstants (sampleEmulatorEnv fun _ => true) 2
      (nextPlayback
        (sendRecordedPackets sampleConstants (sampleEmulatorEnv fun _ => true) 2
          (firstPlayback zeroPacket)).2 zeroPacket)).1 = Outcome.returned 2 ∧
    (sendRecordedPackets sampleConstants (sampleEmulatorEnv fun _ => true) 2
      (nextPlayback
        (sendRecordedPackets sampleConstants (sampleEmulatorEnv fun _ => true) 2
          (firstPlayback zeroPacket)).2 zeroPacket)).2.sent.length = 1 ∧
    (sampleEmulatorEnv fun _ => true).sendFails
      (nextPlayback
        (sendRecordedPackets sampleConstants (sampleEmulatorEnv fun _ => true) 2
          (firstPlayback zeroPacket)).2 zeroPacket).sends = true := by
  have h1 := sendRecordedPackets_first_send_fails sampleConstants
    (sampleEmulatorEnv fun _ => true) (firstPlayback zeroPacket) rfl
    (by simp [sampleEmulatorEnv, ReadResult.count])
    (by
      simp only [sampleEmulatorEnv, ReadResult.store]
      exact isGripPacket_gripChunk _)
    rfl
  have h2 := sendRecordedPackets_first_send_fails sampleConstants
    (sampleEmulatorEnv fun _ => true)
    (nextPlayback
      (sendRecordedPackets sampleConstants (sampleEmulatorEnv fun _ => true) 2
        (firstPlayback zeroPacket)).2 zeroPacket) rfl
    (by simp [sampleEmulatorEnv, ReadResult.count])
    (by
      simp only [sampleEmulatorEnv, ReadResult.store]
      exact isGripPacket_gripChunk _)
    rfl
  have hp : (nextPlayback
      (sendRecordedPackets sampleConstants (sampleEmulatorEnv fun _ => true) 2
        (firstPlayback zeroPacket)).2 zeroPacket).packetCount = 1 := by
    have : (nextPlayback
        (sendRecordedPackets sampleConstants (sampleEmulatorEnv fun _ => true) 2
          (firstPlayback zeroPacket)).2 zeroPacket).packetCount
        = (sendRecordedPackets sampleConstants (sampleEmulatorEnv fun _ => true) 2
          (firstPlayback zeroPacket)).2.packetCount := by
      simp only [nextPlayback]
    rw [this, h1.2.1]
    simp [firstPlayback]
  have hs : (nextPlayback
      (sendRecordedPackets sampleConstants (sampleEmulatorEnv fun _ => true) 2
        (firstPlayback zeroPacket)).2 zeroPacket).sent = [] := by
    simp only [nextPlayback]
  refine ⟨?_, ?_, rfl⟩
  · rw [h2.1, hp]
  · rw [h2.2.2, hs]
    rfl

/-- C25 (failing input): a client that connects and closes the connection
without sending a frame (the first `recv` returns zero).  The wait loop ends
on `iResult > 0` being false, and `_tmain` goes on to call the packet source
(here `sendRecordedPackets`, whose `send` fails), which hands a packet to
`send`, before it returns to `listen`. -/
theorem serveClient_starts_engine_without_connect :
    (awaitConnect sampleHandshake sampleConstants sampleClosingNet 1
      { sampleServerState (firstPlayback zeroPacket) with listens := 1, accepts := 1 }).1
      = WaitEnd.receiveEnded ∧
    (serveClient sampleHandshake sampleConstants sampleClosingNet
      (sendRecordedPackets sampleConstants (sampleEmulatorEnv fun _ => true) 2) 1
      (sampleServerState (firstPlayback zeroPacket))).1 = none ∧
    (serveClient sampleHandshake sampleConstants sampleClosingNet
      (sendRecordedPackets sampleConstants (sampleEmulatorEnv fun _ => true) 2) 1
      (sampleServerState (firstPlayback zeroPacket))).2.engineCalls = 1 ∧
    (serveClient sampleHandshake sampleConstants sampleClosingNet
      (sendRecordedPackets sampleConstants (sampleEmulatorEnv fun _ => true) 2) 1
      (sampleServerState (firstPlayback zeroPacket))).2.engine.sent.length = 1 := by
  have hw : (awaitConnect sampleHandshake sampleConstants sampleClosingNet 1
      { sampleServerState (firstPlayback zeroPacket) with listens := 1, accepts := 1 }).1
      = WaitEnd.receiveEnded := by decide
  have hfail := sendRecordedPackets_first_send_fails sampleConstants
    (sampleEmulatorEnv fun _ => true) (firstPlayback zeroPacket) rfl
    (by simp [sampleEmulatorEnv, ReadResult.count])
    (by
      simp only [sampleEmulatorEnv, ReadResult.store]
      exact isGripPacket_gripChunk _)
    rfl
  obtain ⟨c1, c2, c3⟩ := serveClient_calls_engine sampleHandshake sampleConstants
    sampleClosingNet (sendRecordedPackets sampleConstants (sampleEmulatorEnv fun _ => true) 2)
    1 (sampleServerState (firstPlayback zeroPacket)) rfl rfl (by decide)
  have hengine : (sampleServerState (firstPlayback zeroPacket)).engine
      = firstPlayback zeroPacket := rfl
  rw [hengine] at c2 c3
  refine ⟨hw, (c3 _ hfail.1 rfl).1, c1, ?_⟩
  rw [c2, hfail.2.2]
  rfl

/-! ## Failing and empty reads of the capture file -/

/-- What the loop body of `sendRecordedPackets` leaves of a GRIP packet in the
buffer, and that it touches no file. -/
theorem playRecordedPacket_buffer (K : GripConstants) (env : EmulatorEnv) (s : PlaybackState)
    (h : isGripPacket K s.recordedPacket) :
    (playRecordedPacket K env s).2.recordedPacket
      = (InsertEPMTelemetryHeaderInfo s.recordedPacket
          { ExtractEPMTelemetryHeaderInfo s.recordedPacket with
            TMCounter := toUInt16 (s.packetCount : Int),
            coarseTime := toUInt32 ((env.clock s.clocks).1 - 315964800 + 16),
            fineTime := toUInt16 (((env.clock s.clocks).2 : Int) * 10) }).1 ∧
    (playRecordedPacket K env s).2.opens = s.opens ∧
    (playRecordedPacket K env s).2.closes = s.closes := by
  obtain ⟨h1, h2⟩ := h
  unfold playRecordedPacket
  simp only [ne_eq, h1, not_true_eq_false, if_false, h2, setPacketTime]
  cases hs : env.sendFails s.sends
  · simp only [Bool.false_eq_true, if_false]
    split <;> simp
  · simp

/-- A GRIP packet whose header has been rewritten is still a GRIP packet. -/
theorem isGripPacket_rewritten (K : GripConstants) (p : EPMTelemetryPacket) (c t f : Nat)
    (h : isGripPacket K p) :
    isGripPacket K (InsertEPMTelemetryHeaderInfo p
      { ExtractEPMTelemetryHeaderInfo p with TMCounter := c, coarseTime := t, fineTime := f }).1
      := by
  have hq : ∀ j, j < 22 →
      getByte (InsertEPMTelemetryHeaderInfo p
        { ExtractEPMTelemetryHeaderInfo p with
          TMCounter := c, coarseTime := t, fineTime := f }).1 j = getByte p j := by
    intro j hj
    unfold getByte
    rw [InsertEPMTelemetryHeaderInfo_Extract p c t f j (by omega) (by omega) (Or.inl (by omega))]
  unfold isGripPacket at h ⊢
  rw [ExtractEPMTelemetryHeaderInfo_epmSyncMarker, ExtractEPMTelemetryHeaderInfo_subsystemID,
    hq 12 (by decide), hq 13 (by decide), hq 14 (by decide), hq 15 (by decide),
    hq 17 (by decide), ← ExtractEPMTelemetryHeaderInfo_epmSyncMarker,
    ← ExtractEPMTelemetryHeaderInfo_subsystemID]
  exact h

/-- One iteration of the loop of `sendRecordedPackets` on a GRIP packet whose
`send` succeeds: the packet is sent and the loop goes on with the next
`_read`, whatever that returns unless it is zero. -/
theorem playFile_grip_step (K : GripConstants) (env : EmulatorEnv) (fuel : Nat)
    (s : PlaybackState) (h : isGripPacket K s.recordedPacket)
    (hs : env.sendFails s.sends = false) :
    playFile K env (fuel + 1) s =
      (if (readRecordedPacket env (playRecordedPacket K env s).2).bytes_read ≠ 0 then
        playFile K env fuel (readRecordedPacket env (playRecordedPacket K env s).2)
      else (PlaybackEnd.fileEnd, readRecordedPacket env (playRecordedPacket K env s).2)) ∧
    (playRecordedPacket K env s).2.sent.length = s.sent.length + 1 ∧
    (playRecordedPacket K env s).2.sends = s.sends + 1 ∧
    (playRecordedPacket K env s).2.reads = s.reads ∧
    (playRecordedPacket K env s).2.opens = s.opens ∧
    (playRecordedPacket K env s).2.closes = s.closes ∧
    isGripPacket K (playRecordedPacket K env s).2.recordedPacket := by
  obtain ⟨e1, _, e3, e4, _, e6⟩ := playRecordedPacket_send K env s h
  obtain ⟨b1, b2, b3⟩ := playRecordedPacket_buffer K env s h
  have hn := e6.mpr hs
  refine ⟨?_, by rw [e1, List.length_append, List.length_singleton], e3, e4, b2, b3, ?_⟩
  · rw [playFile]
    revert hn
    generalize playRecordedPacket K env s = r
    obtain ⟨o, t⟩ := r
    intro hn
    dsimp only at hn
    subst hn
    rfl
  · rw [b1]
    exact isGripPacket_rewritten K _ _ _ _ h

/-- A call of `sendRecordedPackets` whose file opens and whose first `_read`
does not fail enters the loop with whatever that `_read` has left in the
buffer. -/
theorem sendRecordedPackets_enters_loop (K : GripConstants) (env : EmulatorEnv) (fuel : Nat)
    (s : PlaybackState) (hopen : env.openResult s.opens = 0)
    (hread : 0 ≤ (env.readResult s.reads).count) :
    sendRecordedPackets K env (fuel + 1) s =
      match playFile K env fuel (readRecordedPacket env { s with opens := s.opens + 1 }) with
      | (PlaybackEnd.sendFailed count, s) => (Outcome.returned count, s)
      | (PlaybackEnd.outOfFuel, s) => (Outcome.outOfFuel, s)
      | (PlaybackEnd.fileEnd, s) =>
          if env.closeResult s.closes ≠ 0 then
            (Outcome.exited (env.closeResult s.closes), { s with closes := s.closes + 1 })
          else sendRecordedPackets K env fuel
            { s with closes := s.closes + 1, sleeps := s.sleeps ++ [10000] } := by
  have hne : ¬ env.openResult s.opens ≠ 0 := by rw [hopen]; simp
  have hlt : ¬ (readRecordedPacket env { s with opens := s.opens + 1 }).bytes_read < 0 := by
    have : (readRecordedPacket env { s with opens := s.opens + 1 }).bytes_read
        = (env.readResult s.reads).count := rfl
    omega
  rw [sendRecordedPackets]
  dsimp only
  rw [if_neg hne, if_neg hlt]

/-- After a `_read` that fails inside the loop of `sendRecordedPackets`, the
loop goes on: the buffer, which still holds the packet sent before, is the
next packet. -/
theorem playFile_read_error_goes_on (K : GripConstants) (env : EmulatorEnv) (fuel : Nat)
    (s : PlaybackState) (h : isGripPacket K s.recordedPacket)
    (hs : env.sendFails s.sends = false) (herr : env.readResult s.reads = ReadResult.error) :
    ∃ t : PlaybackState, playFile K env (fuel + 1) s = playFile K env fuel t ∧
      t.bytes_read = -1 ∧ isGripPacket K t.recordedPacket ∧ t.reads = s.reads + 1 ∧
      t.sends = s.sends + 1 ∧ t.sent.length = s.sent.length + 1 := by
  obtain ⟨e1, e2, e3, e4, _, _, e7⟩ := playFile_grip_step K env fuel s h hs
  have hb : (readRecordedPacket env (playRecordedPacket K env s).2).bytes_read = -1 := by
    show (env.readResult (playRecordedPacket K env s).2.reads).count = -1
    rw [e4, herr]
    rfl
  have hp : (readRecordedPacket env (playRecordedPacket K env s).2).recordedPacket
      = (playRecordedPacket K env s).2.recordedPacket := by
    show (env.readResult (playRecordedPacket K env s).2.reads).store _ = _
    rw [e4, herr]
    rfl
  refine ⟨readRecordedPacket env (playRecordedPacket K env s).2, ?_, hb, ?_, ?_, e3, e2⟩
  · rw [e1, if_pos (by rw [hb]; decide)]
  · rw [hp]
    exact e7
  · show (playRecordedPacket K env s).2.reads + 1 = s.reads + 1
    rw [e4]

theorem loadBytes_nil (p : EPMTelemetryPacket) : loadBytes p [] = p := by
  funext j
  exact loadBytes_of_le p [] j (Nat.zero_le _)

/-- A call of `sendRecordedPackets` whose first `_read` delivers a GRIP packet
and whose next two `_read`s fail, the `send`s succeeding: within three
iterations the call neither exits nor returns, and it hands the buffer to
`send` after each of the first two `_read`s. -/
theorem sendRecordedPackets_read_errors_go_on (K : GripConstants) (env : EmulatorEnv)
    (s : PlaybackState) (hopen : env.openResult s.opens = 0)
    (hread : 0 ≤ (env.readResult s.reads).count)
    (hgrip : isGripPacket K ((env.readResult s.reads).store s.recordedPacket))
    (herr1 : env.readResult (s.reads + 1) = ReadResult.error)
    (herr2 : env.readResult (s.reads + 1 + 1) = ReadResult.error)
    (hs0 : env.sendFails s.sends = false) (hs1 : env.sendFails (s.sends + 1) = false) :
    (sendRecordedPackets K env 3 s).1 = Outcome.outOfFuel ∧
    (sendRecordedPackets K env 3 s).2.reads = s.reads + 3 ∧
    (sendRecordedPackets K env 3 s).2.bytes_read = -1 ∧
    (sendRecordedPackets K env 3 s).2.sent.length = s.sent.length + 2 := by
  have henter := sendRecordedPackets_enters_loop K env 2 s hopen hread
  obtain ⟨t1, p1, _, g1, r1, s1, l1⟩ := playFile_read_error_goes_on K env 1
    (readRecordedPacket env { s with opens := s.opens + 1 }) hgrip hs0 herr1
  have r1' : t1.reads = s.reads + 1 + 1 := r1
  have s1' : t1.sends = s.sends + 1 := s1
  have l1' : t1.sent.length = s.sent.length + 1 := l1
  obtain ⟨t2, p2, b2, _, r2, _, l2⟩ := playFile_read_error_goes_on K env 0 t1 g1
    (by rw [s1']; exact hs1) (by rw [r1']; exact herr2)
  rw [henter, p1, p2]
  refine ⟨rfl, ?_, b2, ?_⟩
  · show t2.reads = s.reads + 3
    rw [r2, r1']
  · show t2.sent.length = s.sent.length + 2
    rw [l2, l1']

/-- C28 (failing input): a capture file whose first `_read` delivers a GRIP
packet and whose later `_read`s fail.  The process is not ended: with three
iterations allotted the model is still in the loop, after three `_read`s of
which the last two have failed, and has handed the buffer to `send` twice. -/
theorem sendRecordedPackets_read_error_not_fatal :
    sampleReadErrorEnv.readResult 1 = ReadResult.error ∧
    (sendRecordedPackets sampleConstants sampleReadErrorEnv 3 (firstPlayback zeroPacket)).1
      = Outcome.outOfFuel ∧
    (sendRecordedPackets sampleConstants sampleReadErrorEnv 3 (firstPlayback zeroPacket)).2.reads
      = 3 ∧
    (sendRecordedPackets sampleConstants sampleReadErrorEnv 3
      (firstPlayback zeroPacket)).2.bytes_read = -1 ∧
    (sendRecordedPackets sampleConstants sampleReadErrorEnv 3
      (firstPlayback zeroPacket)).2.sent.length = 2 := by
  have hfirst : sampleReadErrorEnv.readResult (firstPlayback zeroPacket).reads
      = ReadResult.data gripChunk := by
    simp [sampleReadErrorEnv, firstPlayback]
  obtain ⟨h1, h2, h3, h4⟩ := sendRecordedPackets_read_errors_go_on sampleConstants
    sampleReadErrorEnv (firstPlayback zeroPacket) rfl
    (by rw [hfirst]; simp [ReadResult.count])
    (by
      rw [hfirst]
      simp only [ReadResult.store]
      exact isGripPacket_gripChunk _)
    (by simp [sampleReadErrorEnv, firstPlayback])
    (by simp [sampleReadErrorEnv, firstPlayback])
    rfl rfl
  refine ⟨by simp [sampleReadErrorEnv], h1, ?_, h3, ?_⟩
  · rw [h2]
    simp [firstPlayback]
  · rw [h4]
    simp [firstPlayback]

/-- A call of `sendRecordedPackets` on an empty file, with a buffer that holds
a GRIP packet: the call does not exit at the first `_read`; it sends the
buffer, closes the file and opens it again. -/
theorem sendRecordedPackets_empty_file_goes_on (K : GripConstants) (env : EmulatorEnv)
    (s : PlaybackState) (hopen0 : env.openResult s.opens = 0)
    (hopen1 : env.openResult (s.opens + 1) = 0)
    (hread0 : env.readResult s.reads = ReadResult.data [])
    (hread1 : env.readResult (s.reads + 1) = ReadResult.data [])
    (hread2 : env.readResult (s.reads + 1 + 1) = ReadResult.data [])
    (hgrip : isGripPacket K s.recordedPacket)
    (hsend : env.sendFails s.sends = false) (hclose : env.closeResult s.closes = 0) :
    (sendRecordedPackets K env 2 s).1 = Outcome.outOfFuel ∧
    (sendRecordedPackets K env 2 s).2.sent.length = s.sent.length + 1 ∧
    (sendRecordedPackets K env 2 s).2.opens = s.opens + 2 := by
  have henter := sendRecordedPackets_enters_loop K env 1 s hopen0
    (by rw [hread0]; decide)
  have hg1 : isGripPacket K
      (readRecordedPacket env { s with opens := s.opens + 1 }).recordedPacket := by
    show isGripPacket K ((env.readResult s.reads).store s.recordedPacket)
    rw [hread0]
    show isGripPacket K (loadBytes s.recordedPacket [])
    rw [loadBytes_nil]
    exact hgrip
  obtain ⟨e1, e2, _, e4, e5, e6, _⟩ := playFile_grip_step K env 0
    (readRecordedPacket env { s with opens := s.opens + 1 }) hg1 hsend
  have e4' : (playRecordedPacket K env
      (readRecordedPacket env { s with opens := s.opens + 1 })).2.reads = s.reads + 1 := e4
  have e5' : (playRecordedPacket K env
      (readRecordedPacket env { s with opens := s.opens + 1 })).2.opens = s.opens + 1 := e5
  have e6' : (playRecordedPacket K env
      (readRecordedPacket env { s with opens := s.opens + 1 })).2.closes = s.closes := e6
  have e2' : (playRecordedPacket K env
      (readRecordedPacket env { s with opens := s.opens + 1 })).2.sent.length
      = s.sent.length + 1 := e2
  have hz : ¬ (readRecordedPacket env (playRecordedPacket K env
      (readRecordedPacket env { s with opens := s.opens + 1 })).2).bytes_read ≠ 0 := by
    show ¬ (env.readResult (playRecordedPacket K env
      (readRecordedPacket env { s with opens := s.opens + 1 })).2.reads).count ≠ 0
    rw [e4', hread1]
    decide
  rw [if_neg hz] at e1
  rw [henter, e1]
  dsimp only
  have hc : ¬ env.closeResult (readRecordedPacket env (playRecordedPacket K env
      (readRecordedPacket env { s with opens := s.opens + 1 })).2).closes ≠ 0 := by
    show ¬ env.closeResult (playRecordedPacket K env
      (readRecordedPacket env { s with opens := s.opens + 1 })).2.closes ≠ 0
    rw [e6', hclose]
    decide
  rw [if_neg hc]
  have henter2 := sendRecordedPackets_enters_loop K env 0
    { readRecordedPacket env (playRecordedPacket K env
        (readRecordedPacket env { s with opens := s.opens + 1 })).2 with
      closes := (readRecordedPacket env (playRecordedPacket K env
        (readRecordedPacket env { s with opens := s.opens + 1 })).2).closes + 1,
      sleeps := (readRecordedPacket env (playRecordedPacket K env
        (readRecordedPacket env { s with opens := s.opens + 1 })).2).sleeps ++ [10000] }
    (by
      show env.openResult (playRecordedPacket K env
        (readRecordedPacket env { s with opens := s.opens + 1 })).2.opens = 0
      rw [e5']
      exact hopen1)
    (by
      show 0 ≤ (env.readResult ((playRecordedPacket K env
        (readRecordedPacket env { s with opens := s.opens + 1 })).2.reads + 1)).count
      rw [e4', hread2]
      decide)
  rw [henter2]
  refine ⟨rfl, ?_, ?_⟩
  · show (playRecordedPacket K env
      (readRecordedPacket env { s with opens := s.opens + 1 })).2.sent.length = _
    exact e2'
  · show (playRecordedPacket K env
      (readRecordedPacket env { s with opens := s.opens + 1 })).2.opens + 1 = _
    rw [e5']

/-- C29 (failing input): an empty capture file (every `_read` returns zero
bytes) and a buffer on the stack that happens to hold the bytes of a GRIP
packet.  `sendRecordedPackets` does not exit: it decodes the buffer, hands it
to `send`, closes the file and opens it again. -/
theorem sendRecordedPackets_empty_file_not_fatal :
    (sampleEmptyFileEnv.readResult 0).count = 0 ∧
    (sendRecordedPackets sampleConstants sampleEmptyFileEnv 2
      (firstPlayback (loadBytes zeroPacket gripChunk))).1 = Outcome.outOfFuel ∧
    (sendRecordedPackets sampleConstants sampleEmptyFileEnv 2
      (firstPlayback (loadBytes zeroPacket gripChunk))).2.sent.length = 1 ∧
    (sendRecordedPackets sampleConstants sampleEmptyFileEnv 2
      (firstPlayback (loadBytes zeroPacket gripChunk))).2.opens = 2 := by
  obtain ⟨h1, h2, h3⟩ := sendRecordedPackets_empty_file_goes_on sampleConstants
    sampleEmptyFileEnv (firstPlayback (loadBytes zeroPacket gripChunk)) rfl rfl rfl rfl rfl
    (by
      simp only [firstPlayback]
      exact isGripPacket_gripChunk _)
    rfl rfl
  refine ⟨rfl, h1, ?_, ?_⟩
  · rw [h2]
    simp [firstPlayback]
  · rw [h3]
    simp [firstPlayback]

/-! ## The header encoders: byte counts and frames -/

/-- The bytes that the encoder of the transfer frame header writes do not
depend on the buffer. -/
theorem InsertEPMTransferFrameHeaderInfo_bytes (p q : EPMTelemetryPacket)
    (h : EPMTransferFrameHeaderInfo) (j : Nat) (hj : j < 12) :
    (InsertEPMTransferFrameHeaderInfo p h).1 j = (InsertEPMTransferFrameHeaderInfo q h).1 j := by
  simp only [InsertEPMTransferFrameHeaderInfo, storeLong_swapbytes_long,
    storeShort_swapbytes_short, insert_ulong, Nat.zero_add, Nat.reduceAdd, setByte]
  interval_cases j <;> simp

/-- The bytes that the encoder of the telemetry header writes do not depend on
the buffer. -/
theorem InsertEPMTelemetryHeaderInfo_bytes (p q : EPMTelemetryPacket)
    (h : EPMTelemetryHeaderInfo) (j : Nat) (hj : j < 42) :
    (InsertEPMTelemetryHeaderInfo p h).1 j = (InsertEPMTelemetryHeaderInfo q h).1 j := by
  simp only [InsertEPMTelemetryHeaderInfo, InsertEPMTransferFrameHeaderInfo,
    storeLong_swapbytes_long, storeShort_swapbytes_short, insert_ulong, Nat.zero_add, Nat.reduceAdd, setByte]
  interval_cases j <;> simp

/-- C31: `InsertEPMTransferFrameHeaderInfo` returns 12 and leaves every byte
from offset 12 on unchanged; `InsertEPMTelemetryHeaderInfo` returns 42 and
leaves every byte from offset 42 on unchanged; the bytes below the returned
count are all written: they are the same whatever the buffer held before. -/
theorem header_encoders_frame (p q : EPMTelemetryPacket) (tf : EPMTransferFrameHeaderInfo)
    (h : EPMTelemetryHeaderInfo) :
    (InsertEPMTransferFrameHeaderInfo p tf).2 = 12 ∧
    (∀ j, 12 ≤ j → (InsertEPMTransferFrameHeaderInfo p tf).1 j = p j) ∧
    (∀ j, j < 12 →
      (InsertEPMTransferFrameHeaderInfo p tf).1 j = (InsertEPMTransferFrameHeaderInfo q tf).1 j) ∧
    (InsertEPMTelemetryHeaderInfo p h).2 = 42 ∧
    (∀ j, 42 ≤ j → (InsertEPMTelemetryHeaderInfo p h).1 j = p j) ∧
    (∀ j, j < 42 →
      (InsertEPMTelemetryHeaderInfo p h).1 j = (InsertEPMTelemetryHeaderInfo q h).1 j) := by
  refine ⟨rfl, fun j hj => ?_, InsertEPMTransferFrameHeaderInfo_bytes p q tf, rfl,
    InsertEPMTelemetryHeaderInfo_frame p h, InsertEPMTelemetryHeaderInfo_bytes p q h⟩
  simp only [InsertEPMTransferFrameHeaderInfo, storeLong_swapbytes_long,
    storeShort_swapbytes_short, insert_ulong, Nat.zero_add, Nat.reduceAdd]
  simp (disch := omega) only [setByte_ne]

set_option maxHeartbeats 1000000 in
/-- C32: for every packet buffer `p`, `InsertEPMTelemetryHeaderInfo` applied to
`p` and the header that `ExtractEPMTelemetryHeaderInfo` decodes from `p` yields
a buffer equal to `p` in every byte. -/
theorem telemetryHeader_writeback_identity (p : EPMTelemetryPacket) :
    (InsertEPMTelemetryHeaderInfo p (ExtractEPMTelemetryHeaderInfo p)).1 = p := by
  funext j
  by_cases hs : j = 22 ∨ j = 23 ∨ (28 ≤ j ∧ j < 34)
  · apply Fin.ext
    show getByte _ j = getByte p j
    have hb : ∀ i, getByte p i < 256 := getByte_lt p
    have h22 := hb 22; have h23 := hb 23; have h28 := hb 28; have h29 := hb 29
    have h30 := hb 30; have h31 := hb 31; have h32 := hb 32; have h33 := hb 33
    have hlt : j < 34 := by omega
    have hge : 22 ≤ j := by omega
    clear hb
    interval_cases j <;>
      first
      | omega
      | (simp only [InsertEPMTelemetryHeaderInfo, InsertEPMTransferFrameHeaderInfo,
          ExtractEPMTelemetryHeaderInfo, toUInt16_extract_reversed_short,
          toUInt32_extract_reversed_long, ExtractChar,
          storeLong_swapbytes_long, storeShort_swapbytes_short, insert_ulong, getByte_setByte,
          Nat.zero_add, Nat.reduceAdd, Nat.reduceEqDiff, reduceIte]
         omega)
  · exact InsertEPMTelemetryHeaderInfo_Extract p (ExtractEPMTelemetryHeaderInfo p).TMCounter
      (ExtractEPMTelemetryHeaderInfo p).coarseTime (ExtractEPMTelemetryHeaderInfo p).fineTime j
      (by omega) (by omega) (by omega)

/-! ## The length handed to `send` by the recorded playback -/

/-- The loop body of `sendRecordedPackets` hands `EPM_BUFFER_LENGTH - 1` bytes
to `send`. -/
theorem playRecordedPacket_length (K : GripConstants) (env : EmulatorEnv) (s : PlaybackState)
    (hinv : ∀ p ∈ s.sent, p.length = (K.EPM_BUFFER_LENGTH : Int) - 1) :
    ∀ p ∈ (playRecordedPacket K env s).2.sent, p.length = (K.EPM_BUFFER_LENGTH : Int) - 1 := by
  by_cases h : isGripPacket K s.recordedPacket
  · obtain ⟨e1, _⟩ := playRecordedPacket_send K env s h
    rw [e1]
    intro p hp
    rw [List.mem_append, List.mem_singleton] at hp
    rcases hp with hp | hp
    · exact hinv p hp
    · rw [hp]
  · rw [playRecordedPacket_skip K env s h]
    exact hinv

theorem playFile_length (K : GripConstants) (env : EmulatorEnv) (fuel : Nat) :
    ∀ s : PlaybackState, (∀ p ∈ s.sent, p.length = (K.EPM_BUFFER_LENGTH : Int) - 1) →
      ∀ p ∈ (playFile K env fuel s).2.sent, p.length = (K.EPM_BUFFER_LENGTH : Int) - 1 := by
  induction fuel with
  | zero => intro s h; exact h
  | succ n ih =>
    intro s h
    have hp := playRecordedPacket_length K env s h
    rw [playFile]
    revert hp
    generalize playRecordedPacket K env s = r
    obtain ⟨o, t⟩ := r
    intro hp
    cases o with
    | some count => exact hp
    | none =>
      dsimp only
      split
      · exact ih _ hp
      · exact hp

theorem sendRecordedPackets_length (K : GripConstants) (env : EmulatorEnv) (fuel : Nat) :
    ∀ s : PlaybackState, (∀ p ∈ s.sent, p.length = (K.EPM_BUFFER_LENGTH : Int) - 1) →
      ∀ p ∈ (sendRecordedPackets K env fuel s).2.sent,
        p.length = (K.EPM_BUFFER_LENGTH : Int) - 1 := by
  induction fuel with
  | zero => intro s h; exact h
  | succ n ih =>
    intro s h
    rw [sendRecordedPackets]
    dsimp only
    split
    · exact h
    · split
      · exact h
      · have hp := playFile_length K env n
          (readRecordedPacket env { s with opens := s.opens + 1 }) h
        revert hp
        generalize playFile K env n (readRecordedPacket env { s with opens := s.opens + 1 }) = r
        obtain ⟨e, t⟩ := r
        intro hp
        cases e with
        | sendFailed count => exact hp
        | outOfFuel => exact hp
        | fileEnd =>
          dsimp only
          split
          · exact hp
          · exact ih _ hp

/-- C34 (amended): every packet that a call of `sendRecordedPackets` hands to
`send` is handed over with the length `EPM_BUFFER_LENGTH - 1`, one byte less
than a whole buffer. -/
theorem sendRecordedPackets_send_length (K : GripConstants) (env : EmulatorEnv) (fuel : Nat)
    (s : PlaybackState) (packet : EPMTelemetryPacket) :
    (sendRecordedPackets K env fuel (nextPlayback s packet)).2.sent.map (fun p => p.length)
      = List.replicate (sendRecordedPackets K env fuel (nextPlayback s packet)).2.sent.length
          ((K.EPM_BUFFER_LENGTH : Int) - 1) ∧
    (∀ p ∈ (sendRecordedPackets K env fuel (nextPlayback s packet)).2.sent,
      p.length ≠ (K.EPM_BUFFER_LENGTH : Int)) := by
  have h := sendRecordedPackets_length K env fuel (nextPlayback s packet)
    (fun q hq => by cases hq)
  constructor
  · rw [List.eq_replicate_iff]
    refine ⟨by rw [List.length_map], fun b hb => ?_⟩
    rw [List.mem_map] at hb
    obtain ⟨p, hp, rfl⟩ := hb
    exact h p hp
  · intro p hp
    rw [h p hp]
    omega

/-- C34 (counterexample): the one packet that the first call of
`sendRecordedPackets` hands to `send` in the outside world whose `send` fails
goes with the length 1411, where `EPM_BUFFER_LENGTH` is 1412. -/
theorem sendRecordedPackets_sends_one_byte_less :
    (sendRecordedPackets sampleConstants (sampleEmulatorEnv fun _ => true) 2
      (firstPlayback zeroPacket)).2.sent.map (fun p => p.length) = [1411] ∧
    sampleConstants.EPM_BUFFER_LENGTH = 1412 := by
  have hfail := sendRecordedPackets_first_send_fails sampleConstants
    (sampleEmulatorEnv fun _ => true) (firstPlayback zeroPacket) rfl
    (by simp [sampleEmulatorEnv, ReadResult.count])
    (by
      simp only [sampleEmulatorEnv, ReadResult.store]
      exact isGripPacket_gripChunk _)
    rfl
  have hlen := sendRecordedPackets_length sampleConstants (sampleEmulatorEnv fun _ => true) 2
    (firstPlayback zeroPacket) (fun q hq => by cases hq)
  have h1 : (sendRecordedPackets sampleConstants (sampleEmulatorEnv fun _ => true) 2
      (firstPlayback zeroPacket)).2.sent.length = 1 := by
    rw [hfail.2.2]
    rfl
  refine ⟨?_, rfl⟩
  revert hlen h1
  generalize (sendRecordedPackets sampleConstants (sampleEmulatorEnv fun _ => true) 2
      (firstPlayback zeroPacket)).2.sent = l
  intro hlen h1
  match l, h1 with
  | [a], _ =>
    have := hlen a (List.mem_singleton.mpr rfl)
    simp only [List.map_cons, List.map_nil, this]
    rfl

/-! ## The first call of the cache reader -/

/-- C35: a first call of `GetLastPacketHK` in a process (`previousTMCounter`
is 0) on a cache with at least one full record, all records recognized,
returns `TRUE` if and only if the `TMCounter` of the last record is not zero;
when it is zero the call returns `FALSE` although it has read the record and
handed it back in `epmHeader` and `hk`. -/
theorem GetLastPacketHK_first_call (K : GripConstants) (env : CacheEnv) (fuel : Nat)
    (hdr : EPMTelemetryHeaderInfo) (hk : GripHealthAndStatusInfo) (root : String) (fid : Int)
    (packet : EPMTelemetryPacket) (body trailing : List (Fin 256)) (n : Nat)
    (hc : ReadsCache K env root body trailing n) (hn : 0 < n) (hfuel : n < fuel)
    (hval : ∀ i, i < n → recordRecognized K packet body i) :
    ((GetLastPacketHK K env fuel 0 hdr hk root fid packet).1 = Outcome.returned true ↔
      (ExtractEPMTelemetryHeaderInfo
        (loadBytes packet (recordAt body K.hkPacketLengthInBytes (n - 1)))).TMCounter ≠ 0) ∧
    ((GetLastPacketHK K env fuel 0 hdr hk root fid packet).1 = Outcome.returned false ↔
      (ExtractEPMTelemetryHeaderInfo
        (loadBytes packet (recordAt body K.hkPacketLengthInBytes (n - 1)))).TMCounter = 0) ∧
    (GetLastPacketHK K env fuel 0 hdr hk root fid packet).2.epmHeader =
      ExtractEPMTelemetryHeaderInfo
        (loadBytes packet (recordAt body K.hkPacketLengthInBytes (n - 1))) ∧
    (GetLastPacketHK K env fuel 0 hdr hk root fid packet).2.hk =
      ExtractGripHealthAndStatusInfo K.rawData
        (loadBytes packet (recordAt body K.hkPacketLengthInBytes (n - 1))) ∧
    (GetLastPacketHK K env fuel 0 hdr hk root fid packet).2.packets_read = n := by
  obtain ⟨_, h⟩ := GetLastPacketHK_recognized K env fuel 0 hdr hk root fid packet body trailing n
    hc hfuel hval
  obtain ⟨h1, h2, h3, _, h5⟩ := h hn
  refine ⟨?_, ?_, h2, h3, h5⟩
  · rw [h1]
    by_cases hz : (ExtractEPMTelemetryHeaderInfo
        (loadBytes packet (recordAt body K.hkPacketLengthInBytes (n - 1)))).TMCounter = 0
    · rw [hz]; simp
    · have : (0 : Nat) ≠ (ExtractEPMTelemetryHeaderInfo
          (loadBytes packet (recordAt body K.hkPacketLengthInBytes (n - 1)))).TMCounter :=
        fun e => hz e.symm
      simp [this, hz]
  · rw [h1]
    by_cases hz : (ExtractEPMTelemetryHeaderInfo
        (loadBytes packet (recordAt body K.hkPacketLengthInBytes (n - 1)))).TMCounter = 0
    · rw [hz]; simp
    · have : (0 : Nat) ≠ (ExtractEPMTelemetryHeaderInfo
          (loadBytes packet (recordAt body K.hkPacketLengthInBytes (n - 1)))).TMCounter :=
        fun e => hz e.symm
      simp [this, hz]

/-- The counter that the decoder finds in a sample record. -/
theorem sampleRecord_TMCounter (a b : Fin 256) :
    (ExtractEPMTelemetryHeaderInfo (loadBytes zeroPacket
      (recordAt (sampleRecord a ++ sampleRecord b) sampleConstants.hkPacketLengthInBytes
        (2 - 1)))).TMCounter = (b : Nat) := by
  have h1 : recordAt (sampleRecord a ++ sampleRecord b) 162 1 = sampleRecord b := by
    unfold recordAt
    rw [Nat.one_mul, List.drop_left' (by simp [sampleRecord]),
      List.take_of_length_le (by simp [sampleRecord])]
  have hb : ∀ j, j < 162 → getByte (loadBytes zeroPacket (sampleRecord b)) j =
      ((if j = 12 then 255 else if j = 13 then 219 else if j = 14 then 84
        else if j = 15 then 77 else if j = 20 then 3 else if j = 21 then 1
        else if j = 23 then b else 0 : Fin 256) : Nat) := by
    intro j hj
    simp [getByte, loadBytes, sampleRecord, hj]
  have hl : sampleConstants.hkPacketLengthInBytes = 162 := rfl
  rw [hl, show 2 - 1 = 1 from rfl, h1, ExtractEPMTelemetryHeaderInfo_TMCounter,
    hb 22 (by decide), hb 23 (by decide)]
  simp

/-- C35 (witness): a cache of two records whose last one carries `TMCounter`
0: the first call returns `FALSE`. -/
theorem GetLastPacketHK_first_call_witness :
    (GetLastPacketHK sampleConstants (sampleCacheEnv (sampleRecord 5 ++ sampleRecord 0 ++ [])) 3
      0 sampleConstants.hkHeader sampleHK "GripPackets" 0 zeroPacket).1
      = Outcome.returned false :=
  (GetLastPacketHK_first_call sampleConstants
    (sampleCacheEnv (sampleRecord 5 ++ sampleRecord 0 ++ [])) 3
    sampleConstants.hkHeader sampleHK "GripPackets" 0 zeroPacket
    (sampleRecord 5 ++ sampleRecord 0) [] 2 (sampleCacheEnv_reads 5 0 [] (by decide))
    (by decide) (by decide) (sampleRecord_recognized 5 0)).2.1.mpr
    (by rw [sampleRecord_TMCounter]; rfl)

/-! ## The test reader -/

/-- A pass of the test reader over a cache of one full record: the read loop
takes the record and stops at the end of file. -/
theorem testReadLoop_one_record (K : GripConstants) (env : FileEnv) (fuel : Nat)
    (s : TestReaderState) (rec : List (Fin 256))
    (hlen : rec.length = K.rtPacketLengthInBytes) (hpos : 0 < K.rtPacketLengthInBytes)
    (h0 : env.readResult s.reads = ReadResult.data rec)
    (h1 : env.readResult (s.reads + 1) = ReadResult.data []) :
    testReadLoop K env (fuel + 2) s =
      some { s with
        bytes_read := 0, epmPacket := loadBytes s.epmPacket rec, reads := s.reads + 1 + 1,
        packets_read := s.packets_read + 1 } := by
  rw [testReadLoop]
  dsimp only
  rw [h0]
  have hc : (K.rtPacketLengthInBytes : Int) = (ReadResult.data rec).count := by
    show (K.rtPacketLengthInBytes : Int) = (rec.length : Int)
    rw [hlen]
  rw [if_pos hc, testReadLoop]
  dsimp only
  rw [h1]
  have hn : ¬ (K.rtPacketLengthInBytes : Int) = (ReadResult.data []).count := by
    show ¬ (K.rtPacketLengthInBytes : Int) = ((([] : List (Fin 256)).length : Nat) : Int)
    simp only [List.length_nil]
    omega
  rw [if_neg hn]
  simp only [ReadResult.store, ReadResult.count, loadBytes_nil, List.length_nil, Nat.cast_zero]

/-- A pass of the test reader over a cache whose one record is recognized:
"Packets out of order" is raised exactly when the `TMCounter` of the record is
zero, whatever the passes before have seen; otherwise the pass is completed. -/
theorem testReaderPass_one_record (V : RawHeaderView) (K : GripConstants) (env : FileEnv)
    (fuel : Nat) (s : TestReaderState) (rec : List (Fin 256))
    (hlen : rec.length = K.rtPacketLengthInBytes) (hpos : 0 < K.rtPacketLengthInBytes)
    (hopen : env.openResult s.opens = 0)
    (h0 : env.readResult s.reads = ReadResult.data rec)
    (h1 : env.readResult (s.reads + 1) = ReadResult.data [])
    (hclose : env.closeResult s.closes = 0)
    (hsync : V.epmSyncMarker (loadBytes s.epmPacket rec) = K.EPM_TELEMETRY_SYNC_VALUE)
    (hid : V.TMIdentifier (loadBytes s.epmPacket rec) = K.GRIP_RT_ID) :
    (V.TMCounter (loadBytes s.epmPacket rec) = 0 →
      (testReaderPass V K env (fuel + 2) s).1 = some TestReaderEnd.outOfOrder) ∧
    (V.TMCounter (loadBytes s.epmPacket rec) ≠ 0 →
      testReaderPass V K env (fuel + 2) s =
        (none, { s with
          bytes_read := 0, epmPacket := loadBytes s.epmPacket rec, reads := s.reads + 1 + 1,
          packets_read := 1, previousTMCounter := 0, opens := s.opens + 1,
          closes := s.closes + 1, count := s.count + 1, sleeps := s.sleeps ++ [1000] })) := by
  have hloop := testReadLoop_one_record K env fuel
    { s with packets_read := 0, previousTMCounter := 0, opens := s.opens + 1 } rec hlen hpos
    h0 h1
  have hno : ¬ (V.epmSyncMarker (loadBytes s.epmPacket rec) ≠ K.EPM_TELEMETRY_SYNC_VALUE
      ∨ V.TMIdentifier (loadBytes s.epmPacket rec) ≠ K.GRIP_RT_ID) := by
    rw [hsync, hid]
    simp
  constructor
  · intro hz
    unfold testReaderPass
    dsimp only
    rw [if_neg (by rw [hopen]; simp), hloop]
    dsimp only
    rw [if_neg (by decide), if_neg hno, if_pos (by rw [hz])]
  · intro hz
    unfold testReaderPass
    dsimp only
    rw [if_neg (by rw [hopen]; simp), hloop]
    dsimp only
    rw [if_neg (by decide), if_neg hno, if_neg (by omega), if_neg (by rw [hclose]; simp)]

/-- The header members that `sampleHeaderView` finds in a buffer into which
`sampleRawRtRecord` has been read. -/
theorem sampleHeaderView_sampleRawRtRecord (p : EPMTelemetryPacket) (c : Fin 256) :
    sampleHeaderView.epmSyncMarker (loadBytes p (sampleRawRtRecord c))
      = sampleConstants.EPM_TELEMETRY_SYNC_VALUE ∧
    sampleHeaderView.TMIdentifier (loadBytes p (sampleRawRtRecord c))
      = sampleConstants.GRIP_RT_ID ∧
    sampleHeaderView.TMCounter (loadBytes p (sampleRawRtRecord c)) = (c : Nat) := by
  have hb : ∀ j, j < 800 → getByte (loadBytes p (sampleRawRtRecord c)) j =
      ((if j = 12 then 77 else if j = 13 then 84 else if j = 14 then 219
        else if j = 15 then 255 else if j = 20 then 1 else if j = 21 then 16
        else if j = 22 then c else 0 : Fin 256) : Nat) := by
    intro j hj
    simp [getByte, loadBytes, sampleRawRtRecord, hj]
  simp only [sampleHeaderView]
  rw [hb 12 (by decide), hb 13 (by decide), hb 14 (by decide), hb 15 (by decide),
    hb 20 (by decide), hb 21 (by decide), hb 22 (by decide), hb 23 (by decide)]
  simp [sampleConstants]
  decide

/-- Two passes of the test reader over a cache that holds the same record,
with a non-zero counter, on both passes: both are completed. -/
theorem testReaderLoop_repeated_counter (c : Fin 256) (hc : (c : Nat) ≠ 0)
    (s : TestReaderState) (hr : s.reads % 2 = 0) :
    (testReaderLoop sampleHeaderView sampleConstants (sampleRepeatingFileEnv c) 2 2 s).1
      = TestReaderEnd.outOfFuel ∧
    (testReaderLoop sampleHeaderView sampleConstants (sampleRepeatingFileEnv c) 2 2 s).2.count
      = s.count + 2 ∧
    (testReaderLoop sampleHeaderView sampleConstants (sampleRepeatingFileEnv c) 2 2 s).2.sleeps
      = s.sleeps ++ [1000, 1000] := by
  have hread0 : ∀ k, k % 2 = 0 → (sampleRepeatingFileEnv c).readResult k
      = ReadResult.data (sampleRawRtRecord c) := by
    intro k hk
    simp [sampleRepeatingFileEnv, hk]
  have hread1 : ∀ k, k % 2 = 0 → (sampleRepeatingFileEnv c).readResult (k + 1)
      = ReadResult.data [] := by
    intro k hk
    have : ¬ (k + 1) % 2 = 0 := by omega
    simp [sampleRepeatingFileEnv, this]
  have hlen : (sampleRawRtRecord c).length = sampleConstants.rtPacketLengthInBytes := by
    simp [sampleRawRtRecord, sampleConstants]
  have hpass : ∀ t : TestReaderState, t.reads % 2 = 0 →
      testReaderPass sampleHeaderView sampleConstants (sampleRepeatingFileEnv c) (0 + 2) t =
        (none, { t with
          bytes_read := 0, epmPacket := loadBytes t.epmPacket (sampleRawRtRecord c),
          reads := t.reads + 1 + 1, packets_read := 1, previousTMCounter := 0,
          opens := t.opens + 1, closes := t.closes + 1, count := t.count + 1,
          sleeps := t.sleeps ++ [1000] }) := by
    intro t ht
    obtain ⟨v1, v2, v3⟩ := sampleHeaderView_sampleRawRtRecord t.epmPacket c
    exact (testReaderPass_one_record sampleHeaderView sampleConstants (sampleRepeatingFileEnv c)
      0 t (sampleRawRtRecord c) hlen (by decide) rfl (hread0 _ ht) (hread1 _ ht) rfl v1 v2).2
      (by rw [v3]; exact hc)
  rw [testReaderLoop, hpass s hr]
  dsimp only
  rw [testReaderLoop, hpass _ (by show (s.reads + 1 + 1) % 2 = 0; omega)]
  dsimp only
  refine ⟨rfl, rfl, ?_⟩
  show s.sleeps ++ [1000] ++ [1000] = s.sleeps ++ [1000, 1000]
  rw [List.append_assoc]
  rfl

/-- C37 (failing input): a cache whose last record carries `TMCounter` 5 on
two passes in a row (no new packet has arrived in between).  The second pass is
completed like the first: "Packets out of order" is not raised, the loop goes
on to a third pass. -/
theorem testReader_accepts_repeated_counter :
    (testReaderLoop sampleHeaderView sampleConstants (sampleRepeatingFileEnv 5) 2 2
      sampleTestReaderState).1 = TestReaderEnd.outOfFuel ∧
    (testReaderLoop sampleHeaderView sampleConstants (sampleRepeatingFileEnv 5) 2 2
      sampleTestReaderState).2.count = 2 ∧
    sampleHeaderView.TMCounter (loadBytes zeroPacket (sampleRawRtRecord 5)) = 5 := by
  obtain ⟨h1, h2, _⟩ := testReaderLoop_repeated_counter 5 (by decide) sampleTestReaderState rfl
  refine ⟨h1, ?_, ?_⟩
  · rw [h2]
    rfl
  · rw [(sampleHeaderView_sampleRawRtRecord zeroPacket 5).2.2]
    rfl

/-! ## Simulated occlusions -/

/-- Masking with `0xfff00` clears the low eight bits. -/
theorem and_fff00_mod_256 (x : Nat) : (x &&& 0xfff00) % 256 = 0 := by
  apply Nat.eq_of_testBit_eq
  intro i
  rw [show (256 : Nat) = 2 ^ 8 from rfl, Nat.testBit_mod_two_pow, Nat.testBit_and,
    Nat.zero_testBit]
  by_cases hi : i < 8
  · have hm : Nat.testBit 0xfff00 i = false := by
      interval_cases i <;> rfl
    simp [hm]
  · simp [hi]

/-- One slice of the slice loop of `sendConstructedPackets`: the slice is
hidden exactly when the dropout counter is not zero on entry, a hidden slice
has the low eight bits of both marker masks cleared, and the counter and the
number of calls of `rand` go on as the occlusion model says. -/
theorem constructSlice_visibility (K : GripConstants) (env : EmulatorEnv) (t : ℚ)
    (epoch rt_packet_count slice : Nat) (old : GripRealtimeDataSlice)
    (dropout_count rands : Nat) :
    ((constructSlice K env t epoch rt_packet_count slice old dropout_count
        rands).1.manipulandumVisibility = 0 ↔ dropout_count ≠ 0) ∧
    ((constructSlice K env t epoch rt_packet_count slice old dropout_count
        rands).1.manipulandumVisibility = 1 ↔ dropout_count = 0) ∧
    ((constructSlice K env t epoch rt_packet_count slice old dropout_count
        rands).1.manipulandumVisibility = 0 →
      (constructSlice K env t epoch rt_packet_count slice old dropout_count
        rands).1.markerVisibility0 % 256 = 0 ∧
      (constructSlice K env t epoch rt_packet_count slice old dropout_count
        rands).1.markerVisibility1 % 256 = 0) ∧
    (constructSlice K env t epoch rt_packet_count slice old dropout_count rands).2
      = specDropoutStep env dropout_count rands := by
  unfold constructSlice specDropoutStep
  dsimp only
  by_cases hd : dropout_count = 0
  · rw [if_pos hd, if_pos hd]
    by_cases hr : env.rand rands < 1000
    · rw [if_pos hr, if_pos hr]
      simp [hd]
    · rw [if_neg hr, if_neg hr]
      simp [hd]
  · rw [if_neg hd, if_neg hd]
    refine ⟨⟨fun _ => hd, fun _ => rfl⟩, ⟨fun h => (by cases h), fun h => absurd h hd⟩,
      fun _ => ⟨and_fff00_mod_256 _, and_fff00_mod_256 _⟩, rfl⟩

/-- The slice loop of `sendConstructedPackets`: the counters it leaves, the
slices below its first slice, which it does not touch, and the visibility of
the slices it fills. -/
theorem constructSlices_visibility (K : GripConstants) (env : EmulatorEnv) (t : ℚ)
    (epoch rt_packet_count : Nat) (count : Nat) :
    ∀ (slice : Nat) (ds : Nat → GripRealtimeDataSlice) (d r : Nat),
      (constructSlices K env t epoch rt_packet_count count slice ds d r).2
        = specDropoutAfter env count d r ∧
      (∀ k, k < slice →
        (constructSlices K env t epoch rt_packet_count count slice ds d r).1 k = ds k) ∧
      (∀ k, slice ≤ k → k < slice + count →
        (((constructSlices K env t epoch rt_packet_count count slice ds d r).1
            k).manipulandumVisibility = 0 ↔ (specDropoutAfter env (k - slice) d r).1 ≠ 0) ∧
        (((constructSlices K env t epoch rt_packet_count count slice ds d r).1
            k).manipulandumVisibility = 1 ↔ (specDropoutAfter env (k - slice) d r).1 = 0) ∧
        (((constructSlices K env t epoch rt_packet_count count slice ds d r).1
            k).manipulandumVisibility = 0 →
          ((constructSlices K env t epoch rt_packet_count count slice ds d r).1
            k).markerVisibility0 % 256 = 0 ∧
          ((constructSlices K env t epoch rt_packet_count count slice ds d r).1
            k).markerVisibility1 % 256 = 0)) := by
  induction count with
  | zero =>
    intro slice ds d r
    exact ⟨rfl, fun k _ => rfl, fun k h1 h2 => absurd h2 (by omega)⟩
  | succ n ih =>
    intro slice ds d r
    obtain ⟨v1, v2, v3, v4⟩ := constructSlice_visibility K env t epoch rt_packet_count slice
      (ds slice) d r
    rw [constructSlices]
    obtain ⟨i1, i2, i3⟩ := ih (slice + 1)
      (Function.update ds slice
        (constructSlice K env t epoch rt_packet_count slice (ds slice) d r).1)
      (constructSlice K env t epoch rt_packet_count slice (ds slice) d r).2.1
      (constructSlice K env t epoch rt_packet_count slice (ds slice) d r).2.2
    have hstep1 : (constructSlice K env t epoch rt_packet_count slice (ds slice) d r).2.1
        = (specDropoutStep env d r).1 := by rw [v4]
    have hstep2 : (constructSlice K env t epoch rt_packet_count slice (ds slice) d r).2.2
        = (specDropoutStep env d r).2 := by rw [v4]
    refine ⟨?_, fun k hk => ?_, fun k h1 h2 => ?_⟩
    · rw [i1, hstep1, hstep2]
      rfl
    · rw [i2 k (by omega), Function.update_noteq (by omega)]
    · by_cases hk : k = slice
      · subst hk
        rw [i2 k (by omega), Function.update_same, Nat.sub_self]
        exact ⟨v1, v2, v3⟩
      · have h3 := i3 k (by omega) (by omega)
        have hsub : k - slice = (k - (slice + 1)) + 1 := by omega
        have e : specDropoutAfter env (k - (slice + 1) + 1) d r
            = specDropoutAfter env (k - (slice + 1))
                (constructSlice K env t epoch rt_packet_count slice (ds slice) d r).2.1
                (constructSlice K env t epoch rt_packet_count slice (ds slice) d r).2.2 := by
          rw [hstep1, hstep2]
          rfl
        rw [hsub, e]
        exact h3

/-- The parts of a cycle after the realtime packet has been prepared leave the
dropout counter and the number of calls of `rand` alone, and the
initializations set the counter to zero. -/
theorem dropout_count_carried (K : GripConstants) (env : EmulatorEnv) (s : SynthState) :
    (startConstructed K s).dropout_count = 0 ∧
    (constructedCycle K env s).2.dropout_count = (prepareRealtimePacket K env s).dropout_count ∧
    (constructedCycle K env s).2.rands = (prepareRealtimePacket K env s).rands := by
  have hend : ∀ u : SynthState, (endOfCycle K u).dropout_count = u.dropout_count ∧
      (endOfCycle K u).rands = u.rands := by
    intro u
    unfold endOfCycle
    dsimp only
    split <;> exact ⟨rfl, rfl⟩
  obtain ⟨c1, c2, c3, c4⟩ := constructedCycle_cases K env s
  refine ⟨rfl, ?_⟩
  cases h1 : env.sendFails s.sends with
  | true => rw [c1 h1]; exact ⟨rfl, rfl⟩
  | false =>
    cases h2 : s.send_hk with
    | false =>
      rw [c2 h1 h2]
      exact ⟨(hend _).1, (hend _).2⟩
    | true =>
      cases h3 : env.sendFails (s.sends + 1) with
      | true => rw [c3 h1 h2 h3]; exact ⟨rfl, rfl⟩
      | false =>
        rw [c4 h1 h2 h3]
        exact ⟨(hend _).1, (hend _).2⟩

/-- What the slice loop leaves in the state of `sendConstructedPackets`. -/
theorem prepareRealtimePacket_slices (K : GripConstants) (env : EmulatorEnv) (s : SynthState) :
    ∃ (t : ℚ) (epoch rt_packet_count : Nat),
      (prepareRealtimePacket K env s).rtInfo.dataSlice
        = (constructSlices K env t epoch rt_packet_count K.RT_SLICES_PER_PACKET 0
            s.rtInfo.dataSlice s.dropout_count s.rands).1 ∧
      (prepareRealtimePacket K env s).dropout_count
        = (constructSlices K env t epoch rt_packet_count K.RT_SLICES_PER_PACKET 0
            s.rtInfo.dataSlice s.dropout_count s.rands).2.1 ∧
      (prepareRealtimePacket K env s).rands
        = (constructSlices K env t epoch rt_packet_count K.RT_SLICES_PER_PACKET 0
            s.rtInfo.dataSlice s.dropout_count s.rands).2.2 :=
  ⟨_, _, _, rfl, rfl, rfl⟩

/-- C36: in the realtime record that a cycle of `sendConstructedPackets`
synthesizes, slice `k` has `manipulandumVisibility` false exactly when the
dropout counter is not zero on entry to that slice, the counter being the one
that the slices before it and the packets before it have left, and a slice
with `manipulandumVisibility` false has the low 8 bits of both marker masks at
zero; the counter that the cycle leaves is the one after its last slice, and
the initializations set it to zero. -/
theorem sendConstructedPackets_visibility_coherent (K : GripConstants) (env : EmulatorEnv)
    (s : SynthState) (k : Nat) (hk : k < K.RT_SLICES_PER_PACKET) :
    (((prepareRealtimePacket K env s).rtInfo.dataSlice k).manipulandumVisibility = 0 ↔
      (specDropoutAfter env k s.dropout_count s.rands).1 ≠ 0) ∧
    (((prepareRealtimePacket K env s).rtInfo.dataSlice k).manipulandumVisibility = 1 ↔
      (specDropoutAfter env k s.dropout_count s.rands).1 = 0) ∧
    (((prepareRealtimePacket K env s).rtInfo.dataSlice k).manipulandumVisibility = 0 →
      ((prepareRealtimePacket K env s).rtInfo.dataSlice k).markerVisibility0 % 256 = 0 ∧
      ((prepareRealtimePacket K env s).rtInfo.dataSlice k).markerVisibility1 % 256 = 0) ∧
    (constructedCycle K env s).2.dropout_count
      = (specDropoutAfter env K.RT_SLICES_PER_PACKET s.dropout_count s.rands).1 ∧
    (constructedCycle K env s).2.rands
      = (specDropoutAfter env K.RT_SLICES_PER_PACKET s.dropout_count s.rands).2 ∧
    (startConstructed K s).dropout_count = 0 := by
  obtain ⟨t, e, c, h1, h2, h3⟩ := prepareRealtimePacket_slices K env s
  obtain ⟨v1, _, v3⟩ := constructSlices_visibility K env t e c K.RT_SLICES_PER_PACKET 0
    s.rtInfo.dataSlice s.dropout_count s.rands
  obtain ⟨d0, d1, d2⟩ := dropout_count_carried K env s
  obtain ⟨a, b, c'⟩ := v3 k (Nat.zero_le _) (by omega)
  rw [Nat.sub_zero] at a b
  rw [h1]
  refine ⟨a, b, c', ?_, ?_, d0⟩
  · rw [d1, h2, v1]
  · rw [d2, h3, v1]

/-- C36 (witness): in the first packet of a run whose `rand` returns 5000 no
dropout starts: slice 3 is visible. -/
theorem sendConstructedPackets_visibility_coherent_witness :
    ((prepareRealtimePacket sampleConstants (sampleEmulatorEnv fun _ => false)
        (startConstructed sampleConstants sampleSynthState)).rtInfo.dataSlice
      3).manipulandumVisibility = 1 :=
  (sendConstructedPackets_visibility_coherent sampleConstants (sampleEmulatorEnv fun _ => false)
    (startConstructed sampleConstants sampleSynthState) 3 (by decide)).2.1.mpr (by decide)

/-! ## Layout of the realtime payload -/

theorem extract_reversed_short_be16At (p : EPMTelemetryPacket) (o : Nat) :
    extract_reversed_short p o = toInt16 (be16At p o) := by
  unfold extract_reversed_short be16At
  dsimp only
  rw [Nat.add_comm]

theorem extract_reversed_long_be32At (p : EPMTelemetryPacket) (o : Nat) :
    extract_reversed_long p o = toInt32 (be32At p o) := by
  unfold extract_reversed_long be32At
  dsimp only
  congr 1
  omega

theorem extract_reversed_float_be32At (p : EPMTelemetryPacket) (o : Nat) :
    extract_reversed_float p o = be32At p o := by
  unfold extract_reversed_float be32At
  dsimp only
  omega

theorem toUInt32_toInt32_be32At (p : EPMTelemetryPacket) (o : Nat) :
    toUInt32 (toInt32 (be32At p o)) = be32At p o := by
  rw [← extract_reversed_long_be32At]
  exact toUInt32_extract_reversed_long p o

/-- The decoder of a slice reads the layout of the specification. -/
theorem extractDataSlice_layout (q : EPMTelemetryPacket) (o : Nat)
    (old : GripRealtimeDataSlice) : sliceReadsFrom q o (extractDataSlice q o old).1 := by
  simp only [sliceReadsFrom, extractDataSlice, toUInt32_toInt32_be32At,
    extract_reversed_short_be16At, extract_reversed_long_be32At, extract_reversed_float_be32At,
    toUInt8_ExtractSignedChar, Nat.add_assoc, Nat.reduceAdd, and_self]

theorem be16At_lt (p : EPMTelemetryPacket) (o : Nat) : be16At p o < 65536 := by
  have h0 := getByte_lt p o
  have h1 := getByte_lt p (o + 1)
  unfold be16At
  omega

theorem be32At_lt (p : EPMTelemetryPacket) (o : Nat) : be32At p o < 4294967296 := by
  have h0 := getByte_lt p o
  have h1 := getByte_lt p (o + 1)
  have h2 := getByte_lt p (o + 2)
  have h3 := getByte_lt p (o + 3)
  unfold be32At
  omega

/-- A short on the wire is the unsigned form of the value that decodes from it. -/
theorem be16At_of_wire (p : EPMTelemetryPacket) (o : Nat) (c : Int)
    (h : extract_reversed_short p o = c) : be16At p o = toUInt16 c := by
  rw [← h, extract_reversed_short_be16At, toUInt16_toInt16, Nat.mod_eq_of_lt (be16At_lt p o)]

theorem be32At_of_wire (p : EPMTelemetryPacket) (o : Nat) (c : Int)
    (h : extract_reversed_long p o = c) : be32At p o = toUInt32 c := by
  rw [← h, extract_reversed_long_be32At, toUInt32_toInt32_be32At]

theorem be32At_of_wire_unsigned (p : EPMTelemetryPacket) (o v : Nat)
    (h : toUInt32 (extract_reversed_long p o) = v) : be32At p o = v := by
  rw [← h, extract_reversed_long_be32At, toUInt32_toInt32_be32At]

theorem be32At_of_wire_float (p : EPMTelemetryPacket) (o v : Nat)
    (h : extract_reversed_float p o = v) : be32At p o = v := by
  rw [← h, extract_reversed_float_be32At]

/-- The encoder of a slice writes the layout of the specification. -/
theorem insertDataSlice_layout (p : EPMTelemetryPacket) (o : Nat) (s : GripRealtimeDataSlice) :
    sliceWrittenAt (insertDataSlice p o s).1 o s := by
  obtain ⟨h1, h2, h3, h4, h5, h6, h7, h8, h9, h10, h11, h12, a1, a2, a3, a4, a5, a6,
    b1, b2, b3, b4, b5, b6, c1, c2, c3⟩ := insertDataSlice_wire p o s
  rw [toUInt8_ExtractSignedChar] at h11
  exact ⟨be32At_of_wire_unsigned _ _ _ h1, be16At_of_wire _ _ _ h2, be16At_of_wire _ _ _ h3,
    be16At_of_wire _ _ _ h4, be32At_of_wire_float _ _ _ h5, be32At_of_wire_float _ _ _ h6,
    be32At_of_wire_float _ _ _ h7, be32At_of_wire_float _ _ _ h8,
    be32At_of_wire_unsigned _ _ _ h9, be32At_of_wire_unsigned _ _ _ h10, h11,
    be32At_of_wire_unsigned _ _ _ h12,
    be16At_of_wire _ _ _ a1, be16At_of_wire _ _ _ a2, be16At_of_wire _ _ _ a3,
    be16At_of_wire _ _ _ a4, be16At_of_wire _ _ _ a5, be16At_of_wire _ _ _ a6,
    be16At_of_wire _ _ _ b1, be16At_of_wire _ _ _ b2, be16At_of_wire _ _ _ b3,
    be16At_of_wire _ _ _ b4, be16At_of_wire _ _ _ b5, be16At_of_wire _ _ _ b6,
    be32At_of_wire _ _ _ c1, be32At_of_wire _ _ _ c2, be32At_of_wire _ _ _ c3⟩

/-- Two buffers that agree from `a` up to the cursor agree one byte further after
the same byte has been stored at the cursor of both. -/
theorem setByte_agree (p q : EPMTelemetryPacket) (a b c v : Nat) (hc : c = b + 1)
    (h : ∀ j, a ≤ j → j < b → p j = q j) :
    ∀ j, a ≤ j → j < c → setByte p b v j = setByte q b v j := by
  intro j h1 h2
  unfold setByte
  by_cases hj : j = b
  · rw [if_pos hj, if_pos hj]
  · rw [if_neg hj, if_neg hj]
    exact h j h1 (by omega)

theorem insert_ulong_agree (p q : EPMTelemetryPacket) (a b c v : Nat) (hc : c = b + 4)
    (h : ∀ j, a ≤ j → j < b → p j = q j) :
    ∀ j, a ≤ j → j < c → insert_ulong p b v j = insert_ulong q b v j := by
  unfold insert_ulong
  exact setByte_agree _ _ a (b + 3) c _ (by omega)
    (setByte_agree _ _ a (b + 2) (b + 3) _ rfl
      (setByte_agree _ _ a (b + 1) (b + 2) _ rfl (setByte_agree _ _ a b (b + 1) _ rfl h)))

theorem insert_long_agree (p q : EPMTelemetryPacket) (a b c : Nat) (v : Int) (hc : c = b + 4)
    (h : ∀ j, a ≤ j → j < b → p j = q j) :
    ∀ j, a ≤ j → j < c → insert_long p b v j = insert_long q b v j :=
  insert_ulong_agree p q a b c _ hc h

theorem insert_float_agree (p q : EPMTelemetryPacket) (a b c v : Nat) (hc : c = b + 4)
    (h : ∀ j, a ≤ j → j < b → p j = q j) :
    ∀ j, a ≤ j → j < c → insert_float p b v j = insert_float q b v j :=
  insert_ulong_agree p q a b c _ hc h

theorem insert_short_agree (p q : EPMTelemetryPacket) (a b c : Nat) (v : Int) (hc : c = b + 2)
    (h : ∀ j, a ≤ j → j < b → p j = q j) :
    ∀ j, a ≤ j → j < c → insert_short p b v j = insert_short q b v j := by
  unfold insert_short
  exact setByte_agree _ _ a (b + 1) c _ (by omega) (setByte_agree _ _ a b (b + 1) _ rfl h)

/-- The bytes that the encoder of a slice writes do not depend on the buffer. -/
theorem insertDataSlice_bytes (p q : EPMTelemetryPacket) (o : Nat) (s : GripRealtimeDataSlice) :
    ∀ j, o ≤ j → j < o + 75 → (insertDataSlice p o s).1 j = (insertDataSlice q o s).1 j := by
  simp only [insertDataSlice]
  refine insert_long_agree _ _ _ _ _ _ (by omega) ?_
  refine insert_long_agree _ _ _ _ _ _ (by omega) ?_
  refine insert_long_agree _ _ _ _ _ _ (by omega) ?_
  refine insert_short_agree _ _ _ _ _ _ (by omega) ?_
  refine insert_short_agree _ _ _ _ _ _ (by omega) ?_
  refine insert_short_agree _ _ _ _ _ _ (by omega) ?_
  refine insert_short_agree _ _ _ _ _ _ (by omega) ?_
  refine insert_short_agree _ _ _ _ _ _ (by omega) ?_
  refine insert_short_agree _ _ _ _ _ _ (by omega) ?_
  refine insert_short_agree _ _ _ _ _ _ (by omega) ?_
  refine insert_short_agree _ _ _ _ _ _ (by omega) ?_
  refine insert_short_agree _ _ _ _ _ _ (by omega) ?_
  refine insert_short_agree _ _ _ _ _ _ (by omega) ?_
  refine insert_short_agree _ _ _ _ _ _ (by omega) ?_
  refine insert_short_agree _ _ _ _ _ _ (by omega) ?_
  refine insert_ulong_agree _ _ _ _ _ _ (by omega) ?_
  refine setByte_agree _ _ _ _ _ _ (by omega) ?_
  refine insert_ulong_agree _ _ _ _ _ _ (by omega) ?_
  refine insert_ulong_agree _ _ _ _ _ _ (by omega) ?_
  refine insert_float_agree _ _ _ _ _ _ (by omega) ?_
  refine insert_float_agree _ _ _ _ _ _ (by omega) ?_
  refine insert_float_agree _ _ _ _ _ _ (by omega) ?_
  refine insert_float_agree _ _ _ _ _ _ (by omega) ?_
  refine insert_short_agree _ _ _ _ _ _ (by omega) ?_
  refine insert_short_agree _ _ _ _ _ _ (by omega) ?_
  refine insert_short_agree _ _ _ _ _ _ (by omega) ?_
  refine insert_ulong_agree _ _ _ _ _ _ (by omega) ?_
  intro j h1 h2
  omega

/-- The layout of a slice on the wire is a property of its 75 bytes. -/
theorem sliceWrittenAt_congr (e f : EPMTelemetryPacket) (o : Nat) (s : GripRealtimeDataSlice)
    (h : ∀ j, o ≤ j → j < o + 75 → e j = f j) (hw : sliceWrittenAt f o s) :
    sliceWrittenAt e o s := by
  have h8 : ∀ x, o ≤ x → x + 1 ≤ o + 75 → getByte e x = getByte f x := by
    intro x h1 h2
    unfold getByte
    rw [h x h1 (by omega)]
  have h16 : ∀ x, o ≤ x → x + 2 ≤ o + 75 → be16At e x = be16At f x := by
    intro x h1 h2
    unfold be16At
    rw [h8 x h1 (by omega), h8 (x + 1) (by omega) (by omega)]
  have h32 : ∀ x, o ≤ x → x + 4 ≤ o + 75 → be32At e x = be32At f x := by
    intro x h1 h2
    unfold be32At
    rw [h8 x h1 (by omega), h8 (x + 1) (by omega) (by omega), h8 (x + 2) (by omega) (by omega),
      h8 (x + 3) (by omega) (by omega)]
  unfold sliceWrittenAt at hw ⊢
  simp (disch := omega) only [h8, h16, h32]
  exact hw

/-- The slice loop of the encoder writes slice `k` as the encoder of a slice
does, in the 75 bytes of that slice. -/
theorem insertSliceLoop_bytes (ds : Nat → GripRealtimeDataSlice) (count : Nat) :
    ∀ (slice : Nat) (p : EPMTelemetryPacket) (ptr k j : Nat) (q : EPMTelemetryPacket),
      slice ≤ k → k < slice + count →
      ptr + 75 * (k - slice) ≤ j → j < ptr + 75 * (k - slice) + 75 →
      (insertSliceLoop ds count slice p ptr).1 j =
        (insertDataSlice q (ptr + 75 * (k - slice)) (ds k)).1 j := by
  induction count with
  | zero => intro slice p ptr k j q h1 h2; omega
  | succ n ih =>
    intro slice p ptr k j q hk1 hk2 h1 h2
    simp only [insertSliceLoop, insertDataSlice_snd]
    by_cases hk : k = slice
    · subst hk
      simp only [Nat.sub_self, Nat.mul_zero, Nat.add_zero] at h1 h2 ⊢
      rw [insertSliceLoop_frame _ n (k + 1) _ (ptr + 75) j (Or.inl h2)]
      exact insertDataSlice_bytes _ q ptr _ j h1 h2
    · have e : ptr + 75 * (k - slice) = ptr + 75 + 75 * (k - (slice + 1)) := by omega
      rw [e] at h1 h2 ⊢
      exact ih (slice + 1) _ (ptr + 75) k j q (by omega) (by omega) h1 h2

/-- The first eight bytes of the payload after encoding. -/
theorem InsertGripRealtimeDataInfo_head (rawData N : Nat) (p : EPMTelemetryPacket)
    (r : GripRealtimeDataInfo) (j : Nat) (hj : j < rawData + 8) :
    InsertGripRealtimeDataInfo rawData N p r j =
      insert_ulong (insert_ulong p rawData r.acquisitionID) (rawData + 4) r.rtPacketCount j := by
  simp only [InsertGripRealtimeDataInfo]
  rw [insertSliceLoop_frame _ N 0 _ (rawData + 4 + 4) j (Or.inl (by omega))]

/-- The bytes of slice `k` after encoding. -/
theorem InsertGripRealtimeDataInfo_slice_bytes (rawData N : Nat) (p q : EPMTelemetryPacket)
    (r : GripRealtimeDataInfo) (k : Nat) (hk : k < N) (j : Nat)
    (h1 : rawData + 8 + 75 * k ≤ j) (h2 : j < rawData + 8 + 75 * k + 75) :
    InsertGripRealtimeDataInfo rawData N p r j =
      (insertDataSlice q (rawData + 8 + 75 * k) (r.dataSlice k)).1 j := by
  simp only [InsertGripRealtimeDataInfo]
  have h := insertSliceLoop_bytes r.dataSlice N 0
    (insert_ulong (insert_ulong p rawData r.acquisitionID) (rawData + 4) r.rtPacketCount)
    (rawData + 4 + 4) k j q (Nat.zero_le k) (by omega)
  have e : rawData + 4 + 4 + 75 * (k - 0) = rawData + 8 + 75 * k := by omega
  rw [e] at h
  exact h h1 h2

/-- The encoder of the realtime data changes no byte from the end of the last
slice on. -/
theorem InsertGripRealtimeDataInfo_frame_above (rawData N : Nat) (p : EPMTelemetryPacket)
    (r : GripRealtimeDataInfo) (j : Nat) (hj : rawData + 8 + 75 * N ≤ j) :
    InsertGripRealtimeDataInfo rawData N p r j = p j := by
  simp only [InsertGripRealtimeDataInfo]
  rw [insertSliceLoop_frame _ N 0 _ (rawData + 4 + 4) j (Or.inr (by omega))]
  simp only [insert_ulong]
  simp (disch := omega) only [setByte_ne]

/-- C33: the realtime payload starts at `rawData` with `acquisitionID` and
`rtPacketCount`, four bytes each and big-endian; slice `k` of the
`RT_SLICES_PER_PACKET` slices follows in the 75 bytes from offset
`rawData + 8 + 75 * k`, laid out as `poseTick` (4 bytes), `position` (3 shorts),
`quaternion` (4 floats), the two marker masks (4 bytes each), the visibility
flag (1 byte), `analogTick` (4 bytes), twice three force and three torque
shorts, and `acceleration` (3 longs), both for the decoder and for the
encoder; the encoder writes every byte of that range and no byte outside it. -/
theorem realtime_payload_layout (rawData N : Nat) (dt : ℚ) (p q : EPMTelemetryPacket)
    (r r0 : GripRealtimeDataInfo) :
    (ExtractGripRealtimeDataInfo rawData N dt r0 q).acquisitionID = be32At q rawData ∧
    (ExtractGripRealtimeDataInfo rawData N dt r0 q).rtPacketCount = be32At q (rawData + 4) ∧
    be32At (InsertGripRealtimeDataInfo rawData N p r) rawData = r.acquisitionID % 4294967296 ∧
    be32At (InsertGripRealtimeDataInfo rawData N p r) (rawData + 4)
      = r.rtPacketCount % 4294967296 ∧
    (∀ k, k < N → sliceReadsFrom q (rawData + 8 + 75 * k)
      ((ExtractGripRealtimeDataInfo rawData N dt r0 q).dataSlice k)) ∧
    (∀ k, k < N → sliceWrittenAt (InsertGripRealtimeDataInfo rawData N p r)
      (rawData + 8 + 75 * k) (r.dataSlice k)) ∧
    (∀ k old, (extractDataSlice q (rawData + 8 + 75 * k) old).2 = rawData + 8 + 75 * (k + 1) ∧
      (insertDataSlice p (rawData + 8 + 75 * k) (r.dataSlice k)).2
        = rawData + 8 + 75 * (k + 1)) ∧
    (∀ j, j < rawData ∨ rawData + 8 + 75 * N ≤ j →
      InsertGripRealtimeDataInfo rawData N p r j = p j) ∧
    (∀ j, rawData ≤ j → j < rawData + 8 + 75 * N →
      InsertGripRealtimeDataInfo rawData N p r j = InsertGripRealtimeDataInfo rawData N q r j) := by
  have hhead : ∀ (b : EPMTelemetryPacket) (j : Nat), rawData ≤ j → j < rawData + 8 →
      InsertGripRealtimeDataInfo rawData N p r j = InsertGripRealtimeDataInfo rawData N b r j := by
    intro b j h1 h2
    rw [InsertGripRealtimeDataInfo_head rawData N p r j h2,
      InsertGripRealtimeDataInfo_head rawData N b r j h2]
    exact insert_ulong_agree _ _ rawData (rawData + 4) (rawData + 8) _ rfl
      (insert_ulong_agree _ _ rawData rawData (rawData + 4) _ rfl
        (fun j h1 h2 => absurd h2 (by omega))) j h1 h2
  have hb : ∀ j, j < rawData + 8 → getByte (InsertGripRealtimeDataInfo rawData N p r) j =
      getByte (insert_ulong (insert_ulong p rawData r.acquisitionID) (rawData + 4)
        r.rtPacketCount) j := by
    intro j hj
    unfold getByte
    rw [InsertGripRealtimeDataInfo_head rawData N p r j hj]
  refine ⟨?_, ?_, ?_, ?_, ?_, ?_, ?_, ?_, ?_⟩
  · simp only [ExtractGripRealtimeDataInfo]
    exact toUInt32_extract_reversed_long q rawData
  · simp only [ExtractGripRealtimeDataInfo]
    exact toUInt32_extract_reversed_long q (rawData + 4)
  · unfold be32At
    rw [hb rawData (by omega), hb (rawData + 1) (by omega), hb (rawData + 2) (by omega),
      hb (rawData + 3) (by omega)]
    simp only [insert_ulong, getByte_setByte, Nat.add_assoc, Nat.reduceAdd,
      Nat.add_left_cancel_iff, Nat.reduceEqDiff, reduceIte, self_eq_add_right,
      add_right_eq_self, OfNat.ofNat_ne_zero, Nat.mod_mod]
    omega
  · unfold be32At
    rw [hb (rawData + 4) (by omega), hb (rawData + 4 + 1) (by omega),
      hb (rawData + 4 + 2) (by omega), hb (rawData + 4 + 3) (by omega)]
    simp only [insert_ulong, getByte_setByte, Nat.add_assoc, Nat.reduceAdd,
      Nat.add_left_cancel_iff, Nat.reduceEqDiff, reduceIte, self_eq_add_right,
      add_right_eq_self, OfNat.ofNat_ne_zero, Nat.mod_mod]
    omega
  · intro k hk
    have h := extractDataSlice_layout q (rawData + 8 + 75 * k) (r0.dataSlice k)
    have e := ExtractGripRealtimeDataInfo_slice rawData N dt r0 q k hk
    have h' : sliceReadsFrom q (rawData + 8 + 75 * k)
        (clearTimestamps (extractDataSlice q (rawData + 8 + 75 * k) (r0.dataSlice k)).1) := h
    rw [← e] at h'
    exact h'
  · intro k hk
    exact sliceWrittenAt_congr _ _ _ _
      (fun j h1 h2 => InsertGripRealtimeDataInfo_slice_bytes rawData N p p r k hk j h1 h2)
      (insertDataSlice_layout p (rawData + 8 + 75 * k) (r.dataSlice k))
  · intro k old
    rw [extractDataSlice_snd, insertDataSlice_snd]
    constructor <;> omega
  · intro j hj
    cases hj with
    | inl h => exact InsertGripRealtimeDataInfo_frame_below rawData N p r j h
    | inr h => exact InsertGripRealtimeDataInfo_frame_above rawData N p r j h
  · intro j h1 h2
    by_cases hj : j < rawData + 8
    · exact hhead q j h1 hj
    · have hk : (j - (rawData + 8)) / 75 < N := by omega
      rw [InsertGripRealtimeDataInfo_slice_bytes rawData N p p r _ hk j (by omega) (by omega),
        InsertGripRealtimeDataInfo_slice_bytes rawData N q p r _ hk j (by omega) (by omega)]

end GripPackets
